import Mathlib

/-!
# CEC2009 benchmark problems (pagmo2 `cec2009.cpp`): embedding and properties

The C++ class `pagmo::cec2009` is embedded as follows.

* `unsigned` values are natural numbers; the places where the source does
  unsigned arithmetic that can wrap (`m_prob_id - 1u`, `j - 1`, `++j`) are
  written with an explicit reduction modulo `2^32`.
* `vector_double` is a list.  `operator[]` outside the vector is undefined
  behaviour in C++; here a read or a write outside the list stops the
  computation with `Fault.out_of_range`.
* `double` is an arbitrary linearly ordered field `α` together with a record
  `Libm α` of the `<cmath>` functions the source calls.  Rounding, infinities
  and NaN are not represented: arithmetic is exact.  `realLibm` interprets the
  record over `ℝ`.
* The `for (j = 2u; j <= m_dim; ++j)` loops can fail to terminate when the
  counter wraps, so they take a fuel argument; running out of fuel is
  `Fault.out_of_fuel`.
* Within one statement a repeated read of the same element `x[k]` is bound once;
  the reads are bound in the order in which they first occur in the statement.
* Division by an empty class count is `x / 0 = 0` in a field, where the source
  yields an infinity or NaN; the value statements below therefore assume a
  dimension at which every class is non-empty.
-/

set_option linter.dupNamespace false

namespace pagmo

/-! ## Faults, vectors, unsigned arithmetic -/

/-- Ways in which a call does not return a value normally. -/
inductive Fault where
  | invalid_argument : Fault
  | out_of_range : Nat → Fault
  | out_of_fuel : Fault
deriving DecidableEq, Repr

/-- The modulus of `unsigned` arithmetic. -/
def UINT_MOD : Nat := 4294967296

/-- Unsigned subtraction `a - b` on 32-bit values. -/
def usub (a b : Nat) : Nat := (a + UINT_MOD - b) % UINT_MOD

/-- Unsigned increment `++j` on a 32-bit value. -/
def uinc (j : Nat) : Nat := (j + 1) % UINT_MOD

/-- Read `x[i]`. -/
def vget {β : Type} (x : List β) (i : Nat) : Except Fault β :=
  match x[i]? with
  | some v => Except.ok v
  | none => Except.error (Fault.out_of_range i)

/-- Write `f[i] = v`. -/
def vset {β : Type} (f : List β) (i : Nat) (v : β) : Except Fault (List β) :=
  if i < f.length then Except.ok (f.set i v) else Except.error (Fault.out_of_range i)

/-- The loop `for (i = i0; i < m; ++i) body`, threading the state `s`.
The counter cannot wrap here: `i < m` leaves room for the increment. -/
def forLt {σ : Type} (body : Nat → σ → Except Fault σ) (m : Nat) (i : Nat) (s : σ) :
    Except Fault σ :=
  if i < m then
    match body i s with
    | Except.ok s1 => forLt body m (i + 1) s1
    | Except.error e => Except.error e
  else Except.ok s
termination_by m - i

/-- The loop `for (j = j0; j <= m; ++j) body` with an unsigned 32-bit counter,
threading the state `s`; `fuel` bounds the number of tests of `j <= m`. -/
def forLe {σ : Type} (body : Nat → σ → Except Fault σ) (m : Nat) :
    Nat → Nat → σ → Except Fault σ
  | 0, _, _ => Except.error Fault.out_of_fuel
  | fuel + 1, j, s =>
    if j ≤ m then
      match body j s with
      | Except.ok s1 => forLe body m fuel (uinc j) s1
      | Except.error e => Except.error e
    else Except.ok s

/-- The `<cmath>` functions and the constant `detail::pi()` used by the source. -/
structure Libm (α : Type) where
  pi : α
  sin : α → α
  cos : α → α
  sqrt : α → α
  exp : α → α
  pow : α → α → α

/-- The real-number reading of `Libm`.  It is the reading of `<cmath>` on the domain of the
real functions only: `Real.sqrt` and `Real.rpow` are total, whereas `std::sqrt` of a
negative number and `std::pow` of a negative base with a non-integer exponent return NaN.
A statement over `realLibm` speaks for the code where these functions are called inside
that domain. -/
noncomputable def realLibm : Libm ℝ where
  pi := Real.pi
  sin := Real.sin
  cos := Real.cos
  sqrt := Real.sqrt
  exp := Real.exp
  pow := fun a b => Real.rpow a b

/-! ## Static tables, constructor, counts -/

namespace cec2009_data

/-- Number of objectives. -/
def nobj : List Nat := [2, 2, 2, 2, 2, 2, 2, 3, 3, 3]

/-- Inequality constraints dimension. -/
def nic : List Nat := [1, 1, 1, 1, 1, 2, 2, 1, 1, 1]

end cec2009_data

/-- The data members of `cec2009`. -/
structure cec2009 where
  m_prob_id : Nat
  m_is_constrained : Bool
  m_dim : Nat
deriving DecidableEq, Repr

namespace cec2009

/-- The constructor `cec2009::cec2009(prob_id, is_constrained, dim)`. -/
def cec2009 (prob_id : Nat) (is_constrained : Bool) (dim : Nat) : Except Fault cec2009 :=
  if prob_id < 1 ∨ prob_id > 10 then Except.error Fault.invalid_argument
  else if dim < 1 then Except.error Fault.invalid_argument
  else Except.ok { m_prob_id := prob_id, m_is_constrained := is_constrained, m_dim := dim }

/-- Member `get_nic`. -/
def get_nic (p : pagmo.cec2009) : Except Fault Nat :=
  if p.m_is_constrained then vget cec2009_data.nic (usub p.m_prob_id 1)
  else Except.ok 0

/-- Member `get_nobj`. -/
def get_nobj (p : pagmo.cec2009) : Except Fault Nat :=
  vget cec2009_data.nobj (usub p.m_prob_id 1)

/-- Member `get_name`; `std::to_string` of an `unsigned` is its decimal rendering. -/
def get_name (p : pagmo.cec2009) : String :=
  let retval : String := "CEC2009 - "
  let retval : String := if !p.m_is_constrained then retval ++ "UF" else retval ++ "CF"
  retval ++ Nat.repr p.m_prob_id

/-- One pass of a bounds loop body: `lb[i] = lo; ub[i] = hi;`. -/
def box_step {α : Type} (lo hi : α) (i : Nat) (s : List α × List α) :
    Except Fault (List α × List α) := do
  let lb ← vset s.1 i lo
  let ub ← vset s.2 i hi
  pure (lb, ub)

/-- Member `get_bounds`. -/
def get_bounds {α : Type} [LinearOrderedField α] (p : pagmo.cec2009) :
    Except Fault (List α × List α) := do
  let lb : List α := List.replicate p.m_dim 0
  let ub : List α := List.replicate p.m_dim 0
  if !p.m_is_constrained then
    if p.m_prob_id = 1 ∨ p.m_prob_id = 2 ∨ p.m_prob_id = 5 ∨ p.m_prob_id = 6 ∨ p.m_prob_id = 7 then
      let lb ← vset lb 0 0
      let ub ← vset ub 0 1
      forLt (box_step (-1) 1) p.m_dim 1 (lb, ub)
    else if p.m_prob_id = 3 then
      forLt (box_step 0 1) p.m_dim 0 (lb, ub)
    else if p.m_prob_id = 4 then
      let lb ← vset lb 0 0
      let ub ← vset ub 0 1
      forLt (box_step (-2) 2) p.m_dim 1 (lb, ub)
    else if p.m_prob_id = 8 ∨ p.m_prob_id = 9 ∨ p.m_prob_id = 10 then
      let lb ← vset lb 0 0
      let ub ← vset ub 0 1
      let lb ← vset lb 1 0
      let ub ← vset ub 1 1
      forLt (box_step (-2) 2) p.m_dim 2 (lb, ub)
    else pure (lb, ub)
  else
    if p.m_prob_id = 2 then
      let lb ← vset lb 0 0
      let ub ← vset ub 0 1
      forLt (box_step (-1) 1) p.m_dim 1 (lb, ub)
    else if p.m_prob_id = 1 then
      forLt (box_step 0 1) p.m_dim 0 (lb, ub)
    else if p.m_prob_id = 3 ∨ p.m_prob_id = 4 ∨ p.m_prob_id = 5 ∨ p.m_prob_id = 6 ∨ p.m_prob_id = 7 then
      let lb ← vset lb 0 0
      let ub ← vset ub 0 1
      forLt (box_step (-2) 2) p.m_dim 1 (lb, ub)
    else if p.m_prob_id = 8 then
      let lb ← vset lb 0 0
      let ub ← vset ub 0 1
      let lb ← vset lb 1 0
      let ub ← vset ub 1 1
      forLt (box_step (-4) 4) p.m_dim 2 (lb, ub)
    else if p.m_prob_id = 9 ∨ p.m_prob_id = 10 then
      let lb ← vset lb 0 0
      let ub ← vset ub 0 1
      let lb ← vset lb 1 0
      let ub ← vset ub 1 1
      forLt (box_step (-2) 2) p.m_dim 2 (lb, ub)
    else pure (lb, ub)

end cec2009

/-- The helper `sgn`. -/
def sgn {α : Type} [LinearOrderedField α] (val : α) : α :=
  if val > 0 then 1 else -1

/-! ## The unconstrained evaluators UF1 .. UF10

Each evaluator is a member function `void UFk(vector_double &f, const vector_double &x) const`;
here it takes the instance, the `<cmath>` record, the fuel of its loop, `f` and `x`, and
returns the updated `f`.  The local accumulators of a loop are the fields of a record. -/

/-- Locals `sum1, sum2, count1, count2` of the two-class evaluators. -/
structure Acc2 (α : Type) where
  sum1 : α
  sum2 : α
  count1 : α
  count2 : α

/-- Locals `sum1, sum2, prod1, prod2, count1, count2` of UF3, UF6 and CF3. -/
structure Acc2p (α : Type) where
  sum1 : α
  sum2 : α
  prod1 : α
  prod2 : α
  count1 : α
  count2 : α

/-- Locals `sum1, sum2, sum3, count1, count2, count3` of the three-class evaluators. -/
structure Acc3 (α : Type) where
  sum1 : α
  sum2 : α
  sum3 : α
  count1 : α
  count2 : α
  count3 : α

/-- Locals `sum1, sum2` of CF4 .. CF7. -/
structure Acc0 (α : Type) where
  sum1 : α
  sum2 : α

namespace cec2009

variable {α : Type} [LinearOrderedField α]

/-- Loop body of `UF1`. -/
def UF1_body (T : Libm α) (m_dim : Nat) (x : List α) (j : Nat) (s : Acc2 α) :
    Except Fault (Acc2 α) := do
  let xj ← vget x (usub j 1)
  let x0 ← vget x 0
  let yj := xj - T.sin (6.0 * T.pi * x0 + (j : α) * T.pi / (m_dim : α))
  let yj := yj * yj
  if j % 2 = 0 then
    pure { s with sum2 := s.sum2 + yj, count2 := s.count2 + 1 }
  else
    pure { s with sum1 := s.sum1 + yj, count1 := s.count1 + 1 }

/-- Member `UF1`. -/
def UF1 (p : pagmo.cec2009) (T : Libm α) (fuel : Nat) (f x : List α) :
    Except Fault (List α) := do
  let s ← forLe (UF1_body T p.m_dim x) p.m_dim fuel 2 { sum1 := 0.0, sum2 := 0.0, count1 := 0, count2 := 0 }
  let x0 ← vget x 0
  let f ← vset f 0 (x0 + 2.0 * s.sum1 / s.count1)
  let x0 ← vget x 0
  vset f 1 (1.0 - T.sqrt x0 + 2.0 * s.sum2 / s.count2)

/-- Loop body of `UF2`. -/
def UF2_body (T : Libm α) (m_dim : Nat) (x : List α) (j : Nat) (s : Acc2 α) :
    Except Fault (Acc2 α) := do
  if j % 2 = 0 then
    let xj ← vget x (usub j 1)
    let x0 ← vget x 0
    let yj := xj
      - 0.3 * x0
          * (x0 * T.cos (24.0 * T.pi * x0 + 4.0 * (j : α) * T.pi / (m_dim : α)) + 2.0)
          * T.sin (6.0 * T.pi * x0 + (j : α) * T.pi / (m_dim : α))
    pure { s with sum2 := s.sum2 + yj * yj, count2 := s.count2 + 1 }
  else
    let xj ← vget x (usub j 1)
    let x0 ← vget x 0
    let yj := xj
      - 0.3 * x0
          * (x0 * T.cos (24.0 * T.pi * x0 + 4.0 * (j : α) * T.pi / (m_dim : α)) + 2.0)
          * T.cos (6.0 * T.pi * x0 + (j : α) * T.pi / (m_dim : α))
    pure { s with sum1 := s.sum1 + yj * yj, count1 := s.count1 + 1 }

/-- Member `UF2`. -/
def UF2 (p : pagmo.cec2009) (T : Libm α) (fuel : Nat) (f x : List α) :
    Except Fault (List α) := do
  let s ← forLe (UF2_body T p.m_dim x) p.m_dim fuel 2 { sum1 := 0.0, sum2 := 0.0, count1 := 0, count2 := 0 }
  let x0 ← vget x 0
  let f ← vset f 0 (x0 + 2.0 * s.sum1 / s.count1)
  let x0 ← vget x 0
  vset f 1 (1.0 - T.sqrt x0 + 2.0 * s.sum2 / s.count2)

/-- Loop body of `UF3`. -/
def UF3_body (T : Libm α) (m_dim : Nat) (x : List α) (j : Nat) (s : Acc2p α) :
    Except Fault (Acc2p α) := do
  let xj ← vget x (usub j 1)
  let x0 ← vget x 0
  let yj := xj - T.pow x0 (0.5 * (1.0 + 3.0 * ((j : α) - 2.0) / ((m_dim : α) - 2.0)))
  let pj := T.cos (20.0 * yj * T.pi / T.sqrt ((j : α) + 0.0))
  if j % 2 = 0 then
    pure { s with sum2 := s.sum2 + yj * yj, prod2 := s.prod2 * pj, count2 := s.count2 + 1 }
  else
    pure { s with sum1 := s.sum1 + yj * yj, prod1 := s.prod1 * pj, count1 := s.count1 + 1 }

/-- Member `UF3`. -/
def UF3 (p : pagmo.cec2009) (T : Libm α) (fuel : Nat) (f x : List α) :
    Except Fault (List α) := do
  let s ← forLe (UF3_body T p.m_dim x) p.m_dim fuel 2
    { sum1 := 0.0, sum2 := 0.0, prod1 := 1.0, prod2 := 1.0, count1 := 0, count2 := 0 }
  let x0 ← vget x 0
  let f ← vset f 0 (x0 + 2.0 * (4.0 * s.sum1 - 2.0 * s.prod1 + 2.0) / s.count1)
  let x0 ← vget x 0
  vset f 1 (1.0 - T.sqrt x0 + 2.0 * (4.0 * s.sum2 - 2.0 * s.prod2 + 2.0) / s.count2)

/-- Loop body of `UF4`. -/
def UF4_body (T : Libm α) (m_dim : Nat) (x : List α) (j : Nat) (s : Acc2 α) :
    Except Fault (Acc2 α) := do
  let xj ← vget x (usub j 1)
  let x0 ← vget x 0
  let yj := xj - T.sin (6.0 * T.pi * x0 + (j : α) * T.pi / (m_dim : α))
  let hj := |yj| / (1.0 + T.exp (2.0 * |yj|))
  if j % 2 = 0 then
    pure { s with sum2 := s.sum2 + hj, count2 := s.count2 + 1 }
  else
    pure { s with sum1 := s.sum1 + hj, count1 := s.count1 + 1 }

/-- Member `UF4`. -/
def UF4 (p : pagmo.cec2009) (T : Libm α) (fuel : Nat) (f x : List α) :
    Except Fault (List α) := do
  let s ← forLe (UF4_body T p.m_dim x) p.m_dim fuel 2 { sum1 := 0.0, sum2 := 0.0, count1 := 0, count2 := 0 }
  let x0 ← vget x 0
  let f ← vset f 0 (x0 + 2.0 * s.sum1 / s.count1)
  let x0 ← vget x 0
  vset f 1 (1.0 - x0 * x0 + 2.0 * s.sum2 / s.count2)

/-- Loop body of `UF5`. -/
def UF5_body (T : Libm α) (m_dim : Nat) (x : List α) (j : Nat) (s : Acc2 α) :
    Except Fault (Acc2 α) := do
  let xj ← vget x (usub j 1)
  let x0 ← vget x 0
  let yj := xj - T.sin (6.0 * T.pi * x0 + (j : α) * T.pi / (m_dim : α))
  let hj := 2.0 * yj * yj - T.cos (4.0 * T.pi * yj) + 1.0
  if j % 2 = 0 then
    pure { s with sum2 := s.sum2 + hj, count2 := s.count2 + 1 }
  else
    pure { s with sum1 := s.sum1 + hj, count1 := s.count1 + 1 }

/-- Member `UF5`. -/
def UF5 (p : pagmo.cec2009) (T : Libm α) (fuel : Nat) (f x : List α) :
    Except Fault (List α) := do
  let N : α := 10.0
  let E : α := 0.1
  let s ← forLe (UF5_body T p.m_dim x) p.m_dim fuel 2 { sum1 := 0.0, sum2 := 0.0, count1 := 0, count2 := 0 }
  let x0 ← vget x 0
  let hj := (0.5 / N + E) * |T.sin (2.0 * N * T.pi * x0)|
  let f ← vset f 0 (x0 + hj + 2.0 * s.sum1 / s.count1)
  let x0 ← vget x 0
  vset f 1 (1.0 - x0 + hj + 2.0 * s.sum2 / s.count2)

/-- Loop body of `UF6`. -/
def UF6_body (T : Libm α) (m_dim : Nat) (x : List α) (j : Nat) (s : Acc2p α) :
    Except Fault (Acc2p α) := do
  let xj ← vget x (usub j 1)
  let x0 ← vget x 0
  let yj := xj - T.sin (6.0 * T.pi * x0 + (j : α) * T.pi / (m_dim : α))
  let pj := T.cos (20.0 * yj * T.pi / T.sqrt ((j : α) + 0.0))
  if j % 2 = 0 then
    pure { s with sum2 := s.sum2 + yj * yj, prod2 := s.prod2 * pj, count2 := s.count2 + 1 }
  else
    pure { s with sum1 := s.sum1 + yj * yj, prod1 := s.prod1 * pj, count1 := s.count1 + 1 }

/-- Member `UF6`. -/
def UF6 (p : pagmo.cec2009) (T : Libm α) (fuel : Nat) (f x : List α) :
    Except Fault (List α) := do
  let N : α := 2.0
  let E : α := 0.1
  let s ← forLe (UF6_body T p.m_dim x) p.m_dim fuel 2
    { sum1 := 0.0, sum2 := 0.0, prod1 := 1.0, prod2 := 1.0, count1 := 0, count2 := 0 }
  let x0 ← vget x 0
  let hj := 2.0 * (0.5 / N + E) * T.sin (2.0 * N * T.pi * x0)
  let hj := if hj < 0.0 then 0.0 else hj
  let f ← vset f 0 (x0 + hj + 2.0 * (4.0 * s.sum1 - 2.0 * s.prod1 + 2.0) / s.count1)
  let x0 ← vget x 0
  vset f 1 (1.0 - x0 + hj + 2.0 * (4.0 * s.sum2 - 2.0 * s.prod2 + 2.0) / s.count2)

/-- Loop body of `UF7`. -/
def UF7_body (T : Libm α) (m_dim : Nat) (x : List α) (j : Nat) (s : Acc2 α) :
    Except Fault (Acc2 α) := do
  let xj ← vget x (usub j 1)
  let x0 ← vget x 0
  let yj := xj - T.sin (6.0 * T.pi * x0 + (j : α) * T.pi / (m_dim : α))
  if j % 2 = 0 then
    pure { s with sum2 := s.sum2 + yj * yj, count2 := s.count2 + 1 }
  else
    pure { s with sum1 := s.sum1 + yj * yj, count1 := s.count1 + 1 }

/-- Member `UF7`. -/
def UF7 (p : pagmo.cec2009) (T : Libm α) (fuel : Nat) (f x : List α) :
    Except Fault (List α) := do
  let s ← forLe (UF7_body T p.m_dim x) p.m_dim fuel 2 { sum1 := 0.0, sum2 := 0.0, count1 := 0, count2 := 0 }
  let x0 ← vget x 0
  let yj := T.pow x0 0.2
  let f ← vset f 0 (yj + 2.0 * s.sum1 / s.count1)
  vset f 1 (1.0 - yj + 2.0 * s.sum2 / s.count2)

/-- Loop body of `UF8`. -/
def UF8_body (T : Libm α) (m_dim : Nat) (x : List α) (j : Nat) (s : Acc3 α) :
    Except Fault (Acc3 α) := do
  let xj ← vget x (usub j 1)
  let x1 ← vget x 1
  let x0 ← vget x 0
  let yj := xj - 2.0 * x1 * T.sin (2.0 * T.pi * x0 + (j : α) * T.pi / (m_dim : α))
  if j % 3 = 1 then
    pure { s with sum1 := s.sum1 + yj * yj, count1 := s.count1 + 1 }
  else if j % 3 = 2 then
    pure { s with sum2 := s.sum2 + yj * yj, count2 := s.count2 + 1 }
  else
    pure { s with sum3 := s.sum3 + yj * yj, count3 := s.count3 + 1 }

/-- Member `UF8`. -/
def UF8 (p : pagmo.cec2009) (T : Libm α) (fuel : Nat) (f x : List α) :
    Except Fault (List α) := do
  let s ← forLe (UF8_body T p.m_dim x) p.m_dim fuel 3
    { sum1 := 0.0, sum2 := 0.0, sum3 := 0.0, count1 := 0, count2 := 0, count3 := 0 }
  let x0 ← vget x 0
  let x1 ← vget x 1
  let f ← vset f 0 (T.cos (0.5 * T.pi * x0) * T.cos (0.5 * T.pi * x1) + 2.0 * s.sum1 / s.count1)
  let x0 ← vget x 0
  let x1 ← vget x 1
  let f ← vset f 1 (T.cos (0.5 * T.pi * x0) * T.sin (0.5 * T.pi * x1) + 2.0 * s.sum2 / s.count2)
  let x0 ← vget x 0
  vset f 2 (T.sin (0.5 * T.pi * x0) + 2.0 * s.sum3 / s.count3)

/-- Loop body of `UF9`. -/
def UF9_body (T : Libm α) (m_dim : Nat) (x : List α) (j : Nat) (s : Acc3 α) :
    Except Fault (Acc3 α) := do
  let xj ← vget x (usub j 1)
  let x1 ← vget x 1
  let x0 ← vget x 0
  let yj := xj - 2.0 * x1 * T.sin (2.0 * T.pi * x0 + (j : α) * T.pi / (m_dim : α))
  if j % 3 = 1 then
    pure { s with sum1 := s.sum1 + yj * yj, count1 := s.count1 + 1 }
  else if j % 3 = 2 then
    pure { s with sum2 := s.sum2 + yj * yj, count2 := s.count2 + 1 }
  else
    pure { s with sum3 := s.sum3 + yj * yj, count3 := s.count3 + 1 }

/-- Member `UF9`. -/
def UF9 (p : pagmo.cec2009) (T : Libm α) (fuel : Nat) (f x : List α) :
    Except Fault (List α) := do
  let E : α := 0.1
  let s ← forLe (UF9_body T p.m_dim x) p.m_dim fuel 3
    { sum1 := 0.0, sum2 := 0.0, sum3 := 0.0, count1 := 0, count2 := 0, count3 := 0 }
  let x0 ← vget x 0
  let yj := (1.0 + E) * (1.0 - 4.0 * (2.0 * x0 - 1.0) * (2.0 * x0 - 1.0))
  let yj := if yj < 0.0 then 0.0 else yj
  let x0 ← vget x 0
  let x1 ← vget x 1
  let f ← vset f 0 (0.5 * (yj + 2 * x0) * x1 + 2.0 * s.sum1 / s.count1)
  let x0 ← vget x 0
  let x1 ← vget x 1
  let f ← vset f 1 (0.5 * (yj - 2 * x0 + 2.0) * x1 + 2.0 * s.sum2 / s.count2)
  let x1 ← vget x 1
  vset f 2 (1.0 - x1 + 2.0 * s.sum3 / s.count3)

/-- Loop body of `UF10`. -/
def UF10_body (T : Libm α) (m_dim : Nat) (x : List α) (j : Nat) (s : Acc3 α) :
    Except Fault (Acc3 α) := do
  let xj ← vget x (usub j 1)
  let x1 ← vget x 1
  let x0 ← vget x 0
  let yj := xj - 2.0 * x1 * T.sin (2.0 * T.pi * x0 + (j : α) * T.pi / (m_dim : α))
  let hj := 4.0 * yj * yj - T.cos (8.0 * T.pi * yj) + 1.0
  if j % 3 = 1 then
    pure { s with sum1 := s.sum1 + hj, count1 := s.count1 + 1 }
  else if j % 3 = 2 then
    pure { s with sum2 := s.sum2 + hj, count2 := s.count2 + 1 }
  else
    pure { s with sum3 := s.sum3 + hj, count3 := s.count3 + 1 }

/-- Member `UF10`. -/
def UF10 (p : pagmo.cec2009) (T : Libm α) (fuel : Nat) (f x : List α) :
    Except Fault (List α) := do
  let s ← forLe (UF10_body T p.m_dim x) p.m_dim fuel 3
    { sum1 := 0.0, sum2 := 0.0, sum3 := 0.0, count1 := 0, count2 := 0, count3 := 0 }
  let x0 ← vget x 0
  let x1 ← vget x 1
  let f ← vset f 0 (T.cos (0.5 * T.pi * x0) * T.cos (0.5 * T.pi * x1) + 2.0 * s.sum1 / s.count1)
  let x0 ← vget x 0
  let x1 ← vget x 1
  let f ← vset f 1 (T.cos (0.5 * T.pi * x0) * T.sin (0.5 * T.pi * x1) + 2.0 * s.sum2 / s.count2)
  let x0 ← vget x 0
  vset f 2 (T.sin (0.5 * T.pi * x0) + 2.0 * s.sum3 / s.count3)

/-! ## The constrained evaluators CF1 .. CF10 -/

/-- Loop body of `CF1`. -/
def CF1_body (T : Libm α) (m_dim : Nat) (x : List α) (j : Nat) (s : Acc2 α) :
    Except Fault (Acc2 α) := do
  let xj ← vget x (usub j 1)
  let x0 ← vget x 0
  let yj := xj - T.pow x0 (0.5 * (1.0 + 3.0 * ((j : α) - 2.0) / ((m_dim : α) - 2.0)))
  if j % 2 = 1 then
    pure { s with sum1 := s.sum1 + yj * yj, count1 := s.count1 + 1 }
  else
    pure { s with sum2 := s.sum2 + yj * yj, count2 := s.count2 + 1 }

/-- Member `CF1`. -/
def CF1 (p : pagmo.cec2009) (T : Libm α) (fuel : Nat) (f x : List α) :
    Except Fault (List α) := do
  let N : α := 10.0
  let a : α := 1.0
  let s ← forLe (CF1_body T p.m_dim x) p.m_dim fuel 2 { sum1 := 0.0, sum2 := 0.0, count1 := 0, count2 := 0 }
  let x0 ← vget x 0
  let f ← vset f 0 (x0 + 2.0 * s.sum1 / s.count1)
  let x0 ← vget x 0
  let f ← vset f 1 (1.0 - x0 + 2.0 * s.sum2 / s.count2)
  let f1 ← vget f 1
  let f0 ← vget f 0
  let f ← vset f 2 (f1 + f0 - a * |T.sin (N * T.pi * (f0 - f1 + 1.0))| - 1.0)
  let f2 ← vget f 2
  vset f 2 (-f2)

/-- Loop body of `CF2`. -/
def CF2_body (T : Libm α) (m_dim : Nat) (x : List α) (j : Nat) (s : Acc2 α) :
    Except Fault (Acc2 α) := do
  if j % 2 = 1 then
    let xj ← vget x (usub j 1)
    let x0 ← vget x 0
    let yj := xj - T.sin (6.0 * T.pi * x0 + (j : α) * T.pi / (m_dim : α))
    pure { s with sum1 := s.sum1 + yj * yj, count1 := s.count1 + 1 }
  else
    let xj ← vget x (usub j 1)
    let x0 ← vget x 0
    let yj := xj - T.cos (6.0 * T.pi * x0 + (j : α) * T.pi / (m_dim : α))
    pure { s with sum2 := s.sum2 + yj * yj, count2 := s.count2 + 1 }

/-- Member `CF2`. -/
def CF2 (p : pagmo.cec2009) (T : Libm α) (fuel : Nat) (f x : List α) :
    Except Fault (List α) := do
  let N : α := 2.0
  let a : α := 1.0
  let s ← forLe (CF2_body T p.m_dim x) p.m_dim fuel 2 { sum1 := 0.0, sum2 := 0.0, count1 := 0, count2 := 0 }
  let x0 ← vget x 0
  let f ← vset f 0 (x0 + 2.0 * s.sum1 / s.count1)
  let x0 ← vget x 0
  let f ← vset f 1 (1.0 - T.sqrt x0 + 2.0 * s.sum2 / s.count2)
  let f1 ← vget f 1
  let f0 ← vget f 0
  let t := f1 + T.sqrt f0 - a * T.sin (N * T.pi * (T.sqrt f0 - f1 + 1.0)) - 1.0
  let f ← vset f 2 (sgn t * |t| / (1 + T.exp (4.0 * |t|)))
  let f2 ← vget f 2
  vset f 2 (-f2)

/-- Loop body of `CF3`. -/
def CF3_body (T : Libm α) (m_dim : Nat) (x : List α) (j : Nat) (s : Acc2p α) :
    Except Fault (Acc2p α) := do
  let xj ← vget x (usub j 1)
  let x0 ← vget x 0
  let yj := xj - T.sin (6.0 * T.pi * x0 + (j : α) * T.pi / (m_dim : α))
  let pj := T.cos (20.0 * yj * T.pi / T.sqrt ((j : α) + 0.0))
  if j % 2 = 0 then
    pure { s with sum2 := s.sum2 + yj * yj, prod2 := s.prod2 * pj, count2 := s.count2 + 1 }
  else
    pure { s with sum1 := s.sum1 + yj * yj, prod1 := s.prod1 * pj, count1 := s.count1 + 1 }

/-- Member `CF3`. -/
def CF3 (p : pagmo.cec2009) (T : Libm α) (fuel : Nat) (f x : List α) :
    Except Fault (List α) := do
  let N : α := 2.0
  let a : α := 1.0
  let s ← forLe (CF3_body T p.m_dim x) p.m_dim fuel 2
    { sum1 := 0.0, sum2 := 0.0, prod1 := 1.0, prod2 := 1.0, count1 := 0, count2 := 0 }
  let x0 ← vget x 0
  let f ← vset f 0 (x0 + 2.0 * (4.0 * s.sum1 - 2.0 * s.prod1 + 2.0) / s.count1)
  let x0 ← vget x 0
  let f ← vset f 1 (1.0 - x0 * x0 + 2.0 * (4.0 * s.sum2 - 2.0 * s.prod2 + 2.0) / s.count2)
  let f1 ← vget f 1
  let f0 ← vget f 0
  let f ← vset f 2 (f1 + f0 * f0 - a * T.sin (N * T.pi * (f0 * f0 - f1 + 1.0)) - 1.0)
  let f2 ← vget f 2
  vset f 2 (-f2)

/-- Loop body of `CF4`. -/
def CF4_body (T : Libm α) (m_dim : Nat) (x : List α) (j : Nat) (s : Acc0 α) :
    Except Fault (Acc0 α) := do
  let xj ← vget x (usub j 1)
  let x0 ← vget x 0
  let yj := xj - T.sin (6.0 * T.pi * x0 + (j : α) * T.pi / (m_dim : α))
  if j % 2 = 1 then
    pure { s with sum1 := s.sum1 + yj * yj }
  else
    if j = 2 then
      pure { s with sum2 := s.sum2
        + (if yj < 1.5 - 0.75 * T.sqrt 2.0 then |yj| else (0.125 + (yj - 1) * (yj - 1))) }
    else
      pure { s with sum2 := s.sum2 + yj * yj }

/-- Member `CF4`. -/
def CF4 (p : pagmo.cec2009) (T : Libm α) (fuel : Nat) (f x : List α) :
    Except Fault (List α) := do
  let s ← forLe (CF4_body T p.m_dim x) p.m_dim fuel 2 { sum1 := 0.0, sum2 := 0.0 }
  let x0 ← vget x 0
  let f ← vset f 0 (x0 + s.sum1)
  let x0 ← vget x 0
  let f ← vset f 1 (1.0 - x0 + s.sum2)
  let x1 ← vget x 1
  let x0 ← vget x 0
  let t := x1 - T.sin (6.0 * x0 * T.pi + 2.0 * T.pi / (p.m_dim : α)) - 0.5 * x0 + 0.25
  let f ← vset f 2 (sgn t * |t| / (1 + T.exp (4.0 * |t|)))
  let f2 ← vget f 2
  vset f 2 (-f2)

/-- Loop body of `CF5`. -/
def CF5_body (T : Libm α) (m_dim : Nat) (x : List α) (j : Nat) (s : Acc0 α) :
    Except Fault (Acc0 α) := do
  if j % 2 = 1 then
    let xj ← vget x (usub j 1)
    let x0 ← vget x 0
    let yj := xj - 0.8 * x0 * T.cos (6.0 * T.pi * x0 + (j : α) * T.pi / (m_dim : α))
    pure { s with sum1 := s.sum1 + (2.0 * yj * yj - T.cos (4.0 * T.pi * yj) + 1.0) }
  else
    let xj ← vget x (usub j 1)
    let x0 ← vget x 0
    let yj := xj - 0.8 * x0 * T.sin (6.0 * T.pi * x0 + (j : α) * T.pi / (m_dim : α))
    if j = 2 then
      pure { s with sum2 := s.sum2
        + (if yj < 1.5 - 0.75 * T.sqrt 2.0 then |yj| else (0.125 + (yj - 1) * (yj - 1))) }
    else
      pure { s with sum2 := s.sum2 + (2.0 * yj * yj - T.cos (4.0 * T.pi * yj) + 1.0) }

/-- Member `CF5`. -/
def CF5 (p : pagmo.cec2009) (T : Libm α) (fuel : Nat) (f x : List α) :
    Except Fault (List α) := do
  let s ← forLe (CF5_body T p.m_dim x) p.m_dim fuel 2 { sum1 := 0.0, sum2 := 0.0 }
  let x0 ← vget x 0
  let f ← vset f 0 (x0 + s.sum1)
  let x0 ← vget x 0
  let f ← vset f 1 (1.0 - x0 + s.sum2)
  let x1 ← vget x 1
  let x0 ← vget x 0
  let f ← vset f 2
    (x1 - 0.8 * x0 * T.sin (6.0 * x0 * T.pi + 2.0 * T.pi / (p.m_dim : α)) - 0.5 * x0 + 0.25)
  let f2 ← vget f 2
  vset f 2 (-f2)

/-- Loop body of `CF6`. -/
def CF6_body (T : Libm α) (m_dim : Nat) (x : List α) (j : Nat) (s : Acc0 α) :
    Except Fault (Acc0 α) := do
  if j % 2 = 1 then
    let xj ← vget x (usub j 1)
    let x0 ← vget x 0
    let yj := xj - 0.8 * x0 * T.cos (6.0 * T.pi * x0 + (j : α) * T.pi / (m_dim : α))
    pure { s with sum1 := s.sum1 + yj * yj }
  else
    let xj ← vget x (usub j 1)
    let x0 ← vget x 0
    let yj := xj - 0.8 * x0 * T.sin (6.0 * T.pi * x0 + (j : α) * T.pi / (m_dim : α))
    pure { s with sum2 := s.sum2 + yj * yj }

/-- Member `CF6`. -/
def CF6 (p : pagmo.cec2009) (T : Libm α) (fuel : Nat) (f x : List α) :
    Except Fault (List α) := do
  let s ← forLe (CF6_body T p.m_dim x) p.m_dim fuel 2 { sum1 := 0.0, sum2 := 0.0 }
  let x0 ← vget x 0
  let f ← vset f 0 (x0 + s.sum1)
  let x0 ← vget x 0
  let f ← vset f 1 ((1.0 - x0) * (1.0 - x0) + s.sum2)
  let x1 ← vget x 1
  let x0 ← vget x 0
  let f ← vset f 2
    (x1 - 0.8 * x0 * T.sin (6.0 * x0 * T.pi + 2.0 * T.pi / (p.m_dim : α))
      - sgn ((x0 - 0.5) * (1.0 - x0)) * T.sqrt |(x0 - 0.5) * (1.0 - x0)|)
  let x3 ← vget x 3
  let x0 ← vget x 0
  let f ← vset f 3
    (x3 - 0.8 * x0 * T.sin (6.0 * x0 * T.pi + 4.0 * T.pi / (p.m_dim : α))
      - sgn (0.25 * T.sqrt (1 - x0) - 0.5 * (1.0 - x0))
          * T.sqrt |0.25 * T.sqrt (1 - x0) - 0.5 * (1.0 - x0)|)
  let f2 ← vget f 2
  let f ← vset f 2 (-f2)
  let f3 ← vget f 3
  vset f 3 (-f3)

/-- Loop body of `CF7`. -/
def CF7_body (T : Libm α) (m_dim : Nat) (x : List α) (j : Nat) (s : Acc0 α) :
    Except Fault (Acc0 α) := do
  if j % 2 = 1 then
    let xj ← vget x (usub j 1)
    let x0 ← vget x 0
    let yj := xj - T.cos (6.0 * T.pi * x0 + (j : α) * T.pi / (m_dim : α))
    pure { s with sum1 := s.sum1 + (2.0 * yj * yj - T.cos (4.0 * T.pi * yj) + 1.0) }
  else
    let xj ← vget x (usub j 1)
    let x0 ← vget x 0
    let yj := xj - T.sin (6.0 * T.pi * x0 + (j : α) * T.pi / (m_dim : α))
    if j = 2 ∨ j = 4 then
      pure { s with sum2 := s.sum2 + yj * yj }
    else
      pure { s with sum2 := s.sum2 + (2.0 * yj * yj - T.cos (4.0 * T.pi * yj) + 1.0) }

/-- Member `CF7`. -/
def CF7 (p : pagmo.cec2009) (T : Libm α) (fuel : Nat) (f x : List α) :
    Except Fault (List α) := do
  let s ← forLe (CF7_body T p.m_dim x) p.m_dim fuel 2 { sum1 := 0.0, sum2 := 0.0 }
  let x0 ← vget x 0
  let f ← vset f 0 (x0 + s.sum1)
  let x0 ← vget x 0
  let f ← vset f 1 ((1.0 - x0) * (1.0 - x0) + s.sum2)
  let x1 ← vget x 1
  let x0 ← vget x 0
  let f ← vset f 2
    (x1 - T.sin (6.0 * x0 * T.pi + 2.0 * T.pi / (p.m_dim : α))
      - sgn ((x0 - 0.5) * (1.0 - x0)) * T.sqrt |(x0 - 0.5) * (1.0 - x0)|)
  let x3 ← vget x 3
  let x0 ← vget x 0
  let f ← vset f 3
    (x3 - T.sin (6.0 * x0 * T.pi + 4.0 * T.pi / (p.m_dim : α))
      - sgn (0.25 * T.sqrt (1 - x0) - 0.5 * (1.0 - x0))
          * T.sqrt |0.25 * T.sqrt (1 - x0) - 0.5 * (1.0 - x0)|)
  let f2 ← vget f 2
  let f ← vset f 2 (-f2)
  let f3 ← vget f 3
  vset f 3 (-f3)

/-- Loop body of `CF8`. -/
def CF8_body (T : Libm α) (m_dim : Nat) (x : List α) (j : Nat) (s : Acc3 α) :
    Except Fault (Acc3 α) := do
  let xj ← vget x (usub j 1)
  let x1 ← vget x 1
  let x0 ← vget x 0
  let yj := xj - 2.0 * x1 * T.sin (2.0 * T.pi * x0 + (j : α) * T.pi / (m_dim : α))
  if j % 3 = 1 then
    pure { s with sum1 := s.sum1 + yj * yj, count1 := s.count1 + 1 }
  else if j % 3 = 2 then
    pure { s with sum2 := s.sum2 + yj * yj, count2 := s.count2 + 1 }
  else
    pure { s with sum3 := s.sum3 + yj * yj, count3 := s.count3 + 1 }

/-- Member `CF8`. -/
def CF8 (p : pagmo.cec2009) (T : Libm α) (fuel : Nat) (f x : List α) :
    Except Fault (List α) := do
  let N : α := 2.0
  let a : α := 4.0
  let s ← forLe (CF8_body T p.m_dim x) p.m_dim fuel 3
    { sum1 := 0.0, sum2 := 0.0, sum3 := 0.0, count1 := 0, count2 := 0, count3 := 0 }
  let x0 ← vget x 0
  let x1 ← vget x 1
  let f ← vset f 0 (T.cos (0.5 * T.pi * x0) * T.cos (0.5 * T.pi * x1) + 2.0 * s.sum1 / s.count1)
  let x0 ← vget x 0
  let x1 ← vget x 1
  let f ← vset f 1 (T.cos (0.5 * T.pi * x0) * T.sin (0.5 * T.pi * x1) + 2.0 * s.sum2 / s.count2)
  let x0 ← vget x 0
  let f ← vset f 2 (T.sin (0.5 * T.pi * x0) + 2.0 * s.sum3 / s.count3)
  let f0 ← vget f 0
  let f1 ← vget f 1
  let f2 ← vget f 2
  let f ← vset f 3
    ((f0 * f0 + f1 * f1) / (1 - f2 * f2)
      - a * |T.sin (N * T.pi * ((f0 * f0 - f1 * f1) / (1 - f2 * f2) + 1.0))| - 1.0)
  let f3 ← vget f 3
  vset f 3 (-f3)

/-- Loop body of `CF9`. -/
def CF9_body (T : Libm α) (m_dim : Nat) (x : List α) (j : Nat) (s : Acc3 α) :
    Except Fault (Acc3 α) := do
  let xj ← vget x (usub j 1)
  let x1 ← vget x 1
  let x0 ← vget x 0
  let yj := xj - 2.0 * x1 * T.sin (2.0 * T.pi * x0 + (j : α) * T.pi / (m_dim : α))
  if j % 3 = 1 then
    pure { s with sum1 := s.sum1 + yj * yj, count1 := s.count1 + 1 }
  else if j % 3 = 2 then
    pure { s with sum2 := s.sum2 + yj * yj, count2 := s.count2 + 1 }
  else
    pure { s with sum3 := s.sum3 + yj * yj, count3 := s.count3 + 1 }

/-- Member `CF9`. -/
def CF9 (p : pagmo.cec2009) (T : Libm α) (fuel : Nat) (f x : List α) :
    Except Fault (List α) := do
  let N : α := 2.0
  let a : α := 3.0
  let s ← forLe (CF9_body T p.m_dim x) p.m_dim fuel 3
    { sum1 := 0.0, sum2 := 0.0, sum3 := 0.0, count1 := 0, count2 := 0, count3 := 0 }
  let x0 ← vget x 0
  let x1 ← vget x 1
  let f ← vset f 0 (T.cos (0.5 * T.pi * x0) * T.cos (0.5 * T.pi * x1) + 2.0 * s.sum1 / s.count1)
  let x0 ← vget x 0
  let x1 ← vget x 1
  let f ← vset f 1 (T.cos (0.5 * T.pi * x0) * T.sin (0.5 * T.pi * x1) + 2.0 * s.sum2 / s.count2)
  let x0 ← vget x 0
  let f ← vset f 2 (T.sin (0.5 * T.pi * x0) + 2.0 * s.sum3 / s.count3)
  let f0 ← vget f 0
  let f1 ← vget f 1
  let f2 ← vget f 2
  let f ← vset f 3
    ((f0 * f0 + f1 * f1) / (1 - f2 * f2)
      - a * T.sin (N * T.pi * ((f0 * f0 - f1 * f1) / (1 - f2 * f2) + 1.0)) - 1.0)
  let f3 ← vget f 3
  vset f 3 (-f3)

/-- Loop body of `CF10`. -/
def CF10_body (T : Libm α) (m_dim : Nat) (x : List α) (j : Nat) (s : Acc3 α) :
    Except Fault (Acc3 α) := do
  let xj ← vget x (usub j 1)
  let x1 ← vget x 1
  let x0 ← vget x 0
  let yj := xj - 2.0 * x1 * T.sin (2.0 * T.pi * x0 + (j : α) * T.pi / (m_dim : α))
  let hj := 4.0 * yj * yj - T.cos (8.0 * T.pi * yj) + 1.0
  if j % 3 = 1 then
    pure { s with sum1 := s.sum1 + hj, count1 := s.count1 + 1 }
  else if j % 3 = 2 then
    pure { s with sum2 := s.sum2 + hj, count2 := s.count2 + 1 }
  else
    pure { s with sum3 := s.sum3 + hj, count3 := s.count3 + 1 }

/-- Member `CF10`. -/
def CF10 (p : pagmo.cec2009) (T : Libm α) (fuel : Nat) (f x : List α) :
    Except Fault (List α) := do
  let N : α := 2.0
  let a : α := 1.0
  let s ← forLe (CF10_body T p.m_dim x) p.m_dim fuel 3
    { sum1 := 0.0, sum2 := 0.0, sum3 := 0.0, count1 := 0, count2 := 0, count3 := 0 }
  let x0 ← vget x 0
  let x1 ← vget x 1
  let f ← vset f 0 (T.cos (0.5 * T.pi * x0) * T.cos (0.5 * T.pi * x1) + 2.0 * s.sum1 / s.count1)
  let x0 ← vget x 0
  let x1 ← vget x 1
  let f ← vset f 1 (T.cos (0.5 * T.pi * x0) * T.sin (0.5 * T.pi * x1) + 2.0 * s.sum2 / s.count2)
  let x0 ← vget x 0
  let f ← vset f 2 (T.sin (0.5 * T.pi * x0) + 2.0 * s.sum3 / s.count3)
  let f0 ← vget f 0
  let f1 ← vget f 1
  let f2 ← vget f 2
  let f ← vset f 3
    ((f0 * f0 + f1 * f1) / (1 - f2 * f2)
      - a * T.sin (N * T.pi * ((f0 * f0 - f1 * f1) / (1 - f2 * f2) + 1.0)) - 1.0)
  let f3 ← vget f 3
  vset f 3 (-f3)

/-! ## Dispatch -/

/-- The type `detail::cec2009_data::func_ptr` of the evaluator members. -/
abbrev func_ptr (α : Type) : Type :=
  pagmo.cec2009 → Libm α → Nat → List α → List α → Except Fault (List α)

/-- Table `s_u_ptr`. -/
def s_u_ptr : List (func_ptr α) := [UF1, UF2, UF3, UF4, UF5, UF6, UF7, UF8, UF9, UF10]

/-- Table `s_c_ptr`. -/
def s_c_ptr : List (func_ptr α) := [CF1, CF2, CF3, CF4, CF5, CF6, CF7, CF8, CF9, CF10]

/-- Member `fitness_impl`. -/
def fitness_impl (p : pagmo.cec2009) (T : Libm α) (fuel : Nat) (f : func_ptr α) (x : List α) :
    Except Fault (List α) := do
  let nic ← if p.m_is_constrained then vget cec2009_data.nic (usub p.m_prob_id 1) else pure 0
  let nobj ← vget cec2009_data.nobj (usub p.m_prob_id 1)
  let retval : List α := List.replicate (nic + nobj) 0.0
  f p T fuel retval x

/-- Member `fitness`. -/
def fitness (p : pagmo.cec2009) (T : Libm α) (fuel : Nat) (x : List α) :
    Except Fault (List α) := do
  if p.m_is_constrained then
    let f ← vget s_c_ptr (usub p.m_prob_id 1)
    fitness_impl p T fuel f x
  else
    let f ← vget s_u_ptr (usub p.m_prob_id 1)
    fitness_impl p T fuel f x

end cec2009

end pagmo

/-! ## Auxiliary and reference definitions used in the statements -/

namespace pagmo

/-- Smallest dimension at which every read `x[k]` made by the evaluator selected by
`(prob_id, is_constrained)` lies inside a vector of that length: CF6 and CF7 read `x[3]`;
CF4, CF5 and the three-objective evaluators read `x[1]`; all evaluators read `x[0]`. -/
def min_dim (prob_id : Nat) (is_constrained : Bool) : Nat :=
  if is_constrained then
    if prob_id = 6 ∨ prob_id = 7 then 4
    else if prob_id = 4 ∨ prob_id = 5 ∨ 8 ≤ prob_id then 2
    else 1
  else
    if 8 ≤ prob_id then 2 else 1

/-- Length of the fitness vector as the specification lists it: 2 for UF1-UF7, 3 for
UF8-UF10 and CF1-CF5, 4 for CF6-CF10. -/
def fitness_length (prob_id : Nat) (is_constrained : Bool) : Nat :=
  if is_constrained then
    if prob_id ≤ 5 then 3 else 4
  else
    if prob_id ≤ 7 then 2 else 3

/-- The UF rows of the bounds table of the specification: the interval `(lower, upper)`
of component `i` for problem `prob_id`. -/
def UF_case_table (α : Type) [LinearOrderedField α] (prob_id i : Nat) : α × α :=
  if i = 0 then (0, 1)
  else if prob_id = 1 ∨ prob_id = 2 ∨ prob_id = 5 ∨ prob_id = 6 ∨ prob_id = 7 then (-1, 1)
  else if prob_id = 3 then (0, 1)
  else if prob_id = 4 then (-2, 2)
  else if i = 1 then (0, 1)
  else (-2, 2)

/-- The CF rows of the bounds table of the specification. -/
def CF_case_table (α : Type) [LinearOrderedField α] (prob_id i : Nat) : α × α :=
  if i = 0 then (0, 1)
  else if prob_id = 1 then (0, 1)
  else if prob_id = 2 then (-1, 1)
  else if prob_id = 3 ∨ prob_id = 4 ∨ prob_id = 5 ∨ prob_id = 6 ∨ prob_id = 7 then (-2, 2)
  else if i = 1 then (0, 1)
  else if prob_id = 8 then (-4, 4)
  else (-2, 2)

/-- The unconstrained evaluators in id order: `UF_of k` is `UFk` for `k` in 1..10. -/
def UF_of {α : Type} [LinearOrderedField α] (k : Nat) : cec2009.func_ptr α :=
  match k with
  | 1 => cec2009.UF1
  | 2 => cec2009.UF2
  | 3 => cec2009.UF3
  | 4 => cec2009.UF4
  | 5 => cec2009.UF5
  | 6 => cec2009.UF6
  | 7 => cec2009.UF7
  | 8 => cec2009.UF8
  | 9 => cec2009.UF9
  | _ => cec2009.UF10

/-- The constrained evaluators in id order: `CF_of k` is `CFk` for `k` in 1..10. -/
def CF_of {α : Type} [LinearOrderedField α] (k : Nat) : cec2009.func_ptr α :=
  match k with
  | 1 => cec2009.CF1
  | 2 => cec2009.CF2
  | 3 => cec2009.CF3
  | 4 => cec2009.CF4
  | 5 => cec2009.CF5
  | 6 => cec2009.CF6
  | 7 => cec2009.CF7
  | 8 => cec2009.CF8
  | 9 => cec2009.CF9
  | _ => cec2009.CF10

/-- Index class `J1 = {j in 2..n : j odd}` of the reference definition of UF1. -/
def J1 (n : Nat) : Finset Nat := (Finset.Icc 2 n).filter (fun j => j % 2 = 1)

/-- Index class `J2 = {j in 2..n : j even}` of the reference definition of UF1. -/
def J2 (n : Nat) : Finset Nat := (Finset.Icc 2 n).filter (fun j => j % 2 = 0)

/-- Deviation `y_j = x[j-1] - sin(6*pi*x[0] + j*pi/n)` of the reference definition of UF1. -/
def UF1_ref_y {α : Type} [LinearOrderedField α] (T : Libm α) (n : Nat) (x : List α) (j : Nat) : α :=
  x.getD (j - 1) 0 - T.sin (6 * T.pi * x.getD 0 0 + (j : α) * T.pi / (n : α))

/-- Deviation term `x[j-1] - x[0]^(0.5*(1 + 3*(j-2)/(n-2)))` of CF1. -/
def CF1_ref_y {α : Type} [LinearOrderedField α] (T : Libm α) (n : Nat) (x : List α) (j : Nat) : α :=
  x.getD (j - 1) 0 - T.pow (x.getD 0 0) (0.5 * (1 + 3 * ((j : α) - 2) / ((n : α) - 2)))

/-- A decision vector of dimension 3 on which every deviation term of CF1 is zero:
`x[0] = 1/40`, `x[1] = x[0]^(1/2)`, `x[2] = x[0]^2`. -/
noncomputable def cf1_curve_point : List ℝ :=
  [1 / 40, Real.rpow (1 / 40) (1 / 2), Real.rpow (1 / 40) 2]

/-- Reference definition of UF1:
`f[0] = x[0] + (2/|J1|) * sum over J1 of y_j^2`,
`f[1] = 1 - sqrt(x[0]) + (2/|J2|) * sum over J2 of y_j^2`. -/
def UF1_ref {α : Type} [LinearOrderedField α] (T : Libm α) (n : Nat) (x : List α) : List α :=
  [x.getD 0 0 + (2 / ((J1 n).card : α)) * ∑ j ∈ J1 n, UF1_ref_y T n x j ^ 2,
   1 - T.sqrt (x.getD 0 0) + (2 / ((J2 n).card : α)) * ∑ j ∈ J2 n, UF1_ref_y T n x j ^ 2]

/-- The term that the loops of CF4 and CF5 add to `sum2` at `j = 2`, as a function of the
deviation `yj`: `yj < 1.5 - 0.75 * sqrt(2.0) ? abs(yj) : (0.125 + (yj - 1) * (yj - 1))`. -/
def CF4_piece {α : Type} [LinearOrderedField α] (T : Libm α) (yj : α) : α :=
  if yj < 1.5 - 0.75 * T.sqrt 2.0 then |yj| else (0.125 + (yj - 1) * (yj - 1))

/-- Index class `{j in 3..n : j mod 3 = 1}` of the three-objective evaluators. -/
def K1 (n : Nat) : Finset Nat := (Finset.Icc 3 n).filter (fun j => j % 3 = 1)

/-- Index class `{j in 3..n : j mod 3 = 2}` of the three-objective evaluators. -/
def K2 (n : Nat) : Finset Nat := (Finset.Icc 3 n).filter (fun j => j % 3 = 2)

/-- Index class `{j in 3..n : j mod 3 = 0}` of the three-objective evaluators. -/
def K3 (n : Nat) : Finset Nat := (Finset.Icc 3 n).filter (fun j => j % 3 = 0)

/-- Deviation of UF2: `x[j-1] - 0.3*x0*(x0*cos(24*pi*x0 + 4*j*pi/n) + 2)*s`, where `s` is
`sin(6*pi*x0 + j*pi/n)` for even `j` and `cos(6*pi*x0 + j*pi/n)` for odd `j`. -/
def UF2_ref_y {α : Type} [LinearOrderedField α] (T : Libm α) (n : Nat) (x : List α) (j : Nat) : α :=
  x.getD (j - 1) 0
    - 0.3 * x.getD 0 0
        * (x.getD 0 0 * T.cos (24 * T.pi * x.getD 0 0 + 4 * (j : α) * T.pi / (n : α)) + 2)
        * (if j % 2 = 0 then T.sin (6 * T.pi * x.getD 0 0 + (j : α) * T.pi / (n : α))
           else T.cos (6 * T.pi * x.getD 0 0 + (j : α) * T.pi / (n : α)))

/-- Deviation of CF2: `x[j-1] - sin(6*pi*x0 + j*pi/n)` for odd `j` and
`x[j-1] - cos(6*pi*x0 + j*pi/n)` for even `j`. -/
def CF2_ref_y {α : Type} [LinearOrderedField α] (T : Libm α) (n : Nat) (x : List α) (j : Nat) : α :=
  x.getD (j - 1) 0
    - (if j % 2 = 1 then T.sin (6 * T.pi * x.getD 0 0 + (j : α) * T.pi / (n : α))
       else T.cos (6 * T.pi * x.getD 0 0 + (j : α) * T.pi / (n : α)))

/-- Deviation of CF6: `x[j-1] - 0.8*x0*cos(6*pi*x0 + j*pi/n)` for odd `j` and
`x[j-1] - 0.8*x0*sin(6*pi*x0 + j*pi/n)` for even `j`. -/
def CF6_ref_y {α : Type} [LinearOrderedField α] (T : Libm α) (n : Nat) (x : List α) (j : Nat) : α :=
  x.getD (j - 1) 0
    - 0.8 * x.getD 0 0
        * (if j % 2 = 1 then T.cos (6 * T.pi * x.getD 0 0 + (j : α) * T.pi / (n : α))
           else T.sin (6 * T.pi * x.getD 0 0 + (j : α) * T.pi / (n : α)))

/-- Deviation `y_j = x[j-1] - 2*x[1]*sin(2*pi*x[0] + j*pi/n)` of the three-objective
evaluators. -/
def tri_ref_y {α : Type} [LinearOrderedField α] (T : Libm α) (n : Nat) (x : List α) (j : Nat) : α :=
  x.getD (j - 1) 0 - 2 * x.getD 1 0 * T.sin (2 * T.pi * x.getD 0 0 + (j : α) * T.pi / (n : α))

/-- Damped absolute value `|y| / (1 + exp(2*|y|))` (UF4). -/
def damp_h {α : Type} [LinearOrderedField α] (T : Libm α) (y : α) : α :=
  |y| / (1 + T.exp (2 * |y|))

/-- Ripple transform `h(y) = 2*y^2 - cos(4*pi*y) + 1` of the specification (UF5). -/
def ripple_h {α : Type} [LinearOrderedField α] (T : Libm α) (y : α) : α :=
  2 * y ^ 2 - T.cos (4 * T.pi * y) + 1

/-- Transform `4*y^2 - cos(8*pi*y) + 1` (UF10, CF10). -/
def ripple8_h {α : Type} [LinearOrderedField α] (T : Libm α) (y : α) : α :=
  4 * y ^ 2 - T.cos (8 * T.pi * y) + 1

/-- Cosine factor `cos(20*y*pi/sqrt(j))` of the product terms (UF3, UF6, CF3). -/
def cos_factor {α : Type} [LinearOrderedField α] (T : Libm α) (y : α) (j : Nat) : α :=
  T.cos (20 * y * T.pi / T.sqrt (j : α))

/-- Reduction of the residue class `K` by the transform `h`, divided by the cardinality of
the class: `(sum over j in K of h(y_j)) / |K|`, with `y_j` the deviation `tri_ref_y`. -/
def tri_reduction {α : Type} [LinearOrderedField α] (T : Libm α) (h : α → α) (n : Nat)
    (x : List α) (K : Finset Nat) : α :=
  (∑ j ∈ K, h (tri_ref_y T n x j)) / (K.card : α)

/-- The three objectives of the spherical parameterisation, as the specification words
them: `cos(pi*x0/2)*cos(pi*x1/2) + 2*r1`, `cos(pi*x0/2)*sin(pi*x1/2) + 2*r2` and
`sin(pi*x0/2) + 2*r3`, with `r_k` the reduction of the classes `j mod 3 = 1, 2, 0`. -/
def tri_ref {α : Type} [LinearOrderedField α] (T : Libm α) (h : α → α) (n : Nat)
    (x : List α) : List α :=
  [T.cos (T.pi * x.getD 0 0 / 2) * T.cos (T.pi * x.getD 1 0 / 2)
      + 2 * tri_reduction T h n x (K1 n),
   T.cos (T.pi * x.getD 0 0 / 2) * T.sin (T.pi * x.getD 1 0 / 2)
      + 2 * tri_reduction T h n x (K2 n),
   T.sin (T.pi * x.getD 0 0 / 2) + 2 * tri_reduction T h n x (K3 n)]

/-- The decision vector `[0, 0, 1, 1, 1]`: at dimension 5 every deviation `y_j` is 1. -/
def unit_deviation_point : List ℝ := [0, 0, 1, 1, 1]

/-- The deviation `y_j` of the two-objective problems whose classes are divided by their
cardinality (UF1-UF7, CF1-CF3). -/
def bi_dev {α : Type} [LinearOrderedField α] (T : Libm α) (prob_id : Nat) (c : Bool)
    (n : Nat) (x : List α) (j : Nat) : α :=
  match c, prob_id with
  | false, 2 => UF2_ref_y T n x j
  | false, 3 => CF1_ref_y T n x j
  | true, 1 => CF1_ref_y T n x j
  | true, 2 => CF2_ref_y T n x j
  | _, _ => UF1_ref_y T n x j

/-- The reduction of the index class `J` in the two-objective problems UF1-UF7 and
CF1-CF3, before the division by the cardinality: the sum of squares, the sum of
`|y|/(1+exp(2|y|))` (UF4), the sum of the ripple `2y^2 - cos(4*pi*y) + 1` (UF5), or
`4*sum - 2*prod + 2` with `prod` a product of cosines (UF3, UF6, CF3). -/
def bi_reduction {α : Type} [LinearOrderedField α] (T : Libm α) (prob_id : Nat) (c : Bool)
    (n : Nat) (x : List α) (J : Finset Nat) : α :=
  match c, prob_id with
  | false, 3 =>
    4.0 * (∑ j ∈ J, bi_dev T 3 false n x j ^ 2)
      - 2.0 * (∏ j ∈ J, cos_factor T (bi_dev T 3 false n x j) j) + 2.0
  | false, 4 => ∑ j ∈ J, damp_h T (bi_dev T 4 false n x j)
  | false, 5 => ∑ j ∈ J, ripple_h T (bi_dev T 5 false n x j)
  | false, 6 =>
    4.0 * (∑ j ∈ J, bi_dev T 6 false n x j ^ 2)
      - 2.0 * (∏ j ∈ J, cos_factor T (bi_dev T 6 false n x j) j) + 2.0
  | true, 3 =>
    4.0 * (∑ j ∈ J, bi_dev T 3 true n x j ^ 2)
      - 2.0 * (∏ j ∈ J, cos_factor T (bi_dev T 3 true n x j) j) + 2.0
  | c, k => ∑ j ∈ J, bi_dev T k c n x j ^ 2

/-- The base curve of the two objectives in UF1-UF7 and CF1-CF3, as a pair. -/
def bi_base {α : Type} [LinearOrderedField α] (T : Libm α) (prob_id : Nat) (c : Bool)
    (x : List α) : α × α :=
  match c, prob_id with
  | false, 4 => (x.getD 0 0, 1.0 - x.getD 0 0 * x.getD 0 0)
  | false, 5 =>
    (x.getD 0 0 + (0.5 / 10.0 + 0.1) * |T.sin (2.0 * 10.0 * T.pi * x.getD 0 0)|,
     1.0 - x.getD 0 0 + (0.5 / 10.0 + 0.1) * |T.sin (2.0 * 10.0 * T.pi * x.getD 0 0)|)
  | false, 6 =>
    (x.getD 0 0
        + (if 2.0 * (0.5 / 2.0 + 0.1) * T.sin (2.0 * 2.0 * T.pi * x.getD 0 0) < 0.0 then 0.0
           else 2.0 * (0.5 / 2.0 + 0.1) * T.sin (2.0 * 2.0 * T.pi * x.getD 0 0)),
     1.0 - x.getD 0 0
        + (if 2.0 * (0.5 / 2.0 + 0.1) * T.sin (2.0 * 2.0 * T.pi * x.getD 0 0) < 0.0 then 0.0
           else 2.0 * (0.5 / 2.0 + 0.1) * T.sin (2.0 * 2.0 * T.pi * x.getD 0 0)))
  | false, 7 => (T.pow (x.getD 0 0) 0.2, 1.0 - T.pow (x.getD 0 0) 0.2)
  | true, 1 => (x.getD 0 0, 1.0 - x.getD 0 0)
  | true, 3 => (x.getD 0 0, 1.0 - x.getD 0 0 * x.getD 0 0)
  | _, _ => (x.getD 0 0, 1.0 - T.sqrt (x.getD 0 0))

/-- The two objectives with each class reduction divided by the cardinality of its class
before it is added to the base curve: `base + 2 * (reduction / |J|)`, the odd indices `J1`
for `f[0]` and the even indices `J2` for `f[1]`. -/
def bi_ref {α : Type} [LinearOrderedField α] (T : Libm α) (prob_id : Nat) (c : Bool)
    (n : Nat) (x : List α) : List α :=
  [(bi_base T prob_id c x).1
      + 2 * (bi_reduction T prob_id c n x (J1 n) / ((J1 n).card : α)),
   (bi_base T prob_id c x).2
      + 2 * (bi_reduction T prob_id c n x (J2 n) / ((J2 n).card : α))]

/-- The decision vector `[0, 1, 0, 1, 0, 1]`: with `x[0] = 0` the deviations of CF6 are the
components themselves, 1 at the even indices `j = 2, 4, 6` and 0 at the odd ones. -/
def alternating_point : List ℝ := [0, 1, 0, 1, 0, 1]

/-- The counters of a two-class loop, in the order `count1, count2`. -/
def counts2 {α : Type} (s : Acc2 α) : List α := [s.count1, s.count2]

/-- The counters of a two-class loop with products, in the order `count1, count2`. -/
def counts2p {α : Type} (s : Acc2p α) : List α := [s.count1, s.count2]

/-- The counters of a three-class loop, in the order `count1, count2, count3`. -/
def counts3 {α : Type} (s : Acc3 α) : List α := [s.count1, s.count2, s.count3]

/-- The closed forms of the counters in the dimension `n`, as the specification gives them:
`floor((n-1)/2), floor(n/2)` for the parity-based evaluators (`prob_id <= 7`) and
`floor((n-1)/3), floor((n-2)/3), floor(n/3)` for the modulo-3 evaluators, with
`floor((n-2)/3) = 0` when `n < 2`. -/
def count_closed_form (α : Type) [LinearOrderedField α] (prob_id n : Nat) : List α :=
  if prob_id ≤ 7 then [(((n - 1) / 2 : Nat) : α), ((n / 2 : Nat) : α)]
  else [(((n - 1) / 3 : Nat) : α), (((n - 2) / 3 : Nat) : α), ((n / 3 : Nat) : α)]

/-- Member `CF2` with the helper `sgn` replaced by the parameter `g`. -/
def CF2_with {α : Type} [LinearOrderedField α] (g : α → α) (p : pagmo.cec2009) (T : Libm α)
    (fuel : Nat) (f x : List α) : Except Fault (List α) := do
  let N : α := 2.0
  let a : α := 1.0
  let s ← forLe (cec2009.CF2_body T p.m_dim x) p.m_dim fuel 2
    { sum1 := 0.0, sum2 := 0.0, count1 := 0, count2 := 0 }
  let x0 ← vget x 0
  let f ← vset f 0 (x0 + 2.0 * s.sum1 / s.count1)
  let x0 ← vget x 0
  let f ← vset f 1 (1.0 - T.sqrt x0 + 2.0 * s.sum2 / s.count2)
  let f1 ← vget f 1
  let f0 ← vget f 0
  let t := f1 + T.sqrt f0 - a * T.sin (N * T.pi * (T.sqrt f0 - f1 + 1.0)) - 1.0
  let f ← vset f 2 (g t * |t| / (1 + T.exp (4.0 * |t|)))
  let f2 ← vget f 2
  vset f 2 (-f2)

/-- Member `CF4` with the helper `sgn` replaced by the parameter `g`. -/
def CF4_with {α : Type} [LinearOrderedField α] (g : α → α) (p : pagmo.cec2009) (T : Libm α)
    (fuel : Nat) (f x : List α) : Except Fault (List α) := do
  let s ← forLe (cec2009.CF4_body T p.m_dim x) p.m_dim fuel 2 { sum1 := 0.0, sum2 := 0.0 }
  let x0 ← vget x 0
  let f ← vset f 0 (x0 + s.sum1)
  let x0 ← vget x 0
  let f ← vset f 1 (1.0 - x0 + s.sum2)
  let x1 ← vget x 1
  let x0 ← vget x 0
  let t := x1 - T.sin (6.0 * x0 * T.pi + 2.0 * T.pi / (p.m_dim : α)) - 0.5 * x0 + 0.25
  let f ← vset f 2 (g t * |t| / (1 + T.exp (4.0 * |t|)))
  let f2 ← vget f 2
  vset f 2 (-f2)

/-- Member `CF6` with the helper `sgn` replaced by the parameter `g`. -/
def CF6_with {α : Type} [LinearOrderedField α] (g : α → α) (p : pagmo.cec2009) (T : Libm α)
    (fuel : Nat) (f x : List α) : Except Fault (List α) := do
  let s ← forLe (cec2009.CF6_body T p.m_dim x) p.m_dim fuel 2 { sum1 := 0.0, sum2 := 0.0 }
  let x0 ← vget x 0
  let f ← vset f 0 (x0 + s.sum1)
  let x0 ← vget x 0
  let f ← vset f 1 ((1.0 - x0) * (1.0 - x0) + s.sum2)
  let x1 ← vget x 1
  let x0 ← vget x 0
  let f ← vset f 2
    (x1 - 0.8 * x0 * T.sin (6.0 * x0 * T.pi + 2.0 * T.pi / (p.m_dim : α))
      - g ((x0 - 0.5) * (1.0 - x0)) * T.sqrt |(x0 - 0.5) * (1.0 - x0)|)
  let x3 ← vget x 3
  let x0 ← vget x 0
  let f ← vset f 3
    (x3 - 0.8 * x0 * T.sin (6.0 * x0 * T.pi + 4.0 * T.pi / (p.m_dim : α))
      - g (0.25 * T.sqrt (1 - x0) - 0.5 * (1.0 - x0))
          * T.sqrt |0.25 * T.sqrt (1 - x0) - 0.5 * (1.0 - x0)|)
  let f2 ← vget f 2
  let f ← vset f 2 (-f2)
  let f3 ← vget f 3
  vset f 3 (-f3)

/-- Member `CF7` with the helper `sgn` replaced by the parameter `g`. -/
def CF7_with {α : Type} [LinearOrderedField α] (g : α → α) (p : pagmo.cec2009) (T : Libm α)
    (fuel : Nat) (f x : List α) : Except Fault (List α) := do
  let s ← forLe (cec2009.CF7_body T p.m_dim x) p.m_dim fuel 2 { sum1 := 0.0, sum2 := 0.0 }
  let x0 ← vget x 0
  let f ← vset f 0 (x0 + s.sum1)
  let x0 ← vget x 0
  let f ← vset f 1 ((1.0 - x0) * (1.0 - x0) + s.sum2)
  let x1 ← vget x 1
  let x0 ← vget x 0
  let f ← vset f 2
    (x1 - T.sin (6.0 * x0 * T.pi + 2.0 * T.pi / (p.m_dim : α))
      - g ((x0 - 0.5) * (1.0 - x0)) * T.sqrt |(x0 - 0.5) * (1.0 - x0)|)
  let x3 ← vget x 3
  let x0 ← vget x 0
  let f ← vset f 3
    (x3 - T.sin (6.0 * x0 * T.pi + 4.0 * T.pi / (p.m_dim : α))
      - g (0.25 * T.sqrt (1 - x0) - 0.5 * (1.0 - x0))
          * T.sqrt |0.25 * T.sqrt (1 - x0) - 0.5 * (1.0 - x0)|)
  let f2 ← vget f 2
  let f ← vset f 2 (-f2)
  let f3 ← vget f 3
  vset f 3 (-f3)

/-- Table `s_c_ptr` with `sgn` replaced by `g` in the four evaluators that call it. -/
def s_c_ptr_with {α : Type} [LinearOrderedField α] (g : α → α) : List (cec2009.func_ptr α) :=
  [cec2009.CF1, CF2_with g, cec2009.CF3, CF4_with g, cec2009.CF5, CF6_with g, CF7_with g,
    cec2009.CF8, cec2009.CF9, cec2009.CF10]

/-- Member `fitness` with `sgn` replaced by `g`. -/
def fitness_with {α : Type} [LinearOrderedField α] (g : α → α) (p : pagmo.cec2009)
    (T : Libm α) (fuel : Nat) (x : List α) : Except Fault (List α) := do
  if p.m_is_constrained then
    let f ← vget (s_c_ptr_with g) (usub p.m_prob_id 1)
    cec2009.fitness_impl p T fuel f x
  else
    let f ← vget cec2009.s_u_ptr (usub p.m_prob_id 1)
    cec2009.fitness_impl p T fuel f x

/-- A function that agrees with `sgn` on every non-zero argument and differs from it
at 0. -/
def sgn_alt {α : Type} [LinearOrderedField α] (val : α) : α :=
  if val = 0 then 7 else sgn val

/-- The statements of `UF1` that follow its loop, as a function of the locals `s` with
which the loop ends. -/
def UF1_after_loop {α : Type} [LinearOrderedField α] (T : Libm α)
    (s : Acc2 α) (f x : List α) : Except Fault (List α) := do
  let x0 ← vget x 0
  let f ← vset f 0 (x0 + 2.0 * s.sum1 / s.count1)
  let x0 ← vget x 0
  vset f 1 (1.0 - T.sqrt x0 + 2.0 * s.sum2 / s.count2)

/-- The statements of `UF2` that follow its loop, as a function of the locals `s` with
which the loop ends. -/
def UF2_after_loop {α : Type} [LinearOrderedField α] (T : Libm α)
    (s : Acc2 α) (f x : List α) : Except Fault (List α) := do
  let x0 ← vget x 0
  let f ← vset f 0 (x0 + 2.0 * s.sum1 / s.count1)
  let x0 ← vget x 0
  vset f 1 (1.0 - T.sqrt x0 + 2.0 * s.sum2 / s.count2)

/-- The statements of `UF3` that follow its loop, as a function of the locals `s` with
which the loop ends. -/
def UF3_after_loop {α : Type} [LinearOrderedField α] (T : Libm α)
    (s : Acc2p α) (f x : List α) : Except Fault (List α) := do
  let x0 ← vget x 0
  let f ← vset f 0 (x0 + 2.0 * (4.0 * s.sum1 - 2.0 * s.prod1 + 2.0) / s.count1)
  let x0 ← vget x 0
  vset f 1 (1.0 - T.sqrt x0 + 2.0 * (4.0 * s.sum2 - 2.0 * s.prod2 + 2.0) / s.count2)

/-- The statements of `UF4` that follow its loop, as a function of the locals `s` with
which the loop ends. -/
def UF4_after_loop {α : Type} [LinearOrderedField α]
    (s : Acc2 α) (f x : List α) : Except Fault (List α) := do
  let x0 ← vget x 0
  let f ← vset f 0 (x0 + 2.0 * s.sum1 / s.count1)
  let x0 ← vget x 0
  vset f 1 (1.0 - x0 * x0 + 2.0 * s.sum2 / s.count2)

/-- The statements of `UF5` that follow its loop, as a function of the locals `s` with
which the loop ends. -/
def UF5_after_loop {α : Type} [LinearOrderedField α] (T : Libm α)
    (s : Acc2 α) (f x : List α) : Except Fault (List α) := do
  let N : α := 10.0
  let E : α := 0.1
  let x0 ← vget x 0
  let hj := (0.5 / N + E) * |T.sin (2.0 * N * T.pi * x0)|
  let f ← vset f 0 (x0 + hj + 2.0 * s.sum1 / s.count1)
  let x0 ← vget x 0
  vset f 1 (1.0 - x0 + hj + 2.0 * s.sum2 / s.count2)

/-- The statements of `UF6` that follow its loop, as a function of the locals `s` with
which the loop ends. -/
def UF6_after_loop {α : Type} [LinearOrderedField α] (T : Libm α)
    (s : Acc2p α) (f x : List α) : Except Fault (List α) := do
  let N : α := 2.0
  let E : α := 0.1
  let x0 ← vget x 0
  let hj := 2.0 * (0.5 / N + E) * T.sin (2.0 * N * T.pi * x0)
  let hj := if hj < 0.0 then 0.0 else hj
  let f ← vset f 0 (x0 + hj + 2.0 * (4.0 * s.sum1 - 2.0 * s.prod1 + 2.0) / s.count1)
  let x0 ← vget x 0
  vset f 1 (1.0 - x0 + hj + 2.0 * (4.0 * s.sum2 - 2.0 * s.prod2 + 2.0) / s.count2)

/-- The statements of `UF7` that follow its loop, as a function of the locals `s` with
which the loop ends. -/
def UF7_after_loop {α : Type} [LinearOrderedField α] (T : Libm α)
    (s : Acc2 α) (f x : List α) : Except Fault (List α) := do
  let x0 ← vget x 0
  let yj := T.pow x0 0.2
  let f ← vset f 0 (yj + 2.0 * s.sum1 / s.count1)
  vset f 1 (1.0 - yj + 2.0 * s.sum2 / s.count2)

/-- The statements of `UF8` that follow its loop, as a function of the locals `s` with
which the loop ends. -/
def UF8_after_loop {α : Type} [LinearOrderedField α] (T : Libm α)
    (s : Acc3 α) (f x : List α) : Except Fault (List α) := do
  let x0 ← vget x 0
  let x1 ← vget x 1
  let f ← vset f 0 (T.cos (0.5 * T.pi * x0) * T.cos (0.5 * T.pi * x1) + 2.0 * s.sum1 / s.count1)
  let x0 ← vget x 0
  let x1 ← vget x 1
  let f ← vset f 1 (T.cos (0.5 * T.pi * x0) * T.sin (0.5 * T.pi * x1) + 2.0 * s.sum2 / s.count2)
  let x0 ← vget x 0
  vset f 2 (T.sin (0.5 * T.pi * x0) + 2.0 * s.sum3 / s.count3)

/-- The statements of `UF9` that follow its loop, as a function of the locals `s` with
which the loop ends. -/
def UF9_after_loop {α : Type} [LinearOrderedField α]
    (s : Acc3 α) (f x : List α) : Except Fault (List α) := do
  let E : α := 0.1
  let x0 ← vget x 0
  let yj := (1.0 + E) * (1.0 - 4.0 * (2.0 * x0 - 1.0) * (2.0 * x0 - 1.0))
  let yj := if yj < 0.0 then 0.0 else yj
  let x0 ← vget x 0
  let x1 ← vget x 1
  let f ← vset f 0 (0.5 * (yj + 2 * x0) * x1 + 2.0 * s.sum1 / s.count1)
  let x0 ← vget x 0
  let x1 ← vget x 1
  let f ← vset f 1 (0.5 * (yj - 2 * x0 + 2.0) * x1 + 2.0 * s.sum2 / s.count2)
  let x1 ← vget x 1
  vset f 2 (1.0 - x1 + 2.0 * s.sum3 / s.count3)

/-- The statements of `UF10` that follow its loop, as a function of the locals `s` with
which the loop ends. -/
def UF10_after_loop {α : Type} [LinearOrderedField α] (T : Libm α)
    (s : Acc3 α) (f x : List α) : Except Fault (List α) := do
  let x0 ← vget x 0
  let x1 ← vget x 1
  let f ← vset f 0 (T.cos (0.5 * T.pi * x0) * T.cos (0.5 * T.pi * x1) + 2.0 * s.sum1 / s.count1)
  let x0 ← vget x 0
  let x1 ← vget x 1
  let f ← vset f 1 (T.cos (0.5 * T.pi * x0) * T.sin (0.5 * T.pi * x1) + 2.0 * s.sum2 / s.count2)
  let x0 ← vget x 0
  vset f 2 (T.sin (0.5 * T.pi * x0) + 2.0 * s.sum3 / s.count3)

/-- The statements of `CF1` that follow its loop, as a function of the locals `s` with
which the loop ends. -/
def CF1_after_loop {α : Type} [LinearOrderedField α] (T : Libm α)
    (s : Acc2 α) (f x : List α) : Except Fault (List α) := do
  let N : α := 10.0
  let a : α := 1.0
  let x0 ← vget x 0
  let f ← vset f 0 (x0 + 2.0 * s.sum1 / s.count1)
  let x0 ← vget x 0
  let f ← vset f 1 (1.0 - x0 + 2.0 * s.sum2 / s.count2)
  let f1 ← vget f 1
  let f0 ← vget f 0
  let f ← vset f 2 (f1 + f0 - a * |T.sin (N * T.pi * (f0 - f1 + 1.0))| - 1.0)
  let f2 ← vget f 2
  vset f 2 (-f2)

/-- The statements of `CF2` that follow its loop, as a function of the locals `s` with
which the loop ends. -/
def CF2_after_loop {α : Type} [LinearOrderedField α] (T : Libm α)
    (s : Acc2 α) (f x : List α) : Except Fault (List α) := do
  let N : α := 2.0
  let a : α := 1.0
  let x0 ← vget x 0
  let f ← vset f 0 (x0 + 2.0 * s.sum1 / s.count1)
  let x0 ← vget x 0
  let f ← vset f 1 (1.0 - T.sqrt x0 + 2.0 * s.sum2 / s.count2)
  let f1 ← vget f 1
  let f0 ← vget f 0
  let t := f1 + T.sqrt f0 - a * T.sin (N * T.pi * (T.sqrt f0 - f1 + 1.0)) - 1.0
  let f ← vset f 2 (sgn t * |t| / (1 + T.exp (4.0 * |t|)))
  let f2 ← vget f 2
  vset f 2 (-f2)

/-- The statements of `CF3` that follow its loop, as a function of the locals `s` with
which the loop ends. -/
def CF3_after_loop {α : Type} [LinearOrderedField α] (T : Libm α)
    (s : Acc2p α) (f x : List α) : Except Fault (List α) := do
  let N : α := 2.0
  let a : α := 1.0
  let x0 ← vget x 0
  let f ← vset f 0 (x0 + 2.0 * (4.0 * s.sum1 - 2.0 * s.prod1 + 2.0) / s.count1)
  let x0 ← vget x 0
  let f ← vset f 1 (1.0 - x0 * x0 + 2.0 * (4.0 * s.sum2 - 2.0 * s.prod2 + 2.0) / s.count2)
  let f1 ← vget f 1
  let f0 ← vget f 0
  let f ← vset f 2 (f1 + f0 * f0 - a * T.sin (N * T.pi * (f0 * f0 - f1 + 1.0)) - 1.0)
  let f2 ← vget f 2
  vset f 2 (-f2)

/-- The statements of `CF8` that follow its loop, as a function of the locals `s` with
which the loop ends. -/
def CF8_after_loop {α : Type} [LinearOrderedField α] (T : Libm α)
    (s : Acc3 α) (f x : List α) : Except Fault (List α) := do
  let N : α := 2.0
  let a : α := 4.0
  let x0 ← vget x 0
  let x1 ← vget x 1
  let f ← vset f 0 (T.cos (0.5 * T.pi * x0) * T.cos (0.5 * T.pi * x1) + 2.0 * s.sum1 / s.count1)
  let x0 ← vget x 0
  let x1 ← vget x 1
  let f ← vset f 1 (T.cos (0.5 * T.pi * x0) * T.sin (0.5 * T.pi * x1) + 2.0 * s.sum2 / s.count2)
  let x0 ← vget x 0
  let f ← vset f 2 (T.sin (0.5 * T.pi * x0) + 2.0 * s.sum3 / s.count3)
  let f0 ← vget f 0
  let f1 ← vget f 1
  let f2 ← vget f 2
  let f ← vset f 3
    ((f0 * f0 + f1 * f1) / (1 - f2 * f2)
      - a * |T.sin (N * T.pi * ((f0 * f0 - f1 * f1) / (1 - f2 * f2) + 1.0))| - 1.0)
  let f3 ← vget f 3
  vset f 3 (-f3)

/-- The statements of `CF9` that follow its loop, as a function of the locals `s` with
which the loop ends. -/
def CF9_after_loop {α : Type} [LinearOrderedField α] (T : Libm α)
    (s : Acc3 α) (f x : List α) : Except Fault (List α) := do
  let N : α := 2.0
  let a : α := 3.0
  let x0 ← vget x 0
  let x1 ← vget x 1
  let f ← vset f 0 (T.cos (0.5 * T.pi * x0) * T.cos (0.5 * T.pi * x1) + 2.0 * s.sum1 / s.count1)
  let x0 ← vget x 0
  let x1 ← vget x 1
  let f ← vset f 1 (T.cos (0.5 * T.pi * x0) * T.sin (0.5 * T.pi * x1) + 2.0 * s.sum2 / s.count2)
  let x0 ← vget x 0
  let f ← vset f 2 (T.sin (0.5 * T.pi * x0) + 2.0 * s.sum3 / s.count3)
  let f0 ← vget f 0
  let f1 ← vget f 1
  let f2 ← vget f 2
  let f ← vset f 3
    ((f0 * f0 + f1 * f1) / (1 - f2 * f2)
      - a * T.sin (N * T.pi * ((f0 * f0 - f1 * f1) / (1 - f2 * f2) + 1.0)) - 1.0)
  let f3 ← vget f 3
  vset f 3 (-f3)

/-- The statements of `CF10` that follow its loop, as a function of the locals `s` with
which the loop ends. -/
def CF10_after_loop {α : Type} [LinearOrderedField α] (T : Libm α)
    (s : Acc3 α) (f x : List α) : Except Fault (List α) := do
  let N : α := 2.0
  let a : α := 1.0
  let x0 ← vget x 0
  let x1 ← vget x 1
  let f ← vset f 0 (T.cos (0.5 * T.pi * x0) * T.cos (0.5 * T.pi * x1) + 2.0 * s.sum1 / s.count1)
  let x0 ← vget x 0
  let x1 ← vget x 1
  let f ← vset f 1 (T.cos (0.5 * T.pi * x0) * T.sin (0.5 * T.pi * x1) + 2.0 * s.sum2 / s.count2)
  let x0 ← vget x 0
  let f ← vset f 2 (T.sin (0.5 * T.pi * x0) + 2.0 * s.sum3 / s.count3)
  let f0 ← vget f 0
  let f1 ← vget f 1
  let f2 ← vget f 2
  let f ← vset f 3
    ((f0 * f0 + f1 * f1) / (1 - f2 * f2)
      - a * T.sin (N * T.pi * ((f0 * f0 - f1 * f1) / (1 - f2 * f2) + 1.0)) - 1.0)
  let f3 ← vget f 3
  vset f 3 (-f3)

/-- An instance of dimension 5: with five components every class of every loop is
non-empty. -/
def counters_instance : pagmo.cec2009 :=
  { m_prob_id := 8, m_is_constrained := true, m_dim := 5 }

/-- The residual `t` of the constraint of CF2, as a function of the two objectives:
`t = f1 + sqrt(f0) - a*sin(N*pi*(sqrt(f0) - f1 + 1)) - 1` with `a = 1`, `N = 2`. -/
def CF2_residual {α : Type} [LinearOrderedField α] (T : Libm α) (f0 f1 : α) : α :=
  f1 + T.sqrt f0 - 1.0 * T.sin (2.0 * T.pi * (T.sqrt f0 - f1 + 1.0)) - 1.0

/-- The residual `t` of the constraint of CF4:
`t = x[1] - sin(6*x[0]*pi + 2*pi/n) - 0.5*x[0] + 0.25`. -/
def CF4_residual {α : Type} [LinearOrderedField α] (T : Libm α) (n : Nat) (x : List α) : α :=
  x.getD 1 0 - T.sin (6.0 * x.getD 0 0 * T.pi + 2.0 * T.pi / (n : α)) - 0.5 * x.getD 0 0 + 0.25

/-- The effect of one iteration at the index `j` on the counters of a two-class loop. -/
def count_step2 {α : Type} [LinearOrderedField α] (l : List α) (j : Nat) : List α :=
  if j % 2 = 0 then [l.getD 0 0, l.getD 1 0 + 1] else [l.getD 0 0 + 1, l.getD 1 0]

/-- The effect of one iteration at the index `j` on the counters of a three-class loop. -/
def count_step3 {α : Type} [LinearOrderedField α] (l : List α) (j : Nat) : List α :=
  if j % 3 = 1 then [l.getD 0 0 + 1, l.getD 1 0, l.getD 2 0]
  else if j % 3 = 2 then [l.getD 0 0, l.getD 1 0 + 1, l.getD 2 0]
  else [l.getD 0 0, l.getD 1 0, l.getD 2 0 + 1]

/-- The relation between an evaluator and the counters of its loop.
`counters_of_loop E loop rest counts closed n nmin len` says: the evaluator `E` is the loop
`loop` followed by the statements `rest`, which receive the locals `s` the loop ends with;
whenever the loop ends, its counters `counts s` are the list `closed`, and they are all
non-zero if and only if `nmin <= n`; and on a vector of the length `len = n` of the
dimension, with `1 <= n < 2^32 - 1`, the loop ends on every fuel above `n`. -/
def counters_of_loop {α σ : Type} [LinearOrderedField α]
    (E : Nat → List α → Except Fault (List α)) (loop : Nat → Except Fault σ)
    (rest : σ → List α → Except Fault (List α)) (counts : σ → List α) (closed : List α)
    (n nmin len : Nat) : Prop :=
  (∀ fuel f, E fuel f = (loop fuel >>= fun s => rest s f)) ∧
    (∀ fuel s, loop fuel = Except.ok s →
      counts s = closed ∧ ((∀ d ∈ counts s, d ≠ 0) ↔ nmin ≤ n)) ∧
    (len = n → 1 ≤ n → n + 1 < UINT_MOD → ∀ fuel, n < fuel → ∃ s, loop fuel = Except.ok s)

end pagmo

/-! ## Basic facts about the embedding -/

namespace pagmo

section basics

variable {β γ σ : Type}

theorem vget_of_lt (x : List β) (i : Nat) (d : β) (h : i < x.length) :
    vget x i = Except.ok (x.getD i d) := by
  simp [vget, List.getElem?_eq_getElem h, List.getD_eq_getElem _ _ h]

theorem vget_of_le (x : List β) (i : Nat) (h : x.length ≤ i) :
    vget x i = Except.error (Fault.out_of_range i) := by
  simp [vget, List.getElem?_eq_none h]

theorem vset_of_lt (f : List β) (i : Nat) (v : β) (h : i < f.length) :
    vset f i v = Except.ok (f.set i v) := by
  simp [vset, h]

@[simp] theorem ok_bind (a : β) (g : β → Except Fault γ) :
    (Except.ok a >>= g) = g a := rfl

@[simp] theorem error_bind (e : Fault) (g : β → Except Fault γ) :
    ((Except.error e : Except Fault β) >>= g) = Except.error e := rfl

@[simp] theorem pure_eq_ok (a : β) : (pure a : Except Fault β) = Except.ok a := rfl

theorem usub_one (j : Nat) (h1 : 1 ≤ j) (h2 : j < UINT_MOD) : usub j 1 = j - 1 := by
  unfold usub UINT_MOD at *
  omega

theorem uinc_of_lt (j : Nat) (h : j + 1 < UINT_MOD) : uinc j = j + 1 := by
  unfold uinc
  exact Nat.mod_eq_of_lt h

/-- A terminating `j <= m` loop whose body never faults is a left fold. -/
theorem forLe_eq_foldl (body : Nat → σ → Except Fault σ) (g : σ → Nat → σ) (m : Nat)
    (hm : m + 1 < UINT_MOD) :
    ∀ (fuel j : Nat) (s : σ), j ≤ m + 1 → m + 1 < fuel + j →
      (∀ i t, j ≤ i → i ≤ m → body i t = Except.ok (g t i)) →
      forLe body m fuel j s = Except.ok ((List.range' j (m + 1 - j)).foldl g s) := by
  intro fuel
  induction fuel with
  | zero => intro j s h1 h2; omega
  | succ k ih =>
    intro j s h1 h2 hb
    by_cases hj : j ≤ m
    · have hu : uinc j = j + 1 := uinc_of_lt j (by omega)
      have e : m + 1 - j = (m + 1 - (j + 1)) + 1 := by omega
      rw [forLe, if_pos hj, hb j s (le_refl j) hj, e, List.range'_succ, List.foldl_cons]
      simp only [hu]
      exact ih (j + 1) (g s j) (by omega) (by omega) (fun i t h3 h4 => hb i t (by omega) h4)
    · have e : m + 1 - j = 0 := by omega
      rw [forLe, if_neg hj, e]
      rfl

/-- A terminating `j <= m` loop whose body never faults returns. -/
theorem forLe_ok (body : Nat → σ → Except Fault σ) (m : Nat) (hm : m + 1 < UINT_MOD) :
    ∀ (fuel j : Nat) (s : σ), j ≤ m + 1 → m + 1 < fuel + j →
      (∀ i t, j ≤ i → i ≤ m → ∃ t1, body i t = Except.ok t1) →
      ∃ s1, forLe body m fuel j s = Except.ok s1 := by
  intro fuel
  induction fuel with
  | zero => intro j s h1 h2; omega
  | succ k ih =>
    intro j s h1 h2 hb
    by_cases hj : j ≤ m
    · have hu : uinc j = j + 1 := uinc_of_lt j (by omega)
      obtain ⟨t1, ht1⟩ := hb j s (le_refl j) hj
      rw [forLe, if_pos hj, ht1]
      simp only [hu]
      exact ih (j + 1) t1 (by omega) (by omega) (fun i t h3 h4 => hb i t (by omega) h4)
    · exact ⟨s, by rw [forLe, if_neg hj]⟩

/-- With the largest unsigned value as bound, a `j <= m` loop never exits normally. -/
theorem forLe_uint_max (body : Nat → σ → Except Fault σ) :
    ∀ (fuel j : Nat) (s : σ), j < UINT_MOD →
      ∃ e, forLe body (UINT_MOD - 1) fuel j s = Except.error e := by
  intro fuel
  induction fuel with
  | zero => intro j s _; exact ⟨Fault.out_of_fuel, rfl⟩
  | succ k ih =>
    intro j s hj
    have hle : j ≤ UINT_MOD - 1 := by omega
    rw [forLe, if_pos hle]
    cases hb : body j s with
    | error e => exact ⟨e, rfl⟩
    | ok s1 => exact ih (uinc j) s1 (Nat.mod_lt _ (by decide))

end basics

end pagmo

/-! ## Construction and the two counts (C1, C3, C4) -/

namespace pagmo

open cec2009

theorem ctor_ok_iff (prob_id : Nat) (c : Bool) (dim : Nat) (p : pagmo.cec2009) :
    cec2009.cec2009 prob_id c dim = Except.ok p ↔
      (1 ≤ prob_id ∧ prob_id ≤ 10 ∧ 1 ≤ dim) ∧
        p = { m_prob_id := prob_id, m_is_constrained := c, m_dim := dim } := by
  unfold cec2009.cec2009
  by_cases h1 : prob_id < 1 ∨ prob_id > 10
  · rw [if_pos h1]
    constructor
    · intro h; cases h
    · rintro ⟨⟨a, b, _⟩, _⟩; omega
  · rw [if_neg h1]
    by_cases h2 : dim < 1
    · rw [if_pos h2]
      constructor
      · intro h; cases h
      · rintro ⟨⟨_, _, a⟩, _⟩; omega
    · rw [if_neg h2]
      constructor
      · intro h
        injection h with h
        exact ⟨⟨by omega, by omega, by omega⟩, h.symm⟩
      · rintro ⟨_, rfl⟩; rfl

theorem nobj_lookup (i : Nat) (h1 : 1 ≤ i) (h2 : i ≤ 10) :
    vget cec2009_data.nobj (usub i 1) = Except.ok (if i ≤ 7 then 2 else 3) := by
  rw [usub_one i h1 (by unfold UINT_MOD; omega)]
  interval_cases i <;> rfl

theorem nic_lookup (i : Nat) (h1 : 1 ≤ i) (h2 : i ≤ 10) :
    vget cec2009_data.nic (usub i 1) = Except.ok (if i = 6 ∨ i = 7 then 2 else 1) := by
  rw [usub_one i h1 (by unfold UINT_MOD; omega)]
  interval_cases i <;> rfl

theorem get_nic_constrained (k n : Nat) (h1 : 1 ≤ k) (h2 : k ≤ 10) :
    get_nic { m_prob_id := k, m_is_constrained := true, m_dim := n }
      = Except.ok (if k = 6 ∨ k = 7 then 2 else 1) := by
  simpa [get_nic] using nic_lookup k h1 h2

/-- C1: the constructor fails with `invalid_argument` exactly when `prob_id < 1`,
`prob_id > 10` or `dim = 0`, and otherwise returns the instance holding the three given
values; `(0,false,5)`, `(11,true,5)`, `(3,false,0)` fail and `(3,false,5)` succeeds. -/
theorem ctor_validation (prob_id : Nat) (is_constrained : Bool) (dim : Nat) :
    (cec2009.cec2009 prob_id is_constrained dim = Except.error Fault.invalid_argument ↔
        (prob_id < 1 ∨ prob_id > 10 ∨ dim = 0)) ∧
      cec2009.cec2009 prob_id is_constrained dim =
        (if prob_id < 1 ∨ prob_id > 10 ∨ dim = 0 then Except.error Fault.invalid_argument
         else Except.ok
          { m_prob_id := prob_id, m_is_constrained := is_constrained, m_dim := dim }) ∧
      cec2009.cec2009 0 false 5 = Except.error Fault.invalid_argument ∧
      cec2009.cec2009 11 true 5 = Except.error Fault.invalid_argument ∧
      cec2009.cec2009 3 false 0 = Except.error Fault.invalid_argument ∧
      cec2009.cec2009 3 false 5 =
        Except.ok { m_prob_id := 3, m_is_constrained := false, m_dim := 5 } := by
  have key : cec2009.cec2009 prob_id is_constrained dim =
      (if prob_id < 1 ∨ prob_id > 10 ∨ dim = 0 then Except.error Fault.invalid_argument
       else Except.ok
        { m_prob_id := prob_id, m_is_constrained := is_constrained, m_dim := dim }) := by
    unfold cec2009.cec2009
    by_cases h1 : prob_id < 1 ∨ prob_id > 10
    · rw [if_pos h1, if_pos (by omega)]
    · rw [if_neg h1]
      by_cases h2 : dim < 1
      · rw [if_pos h2, if_pos (by omega)]
      · rw [if_neg h2, if_neg (by omega)]
  refine ⟨?_, key, rfl, rfl, rfl, rfl⟩
  rw [key]
  by_cases h : prob_id < 1 ∨ prob_id > 10 ∨ dim = 0
  · rw [if_pos h]
    exact ⟨fun _ => h, fun _ => rfl⟩
  · rw [if_neg h]
    exact ⟨fun e => (by cases e), fun e => absurd e h⟩

/-- C3: on every instance the constructor returns, `get_nobj` is 2 for `prob_id` in 1..7
and 3 for `prob_id` in 8..10; a second constructed instance with the same `prob_id` gives
the same value whatever its `is_constrained` flag and dimension. -/
theorem get_nobj_value (prob_id : Nat) (c c1 : Bool) (dim dim1 : Nat) (p p1 : pagmo.cec2009)
    (hp : cec2009.cec2009 prob_id c dim = Except.ok p)
    (hp1 : cec2009.cec2009 prob_id c1 dim1 = Except.ok p1) :
    get_nobj p = Except.ok (if prob_id ≤ 7 then 2 else 3) ∧ get_nobj p1 = get_nobj p := by
  obtain ⟨⟨h1, h2, _⟩, rfl⟩ := (ctor_ok_iff _ _ _ _).1 hp
  obtain ⟨_, rfl⟩ := (ctor_ok_iff _ _ _ _).1 hp1
  exact ⟨nobj_lookup prob_id h1 h2, rfl⟩

theorem get_nobj_value_witness :
    get_nobj { m_prob_id := 8, m_is_constrained := true, m_dim := 5 }
        = Except.ok (if 8 ≤ 7 then 2 else 3) ∧
      get_nobj { m_prob_id := 8, m_is_constrained := false, m_dim := 30 }
        = get_nobj { m_prob_id := 8, m_is_constrained := true, m_dim := 5 } :=
  get_nobj_value 8 true false 5 30 { m_prob_id := 8, m_is_constrained := true, m_dim := 5 }
    { m_prob_id := 8, m_is_constrained := false, m_dim := 30 } rfl rfl

/-- C4: on every instance the constructor returns, `get_nic` is 0 when `is_constrained` is
false, and when it is true it is 2 for `prob_id` 6 and 7 and 1 for the other ids. -/
theorem get_nic_value (prob_id : Nat) (c : Bool) (dim : Nat) (p : pagmo.cec2009)
    (hp : cec2009.cec2009 prob_id c dim = Except.ok p) :
    get_nic p = Except.ok
      (if c = false then 0 else if prob_id = 6 ∨ prob_id = 7 then 2 else 1) := by
  obtain ⟨⟨h1, h2, _⟩, rfl⟩ := (ctor_ok_iff _ _ _ _).1 hp
  cases c
  · rfl
  · simpa [get_nic] using nic_lookup prob_id h1 h2

theorem get_nic_value_witness :
    get_nic { m_prob_id := 6, m_is_constrained := true, m_dim := 4 } = Except.ok
      (if true = false then 0 else if 6 = 6 ∨ 6 = 7 then 2 else 1) :=
  get_nic_value 6 true 4 { m_prob_id := 6, m_is_constrained := true, m_dim := 4 } rfl

/-! ## Bounds (C5, C6, C7) -/

section bounds

variable {α : Type} [LinearOrderedField α]

/-- The bounds loop from `i` overwrites the positions `i .. n-1` and nothing else. -/
theorem forLt_box_step (lo hi : α) (n : Nat) :
    ∀ (d i : Nat) (lb ub : List α), n - i = d → lb.length = n → ub.length = n →
      ∃ lb1 ub1, forLt (box_step lo hi) n i (lb, ub) = Except.ok (lb1, ub1) ∧
        lb1.length = n ∧ ub1.length = n ∧
        (∀ k, lb1.getD k 0 = if i ≤ k ∧ k < n then lo else lb.getD k 0) ∧
        (∀ k, ub1.getD k 0 = if i ≤ k ∧ k < n then hi else ub.getD k 0) := by
  intro d
  induction d with
  | zero =>
    intro i lb ub hd hl hu
    have hin : ¬ i < n := by omega
    refine ⟨lb, ub, by rw [forLt, if_neg hin], hl, hu, ?_, ?_⟩ <;>
      · intro k
        rw [if_neg (by omega)]
  | succ d ih =>
    intro i lb ub hd hl hu
    have hin : i < n := by omega
    have hstep : box_step lo hi i (lb, ub) = Except.ok (lb.set i lo, ub.set i hi) := by
      simp [box_step, vset, hl, hu, hin]
    obtain ⟨lb1, ub1, h, hl1, hu1, hk1, hk2⟩ :=
      ih (i + 1) (lb.set i lo) (ub.set i hi) (by omega) (by simpa using hl) (by simpa using hu)
    refine ⟨lb1, ub1, by rw [forLt, if_pos hin, hstep]; exact h, hl1, hu1, ?_, ?_⟩
    · intro k
      rw [hk1 k]
      by_cases hki : k = i
      · subst hki
        simp [List.getD_eq_getElem?_getD, List.getElem?_set, hl, hin]
      · by_cases hk : i + 1 ≤ k ∧ k < n
        · rw [if_pos hk, if_pos ⟨by omega, hk.2⟩]
        · rw [if_neg hk, if_neg (by omega)]
          simp [List.getD_eq_getElem?_getD, List.getElem?_set, Ne.symm hki]
    · intro k
      rw [hk2 k]
      by_cases hki : k = i
      · subst hki
        simp [List.getD_eq_getElem?_getD, List.getElem?_set, hu, hin]
      · by_cases hk : i + 1 ≤ k ∧ k < n
        · rw [if_pos hk, if_pos ⟨by omega, hk.2⟩]
        · rw [if_neg hk, if_neg (by omega)]
          simp [List.getD_eq_getElem?_getD, List.getElem?_set, Ne.symm hki]

/-- Branch shape `lb[0] = 0; ub[0] = 1; for (i = 1; ...)`. -/
theorem bounds_first_rest (lo hi : α) (n : Nat) (hn : 1 ≤ n) :
    ∃ lb ub : List α,
      (vset (List.replicate n (0 : α)) 0 0 >>= fun lb =>
        vset (List.replicate n (0 : α)) 0 1 >>= fun ub =>
          forLt (box_step lo hi) n 1 (lb, ub)) = Except.ok (lb, ub) ∧
      lb.length = n ∧ ub.length = n ∧
      ∀ k, k < n → (lb.getD k 0, ub.getD k 0) = if k = 0 then ((0 : α), (1 : α)) else (lo, hi) := by
  obtain ⟨lb, ub, h, hl, hu, h1, h2⟩ := forLt_box_step lo hi n (n - 1) 1
    ((List.replicate n (0 : α)).set 0 0) ((List.replicate n (0 : α)).set 0 1) rfl
    (by simp) (by simp)
  refine ⟨lb, ub, ?_, hl, hu, ?_⟩
  · rw [vset_of_lt _ _ _ (by simpa using hn), vset_of_lt _ _ _ (by simpa using hn)]
    exact h
  · intro k hk
    rw [h1 k, h2 k]
    by_cases hk0 : k = 0
    · subst hk0
      simp [List.getD_eq_getElem?_getD, List.getElem?_set, hk]
    · rw [if_pos ⟨by omega, hk⟩, if_pos ⟨by omega, hk⟩, if_neg hk0]

/-- Branch shape `for (i = 0; ...)` with the interval `[0,1]`. -/
theorem bounds_all (n : Nat) :
    ∃ lb ub : List α,
      forLt (box_step (0 : α) 1) n 0 (List.replicate n (0 : α), List.replicate n (0 : α))
        = Except.ok (lb, ub) ∧
      lb.length = n ∧ ub.length = n ∧
      ∀ k, k < n → (lb.getD k 0, ub.getD k 0) = ((0 : α), (1 : α)) := by
  obtain ⟨lb, ub, h, hl, hu, h1, h2⟩ := forLt_box_step (0 : α) 1 n n 0
    (List.replicate n (0 : α)) (List.replicate n (0 : α)) rfl (by simp) (by simp)
  refine ⟨lb, ub, h, hl, hu, ?_⟩
  intro k hk
  rw [h1 k, h2 k, if_pos ⟨by omega, hk⟩, if_pos ⟨by omega, hk⟩]

/-- Branch shape `lb[0] = 0; ub[0] = 1; lb[1] = 0; ub[1] = 1; for (i = 2; ...)`. -/
theorem bounds_two_rest (lo hi : α) (n : Nat) (hn : 2 ≤ n) :
    ∃ lb ub : List α,
      (vset (List.replicate n (0 : α)) 0 0 >>= fun lb =>
        vset (List.replicate n (0 : α)) 0 1 >>= fun ub =>
          vset lb 1 0 >>= fun lb =>
            vset ub 1 1 >>= fun ub =>
              forLt (box_step lo hi) n 2 (lb, ub)) = Except.ok (lb, ub) ∧
      lb.length = n ∧ ub.length = n ∧
      ∀ k, k < n → (lb.getD k 0, ub.getD k 0) =
        if k = 0 then ((0 : α), (1 : α)) else if k = 1 then ((0 : α), (1 : α)) else (lo, hi) := by
  obtain ⟨lb, ub, h, hl, hu, h1, h2⟩ := forLt_box_step lo hi n (n - 2) 2
    (((List.replicate n (0 : α)).set 0 0).set 1 0) (((List.replicate n (0 : α)).set 0 1).set 1 1)
    rfl (by simp) (by simp)
  refine ⟨lb, ub, ?_, hl, hu, ?_⟩
  · rw [vset_of_lt _ _ _ (by simp; omega), ok_bind, vset_of_lt _ _ _ (by simp; omega), ok_bind,
      vset_of_lt _ _ _ (by simp; omega), ok_bind, vset_of_lt _ _ _ (by simp; omega), ok_bind]
    exact h
  · intro k hk
    rw [h1 k, h2 k]
    by_cases hk0 : k = 0
    · subst hk0
      have : 0 < n := by omega
      simp [List.getD_eq_getElem?_getD, List.getElem?_set, this]
    · by_cases hk1 : k = 1
      · subst hk1
        have : 1 < n := by omega
        simp [List.getD_eq_getElem?_getD, List.getElem?_set, this]
      · rw [if_pos ⟨by omega, hk⟩, if_pos ⟨by omega, hk⟩, if_neg hk0, if_neg hk1]

/-- Closed form of `get_bounds`: for a valid `prob_id`, a dimension of at least 1, and of at
least 2 when `prob_id` is 8, 9 or 10, both vectors have the dimension as length and hold
the intervals of the case table. -/
theorem get_bounds_table (prob_id : Nat) (c : Bool) (n : Nat) (h1 : 1 ≤ prob_id)
    (h2 : prob_id ≤ 10) (hn : 1 ≤ n) (h8 : 8 ≤ prob_id → 2 ≤ n) :
    ∃ lb ub : List α,
      get_bounds { m_prob_id := prob_id, m_is_constrained := c, m_dim := n }
        = Except.ok (lb, ub) ∧
      lb.length = n ∧ ub.length = n ∧
      ∀ k, k < n → (lb.getD k 0, ub.getD k 0) =
        if c then CF_case_table α prob_id k else UF_case_table α prob_id k := by
  cases c <;> interval_cases prob_id <;>
    simp only [get_bounds, UF_case_table, CF_case_table, Bool.not_false, Bool.not_true,
      if_true, if_false, Bool.false_eq_true, reduceIte, Nat.reduceEqDiff, or_false, or_true,
      false_or, true_or, OfNat.ofNat_ne_one, OfNat.one_ne_ofNat, ite_self] <;>
    first
    | exact bounds_first_rest _ _ n hn
    | exact bounds_all n
    | exact bounds_two_rest _ _ n (h8 (by omega))

/-- Where `get_bounds_table` applies, every lower bound is at most its upper bound. -/
theorem get_bounds_lower_le_upper (prob_id : Nat) (c : Bool) (n : Nat) (h1 : 1 ≤ prob_id)
    (h2 : prob_id ≤ 10) (hn : 1 ≤ n) (h8 : 8 ≤ prob_id → 2 ≤ n) :
    ∃ lb ub : List α,
      get_bounds { m_prob_id := prob_id, m_is_constrained := c, m_dim := n }
        = Except.ok (lb, ub) ∧
      lb.length = n ∧ ub.length = n ∧ ∀ k, k < n → lb.getD k 0 ≤ ub.getD k 0 := by
  obtain ⟨lb, ub, h, hl, hu, hk⟩ := get_bounds_table (α := α) prob_id c n h1 h2 hn h8
  refine ⟨lb, ub, h, hl, hu, ?_⟩
  intro k hkn
  have e := hk k hkn
  have e1 : lb.getD k 0 = (if c then CF_case_table α prob_id k else UF_case_table α prob_id k).1 := by
    rw [← e]
  have e2 : ub.getD k 0 = (if c then CF_case_table α prob_id k else UF_case_table α prob_id k).2 := by
    rw [← e]
  rw [e1, e2]
  cases c <;> simp only [UF_case_table, CF_case_table, if_true, Bool.false_eq_true, if_false] <;>
    split_ifs <;> norm_num

/-- C5 (evaluation at the failing inputs): the constructor accepts dimension 1 for the
problems 8, 9 and 10, and `get_bounds` on these instances writes `lb[1]` outside `lb`, a
vector of length 1, instead of returning two sequences of length 1. -/
theorem get_bounds_dim_one_fault :
    cec2009.cec2009 8 false 1
        = Except.ok { m_prob_id := 8, m_is_constrained := false, m_dim := 1 } ∧
      (get_bounds { m_prob_id := 8, m_is_constrained := false, m_dim := 1 }
          : Except Fault (List ℚ × List ℚ)) = Except.error (Fault.out_of_range 1) ∧
      (get_bounds { m_prob_id := 9, m_is_constrained := false, m_dim := 1 }
          : Except Fault (List ℚ × List ℚ)) = Except.error (Fault.out_of_range 1) ∧
      (get_bounds { m_prob_id := 10, m_is_constrained := false, m_dim := 1 }
          : Except Fault (List ℚ × List ℚ)) = Except.error (Fault.out_of_range 1) ∧
      (get_bounds { m_prob_id := 8, m_is_constrained := true, m_dim := 1 }
          : Except Fault (List ℚ × List ℚ)) = Except.error (Fault.out_of_range 1) ∧
      (get_bounds { m_prob_id := 9, m_is_constrained := true, m_dim := 1 }
          : Except Fault (List ℚ × List ℚ)) = Except.error (Fault.out_of_range 1) ∧
      (get_bounds { m_prob_id := 10, m_is_constrained := true, m_dim := 1 }
          : Except Fault (List ℚ × List ℚ)) = Except.error (Fault.out_of_range 1) := by
  refine ⟨rfl, ?_, ?_, ?_, ?_, ?_, ?_⟩ <;> simp [get_bounds, vset]

/-- C6: for an unconstrained instance with `prob_id` in 1..10 and dimension `n >= 2`,
`get_bounds` returns two vectors of length `n` whose component `k` is the interval of the
UF case table: `[0,1]` at `k = 0`; `[-1,1]` at `k >= 1` for ids 1, 2, 5, 6, 7; `[0,1]`
everywhere for id 3; `[-2,2]` at `k >= 1` for id 4; `[0,1]` at `k = 1` and `[-2,2]` at
`k >= 2` for ids 8, 9, 10. -/
theorem get_bounds_UF_table (prob_id n : Nat) (h1 : 1 ≤ prob_id) (h2 : prob_id ≤ 10)
    (hn : 2 ≤ n) :
    ∃ lb ub : List α,
      get_bounds { m_prob_id := prob_id, m_is_constrained := false, m_dim := n }
        = Except.ok (lb, ub) ∧
      lb.length = n ∧ ub.length = n ∧
      ∀ k, k < n → (lb.getD k 0, ub.getD k 0) = UF_case_table α prob_id k := by
  obtain ⟨lb, ub, h, hl, hu, hk⟩ :=
    get_bounds_table (α := α) prob_id false n h1 h2 (by omega) (fun _ => hn)
  exact ⟨lb, ub, h, hl, hu, fun k hkn => by simpa using hk k hkn⟩

theorem get_bounds_UF_table_witness :
    ∃ lb ub : List ℚ,
      get_bounds { m_prob_id := 8, m_is_constrained := false, m_dim := 3 }
        = Except.ok (lb, ub) ∧
      lb.length = 3 ∧ ub.length = 3 ∧
      ∀ k, k < 3 → (lb.getD k 0, ub.getD k 0) = UF_case_table ℚ 8 k :=
  get_bounds_UF_table 8 3 (by decide) (by decide) (by decide)

/-- C7: for a constrained instance with `prob_id` in 1..10 and dimension `n >= 2`,
`get_bounds` returns two vectors of length `n` whose component `k` is the interval of the
CF case table: `[0,1]` at `k = 0`; `[0,1]` everywhere for id 1; `[-1,1]` at `k >= 1` for
id 2; `[-2,2]` at `k >= 1` for ids 3..7; `[0,1]` at `k = 1` for ids 8, 9, 10, then
`[-4,4]` at `k >= 2` for id 8 and `[-2,2]` at `k >= 2` for ids 9 and 10. -/
theorem get_bounds_CF_table (prob_id n : Nat) (h1 : 1 ≤ prob_id) (h2 : prob_id ≤ 10)
    (hn : 2 ≤ n) :
    ∃ lb ub : List α,
      get_bounds { m_prob_id := prob_id, m_is_constrained := true, m_dim := n }
        = Except.ok (lb, ub) ∧
      lb.length = n ∧ ub.length = n ∧
      ∀ k, k < n → (lb.getD k 0, ub.getD k 0) = CF_case_table α prob_id k := by
  obtain ⟨lb, ub, h, hl, hu, hk⟩ :=
    get_bounds_table (α := α) prob_id true n h1 h2 (by omega) (fun _ => hn)
  exact ⟨lb, ub, h, hl, hu, fun k hkn => by simpa using hk k hkn⟩

theorem get_bounds_CF_table_witness :
    ∃ lb ub : List ℚ,
      get_bounds { m_prob_id := 8, m_is_constrained := true, m_dim := 3 }
        = Except.ok (lb, ub) ∧
      lb.length = 3 ∧ ub.length = 3 ∧
      ∀ k, k < 3 → (lb.getD k 0, ub.getD k 0) = CF_case_table ℚ 8 k :=
  get_bounds_CF_table 8 3 (by decide) (by decide) (by decide)

end bounds

/-! ## Every evaluator returns a vector of the allocated length (C2) -/

section returns

variable {α : Type} [LinearOrderedField α]

theorem UF1_body_ok (T : Libm α) (n : Nat) (x : List α) (hx : x.length = n)
    (hn : n + 1 < UINT_MOD) (i : Nat) (t : Acc2 α) (h1 : 2 ≤ i) (h2 : i ≤ n) :
    ∃ t1, UF1_body T n x i t = Except.ok t1 := by
  have hU : i < UINT_MOD := by omega
  have ej := vget_of_lt x (i - 1) 0 (by omega)
  have e0 := vget_of_lt x 0 0 (by omega)
  simp only [UF1_body, usub_one i (by omega) hU, ej, e0, ok_bind, pure_eq_ok]
  split_ifs <;> exact ⟨_, rfl⟩

theorem UF1_returns (T : Libm α) (p : pagmo.cec2009) (fuel : Nat) (x : List α)
    (hx : x.length = p.m_dim) (h1 : 1 ≤ p.m_dim) (hn : p.m_dim + 1 < UINT_MOD)
    (hf : p.m_dim < fuel) :
    ∃ v, UF1 p T fuel (List.replicate 2 0.0) x = Except.ok v ∧ v.length = 2 := by
  obtain ⟨s, hs⟩ := forLe_ok (UF1_body T p.m_dim x) p.m_dim hn fuel 2
    ({ sum1 := 0.0, sum2 := 0.0, count1 := 0, count2 := 0 } : Acc2 α)
    (by omega) (by omega) (fun i t a b => UF1_body_ok T p.m_dim x hx hn i t a b)
  simp only [UF1, hs, vget_of_lt x 0 0 (by omega), ok_bind]
  simp [vset, vget]

theorem UF2_body_ok (T : Libm α) (n : Nat) (x : List α) (hx : x.length = n)
    (hn : n + 1 < UINT_MOD) (i : Nat) (t : Acc2 α) (h1 : 2 ≤ i) (h2 : i ≤ n) :
    ∃ t1, UF2_body T n x i t = Except.ok t1 := by
  have hU : i < UINT_MOD := by omega
  have ej := vget_of_lt x (i - 1) 0 (by omega)
  have e0 := vget_of_lt x 0 0 (by omega)
  simp only [UF2_body, usub_one i (by omega) hU, ej, e0, ok_bind, pure_eq_ok]
  split_ifs <;> exact ⟨_, rfl⟩

theorem UF2_returns (T : Libm α) (p : pagmo.cec2009) (fuel : Nat) (x : List α)
    (hx : x.length = p.m_dim) (h1 : 1 ≤ p.m_dim) (hn : p.m_dim + 1 < UINT_MOD)
    (hf : p.m_dim < fuel) :
    ∃ v, UF2 p T fuel (List.replicate 2 0.0) x = Except.ok v ∧ v.length = 2 := by
  obtain ⟨s, hs⟩ := forLe_ok (UF2_body T p.m_dim x) p.m_dim hn fuel 2
    ({ sum1 := 0.0, sum2 := 0.0, count1 := 0, count2 := 0 } : Acc2 α)
    (by omega) (by omega) (fun i t a b => UF2_body_ok T p.m_dim x hx hn i t a b)
  simp only [UF2, hs, vget_of_lt x 0 0 (by omega), ok_bind]
  simp [vset, vget]

theorem UF3_body_ok (T : Libm α) (n : Nat) (x : List α) (hx : x.length = n)
    (hn : n + 1 < UINT_MOD) (i : Nat) (t : Acc2p α) (h1 : 2 ≤ i) (h2 : i ≤ n) :
    ∃ t1, UF3_body T n x i t = Except.ok t1 := by
  have hU : i < UINT_MOD := by omega
  have ej := vget_of_lt x (i - 1) 0 (by omega)
  have e0 := vget_of_lt x 0 0 (by omega)
  simp only [UF3_body, usub_one i (by omega) hU, ej, e0, ok_bind, pure_eq_ok]
  split_ifs <;> exact ⟨_, rfl⟩

theorem UF3_returns (T : Libm α) (p : pagmo.cec2009) (fuel : Nat) (x : List α)
    (hx : x.length = p.m_dim) (h1 : 1 ≤ p.m_dim) (hn : p.m_dim + 1 < UINT_MOD)
    (hf : p.m_dim < fuel) :
    ∃ v, UF3 p T fuel (List.replicate 2 0.0) x = Except.ok v ∧ v.length = 2 := by
  obtain ⟨s, hs⟩ := forLe_ok (UF3_body T p.m_dim x) p.m_dim hn fuel 2
    ({ sum1 := 0.0, sum2 := 0.0, prod1 := 1.0, prod2 := 1.0, count1 := 0, count2 := 0 } : Acc2p α)
    (by omega) (by omega) (fun i t a b => UF3_body_ok T p.m_dim x hx hn i t a b)
  simp only [UF3, hs, vget_of_lt x 0 0 (by omega), ok_bind]
  simp [vset, vget]

theorem UF4_body_ok (T : Libm α) (n : Nat) (x : List α) (hx : x.length = n)
    (hn : n + 1 < UINT_MOD) (i : Nat) (t : Acc2 α) (h1 : 2 ≤ i) (h2 : i ≤ n) :
    ∃ t1, UF4_body T n x i t = Except.ok t1 := by
  have hU : i < UINT_MOD := by omega
  have ej := vget_of_lt x (i - 1) 0 (by omega)
  have e0 := vget_of_lt x 0 0 (by omega)
  simp only [UF4_body, usub_one i (by omega) hU, ej, e0, ok_bind, pure_eq_ok]
  split_ifs <;> exact ⟨_, rfl⟩

theorem UF4_returns (T : Libm α) (p : pagmo.cec2009) (fuel : Nat) (x : List α)
    (hx : x.length = p.m_dim) (h1 : 1 ≤ p.m_dim) (hn : p.m_dim + 1 < UINT_MOD)
    (hf : p.m_dim < fuel) :
    ∃ v, UF4 p T fuel (List.replicate 2 0.0) x = Except.ok v ∧ v.length = 2 := by
  obtain ⟨s, hs⟩ := forLe_ok (UF4_body T p.m_dim x) p.m_dim hn fuel 2
    ({ sum1 := 0.0, sum2 := 0.0, count1 := 0, count2 := 0 } : Acc2 α)
    (by omega) (by omega) (fun i t a b => UF4_body_ok T p.m_dim x hx hn i t a b)
  simp only [UF4, hs, vget_of_lt x 0 0 (by omega), ok_bind]
  simp [vset, vget]

theorem UF5_body_ok (T : Libm α) (n : Nat) (x : List α) (hx : x.length = n)
    (hn : n + 1 < UINT_MOD) (i : Nat) (t : Acc2 α) (h1 : 2 ≤ i) (h2 : i ≤ n) :
    ∃ t1, UF5_body T n x i t = Except.ok t1 := by
  have hU : i < UINT_MOD := by omega
  have ej := vget_of_lt x (i - 1) 0 (by omega)
  have e0 := vget_of_lt x 0 0 (by omega)
  simp only [UF5_body, usub_one i (by omega) hU, ej, e0, ok_bind, pure_eq_ok]
  split_ifs <;> exact ⟨_, rfl⟩

theorem UF5_returns (T : Libm α) (p : pagmo.cec2009) (fuel : Nat) (x : List α)
    (hx : x.length = p.m_dim) (h1 : 1 ≤ p.m_dim) (hn : p.m_dim + 1 < UINT_MOD)
    (hf : p.m_dim < fuel) :
    ∃ v, UF5 p T fuel (List.replicate 2 0.0) x = Except.ok v ∧ v.length = 2 := by
  obtain ⟨s, hs⟩ := forLe_ok (UF5_body T p.m_dim x) p.m_dim hn fuel 2
    ({ sum1 := 0.0, sum2 := 0.0, count1 := 0, count2 := 0 } : Acc2 α)
    (by omega) (by omega) (fun i t a b => UF5_body_ok T p.m_dim x hx hn i t a b)
  simp only [UF5, hs, vget_of_lt x 0 0 (by omega), ok_bind]
  simp [vset, vget]

theorem UF6_body_ok (T : Libm α) (n : Nat) (x : List α) (hx : x.length = n)
    (hn : n + 1 < UINT_MOD) (i : Nat) (t : Acc2p α) (h1 : 2 ≤ i) (h2 : i ≤ n) :
    ∃ t1, UF6_body T n x i t = Except.ok t1 := by
  have hU : i < UINT_MOD := by omega
  have ej := vget_of_lt x (i - 1) 0 (by omega)
  have e0 := vget_of_lt x 0 0 (by omega)
  simp only [UF6_body, usub_one i (by omega) hU, ej, e0, ok_bind, pure_eq_ok]
  split_ifs <;> exact ⟨_, rfl⟩

theorem UF6_returns (T : Libm α) (p : pagmo.cec2009) (fuel : Nat) (x : List α)
    (hx : x.length = p.m_dim) (h1 : 1 ≤ p.m_dim) (hn : p.m_dim + 1 < UINT_MOD)
    (hf : p.m_dim < fuel) :
    ∃ v, UF6 p T fuel (List.replicate 2 0.0) x = Except.ok v ∧ v.length = 2 := by
  obtain ⟨s, hs⟩ := forLe_ok (UF6_body T p.m_dim x) p.m_dim hn fuel 2
    ({ sum1 := 0.0, sum2 := 0.0, prod1 := 1.0, prod2 := 1.0, count1 := 0, count2 := 0 } : Acc2p α)
    (by omega) (by omega) (fun i t a b => UF6_body_ok T p.m_dim x hx hn i t a b)
  simp only [UF6, hs, vget_of_lt x 0 0 (by omega), ok_bind]
  simp [vset, vget]

theorem UF7_body_ok (T : Libm α) (n : Nat) (x : List α) (hx : x.length = n)
    (hn : n + 1 < UINT_MOD) (i : Nat) (t : Acc2 α) (h1 : 2 ≤ i) (h2 : i ≤ n) :
    ∃ t1, UF7_body T n x i t = Except.ok t1 := by
  have hU : i < UINT_MOD := by omega
  have ej := vget_of_lt x (i - 1) 0 (by omega)
  have e0 := vget_of_lt x 0 0 (by omega)
  simp only [UF7_body, usub_one i (by omega) hU, ej, e0, ok_bind, pure_eq_ok]
  split_ifs <;> exact ⟨_, rfl⟩

theorem UF7_returns (T : Libm α) (p : pagmo.cec2009) (fuel : Nat) (x : List α)
    (hx : x.length = p.m_dim) (h1 : 1 ≤ p.m_dim) (hn : p.m_dim + 1 < UINT_MOD)
    (hf : p.m_dim < fuel) :
    ∃ v, UF7 p T fuel (List.replicate 2 0.0) x = Except.ok v ∧ v.length = 2 := by
  obtain ⟨s, hs⟩ := forLe_ok (UF7_body T p.m_dim x) p.m_dim hn fuel 2
    ({ sum1 := 0.0, sum2 := 0.0, count1 := 0, count2 := 0 } : Acc2 α)
    (by omega) (by omega) (fun i t a b => UF7_body_ok T p.m_dim x hx hn i t a b)
  simp only [UF7, hs, vget_of_lt x 0 0 (by omega), ok_bind]
  simp [vset, vget]

theorem UF8_body_ok (T : Libm α) (n : Nat) (x : List α) (hx : x.length = n)
    (hn : n + 1 < UINT_MOD) (i : Nat) (t : Acc3 α) (h1 : 3 ≤ i) (h2 : i ≤ n) :
    ∃ t1, UF8_body T n x i t = Except.ok t1 := by
  have hU : i < UINT_MOD := by omega
  have ej := vget_of_lt x (i - 1) 0 (by omega)
  have e0 := vget_of_lt x 0 0 (by omega)
  have e1 := vget_of_lt x 1 0 (by omega)
  simp only [UF8_body, usub_one i (by omega) hU, ej, e0, e1, ok_bind, pure_eq_ok]
  split_ifs <;> exact ⟨_, rfl⟩

theorem UF8_returns (T : Libm α) (p : pagmo.cec2009) (fuel : Nat) (x : List α)
    (hx : x.length = p.m_dim) (h1 : 2 ≤ p.m_dim) (hn : p.m_dim + 1 < UINT_MOD)
    (hf : p.m_dim < fuel) :
    ∃ v, UF8 p T fuel (List.replicate 3 0.0) x = Except.ok v ∧ v.length = 3 := by
  obtain ⟨s, hs⟩ := forLe_ok (UF8_body T p.m_dim x) p.m_dim hn fuel 3
    ({ sum1 := 0.0, sum2 := 0.0, sum3 := 0.0, count1 := 0, count2 := 0, count3 := 0 } : Acc3 α)
    (by omega) (by omega) (fun i t a b => UF8_body_ok T p.m_dim x hx hn i t a b)
  simp only [UF8, hs, vget_of_lt x 0 0 (by omega), vget_of_lt x 1 0 (by omega), ok_bind]
  simp [vset, vget]

theorem UF9_body_ok (T : Libm α) (n : Nat) (x : List α) (hx : x.length = n)
    (hn : n + 1 < UINT_MOD) (i : Nat) (t : Acc3 α) (h1 : 3 ≤ i) (h2 : i ≤ n) :
    ∃ t1, UF9_body T n x i t = Except.ok t1 := by
  have hU : i < UINT_MOD := by omega
  have ej := vget_of_lt x (i - 1) 0 (by omega)
  have e0 := vget_of_lt x 0 0 (by omega)
  have e1 := vget_of_lt x 1 0 (by omega)
  simp only [UF9_body, usub_one i (by omega) hU, ej, e0, e1, ok_bind, pure_eq_ok]
  split_ifs <;> exact ⟨_, rfl⟩

theorem UF9_returns (T : Libm α) (p : pagmo.cec2009) (fuel : Nat) (x : List α)
    (hx : x.length = p.m_dim) (h1 : 2 ≤ p.m_dim) (hn : p.m_dim + 1 < UINT_MOD)
    (hf : p.m_dim < fuel) :
    ∃ v, UF9 p T fuel (List.replicate 3 0.0) x = Except.ok v ∧ v.length = 3 := by
  obtain ⟨s, hs⟩ := forLe_ok (UF9_body T p.m_dim x) p.m_dim hn fuel 3
    ({ sum1 := 0.0, sum2 := 0.0, sum3 := 0.0, count1 := 0, count2 := 0, count3 := 0 } : Acc3 α)
    (by omega) (by omega) (fun i t a b => UF9_body_ok T p.m_dim x hx hn i t a b)
  simp only [UF9, hs, vget_of_lt x 0 0 (by omega), vget_of_lt x 1 0 (by omega), ok_bind]
  simp [vset, vget]

theorem UF10_body_ok (T : Libm α) (n : Nat) (x : List α) (hx : x.length = n)
    (hn : n + 1 < UINT_MOD) (i : Nat) (t : Acc3 α) (h1 : 3 ≤ i) (h2 : i ≤ n) :
    ∃ t1, UF10_body T n x i t = Except.ok t1 := by
  have hU : i < UINT_MOD := by omega
  have ej := vget_of_lt x (i - 1) 0 (by omega)
  have e0 := vget_of_lt x 0 0 (by omega)
  have e1 := vget_of_lt x 1 0 (by omega)
  simp only [UF10_body, usub_one i (by omega) hU, ej, e0, e1, ok_bind, pure_eq_ok]
  split_ifs <;> exact ⟨_, rfl⟩

theorem UF10_returns (T : Libm α) (p : pagmo.cec2009) (fuel : Nat) (x : List α)
    (hx : x.length = p.m_dim) (h1 : 2 ≤ p.m_dim) (hn : p.m_dim + 1 < UINT_MOD)
    (hf : p.m_dim < fuel) :
    ∃ v, UF10 p T fuel (List.replicate 3 0.0) x = Except.ok v ∧ v.length = 3 := by
  obtain ⟨s, hs⟩ := forLe_ok (UF10_body T p.m_dim x) p.m_dim hn fuel 3
    ({ sum1 := 0.0, sum2 := 0.0, sum3 := 0.0, count1 := 0, count2 := 0, count3 := 0 } : Acc3 α)
    (by omega) (by omega) (fun i t a b => UF10_body_ok T p.m_dim x hx hn i t a b)
  simp only [UF10, hs, vget_of_lt x 0 0 (by omega), vget_of_lt x 1 0 (by omega), ok_bind]
  simp [vset, vget]

theorem CF1_body_ok (T : Libm α) (n : Nat) (x : List α) (hx : x.length = n)
    (hn : n + 1 < UINT_MOD) (i : Nat) (t : Acc2 α) (h1 : 2 ≤ i) (h2 : i ≤ n) :
    ∃ t1, CF1_body T n x i t = Except.ok t1 := by
  have hU : i < UINT_MOD := by omega
  have ej := vget_of_lt x (i - 1) 0 (by omega)
  have e0 := vget_of_lt x 0 0 (by omega)
  simp only [CF1_body, usub_one i (by omega) hU, ej, e0, ok_bind, pure_eq_ok]
  split_ifs <;> exact ⟨_, rfl⟩

theorem CF1_returns (T : Libm α) (p : pagmo.cec2009) (fuel : Nat) (x : List α)
    (hx : x.length = p.m_dim) (h1 : 1 ≤ p.m_dim) (hn : p.m_dim + 1 < UINT_MOD)
    (hf : p.m_dim < fuel) :
    ∃ v, CF1 p T fuel (List.replicate 3 0.0) x = Except.ok v ∧ v.length = 3 := by
  obtain ⟨s, hs⟩ := forLe_ok (CF1_body T p.m_dim x) p.m_dim hn fuel 2
    ({ sum1 := 0.0, sum2 := 0.0, count1 := 0, count2 := 0 } : Acc2 α)
    (by omega) (by omega) (fun i t a b => CF1_body_ok T p.m_dim x hx hn i t a b)
  simp only [CF1, hs, vget_of_lt x 0 0 (by omega), ok_bind]
  simp [vset, vget]

theorem CF2_body_ok (T : Libm α) (n : Nat) (x : List α) (hx : x.length = n)
    (hn : n + 1 < UINT_MOD) (i : Nat) (t : Acc2 α) (h1 : 2 ≤ i) (h2 : i ≤ n) :
    ∃ t1, CF2_body T n x i t = Except.ok t1 := by
  have hU : i < UINT_MOD := by omega
  have ej := vget_of_lt x (i - 1) 0 (by omega)
  have e0 := vget_of_lt x 0 0 (by omega)
  simp only [CF2_body, usub_one i (by omega) hU, ej, e0, ok_bind, pure_eq_ok]
  split_ifs <;> exact ⟨_, rfl⟩

theorem CF2_returns (T : Libm α) (p : pagmo.cec2009) (fuel : Nat) (x : List α)
    (hx : x.length = p.m_dim) (h1 : 1 ≤ p.m_dim) (hn : p.m_dim + 1 < UINT_MOD)
    (hf : p.m_dim < fuel) :
    ∃ v, CF2 p T fuel (List.replicate 3 0.0) x = Except.ok v ∧ v.length = 3 := by
  obtain ⟨s, hs⟩ := forLe_ok (CF2_body T p.m_dim x) p.m_dim hn fuel 2
    ({ sum1 := 0.0, sum2 := 0.0, count1 := 0, count2 := 0 } : Acc2 α)
    (by omega) (by omega) (fun i t a b => CF2_body_ok T p.m_dim x hx hn i t a b)
  simp only [CF2, hs, vget_of_lt x 0 0 (by omega), ok_bind]
  simp [vset, vget]

theorem CF3_body_ok (T : Libm α) (n : Nat) (x : List α) (hx : x.length = n)
    (hn : n + 1 < UINT_MOD) (i : Nat) (t : Acc2p α) (h1 : 2 ≤ i) (h2 : i ≤ n) :
    ∃ t1, CF3_body T n x i t = Except.ok t1 := by
  have hU : i < UINT_MOD := by omega
  have ej := vget_of_lt x (i - 1) 0 (by omega)
  have e0 := vget_of_lt x 0 0 (by omega)
  simp only [CF3_body, usub_one i (by omega) hU, ej, e0, ok_bind, pure_eq_ok]
  split_ifs <;> exact ⟨_, rfl⟩

theorem CF3_returns (T : Libm α) (p : pagmo.cec2009) (fuel : Nat) (x : List α)
    (hx : x.length = p.m_dim) (h1 : 1 ≤ p.m_dim) (hn : p.m_dim + 1 < UINT_MOD)
    (hf : p.m_dim < fuel) :
    ∃ v, CF3 p T fuel (List.replicate 3 0.0) x = Except.ok v ∧ v.length = 3 := by
  obtain ⟨s, hs⟩ := forLe_ok (CF3_body T p.m_dim x) p.m_dim hn fuel 2
    ({ sum1 := 0.0, sum2 := 0.0, prod1 := 1.0, prod2 := 1.0, count1 := 0, count2 := 0 } : Acc2p α)
    (by omega) (by omega) (fun i t a b => CF3_body_ok T p.m_dim x hx hn i t a b)
  simp only [CF3, hs, vget_of_lt x 0 0 (by omega), ok_bind]
  simp [vset, vget]

theorem CF4_body_ok (T : Libm α) (n : Nat) (x : List α) (hx : x.length = n)
    (hn : n + 1 < UINT_MOD) (i : Nat) (t : Acc0 α) (h1 : 2 ≤ i) (h2 : i ≤ n) :
    ∃ t1, CF4_body T n x i t = Except.ok t1 := by
  have hU : i < UINT_MOD := by omega
  have ej := vget_of_lt x (i - 1) 0 (by omega)
  have e0 := vget_of_lt x 0 0 (by omega)
  simp only [CF4_body, usub_one i (by omega) hU, ej, e0, ok_bind, pure_eq_ok]
  split_ifs <;> exact ⟨_, rfl⟩

theorem CF4_returns (T : Libm α) (p : pagmo.cec2009) (fuel : Nat) (x : List α)
    (hx : x.length = p.m_dim) (h1 : 2 ≤ p.m_dim) (hn : p.m_dim + 1 < UINT_MOD)
    (hf : p.m_dim < fuel) :
    ∃ v, CF4 p T fuel (List.replicate 3 0.0) x = Except.ok v ∧ v.length = 3 := by
  obtain ⟨s, hs⟩ := forLe_ok (CF4_body T p.m_dim x) p.m_dim hn fuel 2
    ({ sum1 := 0.0, sum2 := 0.0 } : Acc0 α)
    (by omega) (by omega) (fun i t a b => CF4_body_ok T p.m_dim x hx hn i t a b)
  simp only [CF4, hs, vget_of_lt x 0 0 (by omega), vget_of_lt x 1 0 (by omega), ok_bind]
  simp [vset, vget]

theorem CF5_body_ok (T : Libm α) (n : Nat) (x : List α) (hx : x.length = n)
    (hn : n + 1 < UINT_MOD) (i : Nat) (t : Acc0 α) (h1 : 2 ≤ i) (h2 : i ≤ n) :
    ∃ t1, CF5_body T n x i t = Except.ok t1 := by
  have hU : i < UINT_MOD := by omega
  have ej := vget_of_lt x (i - 1) 0 (by omega)
  have e0 := vget_of_lt x 0 0 (by omega)
  simp only [CF5_body, usub_one i (by omega) hU, ej, e0, ok_bind, pure_eq_ok]
  split_ifs <;> exact ⟨_, rfl⟩

theorem CF5_returns (T : Libm α) (p : pagmo.cec2009) (fuel : Nat) (x : List α)
    (hx : x.length = p.m_dim) (h1 : 2 ≤ p.m_dim) (hn : p.m_dim + 1 < UINT_MOD)
    (hf : p.m_dim < fuel) :
    ∃ v, CF5 p T fuel (List.replicate 3 0.0) x = Except.ok v ∧ v.length = 3 := by
  obtain ⟨s, hs⟩ := forLe_ok (CF5_body T p.m_dim x) p.m_dim hn fuel 2
    ({ sum1 := 0.0, sum2 := 0.0 } : Acc0 α)
    (by omega) (by omega) (fun i t a b => CF5_body_ok T p.m_dim x hx hn i t a b)
  simp only [CF5, hs, vget_of_lt x 0 0 (by omega), vget_of_lt x 1 0 (by omega), ok_bind]
  simp [vset, vget]

theorem CF6_body_ok (T : Libm α) (n : Nat) (x : List α) (hx : x.length = n)
    (hn : n + 1 < UINT_MOD) (i : Nat) (t : Acc0 α) (h1 : 2 ≤ i) (h2 : i ≤ n) :
    ∃ t1, CF6_body T n x i t = Except.ok t1 := by
  have hU : i < UINT_MOD := by omega
  have ej := vget_of_lt x (i - 1) 0 (by omega)
  have e0 := vget_of_lt x 0 0 (by omega)
  simp only [CF6_body, usub_one i (by omega) hU, ej, e0, ok_bind, pure_eq_ok]
  split_ifs <;> exact ⟨_, rfl⟩

theorem CF6_returns (T : Libm α) (p : pagmo.cec2009) (fuel : Nat) (x : List α)
    (hx : x.length = p.m_dim) (h1 : 4 ≤ p.m_dim) (hn : p.m_dim + 1 < UINT_MOD)
    (hf : p.m_dim < fuel) :
    ∃ v, CF6 p T fuel (List.replicate 4 0.0) x = Except.ok v ∧ v.length = 4 := by
  obtain ⟨s, hs⟩ := forLe_ok (CF6_body T p.m_dim x) p.m_dim hn fuel 2
    ({ sum1 := 0.0, sum2 := 0.0 } : Acc0 α)
    (by omega) (by omega) (fun i t a b => CF6_body_ok T p.m_dim x hx hn i t a b)
  simp only [CF6, hs, vget_of_lt x 0 0 (by omega), vget_of_lt x 1 0 (by omega), vget_of_lt x 3 0 (by omega), ok_bind]
  simp [vset, vget]

theorem CF7_body_ok (T : Libm α) (n : Nat) (x : List α) (hx : x.length = n)
    (hn : n + 1 < UINT_MOD) (i : Nat) (t : Acc0 α) (h1 : 2 ≤ i) (h2 : i ≤ n) :
    ∃ t1, CF7_body T n x i t = Except.ok t1 := by
  have hU : i < UINT_MOD := by omega
  have ej := vget_of_lt x (i - 1) 0 (by omega)
  have e0 := vget_of_lt x 0 0 (by omega)
  simp only [CF7_body, usub_one i (by omega) hU, ej, e0, ok_bind, pure_eq_ok]
  split_ifs <;> exact ⟨_, rfl⟩

theorem CF7_returns (T : Libm α) (p : pagmo.cec2009) (fuel : Nat) (x : List α)
    (hx : x.length = p.m_dim) (h1 : 4 ≤ p.m_dim) (hn : p.m_dim + 1 < UINT_MOD)
    (hf : p.m_dim < fuel) :
    ∃ v, CF7 p T fuel (List.replicate 4 0.0) x = Except.ok v ∧ v.length = 4 := by
  obtain ⟨s, hs⟩ := forLe_ok (CF7_body T p.m_dim x) p.m_dim hn fuel 2
    ({ sum1 := 0.0, sum2 := 0.0 } : Acc0 α)
    (by omega) (by omega) (fun i t a b => CF7_body_ok T p.m_dim x hx hn i t a b)
  simp only [CF7, hs, vget_of_lt x 0 0 (by omega), vget_of_lt x 1 0 (by omega), vget_of_lt x 3 0 (by omega), ok_bind]
  simp [vset, vget]

theorem CF8_body_ok (T : Libm α) (n : Nat) (x : List α) (hx : x.length = n)
    (hn : n + 1 < UINT_MOD) (i : Nat) (t : Acc3 α) (h1 : 3 ≤ i) (h2 : i ≤ n) :
    ∃ t1, CF8_body T n x i t = Except.ok t1 := by
  have hU : i < UINT_MOD := by omega
  have ej := vget_of_lt x (i - 1) 0 (by omega)
  have e0 := vget_of_lt x 0 0 (by omega)
  have e1 := vget_of_lt x 1 0 (by omega)
  simp only [CF8_body, usub_one i (by omega) hU, ej, e0, e1, ok_bind, pure_eq_ok]
  split_ifs <;> exact ⟨_, rfl⟩

theorem CF8_returns (T : Libm α) (p : pagmo.cec2009) (fuel : Nat) (x : List α)
    (hx : x.length = p.m_dim) (h1 : 2 ≤ p.m_dim) (hn : p.m_dim + 1 < UINT_MOD)
    (hf : p.m_dim < fuel) :
    ∃ v, CF8 p T fuel (List.replicate 4 0.0) x = Except.ok v ∧ v.length = 4 := by
  obtain ⟨s, hs⟩ := forLe_ok (CF8_body T p.m_dim x) p.m_dim hn fuel 3
    ({ sum1 := 0.0, sum2 := 0.0, sum3 := 0.0, count1 := 0, count2 := 0, count3 := 0 } : Acc3 α)
    (by omega) (by omega) (fun i t a b => CF8_body_ok T p.m_dim x hx hn i t a b)
  simp only [CF8, hs, vget_of_lt x 0 0 (by omega), vget_of_lt x 1 0 (by omega), ok_bind]
  simp [vset, vget]

theorem CF9_body_ok (T : Libm α) (n : Nat) (x : List α) (hx : x.length = n)
    (hn : n + 1 < UINT_MOD) (i : Nat) (t : Acc3 α) (h1 : 3 ≤ i) (h2 : i ≤ n) :
    ∃ t1, CF9_body T n x i t = Except.ok t1 := by
  have hU : i < UINT_MOD := by omega
  have ej := vget_of_lt x (i - 1) 0 (by omega)
  have e0 := vget_of_lt x 0 0 (by omega)
  have e1 := vget_of_lt x 1 0 (by omega)
  simp only [CF9_body, usub_one i (by omega) hU, ej, e0, e1, ok_bind, pure_eq_ok]
  split_ifs <;> exact ⟨_, rfl⟩

theorem CF9_returns (T : Libm α) (p : pagmo.cec2009) (fuel : Nat) (x : List α)
    (hx : x.length = p.m_dim) (h1 : 2 ≤ p.m_dim) (hn : p.m_dim + 1 < UINT_MOD)
    (hf : p.m_dim < fuel) :
    ∃ v, CF9 p T fuel (List.replicate 4 0.0) x = Except.ok v ∧ v.length = 4 := by
  obtain ⟨s, hs⟩ := forLe_ok (CF9_body T p.m_dim x) p.m_dim hn fuel 3
    ({ sum1 := 0.0, sum2 := 0.0, sum3 := 0.0, count1 := 0, count2 := 0, count3 := 0 } : Acc3 α)
    (by omega) (by omega) (fun i t a b => CF9_body_ok T p.m_dim x hx hn i t a b)
  simp only [CF9, hs, vget_of_lt x 0 0 (by omega), vget_of_lt x 1 0 (by omega), ok_bind]
  simp [vset, vget]

theorem CF10_body_ok (T : Libm α) (n : Nat) (x : List α) (hx : x.length = n)
    (hn : n + 1 < UINT_MOD) (i : Nat) (t : Acc3 α) (h1 : 3 ≤ i) (h2 : i ≤ n) :
    ∃ t1, CF10_body T n x i t = Except.ok t1 := by
  have hU : i < UINT_MOD := by omega
  have ej := vget_of_lt x (i - 1) 0 (by omega)
  have e0 := vget_of_lt x 0 0 (by omega)
  have e1 := vget_of_lt x 1 0 (by omega)
  simp only [CF10_body, usub_one i (by omega) hU, ej, e0, e1, ok_bind, pure_eq_ok]
  split_ifs <;> exact ⟨_, rfl⟩

theorem CF10_returns (T : Libm α) (p : pagmo.cec2009) (fuel : Nat) (x : List α)
    (hx : x.length = p.m_dim) (h1 : 2 ≤ p.m_dim) (hn : p.m_dim + 1 < UINT_MOD)
    (hf : p.m_dim < fuel) :
    ∃ v, CF10 p T fuel (List.replicate 4 0.0) x = Except.ok v ∧ v.length = 4 := by
  obtain ⟨s, hs⟩ := forLe_ok (CF10_body T p.m_dim x) p.m_dim hn fuel 3
    ({ sum1 := 0.0, sum2 := 0.0, sum3 := 0.0, count1 := 0, count2 := 0, count3 := 0 } : Acc3 α)
    (by omega) (by omega) (fun i t a b => CF10_body_ok T p.m_dim x hx hn i t a b)
  simp only [CF10, hs, vget_of_lt x 0 0 (by omega), vget_of_lt x 1 0 (by omega), ok_bind]
  simp [vset, vget]

/-- `CF6` faults on every vector shorter than 4: if the loop returns at all, the read
`x[3]` is outside `x`. -/
theorem CF6_short_faults (T : Libm α) (p : pagmo.cec2009) (fuel : Nat) (f x : List α)
    (hx : x.length ≤ 3) : ∃ e, CF6 p T fuel f x = Except.error e := by
  have e3 := vget_of_le x 3 hx
  unfold CF6
  cases forLe (CF6_body T p.m_dim x) p.m_dim fuel 2 ({ sum1 := 0.0, sum2 := 0.0 } : Acc0 α) with
  | error e => exact ⟨e, rfl⟩
  | ok s =>
    simp only [ok_bind]
    cases vget x 0 with
    | error e => exact ⟨e, rfl⟩
    | ok x0 =>
      simp only [ok_bind]
      cases vset f 0 (x0 + s.sum1) with
      | error e => exact ⟨e, rfl⟩
      | ok f1 =>
        simp only [ok_bind]
        cases vset f1 1 ((1.0 - x0) * (1.0 - x0) + s.sum2) with
        | error e => exact ⟨e, rfl⟩
        | ok f2 =>
          simp only [ok_bind]
          cases vget x 1 with
          | error e => exact ⟨e, rfl⟩
          | ok x1 =>
            simp only [ok_bind]
            cases vset f2 2
              (x1 - 0.8 * x0 * T.sin (6.0 * x0 * T.pi + 2.0 * T.pi / (p.m_dim : α))
                - sgn ((x0 - 0.5) * (1.0 - x0)) * T.sqrt |(x0 - 0.5) * (1.0 - x0)|) with
            | error e => exact ⟨e, rfl⟩
            | ok f3 =>
              simp only [ok_bind, e3, error_bind]
              exact ⟨_, rfl⟩

theorem usub_one_small (k : Nat) (h1 : 1 ≤ k) (h2 : k ≤ 10) : usub k 1 = k - 1 :=
  usub_one k h1 (by unfold UINT_MOD; omega)

theorem fitness_eq_impl_u (T : Libm α) (p : pagmo.cec2009) (fuel : Nat) (x : List α)
    (g : func_ptr α) (hc : p.m_is_constrained = false)
    (h1 : 1 ≤ p.m_prob_id) (h2 : p.m_prob_id ≤ 10)
    (hg : vget s_u_ptr (p.m_prob_id - 1) = Except.ok g) (k : Nat)
    (hk : vget cec2009_data.nobj (p.m_prob_id - 1) = Except.ok k) :
    fitness p T fuel x = g p T fuel (List.replicate k 0.0) x := by
  simp [fitness, fitness_impl, hc, usub_one_small _ h1 h2, hg, hk]

theorem fitness_eq_impl_c (T : Libm α) (p : pagmo.cec2009) (fuel : Nat) (x : List α)
    (g : func_ptr α) (hc : p.m_is_constrained = true)
    (h1 : 1 ≤ p.m_prob_id) (h2 : p.m_prob_id ≤ 10)
    (hg : vget s_c_ptr (p.m_prob_id - 1) = Except.ok g) (k l : Nat)
    (hk : vget cec2009_data.nobj (p.m_prob_id - 1) = Except.ok k)
    (hl : vget cec2009_data.nic (p.m_prob_id - 1) = Except.ok l) :
    fitness p T fuel x = g p T fuel (List.replicate (l + k) 0.0) x := by
  simp [fitness, fitness_impl, hc, usub_one_small _ h1 h2, hg, hk, hl]

/-- C2 (counterexample): the constructor accepts `(6, true, 3)`, the vector `[0, 0, 0]` has
the length of the dimension, and `fitness` returns no vector for any fuel: `CF6` reads
`x[3]`. -/
theorem fitness_CF6_dim3_no_result :
    cec2009.cec2009 6 true 3
        = Except.ok { m_prob_id := 6, m_is_constrained := true, m_dim := 3 } ∧
      ([0, 0, 0] : List ℝ).length = 3 ∧
      ¬ ∃ fuel v, fitness { m_prob_id := 6, m_is_constrained := true, m_dim := 3 }
          realLibm fuel ([0, 0, 0] : List ℝ) = Except.ok v := by
  refine ⟨rfl, rfl, ?_⟩
  rintro ⟨fuel, v, h⟩
  rw [fitness_eq_impl_c realLibm { m_prob_id := 6, m_is_constrained := true, m_dim := 3 }
    fuel _ CF6 rfl (by decide) (by decide) rfl 2 2 rfl rfl] at h
  obtain ⟨e, he⟩ := CF6_short_faults realLibm
    { m_prob_id := 6, m_is_constrained := true, m_dim := 3 } fuel
    (List.replicate (2 + 2) 0.0) ([0, 0, 0] : List ℝ) (by simp)
  rw [he] at h
  cases h

/-- C2 (amended): on an instance the constructor returns whose dimension `n` is at least
the minimum of its variant (`min_dim`) and below `2^32 - 1`, for every `x` of length `n`
and every fuel above `n`, `fitness` returns a vector whose length is
`get_nobj() + get_nic()`, which is 2 for UF1-UF7, 3 for UF8-UF10 and CF1-CF5, and 4 for
CF6-CF10. -/
theorem fitness_length_eq (T : Libm α) (prob_id : Nat) (c : Bool) (n : Nat)
    (p : pagmo.cec2009) (x : List α) (fuel : Nat)
    (hp : cec2009.cec2009 prob_id c n = Except.ok p) (hmin : min_dim prob_id c ≤ n)
    (hn : n + 1 < UINT_MOD) (hx : x.length = n) (hf : n < fuel) :
    ∃ v a b, fitness p T fuel x = Except.ok v ∧ get_nobj p = Except.ok a ∧
      get_nic p = Except.ok b ∧ v.length = a + b ∧ a + b = fitness_length prob_id c := by
  obtain ⟨⟨h1, h2, _⟩, rfl⟩ := (ctor_ok_iff _ _ _ _).1 hp
  cases c
  · interval_cases prob_id
    · obtain ⟨v, hv, hl⟩ := UF1_returns T
        { m_prob_id := 1, m_is_constrained := false, m_dim := n } fuel x hx hmin hn hf
      refine ⟨v, 2, 0, ?_, nobj_lookup 1 (by decide) (by decide), rfl, hl, rfl⟩
      rw [fitness_eq_impl_u T { m_prob_id := 1, m_is_constrained := false, m_dim := n }
        fuel x UF1 rfl (by simp) (by simp) rfl 2 rfl]
      exact hv
    · obtain ⟨v, hv, hl⟩ := UF2_returns T
        { m_prob_id := 2, m_is_constrained := false, m_dim := n } fuel x hx hmin hn hf
      refine ⟨v, 2, 0, ?_, nobj_lookup 2 (by decide) (by decide), rfl, hl, rfl⟩
      rw [fitness_eq_impl_u T { m_prob_id := 2, m_is_constrained := false, m_dim := n }
        fuel x UF2 rfl (by simp) (by simp) rfl 2 rfl]
      exact hv
    · obtain ⟨v, hv, hl⟩ := UF3_returns T
        { m_prob_id := 3, m_is_constrained := false, m_dim := n } fuel x hx hmin hn hf
      refine ⟨v, 2, 0, ?_, nobj_lookup 3 (by decide) (by decide), rfl, hl, rfl⟩
      rw [fitness_eq_impl_u T { m_prob_id := 3, m_is_constrained := false, m_dim := n }
        fuel x UF3 rfl (by simp) (by simp) rfl 2 rfl]
      exact hv
    · obtain ⟨v, hv, hl⟩ := UF4_returns T
        { m_prob_id := 4, m_is_constrained := false, m_dim := n } fuel x hx hmin hn hf
      refine ⟨v, 2, 0, ?_, nobj_lookup 4 (by decide) (by decide), rfl, hl, rfl⟩
      rw [fitness_eq_impl_u T { m_prob_id := 4, m_is_constrained := false, m_dim := n }
        fuel x UF4 rfl (by simp) (by simp) rfl 2 rfl]
      exact hv
    · obtain ⟨v, hv, hl⟩ := UF5_returns T
        { m_prob_id := 5, m_is_constrained := false, m_dim := n } fuel x hx hmin hn hf
      refine ⟨v, 2, 0, ?_, nobj_lookup 5 (by decide) (by decide), rfl, hl, rfl⟩
      rw [fitness_eq_impl_u T { m_prob_id := 5, m_is_constrained := false, m_dim := n }
        fuel x UF5 rfl (by simp) (by simp) rfl 2 rfl]
      exact hv
    · obtain ⟨v, hv, hl⟩ := UF6_returns T
        { m_prob_id := 6, m_is_constrained := false, m_dim := n } fuel x hx hmin hn hf
      refine ⟨v, 2, 0, ?_, nobj_lookup 6 (by decide) (by decide), rfl, hl, rfl⟩
      rw [fitness_eq_impl_u T { m_prob_id := 6, m_is_constrained := false, m_dim := n }
        fuel x UF6 rfl (by simp) (by simp) rfl 2 rfl]
      exact hv
    · obtain ⟨v, hv, hl⟩ := UF7_returns T
        { m_prob_id := 7, m_is_constrained := false, m_dim := n } fuel x hx hmin hn hf
      refine ⟨v, 2, 0, ?_, nobj_lookup 7 (by decide) (by decide), rfl, hl, rfl⟩
      rw [fitness_eq_impl_u T { m_prob_id := 7, m_is_constrained := false, m_dim := n }
        fuel x UF7 rfl (by simp) (by simp) rfl 2 rfl]
      exact hv
    · obtain ⟨v, hv, hl⟩ := UF8_returns T
        { m_prob_id := 8, m_is_constrained := false, m_dim := n } fuel x hx hmin hn hf
      refine ⟨v, 3, 0, ?_, nobj_lookup 8 (by decide) (by decide), rfl, hl, rfl⟩
      rw [fitness_eq_impl_u T { m_prob_id := 8, m_is_constrained := false, m_dim := n }
        fuel x UF8 rfl (by simp) (by simp) rfl 3 rfl]
      exact hv
    · obtain ⟨v, hv, hl⟩ := UF9_returns T
        { m_prob_id := 9, m_is_constrained := false, m_dim := n } fuel x hx hmin hn hf
      refine ⟨v, 3, 0, ?_, nobj_lookup 9 (by decide) (by decide), rfl, hl, rfl⟩
      rw [fitness_eq_impl_u T { m_prob_id := 9, m_is_constrained := false, m_dim := n }
        fuel x UF9 rfl (by simp) (by simp) rfl 3 rfl]
      exact hv
    · obtain ⟨v, hv, hl⟩ := UF10_returns T
        { m_prob_id := 10, m_is_constrained := false, m_dim := n } fuel x hx hmin hn hf
      refine ⟨v, 3, 0, ?_, nobj_lookup 10 (by decide) (by decide), rfl, hl, rfl⟩
      rw [fitness_eq_impl_u T { m_prob_id := 10, m_is_constrained := false, m_dim := n }
        fuel x UF10 rfl (by simp) (by simp) rfl 3 rfl]
      exact hv
  · interval_cases prob_id
    · obtain ⟨v, hv, hl⟩ := CF1_returns T
        { m_prob_id := 1, m_is_constrained := true, m_dim := n } fuel x hx hmin hn hf
      refine ⟨v, 2, 1, ?_, nobj_lookup 1 (by decide) (by decide),
        get_nic_constrained 1 n (by decide) (by decide), hl, rfl⟩
      rw [fitness_eq_impl_c T { m_prob_id := 1, m_is_constrained := true, m_dim := n }
        fuel x CF1 rfl (by simp) (by simp) rfl 2 1 rfl rfl]
      exact hv
    · obtain ⟨v, hv, hl⟩ := CF2_returns T
        { m_prob_id := 2, m_is_constrained := true, m_dim := n } fuel x hx hmin hn hf
      refine ⟨v, 2, 1, ?_, nobj_lookup 2 (by decide) (by decide),
        get_nic_constrained 2 n (by decide) (by decide), hl, rfl⟩
      rw [fitness_eq_impl_c T { m_prob_id := 2, m_is_constrained := true, m_dim := n }
        fuel x CF2 rfl (by simp) (by simp) rfl 2 1 rfl rfl]
      exact hv
    · obtain ⟨v, hv, hl⟩ := CF3_returns T
        { m_prob_id := 3, m_is_constrained := true, m_dim := n } fuel x hx hmin hn hf
      refine ⟨v, 2, 1, ?_, nobj_lookup 3 (by decide) (by decide),
        get_nic_constrained 3 n (by decide) (by decide), hl, rfl⟩
      rw [fitness_eq_impl_c T { m_prob_id := 3, m_is_constrained := true, m_dim := n }
        fuel x CF3 rfl (by simp) (by simp) rfl 2 1 rfl rfl]
      exact hv
    · obtain ⟨v, hv, hl⟩ := CF4_returns T
        { m_prob_id := 4, m_is_constrained := true, m_dim := n } fuel x hx hmin hn hf
      refine ⟨v, 2, 1, ?_, nobj_lookup 4 (by decide) (by decide),
        get_nic_constrained 4 n (by decide) (by decide), hl, rfl⟩
      rw [fitness_eq_impl_c T { m_prob_id := 4, m_is_constrained := true, m_dim := n }
        fuel x CF4 rfl (by simp) (by simp) rfl 2 1 rfl rfl]
      exact hv
    · obtain ⟨v, hv, hl⟩ := CF5_returns T
        { m_prob_id := 5, m_is_constrained := true, m_dim := n } fuel x hx hmin hn hf
      refine ⟨v, 2, 1, ?_, nobj_lookup 5 (by decide) (by decide),
        get_nic_constrained 5 n (by decide) (by decide), hl, rfl⟩
      rw [fitness_eq_impl_c T { m_prob_id := 5, m_is_constrained := true, m_dim := n }
        fuel x CF5 rfl (by simp) (by simp) rfl 2 1 rfl rfl]
      exact hv
    · obtain ⟨v, hv, hl⟩ := CF6_returns T
        { m_prob_id := 6, m_is_constrained := true, m_dim := n } fuel x hx hmin hn hf
      refine ⟨v, 2, 2, ?_, nobj_lookup 6 (by decide) (by decide),
        get_nic_constrained 6 n (by decide) (by decide), hl, rfl⟩
      rw [fitness_eq_impl_c T { m_prob_id := 6, m_is_constrained := true, m_dim := n }
        fuel x CF6 rfl (by simp) (by simp) rfl 2 2 rfl rfl]
      exact hv
    · obtain ⟨v, hv, hl⟩ := CF7_returns T
        { m_prob_id := 7, m_is_constrained := true, m_dim := n } fuel x hx hmin hn hf
      refine ⟨v, 2, 2, ?_, nobj_lookup 7 (by decide) (by decide),
        get_nic_constrained 7 n (by decide) (by decide), hl, rfl⟩
      rw [fitness_eq_impl_c T { m_prob_id := 7, m_is_constrained := true, m_dim := n }
        fuel x CF7 rfl (by simp) (by simp) rfl 2 2 rfl rfl]
      exact hv
    · obtain ⟨v, hv, hl⟩ := CF8_returns T
        { m_prob_id := 8, m_is_constrained := true, m_dim := n } fuel x hx hmin hn hf
      refine ⟨v, 3, 1, ?_, nobj_lookup 8 (by decide) (by decide),
        get_nic_constrained 8 n (by decide) (by decide), hl, rfl⟩
      rw [fitness_eq_impl_c T { m_prob_id := 8, m_is_constrained := true, m_dim := n }
        fuel x CF8 rfl (by simp) (by simp) rfl 3 1 rfl rfl]
      exact hv
    · obtain ⟨v, hv, hl⟩ := CF9_returns T
        { m_prob_id := 9, m_is_constrained := true, m_dim := n } fuel x hx hmin hn hf
      refine ⟨v, 3, 1, ?_, nobj_lookup 9 (by decide) (by decide),
        get_nic_constrained 9 n (by decide) (by decide), hl, rfl⟩
      rw [fitness_eq_impl_c T { m_prob_id := 9, m_is_constrained := true, m_dim := n }
        fuel x CF9 rfl (by simp) (by simp) rfl 3 1 rfl rfl]
      exact hv
    · obtain ⟨v, hv, hl⟩ := CF10_returns T
        { m_prob_id := 10, m_is_constrained := true, m_dim := n } fuel x hx hmin hn hf
      refine ⟨v, 3, 1, ?_, nobj_lookup 10 (by decide) (by decide),
        get_nic_constrained 10 n (by decide) (by decide), hl, rfl⟩
      rw [fitness_eq_impl_c T { m_prob_id := 10, m_is_constrained := true, m_dim := n }
        fuel x CF10 rfl (by simp) (by simp) rfl 3 1 rfl rfl]
      exact hv

theorem fitness_length_eq_witness :
    ∃ v a b, fitness { m_prob_id := 6, m_is_constrained := true, m_dim := 4 } realLibm 5
        ([0, 0, 0, 0] : List ℝ) = Except.ok v ∧
      get_nobj { m_prob_id := 6, m_is_constrained := true, m_dim := 4 } = Except.ok a ∧
      get_nic { m_prob_id := 6, m_is_constrained := true, m_dim := 4 } = Except.ok b ∧
      v.length = a + b ∧ a + b = fitness_length 6 true :=
  fitness_length_eq realLibm 6 true 4 { m_prob_id := 6, m_is_constrained := true, m_dim := 4 }
    ([0, 0, 0, 0] : List ℝ) 5 rfl (by decide) (by decide) rfl (by decide)

end returns

/-! ## Closed forms of the parity loops (C8, C9, C10) -/

section parity

variable {α : Type} [LinearOrderedField α]

theorem J1_succ (k : Nat) :
    J1 (k + 2) = if (k + 2) % 2 = 1 then insert (k + 2) (J1 (k + 1)) else J1 (k + 1) := by
  unfold J1
  rw [← Nat.Icc_insert_succ_right (by omega : 2 ≤ k + 1 + 1), Finset.filter_insert]

theorem J2_succ (k : Nat) :
    J2 (k + 2) = if (k + 2) % 2 = 0 then insert (k + 2) (J2 (k + 1)) else J2 (k + 1) := by
  unfold J2
  rw [← Nat.Icc_insert_succ_right (by omega : 2 ≤ k + 1 + 1), Finset.filter_insert]

theorem not_mem_J1 (k : Nat) : k + 2 ∉ J1 (k + 1) := by
  simp [J1]

theorem not_mem_J2 (k : Nat) : k + 2 ∉ J2 (k + 1) := by
  simp [J2]

/-- A loop over `j = 2 .. k+1` that adds `h j` to `sum2` for even `j` and to `sum1` for odd
`j`, counting each class, ends with the class sums and the class cardinalities. -/
theorem foldl_parity (h : Nat → α) (k : Nat) :
    (List.range' 2 k).foldl
      (fun (s : Acc2 α) j =>
        if j % 2 = 0 then { s with sum2 := s.sum2 + h j, count2 := s.count2 + 1 }
        else { s with sum1 := s.sum1 + h j, count1 := s.count1 + 1 })
      { sum1 := 0, sum2 := 0, count1 := 0, count2 := 0 }
    = { sum1 := ∑ j ∈ J1 (k + 1), h j, sum2 := ∑ j ∈ J2 (k + 1), h j,
        count1 := ((J1 (k + 1)).card : α), count2 := ((J2 (k + 1)).card : α) } := by
  induction k with
  | zero => simp [J1, J2]
  | succ k ih =>
    rw [List.range'_1_concat, List.foldl_append, ih]
    simp only [List.foldl_cons, List.foldl_nil]
    have e : 2 + k = k + 2 := by omega
    rw [e, J1_succ, J2_succ]
    by_cases hp : (k + 2) % 2 = 0
    · have hq : ¬ (k + 2) % 2 = 1 := by omega
      rw [if_pos hp, if_pos hp, if_neg hq, Finset.sum_insert (not_mem_J2 k),
        Finset.card_insert_of_not_mem (not_mem_J2 k)]
      simp [add_comm]
    · have hq : (k + 2) % 2 = 1 := by omega
      rw [if_neg hp, if_neg hp, if_pos hq, Finset.sum_insert (not_mem_J1 k),
        Finset.card_insert_of_not_mem (not_mem_J1 k)]
      simp [add_comm]

theorem lit_zero : (0.0 : α) = 0 := by norm_num

/-- Closed form of the loop of `UF1`. -/
theorem UF1_loop (T : Libm α) (n fuel : Nat) (x : List α) (hx : x.length = n) (h1 : 1 ≤ n)
    (hn : n + 1 < UINT_MOD) (hf : n < fuel) :
    forLe (UF1_body T n x) n fuel 2
        ({ sum1 := 0.0, sum2 := 0.0, count1 := 0, count2 := 0 } : Acc2 α)
      = Except.ok
        { sum1 := ∑ j ∈ J1 n, UF1_ref_y T n x j ^ 2, sum2 := ∑ j ∈ J2 n, UF1_ref_y T n x j ^ 2,
          count1 := ((J1 n).card : α), count2 := ((J2 n).card : α) } := by
  rw [forLe_eq_foldl (UF1_body T n x)
    (fun (s : Acc2 α) j =>
      if j % 2 = 0 then
        { s with sum2 := s.sum2 + UF1_ref_y T n x j ^ 2, count2 := s.count2 + 1 }
      else { s with sum1 := s.sum1 + UF1_ref_y T n x j ^ 2, count1 := s.count1 + 1 })
    n hn fuel 2 _ (by omega) (by omega)]
  · obtain ⟨k, rfl⟩ : ∃ k, n = k + 1 := ⟨n - 1, by omega⟩
    have e : k + 1 + 1 - 2 = k := by omega
    rw [e, lit_zero]
    exact congrArg Except.ok (foldl_parity (fun j => UF1_ref_y T (k + 1) x j ^ 2) k)
  · intro i t hi1 hi2
    have hU : i < UINT_MOD := by omega
    have ej := vget_of_lt x (i - 1) 0 (by omega)
    have e0 := vget_of_lt x 0 0 (by omega)
    simp only [UF1_body, usub_one i (by omega) hU, ej, e0, ok_bind, pure_eq_ok]
    split_ifs <;> norm_num [UF1_ref_y, sq]

/-- On a dimension `n` with `3 <= n < 2^32 - 1` (both index classes are then non-empty), a
vector of length `n` and fuel above `n`, `fitness` of the unconstrained problem 1 returns
the reference vector `UF1_ref`. -/
theorem fitness_UF1_eq_ref (T : Libm α) (n fuel : Nat) (x : List α) (hx : x.length = n)
    (h3 : 3 ≤ n) (hn : n + 1 < UINT_MOD) (hf : n < fuel) :
    fitness { m_prob_id := 1, m_is_constrained := false, m_dim := n } T fuel x
      = Except.ok (UF1_ref T n x) := by
  rw [fitness_eq_impl_u T { m_prob_id := 1, m_is_constrained := false, m_dim := n }
    fuel x UF1 rfl (by simp) (by simp) rfl 2 rfl]
  simp only [UF1, UF1_loop T n fuel x hx (by omega) hn hf, vget_of_lt x 0 0 (by omega), ok_bind]
  simp only [vset, List.replicate, List.length_cons, List.length_nil, List.set_cons_zero,
    List.set_cons_succ, List.length_set]
  norm_num [UF1_ref]
  constructor <;> ring

/-- With the largest unsigned dimension, `UF1` never returns: its loop never exits
normally. -/
theorem UF1_uint_max_no_result (T : Libm α) (p : pagmo.cec2009) (hp : p.m_dim = UINT_MOD - 1)
    (fuel : Nat) (f x : List α) : ∃ e, UF1 p T fuel f x = Except.error e := by
  obtain ⟨e, he⟩ := forLe_uint_max (UF1_body T p.m_dim x) fuel 2
    ({ sum1 := 0.0, sum2 := 0.0, count1 := 0, count2 := 0 } : Acc2 α) (by decide)
  refine ⟨e, ?_⟩
  unfold UF1
  rw [hp] at he ⊢
  rw [he]
  rfl

/-- C10 (evaluation at the failing input): the constructor accepts the dimension
`4294967295`, the vector of `4294967295` zeros has that length, and `fitness` of the
unconstrained problem 1 returns no vector for any fuel, because the counter `j` of the
loop `for (j = 2u; j <= m_dim; ++j)` wraps to 0 instead of exceeding `m_dim`. -/
theorem fitness_UF1_uint_max_no_result :
    cec2009.cec2009 1 false 4294967295
        = Except.ok { m_prob_id := 1, m_is_constrained := false, m_dim := 4294967295 } ∧
      (List.replicate 4294967295 (0 : ℝ)).length = 4294967295 ∧
      ¬ ∃ fuel v, fitness { m_prob_id := 1, m_is_constrained := false, m_dim := 4294967295 }
          realLibm fuel (List.replicate 4294967295 (0 : ℝ)) = Except.ok v := by
  refine ⟨rfl, List.length_replicate _ _, ?_⟩
  rintro ⟨fuel, v, h⟩
  rw [fitness_eq_impl_u realLibm
    { m_prob_id := 1, m_is_constrained := false, m_dim := 4294967295 }
    fuel _ UF1 rfl (by decide) (by decide) rfl 2 rfl] at h
  obtain ⟨e, he⟩ := UF1_uint_max_no_result realLibm
    { m_prob_id := 1, m_is_constrained := false, m_dim := 4294967295 } rfl fuel
    (List.replicate 2 0.0) (List.replicate 4294967295 (0 : ℝ))
  rw [he] at h
  cases h

theorem J1_three : J1 3 = {3} := by decide

theorem J2_three : J2 3 = {2} := by decide

theorem sin_four_pi : Real.sin (6 * Real.pi * 0.5 + ((3 : ℕ) : ℝ) * Real.pi / ((3 : ℕ) : ℝ)) = 0 := by
  have e : 6 * Real.pi * 0.5 + ((3 : ℕ) : ℝ) * Real.pi / ((3 : ℕ) : ℝ) = ((4 : ℕ) : ℝ) * Real.pi := by
    push_cast
    norm_num
    ring
  rw [e]
  exact Real.sin_nat_mul_pi 4

theorem sin_eleven_thirds_pi : Real.sin (6 * Real.pi * 0.5 + 2 * Real.pi / 3) = -(√3 / 2) := by
  have e : 6 * Real.pi * 0.5 + 2 * Real.pi / 3
      = -(Real.pi / 3) + ((2 : ℤ) : ℝ) * (2 * Real.pi) := by
    push_cast
    norm_num
    ring
  rw [e, Real.sin_add_int_mul_two_pi, Real.sin_neg, Real.sin_pi_div_three]

/-- Value of `fitness` for UF1, dimension 3, `x = [0.5, 0, 0]`: the odd index `j = 3`
feeds `f[0]` and its deviation `x[2] - sin(6*pi*0.5 + 3*pi/3)` is 0; the even index
`j = 2` feeds `f[1]`. -/
theorem fitness_UF1_dim3 (fuel : Nat) (hf : 3 < fuel) :
    fitness { m_prob_id := 1, m_is_constrained := false, m_dim := 3 } realLibm fuel
        ([0.5, 0.0, 0.0] : List ℝ)
      = Except.ok [0.5,
          1 - Real.sqrt 0.5 + 2 * (0.0 - Real.sin (6 * Real.pi * 0.5 + 2 * Real.pi / 3)) ^ 2] := by
  rw [fitness_UF1_eq_ref realLibm 3 fuel ([0.5, 0.0, 0.0] : List ℝ) rfl (by decide)
    (by decide) hf]
  have h3 := sin_four_pi
  simp only [UF1_ref, J1_three, J2_three, Finset.sum_singleton, Finset.card_singleton,
    UF1_ref_y, realLibm]
  norm_num at h3 ⊢
  rw [h3]

/-- C8 (counterexample): for UF1, dimension 3, `x = [0.5, 0, 0]` and
`y = x[1] - sin(6*pi*0.5 + 2*pi/3)`, `fitness` returns a vector whose entry `f[0]` is not
`0.5 + 2*y^2`. -/
theorem fitness_UF1_dim3_f0_ne :
    ∃ v, fitness { m_prob_id := 1, m_is_constrained := false, m_dim := 3 } realLibm 4
          ([0.5, 0.0, 0.0] : List ℝ) = Except.ok v ∧
      v.getD 0 0 ≠ 0.5 + 2 * (0.0 - Real.sin (6 * Real.pi * 0.5 + 2 * Real.pi / 3)) ^ 2 := by
  refine ⟨_, fitness_UF1_dim3 4 (by decide), ?_⟩
  have hs : (√3 : ℝ) ^ 2 = 3 := Real.sq_sqrt (by norm_num)
  have e : 2 * (0.0 - Real.sin (6 * Real.pi * 0.5 + 2 * Real.pi / 3)) ^ 2 = 3 / 2 := by
    rw [sin_eleven_thirds_pi]
    norm_num
    ring_nf
    rw [hs]
    norm_num
  rw [e]
  norm_num

/-- C8 (amended): for UF1, dimension 3, `x = [0.5, 0, 0]` and every fuel above 3,
`fitness` returns `f[0] = 0.5 + 2*y3^2` and `f[1] = 1 - sqrt(0.5) + 2*y2^2`, where
`y2 = x[1] - sin(6*pi*0.5 + 2*pi/3)` is the deviation of the even index `j = 2` and
`y3 = x[2] - sin(6*pi*0.5 + 3*pi/3)` that of the odd index `j = 3`; `y3 = 0`, so
`f[0] = 0.5`. -/
theorem fitness_UF1_dim3_value (fuel : Nat) (hf : 3 < fuel) :
    fitness { m_prob_id := 1, m_is_constrained := false, m_dim := 3 } realLibm fuel
        ([0.5, 0.0, 0.0] : List ℝ)
      = Except.ok
        [0.5 + 2 * (0.0 - Real.sin (6 * Real.pi * 0.5 + 3 * Real.pi / 3)) ^ 2,
         1 - Real.sqrt 0.5 + 2 * (0.0 - Real.sin (6 * Real.pi * 0.5 + 2 * Real.pi / 3)) ^ 2] ∧
      (0.0 - Real.sin (6 * Real.pi * 0.5 + 3 * Real.pi / 3) : ℝ) = 0 ∧
      (0.5 + 2 * (0.0 - Real.sin (6 * Real.pi * 0.5 + 3 * Real.pi / 3)) ^ 2 : ℝ) = 0.5 := by
  have h3 : (0.0 - Real.sin (6 * Real.pi * 0.5 + 3 * Real.pi / 3) : ℝ) = 0 := by
    have h := sin_four_pi
    push_cast at h
    rw [h]
    norm_num
  refine ⟨?_, h3, ?_⟩
  · rw [fitness_UF1_dim3 fuel hf, h3]
    norm_num
  · rw [h3]
    norm_num

theorem fitness_UF1_dim3_value_witness :
    fitness { m_prob_id := 1, m_is_constrained := false, m_dim := 3 } realLibm 4
        ([0.5, 0.0, 0.0] : List ℝ)
      = Except.ok
        [0.5 + 2 * (0.0 - Real.sin (6 * Real.pi * 0.5 + 3 * Real.pi / 3)) ^ 2,
         1 - Real.sqrt 0.5 + 2 * (0.0 - Real.sin (6 * Real.pi * 0.5 + 2 * Real.pi / 3)) ^ 2] ∧
      (0.0 - Real.sin (6 * Real.pi * 0.5 + 3 * Real.pi / 3) : ℝ) = 0 ∧
      (0.5 + 2 * (0.0 - Real.sin (6 * Real.pi * 0.5 + 3 * Real.pi / 3)) ^ 2 : ℝ) = 0.5 :=
  fitness_UF1_dim3_value 4 (by decide)

/-- Closed form of the loop of `CF1`. -/
theorem CF1_loop (T : Libm α) (n fuel : Nat) (x : List α) (hx : x.length = n) (h1 : 1 ≤ n)
    (hn : n + 1 < UINT_MOD) (hf : n < fuel) :
    forLe (CF1_body T n x) n fuel 2
        ({ sum1 := 0.0, sum2 := 0.0, count1 := 0, count2 := 0 } : Acc2 α)
      = Except.ok
        { sum1 := ∑ j ∈ J1 n, CF1_ref_y T n x j ^ 2, sum2 := ∑ j ∈ J2 n, CF1_ref_y T n x j ^ 2,
          count1 := ((J1 n).card : α), count2 := ((J2 n).card : α) } := by
  rw [forLe_eq_foldl (CF1_body T n x)
    (fun (s : Acc2 α) j =>
      if j % 2 = 0 then
        { s with sum2 := s.sum2 + CF1_ref_y T n x j ^ 2, count2 := s.count2 + 1 }
      else { s with sum1 := s.sum1 + CF1_ref_y T n x j ^ 2, count1 := s.count1 + 1 })
    n hn fuel 2 _ (by omega) (by omega)]
  · obtain ⟨k, rfl⟩ : ∃ k, n = k + 1 := ⟨n - 1, by omega⟩
    have e : k + 1 + 1 - 2 = k := by omega
    rw [e, lit_zero]
    exact congrArg Except.ok (foldl_parity (fun j => CF1_ref_y T (k + 1) x j ^ 2) k)
  · intro i t hi1 hi2
    have hU : i < UINT_MOD := by omega
    have ej := vget_of_lt x (i - 1) 0 (by omega)
    have e0 := vget_of_lt x 0 0 (by omega)
    simp only [CF1_body, usub_one i (by omega) hU, ej, e0, ok_bind, pure_eq_ok]
    split_ifs <;> first | omega | norm_num [CF1_ref_y, sq]

/-- CF1 on the curve `f[0] + f[1] = 1`: when every deviation term is zero, `fitness`
returns `[x[0], 1 - x[0], |sin(20*pi*x[0])|]`. -/
theorem fitness_CF1_on_curve (T : Libm α) (n fuel : Nat) (x : List α) (hx : x.length = n)
    (h3 : 3 ≤ n) (hn : n + 1 < UINT_MOD) (hf : n < fuel)
    (hy : ∀ j, 2 ≤ j → j ≤ n →
      x.getD (j - 1) 0 = T.pow (x.getD 0 0) (0.5 * (1 + 3 * ((j : α) - 2) / ((n : α) - 2)))) :
    fitness { m_prob_id := 1, m_is_constrained := true, m_dim := n } T fuel x
      = Except.ok [x.getD 0 0, 1 - x.getD 0 0, |T.sin (20 * T.pi * x.getD 0 0)|] := by
  have hs1 : ∑ j ∈ J1 n, CF1_ref_y T n x j ^ 2 = 0 := by
    apply Finset.sum_eq_zero
    intro j hj
    simp only [J1, Finset.mem_filter, Finset.mem_Icc] at hj
    unfold CF1_ref_y
    rw [hy j hj.1.1 hj.1.2, sub_self]
    norm_num
  have hs2 : ∑ j ∈ J2 n, CF1_ref_y T n x j ^ 2 = 0 := by
    apply Finset.sum_eq_zero
    intro j hj
    simp only [J2, Finset.mem_filter, Finset.mem_Icc] at hj
    unfold CF1_ref_y
    rw [hy j hj.1.1 hj.1.2, sub_self]
    norm_num
  rw [fitness_eq_impl_c T { m_prob_id := 1, m_is_constrained := true, m_dim := n }
    fuel x CF1 rfl (by simp) (by simp) rfl 2 1 rfl rfl]
  simp only [CF1, CF1_loop T n fuel x hx (by omega) hn hf, vget_of_lt x 0 0 (by omega), ok_bind,
    hs1, hs2]
  simp only [vset, vget, List.replicate, List.length_cons, List.length_nil, List.set_cons_zero,
    List.set_cons_succ, List.length_set]
  norm_num
  congr 2
  ring

theorem cf1_curve_point_on_curve (j : Nat) (h2 : 2 ≤ j) (h3 : j ≤ 3) :
    cf1_curve_point.getD (j - 1) 0
      = realLibm.pow (cf1_curve_point.getD 0 0)
          (0.5 * (1 + 3 * ((j : ℝ) - 2) / (((3 : ℕ) : ℝ) - 2))) := by
  interval_cases j
  · show Real.rpow (1 / 40) (1 / 2) = Real.rpow (1 / 40) _
    congr 1
    norm_num
  · show Real.rpow (1 / 40) 2 = Real.rpow (1 / 40) _
    congr 1
    norm_num

theorem abs_sin_twenty_pi : |Real.sin (20 * Real.pi * (1 / 40))| = 1 := by
  have e : 20 * Real.pi * (1 / 40) = Real.pi / 2 := by ring
  rw [e, Real.sin_pi_div_two]
  norm_num

/-- C9 (counterexample): for CF1 with dimension 3 and `x = [1/40, (1/40)^(1/2), (1/40)^2]`
every deviation term is zero and `f[0] + f[1] = 1`, yet the reported constraint value
`f[2]` is 1, not 0. -/
theorem fitness_CF1_on_curve_f2_ne_zero :
    (∀ j, 2 ≤ j → j ≤ 3 →
      cf1_curve_point.getD (j - 1) 0
        = realLibm.pow (cf1_curve_point.getD 0 0)
            (0.5 * (1 + 3 * ((j : ℝ) - 2) / (((3 : ℕ) : ℝ) - 2)))) ∧
    ∃ v, fitness { m_prob_id := 1, m_is_constrained := true, m_dim := 3 } realLibm 4
          cf1_curve_point = Except.ok v ∧
      v.getD 0 0 + v.getD 1 0 = 1 ∧ v.getD 2 0 = 1 ∧ v.getD 2 0 ≠ 0 := by
  refine ⟨cf1_curve_point_on_curve, _,
    fitness_CF1_on_curve realLibm 3 4 cf1_curve_point rfl (by decide) (by decide) (by decide)
      cf1_curve_point_on_curve, ?_, ?_, ?_⟩
  · simp [cf1_curve_point]
  · exact abs_sin_twenty_pi
  · have h : |Real.sin (20 * Real.pi * (1 / 40))| ≠ 0 := by
      rw [abs_sin_twenty_pi]
      norm_num
    exact h

/-- C9 (amended): for CF1 with dimension `3 <= n < 2^32 - 1`, every `x` of length `n` whose
deviation terms are all zero and every fuel above `n`, `fitness` returns `f[0] = x[0]`,
`f[1] = 1 - x[0]` (so `f[0] + f[1] = 1`) and the constraint value
`f[2] = |sin(20*pi*x[0])|`, the negation of the raw residual `-|sin(20*pi*x[0])|`. -/
theorem fitness_CF1_on_curve_value (T : Libm α) (n fuel : Nat) (x : List α)
    (hx : x.length = n) (h3 : 3 ≤ n) (hn : n + 1 < UINT_MOD) (hf : n < fuel)
    (hy : ∀ j, 2 ≤ j → j ≤ n →
      x.getD (j - 1) 0 = T.pow (x.getD 0 0) (0.5 * (1 + 3 * ((j : α) - 2) / ((n : α) - 2)))) :
    ∃ v, fitness { m_prob_id := 1, m_is_constrained := true, m_dim := n } T fuel x
          = Except.ok v ∧
      v.length = 3 ∧ v.getD 0 0 = x.getD 0 0 ∧ v.getD 1 0 = 1 - x.getD 0 0 ∧
      v.getD 0 0 + v.getD 1 0 = 1 ∧
      v.getD 2 0 = -(-|T.sin (20 * T.pi * x.getD 0 0)|) := by
  refine ⟨_, fitness_CF1_on_curve T n fuel x hx h3 hn hf hy, rfl, rfl, rfl, ?_, ?_⟩
  · show x.getD 0 0 + (1 - x.getD 0 0) = 1
    ring
  · show |T.sin (20 * T.pi * x.getD 0 0)| = -(-|T.sin (20 * T.pi * x.getD 0 0)|)
    ring

theorem fitness_CF1_on_curve_value_witness :
    ∃ v, fitness { m_prob_id := 1, m_is_constrained := true, m_dim := 3 } realLibm 4
          cf1_curve_point = Except.ok v ∧
      v.length = 3 ∧ v.getD 0 0 = cf1_curve_point.getD 0 0 ∧
      v.getD 1 0 = 1 - cf1_curve_point.getD 0 0 ∧
      v.getD 0 0 + v.getD 1 0 = 1 ∧
      v.getD 2 0 = -(-|realLibm.sin (20 * realLibm.pi * cf1_curve_point.getD 0 0)|) :=
  fitness_CF1_on_curve_value realLibm 3 4 cf1_curve_point rfl (by decide) (by decide)
    (by decide) cf1_curve_point_on_curve

end parity

/-! ## Dispatch and `sgn` (C13, C14) -/

section dispatch

variable {α : Type} [LinearOrderedField α]

theorem s_u_ptr_lookup (k : Nat) (h1 : 1 ≤ k) (h2 : k ≤ 10) :
    vget (s_u_ptr : List (func_ptr α)) (k - 1) = Except.ok (UF_of k) := by
  interval_cases k <;> rfl

theorem s_c_ptr_lookup (k : Nat) (h1 : 1 ≤ k) (h2 : k ≤ 10) :
    vget (s_c_ptr : List (func_ptr α)) (k - 1) = Except.ok (CF_of k) := by
  interval_cases k <;> rfl

theorem nobj_lookup_pred (k : Nat) (h1 : 1 ≤ k) (h2 : k ≤ 10) :
    vget cec2009_data.nobj (k - 1) = Except.ok (if k ≤ 7 then 2 else 3) := by
  interval_cases k <;> rfl

theorem nic_lookup_pred (k : Nat) (h1 : 1 ≤ k) (h2 : k ≤ 10) :
    vget cec2009_data.nic (k - 1) = Except.ok (if k = 6 ∨ k = 7 then 2 else 1) := by
  interval_cases k <;> rfl

/-- C13: for `k` in 1..10, `fitness` on `(k, false, n)` is `UFk` and on `(k, true, n)` is
`CFk`, applied to the instance, a zero-initialised vector of length
`get_nobj() + get_nic()` and `x`; the equality holds for every dimension, vector and fuel,
faults included. -/
theorem fitness_dispatch (T : Libm α) (k : Nat) (c : Bool) (n fuel : Nat) (x : List α)
    (h1 : 1 ≤ k) (h2 : k ≤ 10) :
    ∃ a b, get_nobj { m_prob_id := k, m_is_constrained := c, m_dim := n } = Except.ok a ∧
      get_nic { m_prob_id := k, m_is_constrained := c, m_dim := n } = Except.ok b ∧
      fitness { m_prob_id := k, m_is_constrained := c, m_dim := n } T fuel x
        = (if c then CF_of k else UF_of k)
            { m_prob_id := k, m_is_constrained := c, m_dim := n } T fuel
            (List.replicate (a + b) 0) x := by
  cases c
  · refine ⟨if k ≤ 7 then 2 else 3, 0, nobj_lookup k h1 h2, rfl, ?_⟩
    rw [fitness_eq_impl_u T { m_prob_id := k, m_is_constrained := false, m_dim := n } fuel x
      (UF_of k) rfl h1 h2 (s_u_ptr_lookup k h1 h2) _ (nobj_lookup_pred k h1 h2), lit_zero]
    rfl
  · refine ⟨if k ≤ 7 then 2 else 3, if k = 6 ∨ k = 7 then 2 else 1, nobj_lookup k h1 h2,
      get_nic_constrained k n h1 h2, ?_⟩
    rw [fitness_eq_impl_c T { m_prob_id := k, m_is_constrained := true, m_dim := n } fuel x
      (CF_of k) rfl h1 h2 (s_c_ptr_lookup k h1 h2) _ _ (nobj_lookup_pred k h1 h2)
      (nic_lookup_pred k h1 h2), lit_zero, Nat.add_comm]
    rfl

theorem fitness_dispatch_witness :
    ∃ a b, get_nobj { m_prob_id := 9, m_is_constrained := true, m_dim := 7 } = Except.ok a ∧
      get_nic { m_prob_id := 9, m_is_constrained := true, m_dim := 7 } = Except.ok b ∧
      fitness { m_prob_id := 9, m_is_constrained := true, m_dim := 7 } realLibm 8
          ([0, 0, 0, 0, 0, 0, 0] : List ℝ)
        = (if true then CF_of 9 else UF_of 9)
            { m_prob_id := 9, m_is_constrained := true, m_dim := 7 } realLibm 8
            (List.replicate (a + b) 0) ([0, 0, 0, 0, 0, 0, 0] : List ℝ) :=
  fitness_dispatch realLibm 9 true 7 8 ([0, 0, 0, 0, 0, 0, 0] : List ℝ) (by decide) (by decide)

/-- C14: `sgn v` is `+1` when `v > 0` and `-1` otherwise; `sgn 0 = -1`, and `sgn` never
returns 0. -/
theorem sgn_values (v : α) :
    sgn v = (if v > 0 then 1 else -1) ∧ sgn (0 : α) = -1 ∧ sgn v ≠ 0 ∧
      (sgn v = 1 ∨ sgn v = -1) := by
  refine ⟨rfl, by simp [sgn], ?_, ?_⟩
  · unfold sgn
    split_ifs <;> norm_num
  · unfold sgn
    split_ifs <;> simp

end dispatch

/-! ## Names and independence of the fuel (C15) -/

section names

variable {α : Type} [LinearOrderedField α]

/-- Two runs of one loop that both return, return the same state, whatever their fuel. -/
theorem forLe_fuel_indep {σ : Type} (body : Nat → σ → Except Fault σ) (m : Nat) :
    ∀ (f1 f2 j : Nat) (s t1 t2 : σ), forLe body m f1 j s = Except.ok t1 →
      forLe body m f2 j s = Except.ok t2 → t1 = t2 := by
  intro f1
  induction f1 with
  | zero => intro f2 j s t1 t2 h1 _; cases h1
  | succ k ih =>
    intro f2 j s t1 t2 h1 h2
    cases f2 with
    | zero => cases h2
    | succ k2 =>
      rw [forLe] at h1 h2
      by_cases hj : j ≤ m
      · rw [if_pos hj] at h1 h2
        cases hb : body j s with
        | error e => rw [hb] at h1; cases h1
        | ok s1 =>
          rw [hb] at h1 h2
          exact ih k2 (uinc j) s1 t1 t2 h1 h2
      · rw [if_neg hj] at h1 h2
        cases h1
        cases h2
        rfl

/-- A loop followed by code that does not read the fuel gives the same value on any two
runs that return. -/
theorem bind_forLe_fuel_indep {σ β : Type} (body : Nat → σ → Except Fault σ) (m j : Nat)
    (s : σ) (K : σ → Except Fault β) (f1 f2 : Nat) (v1 v2 : β)
    (h1 : (forLe body m f1 j s >>= K) = Except.ok v1)
    (h2 : (forLe body m f2 j s >>= K) = Except.ok v2) : v1 = v2 := by
  cases e1 : forLe body m f1 j s with
  | error e => rw [e1] at h1; cases h1
  | ok t1 =>
    cases e2 : forLe body m f2 j s with
    | error e => rw [e2] at h2; cases h2
    | ok t2 =>
      have e := forLe_fuel_indep body m f1 f2 j s t1 t2 e1 e2
      subst e
      rw [e1] at h1
      rw [e2] at h2
      have h3 : K t1 = Except.ok v1 := h1
      have h4 : K t1 = Except.ok v2 := h2
      rw [h3] at h4
      injection h4

theorem UF1_fuel_indep (T : Libm α) (p : pagmo.cec2009) (f1 f2 : Nat) (f x v1 v2 : List α)
    (h1 : UF1 p T f1 f x = Except.ok v1) (h2 : UF1 p T f2 f x = Except.ok v2) : v1 = v2 :=
  bind_forLe_fuel_indep _ _ _ _ _ f1 f2 v1 v2 h1 h2

theorem UF2_fuel_indep (T : Libm α) (p : pagmo.cec2009) (f1 f2 : Nat) (f x v1 v2 : List α)
    (h1 : UF2 p T f1 f x = Except.ok v1) (h2 : UF2 p T f2 f x = Except.ok v2) : v1 = v2 :=
  bind_forLe_fuel_indep _ _ _ _ _ f1 f2 v1 v2 h1 h2

theorem UF3_fuel_indep (T : Libm α) (p : pagmo.cec2009) (f1 f2 : Nat) (f x v1 v2 : List α)
    (h1 : UF3 p T f1 f x = Except.ok v1) (h2 : UF3 p T f2 f x = Except.ok v2) : v1 = v2 :=
  bind_forLe_fuel_indep _ _ _ _ _ f1 f2 v1 v2 h1 h2

theorem UF4_fuel_indep (T : Libm α) (p : pagmo.cec2009) (f1 f2 : Nat) (f x v1 v2 : List α)
    (h1 : UF4 p T f1 f x = Except.ok v1) (h2 : UF4 p T f2 f x = Except.ok v2) : v1 = v2 :=
  bind_forLe_fuel_indep _ _ _ _ _ f1 f2 v1 v2 h1 h2

theorem UF5_fuel_indep (T : Libm α) (p : pagmo.cec2009) (f1 f2 : Nat) (f x v1 v2 : List α)
    (h1 : UF5 p T f1 f x = Except.ok v1) (h2 : UF5 p T f2 f x = Except.ok v2) : v1 = v2 :=
  bind_forLe_fuel_indep _ _ _ _ _ f1 f2 v1 v2 h1 h2

theorem UF6_fuel_indep (T : Libm α) (p : pagmo.cec2009) (f1 f2 : Nat) (f x v1 v2 : List α)
    (h1 : UF6 p T f1 f x = Except.ok v1) (h2 : UF6 p T f2 f x = Except.ok v2) : v1 = v2 :=
  bind_forLe_fuel_indep _ _ _ _ _ f1 f2 v1 v2 h1 h2

theorem UF7_fuel_indep (T : Libm α) (p : pagmo.cec2009) (f1 f2 : Nat) (f x v1 v2 : List α)
    (h1 : UF7 p T f1 f x = Except.ok v1) (h2 : UF7 p T f2 f x = Except.ok v2) : v1 = v2 :=
  bind_forLe_fuel_indep _ _ _ _ _ f1 f2 v1 v2 h1 h2

theorem UF8_fuel_indep (T : Libm α) (p : pagmo.cec2009) (f1 f2 : Nat) (f x v1 v2 : List α)
    (h1 : UF8 p T f1 f x = Except.ok v1) (h2 : UF8 p T f2 f x = Except.ok v2) : v1 = v2 :=
  bind_forLe_fuel_indep _ _ _ _ _ f1 f2 v1 v2 h1 h2

theorem UF9_fuel_indep (T : Libm α) (p : pagmo.cec2009) (f1 f2 : Nat) (f x v1 v2 : List α)
    (h1 : UF9 p T f1 f x = Except.ok v1) (h2 : UF9 p T f2 f x = Except.ok v2) : v1 = v2 :=
  bind_forLe_fuel_indep _ _ _ _ _ f1 f2 v1 v2 h1 h2

theorem UF10_fuel_indep (T : Libm α) (p : pagmo.cec2009) (f1 f2 : Nat) (f x v1 v2 : List α)
    (h1 : UF10 p T f1 f x = Except.ok v1) (h2 : UF10 p T f2 f x = Except.ok v2) : v1 = v2 :=
  bind_forLe_fuel_indep _ _ _ _ _ f1 f2 v1 v2 h1 h2

theorem CF1_fuel_indep (T : Libm α) (p : pagmo.cec2009) (f1 f2 : Nat) (f x v1 v2 : List α)
    (h1 : CF1 p T f1 f x = Except.ok v1) (h2 : CF1 p T f2 f x = Except.ok v2) : v1 = v2 :=
  bind_forLe_fuel_indep _ _ _ _ _ f1 f2 v1 v2 h1 h2

theorem CF2_fuel_indep (T : Libm α) (p : pagmo.cec2009) (f1 f2 : Nat) (f x v1 v2 : List α)
    (h1 : CF2 p T f1 f x = Except.ok v1) (h2 : CF2 p T f2 f x = Except.ok v2) : v1 = v2 :=
  bind_forLe_fuel_indep _ _ _ _ _ f1 f2 v1 v2 h1 h2

theorem CF3_fuel_indep (T : Libm α) (p : pagmo.cec2009) (f1 f2 : Nat) (f x v1 v2 : List α)
    (h1 : CF3 p T f1 f x = Except.ok v1) (h2 : CF3 p T f2 f x = Except.ok v2) : v1 = v2 :=
  bind_forLe_fuel_indep _ _ _ _ _ f1 f2 v1 v2 h1 h2

theorem CF4_fuel_indep (T : Libm α) (p : pagmo.cec2009) (f1 f2 : Nat) (f x v1 v2 : List α)
    (h1 : CF4 p T f1 f x = Except.ok v1) (h2 : CF4 p T f2 f x = Except.ok v2) : v1 = v2 :=
  bind_forLe_fuel_indep _ _ _ _ _ f1 f2 v1 v2 h1 h2

theorem CF5_fuel_indep (T : Libm α) (p : pagmo.cec2009) (f1 f2 : Nat) (f x v1 v2 : List α)
    (h1 : CF5 p T f1 f x = Except.ok v1) (h2 : CF5 p T f2 f x = Except.ok v2) : v1 = v2 :=
  bind_forLe_fuel_indep _ _ _ _ _ f1 f2 v1 v2 h1 h2

theorem CF6_fuel_indep (T : Libm α) (p : pagmo.cec2009) (f1 f2 : Nat) (f x v1 v2 : List α)
    (h1 : CF6 p T f1 f x = Except.ok v1) (h2 : CF6 p T f2 f x = Except.ok v2) : v1 = v2 :=
  bind_forLe_fuel_indep _ _ _ _ _ f1 f2 v1 v2 h1 h2

theorem CF7_fuel_indep (T : Libm α) (p : pagmo.cec2009) (f1 f2 : Nat) (f x v1 v2 : List α)
    (h1 : CF7 p T f1 f x = Except.ok v1) (h2 : CF7 p T f2 f x = Except.ok v2) : v1 = v2 :=
  bind_forLe_fuel_indep _ _ _ _ _ f1 f2 v1 v2 h1 h2

theorem CF8_fuel_indep (T : Libm α) (p : pagmo.cec2009) (f1 f2 : Nat) (f x v1 v2 : List α)
    (h1 : CF8 p T f1 f x = Except.ok v1) (h2 : CF8 p T f2 f x = Except.ok v2) : v1 = v2 :=
  bind_forLe_fuel_indep _ _ _ _ _ f1 f2 v1 v2 h1 h2

theorem CF9_fuel_indep (T : Libm α) (p : pagmo.cec2009) (f1 f2 : Nat) (f x v1 v2 : List α)
    (h1 : CF9 p T f1 f x = Except.ok v1) (h2 : CF9 p T f2 f x = Except.ok v2) : v1 = v2 :=
  bind_forLe_fuel_indep _ _ _ _ _ f1 f2 v1 v2 h1 h2

theorem CF10_fuel_indep (T : Libm α) (p : pagmo.cec2009) (f1 f2 : Nat) (f x v1 v2 : List α)
    (h1 : CF10 p T f1 f x = Except.ok v1) (h2 : CF10 p T f2 f x = Except.ok v2) : v1 = v2 :=
  bind_forLe_fuel_indep _ _ _ _ _ f1 f2 v1 v2 h1 h2

theorem vget_mem {β : Type} (l : List β) (i : Nat) (a : β) (h : vget l i = Except.ok a) :
    a ∈ l := by
  unfold vget at h
  cases e : l[i]? with
  | none => rw [e] at h; cases h
  | some b =>
    rw [e] at h
    injection h with h
    subst h
    exact List.getElem?_mem e

theorem func_ptr_fuel_indep (g : func_ptr α)
    (hg : g ∈ (s_u_ptr : List (func_ptr α)) ∨ g ∈ (s_c_ptr : List (func_ptr α)))
    (T : Libm α) (p : pagmo.cec2009) (f1 f2 : Nat) (f x v1 v2 : List α)
    (h1 : g p T f1 f x = Except.ok v1) (h2 : g p T f2 f x = Except.ok v2) : v1 = v2 := by
  simp only [s_u_ptr, s_c_ptr, List.mem_cons, List.mem_singleton, List.not_mem_nil,
    or_false] at hg
  rcases hg with (h | h | h | h | h | h | h | h | h | h) | (h | h | h | h | h | h | h | h | h | h) <;>
    subst h
  · exact UF1_fuel_indep T p f1 f2 f x v1 v2 h1 h2
  · exact UF2_fuel_indep T p f1 f2 f x v1 v2 h1 h2
  · exact UF3_fuel_indep T p f1 f2 f x v1 v2 h1 h2
  · exact UF4_fuel_indep T p f1 f2 f x v1 v2 h1 h2
  · exact UF5_fuel_indep T p f1 f2 f x v1 v2 h1 h2
  · exact UF6_fuel_indep T p f1 f2 f x v1 v2 h1 h2
  · exact UF7_fuel_indep T p f1 f2 f x v1 v2 h1 h2
  · exact UF8_fuel_indep T p f1 f2 f x v1 v2 h1 h2
  · exact UF9_fuel_indep T p f1 f2 f x v1 v2 h1 h2
  · exact UF10_fuel_indep T p f1 f2 f x v1 v2 h1 h2
  · exact CF1_fuel_indep T p f1 f2 f x v1 v2 h1 h2
  · exact CF2_fuel_indep T p f1 f2 f x v1 v2 h1 h2
  · exact CF3_fuel_indep T p f1 f2 f x v1 v2 h1 h2
  · exact CF4_fuel_indep T p f1 f2 f x v1 v2 h1 h2
  · exact CF5_fuel_indep T p f1 f2 f x v1 v2 h1 h2
  · exact CF6_fuel_indep T p f1 f2 f x v1 v2 h1 h2
  · exact CF7_fuel_indep T p f1 f2 f x v1 v2 h1 h2
  · exact CF8_fuel_indep T p f1 f2 f x v1 v2 h1 h2
  · exact CF9_fuel_indep T p f1 f2 f x v1 v2 h1 h2
  · exact CF10_fuel_indep T p f1 f2 f x v1 v2 h1 h2

theorem fitness_impl_fuel_indep (g : func_ptr α)
    (hg : g ∈ (s_u_ptr : List (func_ptr α)) ∨ g ∈ (s_c_ptr : List (func_ptr α)))
    (T : Libm α) (p : pagmo.cec2009) (f1 f2 : Nat) (x v1 v2 : List α)
    (h1 : fitness_impl p T f1 g x = Except.ok v1)
    (h2 : fitness_impl p T f2 g x = Except.ok v2) : v1 = v2 := by
  unfold fitness_impl at h1 h2
  cases hc : p.m_is_constrained
  · rw [hc] at h1 h2
    simp only [Bool.false_eq_true, if_false] at h1 h2
    cases e2 : vget cec2009_data.nobj (usub p.m_prob_id 1) with
    | error e => rw [e2] at h1; cases h1
    | ok b =>
      rw [e2] at h1 h2
      exact func_ptr_fuel_indep g hg T p f1 f2 _ x v1 v2 h1 h2
  · rw [hc] at h1 h2
    simp only [if_true] at h1 h2
    cases e1 : vget cec2009_data.nic (usub p.m_prob_id 1) with
    | error e => rw [e1] at h1; cases h1
    | ok a =>
      rw [e1] at h1 h2
      cases e2 : vget cec2009_data.nobj (usub p.m_prob_id 1) with
      | error e => rw [e2] at h1; cases h1
      | ok b =>
        rw [e2] at h1 h2
        exact func_ptr_fuel_indep g hg T p f1 f2 _ x v1 v2 h1 h2

/-- Two calls of `fitness` on one instance and one vector that both return, return the
same vector, whatever their fuel. -/
theorem fitness_fuel_indep (T : Libm α) (p : pagmo.cec2009) (f1 f2 : Nat) (x v1 v2 : List α)
    (h1 : fitness p T f1 x = Except.ok v1) (h2 : fitness p T f2 x = Except.ok v2) :
    v1 = v2 := by
  unfold fitness at h1 h2
  cases hc : p.m_is_constrained
  · rw [hc] at h1 h2
    simp only [Bool.false_eq_true, if_false] at h1 h2
    cases e : vget (s_u_ptr : List (func_ptr α)) (usub p.m_prob_id 1) with
    | error e0 => rw [e] at h1; cases h1
    | ok g =>
      rw [e] at h1 h2
      exact fitness_impl_fuel_indep g (Or.inl (vget_mem _ _ _ e)) T p f1 f2 x v1 v2 h1 h2
  · rw [hc] at h1 h2
    simp only [if_true] at h1 h2
    cases e : vget (s_c_ptr : List (func_ptr α)) (usub p.m_prob_id 1) with
    | error e0 => rw [e] at h1; cases h1
    | ok g =>
      rw [e] at h1 h2
      exact fitness_impl_fuel_indep g (Or.inr (vget_mem _ _ _ e)) T p f1 f2 x v1 v2 h1 h2

theorem get_name_inj_small (a b : Nat) (c d : Bool) (ha1 : 1 ≤ a) (ha2 : a ≤ 10)
    (hb1 : 1 ≤ b) (hb2 : b ≤ 10) :
    get_name { m_prob_id := a, m_is_constrained := c, m_dim := 0 }
        = get_name { m_prob_id := b, m_is_constrained := d, m_dim := 0 } ↔ (a = b ∧ c = d) := by
  interval_cases a <;> interval_cases b <;> cases c <;> cases d <;> decide

/-- C15: on an instance the constructor returns, `get_name` is `CEC2009 - UF` followed by
the decimal rendering of `prob_id` when `is_constrained` is false and `CEC2009 - CF`
followed by it when true; the dimension does not enter, and two constructed instances have
the same name exactly when they have the same `prob_id` and the same flag. -/
theorem get_name_value (prob_id prob_id1 : Nat) (c c1 : Bool) (dim dim1 : Nat)
    (p p1 : pagmo.cec2009) (hp : cec2009.cec2009 prob_id c dim = Except.ok p)
    (hp1 : cec2009.cec2009 prob_id1 c1 dim1 = Except.ok p1) :
    get_name p = (if c then "CEC2009 - CF" else "CEC2009 - UF") ++ Nat.repr prob_id ∧
      (get_name p1 = get_name p ↔ (prob_id1 = prob_id ∧ c1 = c)) := by
  obtain ⟨⟨h1, h2, _⟩, rfl⟩ := (ctor_ok_iff _ _ _ _).1 hp
  obtain ⟨⟨h3, h4, _⟩, rfl⟩ := (ctor_ok_iff _ _ _ _).1 hp1
  constructor
  · cases c <;> rfl
  · exact get_name_inj_small prob_id1 prob_id c1 c h3 h4 h1 h2

theorem get_name_value_witness :
    get_name { m_prob_id := 10, m_is_constrained := true, m_dim := 30 }
        = (if true then "CEC2009 - CF" else "CEC2009 - UF") ++ Nat.repr 10 ∧
      (get_name { m_prob_id := 10, m_is_constrained := false, m_dim := 5 }
          = get_name { m_prob_id := 10, m_is_constrained := true, m_dim := 30 }
        ↔ (10 = 10 ∧ false = true)) :=
  get_name_value 10 10 true false 30 5
    { m_prob_id := 10, m_is_constrained := true, m_dim := 30 }
    { m_prob_id := 10, m_is_constrained := false, m_dim := 5 } rfl rfl

end names

/-! ## Writes of `get_bounds` and the piecewise term of CF4, CF5 (C21, C26) -/

section bounds_writes

variable {α : Type} [LinearOrderedField α]

theorem get_bounds_dim_one (prob_id : Nat) (c : Bool)
    (h : prob_id = 8 ∨ prob_id = 9 ∨ prob_id = 10) :
    (get_bounds { m_prob_id := prob_id, m_is_constrained := c, m_dim := 1 }
        : Except Fault (List α × List α)) = Except.error (Fault.out_of_range 1) := by
  rcases h with h | h | h <;> subst h <;> cases c <;> simp [get_bounds, vset]

/-- C21: on an instance the constructor returns, every write of `get_bounds` into `lb` and
`ub` is inside the vectors (the call returns) exactly when the dimension is at least 2 or
`prob_id` is not 8, 9 or 10; with dimension 1 and `prob_id` 8, 9 or 10, for either flag,
the write `lb[1]` is outside `lb`, a vector of length 1. -/
theorem get_bounds_writes_in_range (prob_id : Nat) (c : Bool) (n : Nat) (p : pagmo.cec2009)
    (hp : cec2009.cec2009 prob_id c n = Except.ok p) :
    ((∃ r : List α × List α, get_bounds p = Except.ok r) ↔
        (2 ≤ n ∨ ¬ (prob_id = 8 ∨ prob_id = 9 ∨ prob_id = 10))) ∧
      (¬ (2 ≤ n ∨ ¬ (prob_id = 8 ∨ prob_id = 9 ∨ prob_id = 10)) →
        (get_bounds p : Except Fault (List α × List α))
          = Except.error (Fault.out_of_range 1)) := by
  obtain ⟨⟨h1, h2, h3⟩, rfl⟩ := (ctor_ok_iff _ _ _ _).1 hp
  have hbad : ¬ (2 ≤ n ∨ ¬ (prob_id = 8 ∨ prob_id = 9 ∨ prob_id = 10)) →
      (get_bounds { m_prob_id := prob_id, m_is_constrained := c, m_dim := n }
        : Except Fault (List α × List α)) = Except.error (Fault.out_of_range 1) := by
    intro h
    have hn : n = 1 := by omega
    have hid : prob_id = 8 ∨ prob_id = 9 ∨ prob_id = 10 := by
      by_contra h0
      exact h (Or.inr h0)
    subst hn
    exact get_bounds_dim_one prob_id c hid
  refine ⟨⟨?_, ?_⟩, hbad⟩
  · rintro ⟨r, hr⟩
    by_contra h
    rw [hbad h] at hr
    cases hr
  · intro h
    obtain ⟨lb, ub, hb, _⟩ := get_bounds_table (α := α) prob_id c n h1 h2 h3 (by omega)
    exact ⟨(lb, ub), hb⟩

theorem get_bounds_writes_in_range_witness :
    ((∃ r : List ℚ × List ℚ,
          get_bounds { m_prob_id := 9, m_is_constrained := true, m_dim := 1 } = Except.ok r) ↔
        (2 ≤ 1 ∨ ¬ (9 = 8 ∨ 9 = 9 ∨ 9 = 10))) ∧
      (¬ (2 ≤ 1 ∨ ¬ (9 = 8 ∨ 9 = 9 ∨ 9 = 10)) →
        (get_bounds { m_prob_id := 9, m_is_constrained := true, m_dim := 1 }
            : Except Fault (List ℚ × List ℚ))
          = Except.error (Fault.out_of_range 1)) :=
  get_bounds_writes_in_range 9 true 1 { m_prob_id := 9, m_is_constrained := true, m_dim := 1 }
    rfl

end bounds_writes

section piece

theorem sqrt_two_mul_self : Real.sqrt 2 * Real.sqrt 2 = 2 :=
  Real.mul_self_sqrt (by norm_num)

theorem sqrt_two_lt_two : Real.sqrt 2 < 2 := by
  have h : Real.sqrt 2 < Real.sqrt 4 := Real.sqrt_lt_sqrt (by norm_num) (by norm_num)
  have h4 : Real.sqrt 4 = 2 := by
    rw [show (4 : ℝ) = 2 ^ 2 by norm_num]
    exact Real.sqrt_sq (by norm_num)
  rw [h4] at h
  exact h

/-- C26: the term that the loops of CF4 and CF5 add to `sum2` at `j = 2` is `CF4_piece` of
the deviation; at `y0 = 1.5 - 0.75*sqrt(2)` both branches give `y0`
(`0.125 + (y0 - 1)^2 = y0 = |y0|`), and the term is non-negative for every real `y`. -/
theorem CF4_piece_breakpoint_nonneg :
    (∀ (n : Nat) (x : List ℝ) (s : Acc0 ℝ),
      CF4_body realLibm n x 2 s
        = (vget x (usub 2 1) >>= fun xj => vget x 0 >>= fun x0 =>
            Except.ok { s with sum2 := (s.sum2
              + CF4_piece realLibm
                  (xj - Real.sin (6.0 * Real.pi * x0 + ((2 : ℕ) : ℝ) * Real.pi / (n : ℝ)))) })) ∧
    (∀ (n : Nat) (x : List ℝ) (s : Acc0 ℝ),
      CF5_body realLibm n x 2 s
        = (vget x (usub 2 1) >>= fun xj => vget x 0 >>= fun x0 =>
            Except.ok { s with sum2 := (s.sum2
              + CF4_piece realLibm
                  (xj - 0.8 * x0
                    * Real.sin (6.0 * Real.pi * x0 + ((2 : ℕ) : ℝ) * Real.pi / (n : ℝ)))) })) ∧
    (0.125 + ((1.5 - 0.75 * Real.sqrt 2) - 1) * ((1.5 - 0.75 * Real.sqrt 2) - 1) : ℝ)
      = 1.5 - 0.75 * Real.sqrt 2 ∧
    |(1.5 - 0.75 * Real.sqrt 2 : ℝ)| = 1.5 - 0.75 * Real.sqrt 2 ∧
    CF4_piece realLibm (1.5 - 0.75 * Real.sqrt 2) = 1.5 - 0.75 * Real.sqrt 2 ∧
    ∀ y : ℝ, 0 ≤ CF4_piece realLibm y := by
  have hs := sqrt_two_mul_self
  have hlt := sqrt_two_lt_two
  have hbr : (0.125 + ((1.5 - 0.75 * Real.sqrt 2) - 1) * ((1.5 - 0.75 * Real.sqrt 2) - 1) : ℝ)
      = 1.5 - 0.75 * Real.sqrt 2 := by
    norm_num
    nlinarith [hs]
  have hpos : (0 : ℝ) ≤ 1.5 - 0.75 * Real.sqrt 2 := by
    norm_num
    nlinarith [hlt]
  refine ⟨fun n x s => rfl, fun n x s => rfl, hbr, abs_of_nonneg hpos, ?_, ?_⟩
  · unfold CF4_piece
    have e : (realLibm.sqrt 2.0 : ℝ) = Real.sqrt 2 := by
      show Real.sqrt 2.0 = Real.sqrt 2
      norm_num
    rw [e, if_neg (lt_irrefl _)]
    exact hbr
  · intro y
    unfold CF4_piece
    split_ifs
    · exact abs_nonneg y
    · have h := mul_self_nonneg (y - 1)
      norm_num
      linarith

end piece

/-! ## Closed forms of the loops with products, without counts and modulo 3 -/

section folds

variable {α : Type} [LinearOrderedField α]

/-- The parity loop with sums, products and counts (locals of UF3, UF6, CF3). -/
theorem foldl_parity_p (h q : Nat → α) (k : Nat) :
    (List.range' 2 k).foldl
      (fun (s : Acc2p α) j =>
        if j % 2 = 0 then
          { s with sum2 := s.sum2 + h j, prod2 := s.prod2 * q j, count2 := s.count2 + 1 }
        else { s with sum1 := s.sum1 + h j, prod1 := s.prod1 * q j, count1 := s.count1 + 1 })
      { sum1 := 0, sum2 := 0, prod1 := 1, prod2 := 1, count1 := 0, count2 := 0 }
    = { sum1 := ∑ j ∈ J1 (k + 1), h j, sum2 := ∑ j ∈ J2 (k + 1), h j,
        prod1 := ∏ j ∈ J1 (k + 1), q j, prod2 := ∏ j ∈ J2 (k + 1), q j,
        count1 := ((J1 (k + 1)).card : α), count2 := ((J2 (k + 1)).card : α) } := by
  induction k with
  | zero => simp [J1, J2]
  | succ k ih =>
    rw [List.range'_1_concat, List.foldl_append, ih]
    simp only [List.foldl_cons, List.foldl_nil]
    have e : 2 + k = k + 2 := by omega
    rw [e, J1_succ, J2_succ]
    by_cases hp : (k + 2) % 2 = 0
    · have hq : ¬ (k + 2) % 2 = 1 := by omega
      rw [if_pos hp, if_pos hp, if_neg hq, Finset.sum_insert (not_mem_J2 k),
        Finset.prod_insert (not_mem_J2 k), Finset.card_insert_of_not_mem (not_mem_J2 k)]
      simp [add_comm, mul_comm]
    · have hq : (k + 2) % 2 = 1 := by omega
      rw [if_neg hp, if_neg hp, if_pos hq, Finset.sum_insert (not_mem_J1 k),
        Finset.prod_insert (not_mem_J1 k), Finset.card_insert_of_not_mem (not_mem_J1 k)]
      simp [add_comm, mul_comm]

/-- The parity loop with sums only (locals of CF4 .. CF7). -/
theorem foldl_parity_0 (h : Nat → α) (k : Nat) :
    (List.range' 2 k).foldl
      (fun (s : Acc0 α) j =>
        if j % 2 = 0 then { s with sum2 := s.sum2 + h j }
        else { s with sum1 := s.sum1 + h j })
      { sum1 := 0, sum2 := 0 }
    = { sum1 := ∑ j ∈ J1 (k + 1), h j, sum2 := ∑ j ∈ J2 (k + 1), h j } := by
  induction k with
  | zero => simp [J1, J2]
  | succ k ih =>
    rw [List.range'_1_concat, List.foldl_append, ih]
    simp only [List.foldl_cons, List.foldl_nil]
    have e : 2 + k = k + 2 := by omega
    rw [e, J1_succ, J2_succ]
    by_cases hp : (k + 2) % 2 = 0
    · have hq : ¬ (k + 2) % 2 = 1 := by omega
      rw [if_pos hp, if_pos hp, if_neg hq, Finset.sum_insert (not_mem_J2 k)]
      simp [add_comm]
    · have hq : (k + 2) % 2 = 1 := by omega
      rw [if_neg hp, if_neg hp, if_pos hq, Finset.sum_insert (not_mem_J1 k)]
      simp [add_comm]

theorem K1_succ (k : Nat) :
    K1 (k + 3) = if (k + 3) % 3 = 1 then insert (k + 3) (K1 (k + 2)) else K1 (k + 2) := by
  unfold K1
  rw [← Nat.Icc_insert_succ_right (by omega : 3 ≤ k + 2 + 1), Finset.filter_insert]

theorem K2_succ (k : Nat) :
    K2 (k + 3) = if (k + 3) % 3 = 2 then insert (k + 3) (K2 (k + 2)) else K2 (k + 2) := by
  unfold K2
  rw [← Nat.Icc_insert_succ_right (by omega : 3 ≤ k + 2 + 1), Finset.filter_insert]

theorem K3_succ (k : Nat) :
    K3 (k + 3) = if (k + 3) % 3 = 0 then insert (k + 3) (K3 (k + 2)) else K3 (k + 2) := by
  unfold K3
  rw [← Nat.Icc_insert_succ_right (by omega : 3 ≤ k + 2 + 1), Finset.filter_insert]

theorem not_mem_K1 (k : Nat) : k + 3 ∉ K1 (k + 2) := by
  simp [K1]

theorem not_mem_K2 (k : Nat) : k + 3 ∉ K2 (k + 2) := by
  simp [K2]

theorem not_mem_K3 (k : Nat) : k + 3 ∉ K3 (k + 2) := by
  simp [K3]

/-- The modulo-3 loop over `j = 3 .. k+2` with sums and counts. -/
theorem foldl_mod3 (h : Nat → α) (k : Nat) :
    (List.range' 3 k).foldl
      (fun (s : Acc3 α) j =>
        if j % 3 = 1 then { s with sum1 := s.sum1 + h j, count1 := s.count1 + 1 }
        else if j % 3 = 2 then { s with sum2 := s.sum2 + h j, count2 := s.count2 + 1 }
        else { s with sum3 := s.sum3 + h j, count3 := s.count3 + 1 })
      { sum1 := 0, sum2 := 0, sum3 := 0, count1 := 0, count2 := 0, count3 := 0 }
    = { sum1 := ∑ j ∈ K1 (k + 2), h j, sum2 := ∑ j ∈ K2 (k + 2), h j,
        sum3 := ∑ j ∈ K3 (k + 2), h j,
        count1 := ((K1 (k + 2)).card : α), count2 := ((K2 (k + 2)).card : α),
        count3 := ((K3 (k + 2)).card : α) } := by
  induction k with
  | zero => simp [K1, K2, K3]
  | succ k ih =>
    rw [List.range'_1_concat, List.foldl_append, ih]
    simp only [List.foldl_cons, List.foldl_nil]
    have e : 3 + k = k + 3 := by omega
    have e2 : k + 1 + 2 = k + 3 := by omega
    rw [e, e2, K1_succ, K2_succ, K3_succ]
    by_cases h1 : (k + 3) % 3 = 1
    · have h2 : ¬ (k + 3) % 3 = 2 := by omega
      have h3 : ¬ (k + 3) % 3 = 0 := by omega
      rw [if_pos h1, if_pos h1, if_neg h2, if_neg h3, Finset.sum_insert (not_mem_K1 k),
        Finset.card_insert_of_not_mem (not_mem_K1 k)]
      simp [add_comm]
    · by_cases h2 : (k + 3) % 3 = 2
      · have h3 : ¬ (k + 3) % 3 = 0 := by omega
        rw [if_neg h1, if_neg h1, if_pos h2, if_pos h2, if_neg h3,
          Finset.sum_insert (not_mem_K2 k), Finset.card_insert_of_not_mem (not_mem_K2 k)]
        simp [add_comm]
      · have h3 : (k + 3) % 3 = 0 := by omega
        rw [if_neg h1, if_neg h1, if_neg h2, if_neg h2, if_pos h3,
          Finset.sum_insert (not_mem_K3 k), Finset.card_insert_of_not_mem (not_mem_K3 k)]
        simp [add_comm]

end folds

/-! ## Closed forms of the loops of the remaining evaluators -/

section loops

variable {α : Type} [LinearOrderedField α]

theorem lit_one : (1.0 : α) = 1 := by norm_num

/-- Closed form of the loop of `UF2`. -/
theorem UF2_loop (T : Libm α) (n fuel : Nat) (x : List α) (hx : x.length = n) (h1 : 1 ≤ n)
    (hn : n + 1 < UINT_MOD) (hf : n < fuel) :
    forLe (UF2_body T n x) n fuel 2
        ({ sum1 := 0.0, sum2 := 0.0, count1 := 0, count2 := 0 } : Acc2 α)
      = Except.ok
        { sum1 := ∑ j ∈ J1 n, UF2_ref_y T n x j ^ 2, sum2 := ∑ j ∈ J2 n, UF2_ref_y T n x j ^ 2,
          count1 := ((J1 n).card : α), count2 := ((J2 n).card : α) } := by
  rw [forLe_eq_foldl (UF2_body T n x)
    (fun (s : Acc2 α) j =>
      if j % 2 = 0 then { s with sum2 := s.sum2 + UF2_ref_y T n x j ^ 2, count2 := s.count2 + 1 }
      else { s with sum1 := s.sum1 + UF2_ref_y T n x j ^ 2, count1 := s.count1 + 1 })
    n hn fuel 2 _ (by omega) (by omega)]
  · obtain ⟨k, rfl⟩ : ∃ k, n = k + 1 := ⟨n - 1, by omega⟩
    have e : k + 1 + 1 - 2 = k := by omega
    rw [e, lit_zero]
    exact congrArg Except.ok (foldl_parity (fun j => UF2_ref_y T (k + 1) x j ^ 2) k)
  · intro i t hi1 hi2
    have hU : i < UINT_MOD := by omega
    have ej := vget_of_lt x (i - 1) 0 (by omega)
    have e0 := vget_of_lt x 0 0 (by omega)
    simp only [UF2_body, usub_one i (by omega) hU, ej, e0, ok_bind, pure_eq_ok, UF2_ref_y]
    split_ifs <;> first | omega | norm_num [sq]

/-- Closed form of the loop of `UF3`. -/
theorem UF3_loop (T : Libm α) (n fuel : Nat) (x : List α) (hx : x.length = n) (h1 : 1 ≤ n)
    (hn : n + 1 < UINT_MOD) (hf : n < fuel) :
    forLe (UF3_body T n x) n fuel 2
        ({ sum1 := 0.0, sum2 := 0.0, prod1 := 1.0, prod2 := 1.0, count1 := 0, count2 := 0 } : Acc2p α)
      = Except.ok
        { sum1 := ∑ j ∈ J1 n, CF1_ref_y T n x j ^ 2, sum2 := ∑ j ∈ J2 n, CF1_ref_y T n x j ^ 2,
          prod1 := ∏ j ∈ J1 n, cos_factor T (CF1_ref_y T n x j) j, prod2 := ∏ j ∈ J2 n, cos_factor T (CF1_ref_y T n x j) j,
          count1 := ((J1 n).card : α), count2 := ((J2 n).card : α) } := by
  rw [forLe_eq_foldl (UF3_body T n x)
    (fun (s : Acc2p α) j =>
      if j % 2 = 0 then
        { s with sum2 := s.sum2 + CF1_ref_y T n x j ^ 2, prod2 := s.prod2 * cos_factor T (CF1_ref_y T n x j) j, count2 := s.count2 + 1 }
      else { s with sum1 := s.sum1 + CF1_ref_y T n x j ^ 2, prod1 := s.prod1 * cos_factor T (CF1_ref_y T n x j) j, count1 := s.count1 + 1 })
    n hn fuel 2 _ (by omega) (by omega)]
  · obtain ⟨k, rfl⟩ : ∃ k, n = k + 1 := ⟨n - 1, by omega⟩
    have e : k + 1 + 1 - 2 = k := by omega
    rw [e, lit_zero, lit_one]
    exact congrArg Except.ok (foldl_parity_p (fun j => CF1_ref_y T (k + 1) x j ^ 2) (fun j => cos_factor T (CF1_ref_y T (k + 1) x j) j) k)
  · intro i t hi1 hi2
    have hU : i < UINT_MOD := by omega
    have ej := vget_of_lt x (i - 1) 0 (by omega)
    have e0 := vget_of_lt x 0 0 (by omega)
    simp only [UF3_body, usub_one i (by omega) hU, ej, e0, ok_bind, pure_eq_ok, CF1_ref_y, cos_factor]
    split_ifs <;> first | omega | norm_num [sq]

/-- Closed form of the loop of `UF4`. -/
theorem UF4_loop (T : Libm α) (n fuel : Nat) (x : List α) (hx : x.length = n) (h1 : 1 ≤ n)
    (hn : n + 1 < UINT_MOD) (hf : n < fuel) :
    forLe (UF4_body T n x) n fuel 2
        ({ sum1 := 0.0, sum2 := 0.0, count1 := 0, count2 := 0 } : Acc2 α)
      = Except.ok
        { sum1 := ∑ j ∈ J1 n, damp_h T (UF1_ref_y T n x j), sum2 := ∑ j ∈ J2 n, damp_h T (UF1_ref_y T n x j),
          count1 := ((J1 n).card : α), count2 := ((J2 n).card : α) } := by
  rw [forLe_eq_foldl (UF4_body T n x)
    (fun (s : Acc2 α) j =>
      if j % 2 = 0 then { s with sum2 := s.sum2 + damp_h T (UF1_ref_y T n x j), count2 := s.count2 + 1 }
      else { s with sum1 := s.sum1 + damp_h T (UF1_ref_y T n x j), count1 := s.count1 + 1 })
    n hn fuel 2 _ (by omega) (by omega)]
  · obtain ⟨k, rfl⟩ : ∃ k, n = k + 1 := ⟨n - 1, by omega⟩
    have e : k + 1 + 1 - 2 = k := by omega
    rw [e, lit_zero]
    exact congrArg Except.ok (foldl_parity (fun j => damp_h T (UF1_ref_y T (k + 1) x j)) k)
  · intro i t hi1 hi2
    have hU : i < UINT_MOD := by omega
    have ej := vget_of_lt x (i - 1) 0 (by omega)
    have e0 := vget_of_lt x 0 0 (by omega)
    simp only [UF4_body, usub_one i (by omega) hU, ej, e0, ok_bind, pure_eq_ok, UF1_ref_y, damp_h]
    split_ifs <;> first | omega | norm_num [sq]

/-- Closed form of the loop of `UF5`. -/
theorem UF5_loop (T : Libm α) (n fuel : Nat) (x : List α) (hx : x.length = n) (h1 : 1 ≤ n)
    (hn : n + 1 < UINT_MOD) (hf : n < fuel) :
    forLe (UF5_body T n x) n fuel 2
        ({ sum1 := 0.0, sum2 := 0.0, count1 := 0, count2 := 0 } : Acc2 α)
      = Except.ok
        { sum1 := ∑ j ∈ J1 n, ripple_h T (UF1_ref_y T n x j), sum2 := ∑ j ∈ J2 n, ripple_h T (UF1_ref_y T n x j),
          count1 := ((J1 n).card : α), count2 := ((J2 n).card : α) } := by
  rw [forLe_eq_foldl (UF5_body T n x)
    (fun (s : Acc2 α) j =>
      if j % 2 = 0 then { s with sum2 := s.sum2 + ripple_h T (UF1_ref_y T n x j), count2 := s.count2 + 1 }
      else { s with sum1 := s.sum1 + ripple_h T (UF1_ref_y T n x j), count1 := s.count1 + 1 })
    n hn fuel 2 _ (by omega) (by omega)]
  · obtain ⟨k, rfl⟩ : ∃ k, n = k + 1 := ⟨n - 1, by omega⟩
    have e : k + 1 + 1 - 2 = k := by omega
    rw [e, lit_zero]
    exact congrArg Except.ok (foldl_parity (fun j => ripple_h T (UF1_ref_y T (k + 1) x j)) k)
  · intro i t hi1 hi2
    have hU : i < UINT_MOD := by omega
    have ej := vget_of_lt x (i - 1) 0 (by omega)
    have e0 := vget_of_lt x 0 0 (by omega)
    simp only [UF5_body, usub_one i (by omega) hU, ej, e0, ok_bind, pure_eq_ok, UF1_ref_y, ripple_h]
    split_ifs <;> first | omega | (norm_num [sq]; ring)

/-- Closed form of the loop of `UF6`. -/
theorem UF6_loop (T : Libm α) (n fuel : Nat) (x : List α) (hx : x.length = n) (h1 : 1 ≤ n)
    (hn : n + 1 < UINT_MOD) (hf : n < fuel) :
    forLe (UF6_body T n x) n fuel 2
        ({ sum1 := 0.0, sum2 := 0.0, prod1 := 1.0, prod2 := 1.0, count1 := 0, count2 := 0 } : Acc2p α)
      = Except.ok
        { sum1 := ∑ j ∈ J1 n, UF1_ref_y T n x j ^ 2, sum2 := ∑ j ∈ J2 n, UF1_ref_y T n x j ^ 2,
          prod1 := ∏ j ∈ J1 n, cos_factor T (UF1_ref_y T n x j) j, prod2 := ∏ j ∈ J2 n, cos_factor T (UF1_ref_y T n x j) j,
          count1 := ((J1 n).card : α), count2 := ((J2 n).card : α) } := by
  rw [forLe_eq_foldl (UF6_body T n x)
    (fun (s : Acc2p α) j =>
      if j % 2 = 0 then
        { s with sum2 := s.sum2 + UF1_ref_y T n x j ^ 2, prod2 := s.prod2 * cos_factor T (UF1_ref_y T n x j) j, count2 := s.count2 + 1 }
      else { s with sum1 := s.sum1 + UF1_ref_y T n x j ^ 2, prod1 := s.prod1 * cos_factor T (UF1_ref_y T n x j) j, count1 := s.count1 + 1 })
    n hn fuel 2 _ (by omega) (by omega)]
  · obtain ⟨k, rfl⟩ : ∃ k, n = k + 1 := ⟨n - 1, by omega⟩
    have e : k + 1 + 1 - 2 = k := by omega
    rw [e, lit_zero, lit_one]
    exact congrArg Except.ok (foldl_parity_p (fun j => UF1_ref_y T (k + 1) x j ^ 2) (fun j => cos_factor T (UF1_ref_y T (k + 1) x j) j) k)
  · intro i t hi1 hi2
    have hU : i < UINT_MOD := by omega
    have ej := vget_of_lt x (i - 1) 0 (by omega)
    have e0 := vget_of_lt x 0 0 (by omega)
    simp only [UF6_body, usub_one i (by omega) hU, ej, e0, ok_bind, pure_eq_ok, UF1_ref_y, cos_factor]
    split_ifs <;> first | omega | norm_num [sq]

/-- Closed form of the loop of `UF7`. -/
theorem UF7_loop (T : Libm α) (n fuel : Nat) (x : List α) (hx : x.length = n) (h1 : 1 ≤ n)
    (hn : n + 1 < UINT_MOD) (hf : n < fuel) :
    forLe (UF7_body T n x) n fuel 2
        ({ sum1 := 0.0, sum2 := 0.0, count1 := 0, count2 := 0 } : Acc2 α)
      = Except.ok
        { sum1 := ∑ j ∈ J1 n, UF1_ref_y T n x j ^ 2, sum2 := ∑ j ∈ J2 n, UF1_ref_y T n x j ^ 2,
          count1 := ((J1 n).card : α), count2 := ((J2 n).card : α) } := by
  rw [forLe_eq_foldl (UF7_body T n x)
    (fun (s : Acc2 α) j =>
      if j % 2 = 0 then { s with sum2 := s.sum2 + UF1_ref_y T n x j ^ 2, count2 := s.count2 + 1 }
      else { s with sum1 := s.sum1 + UF1_ref_y T n x j ^ 2, count1 := s.count1 + 1 })
    n hn fuel 2 _ (by omega) (by omega)]
  · obtain ⟨k, rfl⟩ : ∃ k, n = k + 1 := ⟨n - 1, by omega⟩
    have e : k + 1 + 1 - 2 = k := by omega
    rw [e, lit_zero]
    exact congrArg Except.ok (foldl_parity (fun j => UF1_ref_y T (k + 1) x j ^ 2) k)
  · intro i t hi1 hi2
    have hU : i < UINT_MOD := by omega
    have ej := vget_of_lt x (i - 1) 0 (by omega)
    have e0 := vget_of_lt x 0 0 (by omega)
    simp only [UF7_body, usub_one i (by omega) hU, ej, e0, ok_bind, pure_eq_ok, UF1_ref_y]
    split_ifs <;> first | omega | norm_num [sq]

/-- Closed form of the loop of `CF2`. -/
theorem CF2_loop (T : Libm α) (n fuel : Nat) (x : List α) (hx : x.length = n) (h1 : 1 ≤ n)
    (hn : n + 1 < UINT_MOD) (hf : n < fuel) :
    forLe (CF2_body T n x) n fuel 2
        ({ sum1 := 0.0, sum2 := 0.0, count1 := 0, count2 := 0 } : Acc2 α)
      = Except.ok
        { sum1 := ∑ j ∈ J1 n, CF2_ref_y T n x j ^ 2, sum2 := ∑ j ∈ J2 n, CF2_ref_y T n x j ^ 2,
          count1 := ((J1 n).card : α), count2 := ((J2 n).card : α) } := by
  rw [forLe_eq_foldl (CF2_body T n x)
    (fun (s : Acc2 α) j =>
      if j % 2 = 0 then { s with sum2 := s.sum2 + CF2_ref_y T n x j ^ 2, count2 := s.count2 + 1 }
      else { s with sum1 := s.sum1 + CF2_ref_y T n x j ^ 2, count1 := s.count1 + 1 })
    n hn fuel 2 _ (by omega) (by omega)]
  · obtain ⟨k, rfl⟩ : ∃ k, n = k + 1 := ⟨n - 1, by omega⟩
    have e : k + 1 + 1 - 2 = k := by omega
    rw [e, lit_zero]
    exact congrArg Except.ok (foldl_parity (fun j => CF2_ref_y T (k + 1) x j ^ 2) k)
  · intro i t hi1 hi2
    have hU : i < UINT_MOD := by omega
    have ej := vget_of_lt x (i - 1) 0 (by omega)
    have e0 := vget_of_lt x 0 0 (by omega)
    simp only [CF2_body, usub_one i (by omega) hU, ej, e0, ok_bind, pure_eq_ok, CF2_ref_y]
    split_ifs <;> first | omega | norm_num [sq]

/-- Closed form of the loop of `CF3`. -/
theorem CF3_loop (T : Libm α) (n fuel : Nat) (x : List α) (hx : x.length = n) (h1 : 1 ≤ n)
    (hn : n + 1 < UINT_MOD) (hf : n < fuel) :
    forLe (CF3_body T n x) n fuel 2
        ({ sum1 := 0.0, sum2 := 0.0, prod1 := 1.0, prod2 := 1.0, count1 := 0, count2 := 0 } : Acc2p α)
      = Except.ok
        { sum1 := ∑ j ∈ J1 n, UF1_ref_y T n x j ^ 2, sum2 := ∑ j ∈ J2 n, UF1_ref_y T n x j ^ 2,
          prod1 := ∏ j ∈ J1 n, cos_factor T (UF1_ref_y T n x j) j, prod2 := ∏ j ∈ J2 n, cos_factor T (UF1_ref_y T n x j) j,
          count1 := ((J1 n).card : α), count2 := ((J2 n).card : α) } := by
  rw [forLe_eq_foldl (CF3_body T n x)
    (fun (s : Acc2p α) j =>
      if j % 2 = 0 then
        { s with sum2 := s.sum2 + UF1_ref_y T n x j ^ 2, prod2 := s.prod2 * cos_factor T (UF1_ref_y T n x j) j, count2 := s.count2 + 1 }
      else { s with sum1 := s.sum1 + UF1_ref_y T n x j ^ 2, prod1 := s.prod1 * cos_factor T (UF1_ref_y T n x j) j, count1 := s.count1 + 1 })
    n hn fuel 2 _ (by omega) (by omega)]
  · obtain ⟨k, rfl⟩ : ∃ k, n = k + 1 := ⟨n - 1, by omega⟩
    have e : k + 1 + 1 - 2 = k := by omega
    rw [e, lit_zero, lit_one]
    exact congrArg Except.ok (foldl_parity_p (fun j => UF1_ref_y T (k + 1) x j ^ 2) (fun j => cos_factor T (UF1_ref_y T (k + 1) x j) j) k)
  · intro i t hi1 hi2
    have hU : i < UINT_MOD := by omega
    have ej := vget_of_lt x (i - 1) 0 (by omega)
    have e0 := vget_of_lt x 0 0 (by omega)
    simp only [CF3_body, usub_one i (by omega) hU, ej, e0, ok_bind, pure_eq_ok, UF1_ref_y, cos_factor]
    split_ifs <;> first | omega | norm_num [sq]

/-- Closed form of the loop of `CF6`. -/
theorem CF6_loop (T : Libm α) (n fuel : Nat) (x : List α) (hx : x.length = n) (h1 : 1 ≤ n)
    (hn : n + 1 < UINT_MOD) (hf : n < fuel) :
    forLe (CF6_body T n x) n fuel 2
        ({ sum1 := 0.0, sum2 := 0.0 } : Acc0 α)
      = Except.ok
        { sum1 := ∑ j ∈ J1 n, CF6_ref_y T n x j ^ 2, sum2 := ∑ j ∈ J2 n, CF6_ref_y T n x j ^ 2 } := by
  rw [forLe_eq_foldl (CF6_body T n x)
    (fun (s : Acc0 α) j =>
      if j % 2 = 0 then { s with sum2 := s.sum2 + CF6_ref_y T n x j ^ 2 }
      else { s with sum1 := s.sum1 + CF6_ref_y T n x j ^ 2 })
    n hn fuel 2 _ (by omega) (by omega)]
  · obtain ⟨k, rfl⟩ : ∃ k, n = k + 1 := ⟨n - 1, by omega⟩
    have e : k + 1 + 1 - 2 = k := by omega
    rw [e, lit_zero]
    exact congrArg Except.ok (foldl_parity_0 (fun j => CF6_ref_y T (k + 1) x j ^ 2) k)
  · intro i t hi1 hi2
    have hU : i < UINT_MOD := by omega
    have ej := vget_of_lt x (i - 1) 0 (by omega)
    have e0 := vget_of_lt x 0 0 (by omega)
    simp only [CF6_body, usub_one i (by omega) hU, ej, e0, ok_bind, pure_eq_ok, CF6_ref_y]
    split_ifs <;> first | omega | norm_num [sq]

/-- Closed form of the loop of `UF8`. -/
theorem UF8_loop (T : Libm α) (n fuel : Nat) (x : List α) (hx : x.length = n) (h1 : 2 ≤ n)
    (hn : n + 1 < UINT_MOD) (hf : n < fuel) :
    forLe (UF8_body T n x) n fuel 3
        ({ sum1 := 0.0, sum2 := 0.0, sum3 := 0.0, count1 := 0, count2 := 0, count3 := 0 } : Acc3 α)
      = Except.ok
        { sum1 := ∑ j ∈ K1 n, tri_ref_y T n x j ^ 2, sum2 := ∑ j ∈ K2 n, tri_ref_y T n x j ^ 2, sum3 := ∑ j ∈ K3 n, tri_ref_y T n x j ^ 2,
          count1 := ((K1 n).card : α), count2 := ((K2 n).card : α),
          count3 := ((K3 n).card : α) } := by
  rw [forLe_eq_foldl (UF8_body T n x)
    (fun (s : Acc3 α) j =>
      if j % 3 = 1 then { s with sum1 := s.sum1 + tri_ref_y T n x j ^ 2, count1 := s.count1 + 1 }
      else if j % 3 = 2 then { s with sum2 := s.sum2 + tri_ref_y T n x j ^ 2, count2 := s.count2 + 1 }
      else { s with sum3 := s.sum3 + tri_ref_y T n x j ^ 2, count3 := s.count3 + 1 })
    n hn fuel 3 _ (by omega) (by omega)]
  · obtain ⟨k, rfl⟩ : ∃ k, n = k + 2 := ⟨n - 2, by omega⟩
    have e : k + 2 + 1 - 3 = k := by omega
    rw [e, lit_zero]
    exact congrArg Except.ok (foldl_mod3 (fun j => tri_ref_y T (k + 2) x j ^ 2) k)
  · intro i t hi1 hi2
    have hU : i < UINT_MOD := by omega
    have ej := vget_of_lt x (i - 1) 0 (by omega)
    have e0 := vget_of_lt x 0 0 (by omega)
    have e1 := vget_of_lt x 1 0 (by omega)
    simp only [UF8_body, usub_one i (by omega) hU, ej, e0, e1, ok_bind, pure_eq_ok, tri_ref_y]
    split_ifs <;> first | omega | norm_num [sq]

/-- Closed form of the loop of `UF9`. -/
theorem UF9_loop (T : Libm α) (n fuel : Nat) (x : List α) (hx : x.length = n) (h1 : 2 ≤ n)
    (hn : n + 1 < UINT_MOD) (hf : n < fuel) :
    forLe (UF9_body T n x) n fuel 3
        ({ sum1 := 0.0, sum2 := 0.0, sum3 := 0.0, count1 := 0, count2 := 0, count3 := 0 } : Acc3 α)
      = Except.ok
        { sum1 := ∑ j ∈ K1 n, tri_ref_y T n x j ^ 2, sum2 := ∑ j ∈ K2 n, tri_ref_y T n x j ^ 2, sum3 := ∑ j ∈ K3 n, tri_ref_y T n x j ^ 2,
          count1 := ((K1 n).card : α), count2 := ((K2 n).card : α),
          count3 := ((K3 n).card : α) } := by
  rw [forLe_eq_foldl (UF9_body T n x)
    (fun (s : Acc3 α) j =>
      if j % 3 = 1 then { s with sum1 := s.sum1 + tri_ref_y T n x j ^ 2, count1 := s.count1 + 1 }
      else if j % 3 = 2 then { s with sum2 := s.sum2 + tri_ref_y T n x j ^ 2, count2 := s.count2 + 1 }
      else { s with sum3 := s.sum3 + tri_ref_y T n x j ^ 2, count3 := s.count3 + 1 })
    n hn fuel 3 _ (by omega) (by omega)]
  · obtain ⟨k, rfl⟩ : ∃ k, n = k + 2 := ⟨n - 2, by omega⟩
    have e : k + 2 + 1 - 3 = k := by omega
    rw [e, lit_zero]
    exact congrArg Except.ok (foldl_mod3 (fun j => tri_ref_y T (k + 2) x j ^ 2) k)
  · intro i t hi1 hi2
    have hU : i < UINT_MOD := by omega
    have ej := vget_of_lt x (i - 1) 0 (by omega)
    have e0 := vget_of_lt x 0 0 (by omega)
    have e1 := vget_of_lt x 1 0 (by omega)
    simp only [UF9_body, usub_one i (by omega) hU, ej, e0, e1, ok_bind, pure_eq_ok, tri_ref_y]
    split_ifs <;> first | omega | norm_num [sq]

/-- Closed form of the loop of `UF10`. -/
theorem UF10_loop (T : Libm α) (n fuel : Nat) (x : List α) (hx : x.length = n) (h1 : 2 ≤ n)
    (hn : n + 1 < UINT_MOD) (hf : n < fuel) :
    forLe (UF10_body T n x) n fuel 3
        ({ sum1 := 0.0, sum2 := 0.0, sum3 := 0.0, count1 := 0, count2 := 0, count3 := 0 } : Acc3 α)
      = Except.ok
        { sum1 := ∑ j ∈ K1 n, ripple8_h T (tri_ref_y T n x j), sum2 := ∑ j ∈ K2 n, ripple8_h T (tri_ref_y T n x j), sum3 := ∑ j ∈ K3 n, ripple8_h T (tri_ref_y T n x j),
          count1 := ((K1 n).card : α), count2 := ((K2 n).card : α),
          count3 := ((K3 n).card : α) } := by
  rw [forLe_eq_foldl (UF10_body T n x)
    (fun (s : Acc3 α) j =>
      if j % 3 = 1 then { s with sum1 := s.sum1 + ripple8_h T (tri_ref_y T n x j), count1 := s.count1 + 1 }
      else if j % 3 = 2 then { s with sum2 := s.sum2 + ripple8_h T (tri_ref_y T n x j), count2 := s.count2 + 1 }
      else { s with sum3 := s.sum3 + ripple8_h T (tri_ref_y T n x j), count3 := s.count3 + 1 })
    n hn fuel 3 _ (by omega) (by omega)]
  · obtain ⟨k, rfl⟩ : ∃ k, n = k + 2 := ⟨n - 2, by omega⟩
    have e : k + 2 + 1 - 3 = k := by omega
    rw [e, lit_zero]
    exact congrArg Except.ok (foldl_mod3 (fun j => ripple8_h T (tri_ref_y T (k + 2) x j)) k)
  · intro i t hi1 hi2
    have hU : i < UINT_MOD := by omega
    have ej := vget_of_lt x (i - 1) 0 (by omega)
    have e0 := vget_of_lt x 0 0 (by omega)
    have e1 := vget_of_lt x 1 0 (by omega)
    simp only [UF10_body, usub_one i (by omega) hU, ej, e0, e1, ok_bind, pure_eq_ok, tri_ref_y, ripple8_h]
    split_ifs <;> first | omega | (norm_num [sq]; ring)

/-- Closed form of the loop of `CF8`. -/
theorem CF8_loop (T : Libm α) (n fuel : Nat) (x : List α) (hx : x.length = n) (h1 : 2 ≤ n)
    (hn : n + 1 < UINT_MOD) (hf : n < fuel) :
    forLe (CF8_body T n x) n fuel 3
        ({ sum1 := 0.0, sum2 := 0.0, sum3 := 0.0, count1 := 0, count2 := 0, count3 := 0 } : Acc3 α)
      = Except.ok
        { sum1 := ∑ j ∈ K1 n, tri_ref_y T n x j ^ 2, sum2 := ∑ j ∈ K2 n, tri_ref_y T n x j ^ 2, sum3 := ∑ j ∈ K3 n, tri_ref_y T n x j ^ 2,
          count1 := ((K1 n).card : α), count2 := ((K2 n).card : α),
          count3 := ((K3 n).card : α) } := by
  rw [forLe_eq_foldl (CF8_body T n x)
    (fun (s : Acc3 α) j =>
      if j % 3 = 1 then { s with sum1 := s.sum1 + tri_ref_y T n x j ^ 2, count1 := s.count1 + 1 }
      else if j % 3 = 2 then { s with sum2 := s.sum2 + tri_ref_y T n x j ^ 2, count2 := s.count2 + 1 }
      else { s with sum3 := s.sum3 + tri_ref_y T n x j ^ 2, count3 := s.count3 + 1 })
    n hn fuel 3 _ (by omega) (by omega)]
  · obtain ⟨k, rfl⟩ : ∃ k, n = k + 2 := ⟨n - 2, by omega⟩
    have e : k + 2 + 1 - 3 = k := by omega
    rw [e, lit_zero]
    exact congrArg Except.ok (foldl_mod3 (fun j => tri_ref_y T (k + 2) x j ^ 2) k)
  · intro i t hi1 hi2
    have hU : i < UINT_MOD := by omega
    have ej := vget_of_lt x (i - 1) 0 (by omega)
    have e0 := vget_of_lt x 0 0 (by omega)
    have e1 := vget_of_lt x 1 0 (by omega)
    simp only [CF8_body, usub_one i (by omega) hU, ej, e0, e1, ok_bind, pure_eq_ok, tri_ref_y]
    split_ifs <;> first | omega | norm_num [sq]

/-- Closed form of the loop of `CF9`. -/
theorem CF9_loop (T : Libm α) (n fuel : Nat) (x : List α) (hx : x.length = n) (h1 : 2 ≤ n)
    (hn : n + 1 < UINT_MOD) (hf : n < fuel) :
    forLe (CF9_body T n x) n fuel 3
        ({ sum1 := 0.0, sum2 := 0.0, sum3 := 0.0, count1 := 0, count2 := 0, count3 := 0 } : Acc3 α)
      = Except.ok
        { sum1 := ∑ j ∈ K1 n, tri_ref_y T n x j ^ 2, sum2 := ∑ j ∈ K2 n, tri_ref_y T n x j ^ 2, sum3 := ∑ j ∈ K3 n, tri_ref_y T n x j ^ 2,
          count1 := ((K1 n).card : α), count2 := ((K2 n).card : α),
          count3 := ((K3 n).card : α) } := by
  rw [forLe_eq_foldl (CF9_body T n x)
    (fun (s : Acc3 α) j =>
      if j % 3 = 1 then { s with sum1 := s.sum1 + tri_ref_y T n x j ^ 2, count1 := s.count1 + 1 }
      else if j % 3 = 2 then { s with sum2 := s.sum2 + tri_ref_y T n x j ^ 2, count2 := s.count2 + 1 }
      else { s with sum3 := s.sum3 + tri_ref_y T n x j ^ 2, count3 := s.count3 + 1 })
    n hn fuel 3 _ (by omega) (by omega)]
  · obtain ⟨k, rfl⟩ : ∃ k, n = k + 2 := ⟨n - 2, by omega⟩
    have e : k + 2 + 1 - 3 = k := by omega
    rw [e, lit_zero]
    exact congrArg Except.ok (foldl_mod3 (fun j => tri_ref_y T (k + 2) x j ^ 2) k)
  · intro i t hi1 hi2
    have hU : i < UINT_MOD := by omega
    have ej := vget_of_lt x (i - 1) 0 (by omega)
    have e0 := vget_of_lt x 0 0 (by omega)
    have e1 := vget_of_lt x 1 0 (by omega)
    simp only [CF9_body, usub_one i (by omega) hU, ej, e0, e1, ok_bind, pure_eq_ok, tri_ref_y]
    split_ifs <;> first | omega | norm_num [sq]

/-- Closed form of the loop of `CF10`. -/
theorem CF10_loop (T : Libm α) (n fuel : Nat) (x : List α) (hx : x.length = n) (h1 : 2 ≤ n)
    (hn : n + 1 < UINT_MOD) (hf : n < fuel) :
    forLe (CF10_body T n x) n fuel 3
        ({ sum1 := 0.0, sum2 := 0.0, sum3 := 0.0, count1 := 0, count2 := 0, count3 := 0 } : Acc3 α)
      = Except.ok
        { sum1 := ∑ j ∈ K1 n, ripple8_h T (tri_ref_y T n x j), sum2 := ∑ j ∈ K2 n, ripple8_h T (tri_ref_y T n x j), sum3 := ∑ j ∈ K3 n, ripple8_h T (tri_ref_y T n x j),
          count1 := ((K1 n).card : α), count2 := ((K2 n).card : α),
          count3 := ((K3 n).card : α) } := by
  rw [forLe_eq_foldl (CF10_body T n x)
    (fun (s : Acc3 α) j =>
      if j % 3 = 1 then { s with sum1 := s.sum1 + ripple8_h T (tri_ref_y T n x j), count1 := s.count1 + 1 }
      else if j % 3 = 2 then { s with sum2 := s.sum2 + ripple8_h T (tri_ref_y T n x j), count2 := s.count2 + 1 }
      else { s with sum3 := s.sum3 + ripple8_h T (tri_ref_y T n x j), count3 := s.count3 + 1 })
    n hn fuel 3 _ (by omega) (by omega)]
  · obtain ⟨k, rfl⟩ : ∃ k, n = k + 2 := ⟨n - 2, by omega⟩
    have e : k + 2 + 1 - 3 = k := by omega
    rw [e, lit_zero]
    exact congrArg Except.ok (foldl_mod3 (fun j => ripple8_h T (tri_ref_y T (k + 2) x j)) k)
  · intro i t hi1 hi2
    have hU : i < UINT_MOD := by omega
    have ej := vget_of_lt x (i - 1) 0 (by omega)
    have e0 := vget_of_lt x 0 0 (by omega)
    have e1 := vget_of_lt x 1 0 (by omega)
    simp only [CF10_body, usub_one i (by omega) hU, ej, e0, e1, ok_bind, pure_eq_ok, tri_ref_y, ripple8_h]
    split_ifs <;> first | omega | (norm_num [sq]; ring)
end loops

/-! ## Values of `fitness` with the loops in closed form -/

section closed

variable {α : Type} [LinearOrderedField α]

/-- Value of `fitness` for UF2, with the loop in closed form. -/
theorem fitness_UF2_closed (T : Libm α) (n fuel : Nat) (x : List α) (hx : x.length = n)
    (h1 : 1 ≤ n) (hn : n + 1 < UINT_MOD) (hf : n < fuel) :
    fitness { m_prob_id := 2, m_is_constrained := false, m_dim := n } T fuel x
      = Except.ok
        [x.getD 0 0 + 2.0 * (∑ j ∈ J1 n, UF2_ref_y T n x j ^ 2) / ((J1 n).card : α),
         1.0 - T.sqrt (x.getD 0 0) + 2.0 * (∑ j ∈ J2 n, UF2_ref_y T n x j ^ 2) / ((J2 n).card : α)] := by
  rw [fitness_eq_impl_u T { m_prob_id := 2, m_is_constrained := false, m_dim := n }
    fuel x UF2 rfl (by simp) (by simp) rfl 2 rfl]
  simp only [UF2, UF2_loop T n fuel x hx h1 hn hf, vget_of_lt x 0 0 (by omega), ok_bind]
  rfl

/-- Value of `fitness` for UF3, with the loop in closed form. -/
theorem fitness_UF3_closed (T : Libm α) (n fuel : Nat) (x : List α) (hx : x.length = n)
    (h1 : 1 ≤ n) (hn : n + 1 < UINT_MOD) (hf : n < fuel) :
    fitness { m_prob_id := 3, m_is_constrained := false, m_dim := n } T fuel x
      = Except.ok
        [x.getD 0 0 + 2.0 * (4.0 * (∑ j ∈ J1 n, CF1_ref_y T n x j ^ 2) - 2.0 * (∏ j ∈ J1 n, cos_factor T (CF1_ref_y T n x j) j) + 2.0) / ((J1 n).card : α),
         1.0 - T.sqrt (x.getD 0 0) + 2.0 * (4.0 * (∑ j ∈ J2 n, CF1_ref_y T n x j ^ 2) - 2.0 * (∏ j ∈ J2 n, cos_factor T (CF1_ref_y T n x j) j) + 2.0) / ((J2 n).card : α)] := by
  rw [fitness_eq_impl_u T { m_prob_id := 3, m_is_constrained := false, m_dim := n }
    fuel x UF3 rfl (by simp) (by simp) rfl 2 rfl]
  simp only [UF3, UF3_loop T n fuel x hx h1 hn hf, vget_of_lt x 0 0 (by omega), ok_bind]
  rfl

/-- Value of `fitness` for UF4, with the loop in closed form. -/
theorem fitness_UF4_closed (T : Libm α) (n fuel : Nat) (x : List α) (hx : x.length = n)
    (h1 : 1 ≤ n) (hn : n + 1 < UINT_MOD) (hf : n < fuel) :
    fitness { m_prob_id := 4, m_is_constrained := false, m_dim := n } T fuel x
      = Except.ok
        [x.getD 0 0 + 2.0 * (∑ j ∈ J1 n, damp_h T (UF1_ref_y T n x j)) / ((J1 n).card : α),
         1.0 - x.getD 0 0 * x.getD 0 0 + 2.0 * (∑ j ∈ J2 n, damp_h T (UF1_ref_y T n x j)) / ((J2 n).card : α)] := by
  rw [fitness_eq_impl_u T { m_prob_id := 4, m_is_constrained := false, m_dim := n }
    fuel x UF4 rfl (by simp) (by simp) rfl 2 rfl]
  simp only [UF4, UF4_loop T n fuel x hx h1 hn hf, vget_of_lt x 0 0 (by omega), ok_bind]
  rfl

/-- Value of `fitness` for UF5, with the loop in closed form. -/
theorem fitness_UF5_closed (T : Libm α) (n fuel : Nat) (x : List α) (hx : x.length = n)
    (h1 : 1 ≤ n) (hn : n + 1 < UINT_MOD) (hf : n < fuel) :
    fitness { m_prob_id := 5, m_is_constrained := false, m_dim := n } T fuel x
      = Except.ok
        [x.getD 0 0 + (0.5 / 10.0 + 0.1) * |T.sin (2.0 * 10.0 * T.pi * x.getD 0 0)| + 2.0 * (∑ j ∈ J1 n, ripple_h T (UF1_ref_y T n x j)) / ((J1 n).card : α),
         1.0 - x.getD 0 0 + (0.5 / 10.0 + 0.1) * |T.sin (2.0 * 10.0 * T.pi * x.getD 0 0)| + 2.0 * (∑ j ∈ J2 n, ripple_h T (UF1_ref_y T n x j)) / ((J2 n).card : α)] := by
  rw [fitness_eq_impl_u T { m_prob_id := 5, m_is_constrained := false, m_dim := n }
    fuel x UF5 rfl (by simp) (by simp) rfl 2 rfl]
  simp only [UF5, UF5_loop T n fuel x hx h1 hn hf, vget_of_lt x 0 0 (by omega), ok_bind]
  rfl

/-- Value of `fitness` for UF6, with the loop in closed form. -/
theorem fitness_UF6_closed (T : Libm α) (n fuel : Nat) (x : List α) (hx : x.length = n)
    (h1 : 1 ≤ n) (hn : n + 1 < UINT_MOD) (hf : n < fuel) :
    fitness { m_prob_id := 6, m_is_constrained := false, m_dim := n } T fuel x
      = Except.ok
        [x.getD 0 0 + (if 2.0 * (0.5 / 2.0 + 0.1) * T.sin (2.0 * 2.0 * T.pi * x.getD 0 0) < 0.0 then 0.0 else 2.0 * (0.5 / 2.0 + 0.1) * T.sin (2.0 * 2.0 * T.pi * x.getD 0 0)) + 2.0 * (4.0 * (∑ j ∈ J1 n, UF1_ref_y T n x j ^ 2) - 2.0 * (∏ j ∈ J1 n, cos_factor T (UF1_ref_y T n x j) j) + 2.0) / ((J1 n).card : α),
         1.0 - x.getD 0 0 + (if 2.0 * (0.5 / 2.0 + 0.1) * T.sin (2.0 * 2.0 * T.pi * x.getD 0 0) < 0.0 then 0.0 else 2.0 * (0.5 / 2.0 + 0.1) * T.sin (2.0 * 2.0 * T.pi * x.getD 0 0)) + 2.0 * (4.0 * (∑ j ∈ J2 n, UF1_ref_y T n x j ^ 2) - 2.0 * (∏ j ∈ J2 n, cos_factor T (UF1_ref_y T n x j) j) + 2.0) / ((J2 n).card : α)] := by
  rw [fitness_eq_impl_u T { m_prob_id := 6, m_is_constrained := false, m_dim := n }
    fuel x UF6 rfl (by simp) (by simp) rfl 2 rfl]
  simp only [UF6, UF6_loop T n fuel x hx h1 hn hf, vget_of_lt x 0 0 (by omega), ok_bind]
  rfl

/-- Value of `fitness` for UF7, with the loop in closed form. -/
theorem fitness_UF7_closed (T : Libm α) (n fuel : Nat) (x : List α) (hx : x.length = n)
    (h1 : 1 ≤ n) (hn : n + 1 < UINT_MOD) (hf : n < fuel) :
    fitness { m_prob_id := 7, m_is_constrained := false, m_dim := n } T fuel x
      = Except.ok
        [T.pow (x.getD 0 0) 0.2 + 2.0 * (∑ j ∈ J1 n, UF1_ref_y T n x j ^ 2) / ((J1 n).card : α),
         1.0 - T.pow (x.getD 0 0) 0.2 + 2.0 * (∑ j ∈ J2 n, UF1_ref_y T n x j ^ 2) / ((J2 n).card : α)] := by
  rw [fitness_eq_impl_u T { m_prob_id := 7, m_is_constrained := false, m_dim := n }
    fuel x UF7 rfl (by simp) (by simp) rfl 2 rfl]
  simp only [UF7, UF7_loop T n fuel x hx h1 hn hf, vget_of_lt x 0 0 (by omega), ok_bind]
  rfl

/-- Value of `fitness` for UF8, with the loop in closed form. -/
theorem fitness_UF8_closed (T : Libm α) (n fuel : Nat) (x : List α) (hx : x.length = n)
    (h1 : 2 ≤ n) (hn : n + 1 < UINT_MOD) (hf : n < fuel) :
    fitness { m_prob_id := 8, m_is_constrained := false, m_dim := n } T fuel x
      = Except.ok
        [T.cos (0.5 * T.pi * x.getD 0 0) * T.cos (0.5 * T.pi * x.getD 1 0) + 2.0 * (∑ j ∈ K1 n, tri_ref_y T n x j ^ 2) / ((K1 n).card : α),
         T.cos (0.5 * T.pi * x.getD 0 0) * T.sin (0.5 * T.pi * x.getD 1 0) + 2.0 * (∑ j ∈ K2 n, tri_ref_y T n x j ^ 2) / ((K2 n).card : α),
         T.sin (0.5 * T.pi * x.getD 0 0) + 2.0 * (∑ j ∈ K3 n, tri_ref_y T n x j ^ 2) / ((K3 n).card : α)] := by
  rw [fitness_eq_impl_u T { m_prob_id := 8, m_is_constrained := false, m_dim := n }
    fuel x UF8 rfl (by simp) (by simp) rfl 3 rfl]
  simp only [UF8, UF8_loop T n fuel x hx h1 hn hf, vget_of_lt x 0 0 (by omega), vget_of_lt x 1 0 (by omega), ok_bind]
  rfl

/-- Value of `fitness` for UF9, with the loop in closed form. -/
theorem fitness_UF9_closed (T : Libm α) (n fuel : Nat) (x : List α) (hx : x.length = n)
    (h1 : 2 ≤ n) (hn : n + 1 < UINT_MOD) (hf : n < fuel) :
    fitness { m_prob_id := 9, m_is_constrained := false, m_dim := n } T fuel x
      = Except.ok
        [0.5 * ((if (1.0 + 0.1) * (1.0 - 4.0 * (2.0 * x.getD 0 0 - 1.0) * (2.0 * x.getD 0 0 - 1.0)) < 0.0 then 0.0 else (1.0 + 0.1) * (1.0 - 4.0 * (2.0 * x.getD 0 0 - 1.0) * (2.0 * x.getD 0 0 - 1.0))) + 2 * x.getD 0 0) * x.getD 1 0 + 2.0 * (∑ j ∈ K1 n, tri_ref_y T n x j ^ 2) / ((K1 n).card : α),
         0.5 * ((if (1.0 + 0.1) * (1.0 - 4.0 * (2.0 * x.getD 0 0 - 1.0) * (2.0 * x.getD 0 0 - 1.0)) < 0.0 then 0.0 else (1.0 + 0.1) * (1.0 - 4.0 * (2.0 * x.getD 0 0 - 1.0) * (2.0 * x.getD 0 0 - 1.0))) - 2 * x.getD 0 0 + 2.0) * x.getD 1 0 + 2.0 * (∑ j ∈ K2 n, tri_ref_y T n x j ^ 2) / ((K2 n).card : α),
         1.0 - x.getD 1 0 + 2.0 * (∑ j ∈ K3 n, tri_ref_y T n x j ^ 2) / ((K3 n).card : α)] := by
  rw [fitness_eq_impl_u T { m_prob_id := 9, m_is_constrained := false, m_dim := n }
    fuel x UF9 rfl (by simp) (by simp) rfl 3 rfl]
  simp only [UF9, UF9_loop T n fuel x hx h1 hn hf, vget_of_lt x 0 0 (by omega), vget_of_lt x 1 0 (by omega), ok_bind]
  rfl

/-- Value of `fitness` for UF10, with the loop in closed form. -/
theorem fitness_UF10_closed (T : Libm α) (n fuel : Nat) (x : List α) (hx : x.length = n)
    (h1 : 2 ≤ n) (hn : n + 1 < UINT_MOD) (hf : n < fuel) :
    fitness { m_prob_id := 10, m_is_constrained := false, m_dim := n } T fuel x
      = Except.ok
        [T.cos (0.5 * T.pi * x.getD 0 0) * T.cos (0.5 * T.pi * x.getD 1 0) + 2.0 * (∑ j ∈ K1 n, ripple8_h T (tri_ref_y T n x j)) / ((K1 n).card : α),
         T.cos (0.5 * T.pi * x.getD 0 0) * T.sin (0.5 * T.pi * x.getD 1 0) + 2.0 * (∑ j ∈ K2 n, ripple8_h T (tri_ref_y T n x j)) / ((K2 n).card : α),
         T.sin (0.5 * T.pi * x.getD 0 0) + 2.0 * (∑ j ∈ K3 n, ripple8_h T (tri_ref_y T n x j)) / ((K3 n).card : α)] := by
  rw [fitness_eq_impl_u T { m_prob_id := 10, m_is_constrained := false, m_dim := n }
    fuel x UF10 rfl (by simp) (by simp) rfl 3 rfl]
  simp only [UF10, UF10_loop T n fuel x hx h1 hn hf, vget_of_lt x 0 0 (by omega), vget_of_lt x 1 0 (by omega), ok_bind]
  rfl

/-- Value of `fitness` for CF1, with the loop in closed form; `f0, f1` are the
objectives and the remaining entries the negated constraint residuals. -/
theorem fitness_CF1_closed (T : Libm α) (n fuel : Nat) (x : List α) (hx : x.length = n)
    (h1 : 1 ≤ n) (hn : n + 1 < UINT_MOD) (hf : n < fuel) :
    ∃ f0 f1 : α,
      f0 = x.getD 0 0 + 2.0 * (∑ j ∈ J1 n, CF1_ref_y T n x j ^ 2) / ((J1 n).card : α) ∧
      f1 = 1.0 - x.getD 0 0 + 2.0 * (∑ j ∈ J2 n, CF1_ref_y T n x j ^ 2) / ((J2 n).card : α) ∧
      fitness { m_prob_id := 1, m_is_constrained := true, m_dim := n } T fuel x
        = Except.ok
          [f0, f1,
          -(f1 + f0 - 1.0 * |T.sin (10.0 * T.pi * (f0 - f1 + 1.0))| - 1.0)] := by
  refine ⟨_, _, rfl, rfl, ?_⟩
  rw [fitness_eq_impl_c T { m_prob_id := 1, m_is_constrained := true, m_dim := n }
    fuel x CF1 rfl (by simp) (by simp) rfl 2 1 rfl rfl]
  simp only [CF1, CF1_loop T n fuel x hx (by omega) hn hf, vget_of_lt x 0 0 (by omega), ok_bind]
  rfl

/-- Value of `fitness` for CF2, with the loop in closed form; `f0, f1` are the
objectives and the remaining entries the negated constraint residuals. -/
theorem fitness_CF2_closed (T : Libm α) (n fuel : Nat) (x : List α) (hx : x.length = n)
    (h1 : 1 ≤ n) (hn : n + 1 < UINT_MOD) (hf : n < fuel) :
    ∃ f0 f1 : α,
      f0 = x.getD 0 0 + 2.0 * (∑ j ∈ J1 n, CF2_ref_y T n x j ^ 2) / ((J1 n).card : α) ∧
      f1 = 1.0 - T.sqrt (x.getD 0 0) + 2.0 * (∑ j ∈ J2 n, CF2_ref_y T n x j ^ 2) / ((J2 n).card : α) ∧
      fitness { m_prob_id := 2, m_is_constrained := true, m_dim := n } T fuel x
        = Except.ok
          [f0, f1,
          -(sgn (f1 + T.sqrt f0 - 1.0 * T.sin (2.0 * T.pi * (T.sqrt f0 - f1 + 1.0)) - 1.0) * |(f1 + T.sqrt f0 - 1.0 * T.sin (2.0 * T.pi * (T.sqrt f0 - f1 + 1.0)) - 1.0)| / (1 + T.exp (4.0 * |(f1 + T.sqrt f0 - 1.0 * T.sin (2.0 * T.pi * (T.sqrt f0 - f1 + 1.0)) - 1.0)|)))] := by
  refine ⟨_, _, rfl, rfl, ?_⟩
  rw [fitness_eq_impl_c T { m_prob_id := 2, m_is_constrained := true, m_dim := n }
    fuel x CF2 rfl (by simp) (by simp) rfl 2 1 rfl rfl]
  simp only [CF2, CF2_loop T n fuel x hx (by omega) hn hf, vget_of_lt x 0 0 (by omega), ok_bind]
  rfl

/-- Value of `fitness` for CF3, with the loop in closed form; `f0, f1` are the
objectives and the remaining entries the negated constraint residuals. -/
theorem fitness_CF3_closed (T : Libm α) (n fuel : Nat) (x : List α) (hx : x.length = n)
    (h1 : 1 ≤ n) (hn : n + 1 < UINT_MOD) (hf : n < fuel) :
    ∃ f0 f1 : α,
      f0 = x.getD 0 0 + 2.0 * (4.0 * (∑ j ∈ J1 n, UF1_ref_y T n x j ^ 2) - 2.0 * (∏ j ∈ J1 n, cos_factor T (UF1_ref_y T n x j) j) + 2.0) / ((J1 n).card : α) ∧
      f1 = 1.0 - x.getD 0 0 * x.getD 0 0 + 2.0 * (4.0 * (∑ j ∈ J2 n, UF1_ref_y T n x j ^ 2) - 2.0 * (∏ j ∈ J2 n, cos_factor T (UF1_ref_y T n x j) j) + 2.0) / ((J2 n).card : α) ∧
      fitness { m_prob_id := 3, m_is_constrained := true, m_dim := n } T fuel x
        = Except.ok
          [f0, f1,
          -(f1 + f0 * f0 - 1.0 * T.sin (2.0 * T.pi * (f0 * f0 - f1 + 1.0)) - 1.0)] := by
  refine ⟨_, _, rfl, rfl, ?_⟩
  rw [fitness_eq_impl_c T { m_prob_id := 3, m_is_constrained := true, m_dim := n }
    fuel x CF3 rfl (by simp) (by simp) rfl 2 1 rfl rfl]
  simp only [CF3, CF3_loop T n fuel x hx (by omega) hn hf, vget_of_lt x 0 0 (by omega), ok_bind]
  rfl

/-- Value of `fitness` for CF6, with the loop in closed form; `f0, f1` are the
objectives and the remaining entries the negated constraint residuals. -/
theorem fitness_CF6_closed (T : Libm α) (n fuel : Nat) (x : List α) (hx : x.length = n)
    (h1 : 4 ≤ n) (hn : n + 1 < UINT_MOD) (hf : n < fuel) :
    ∃ f0 f1 : α,
      f0 = x.getD 0 0 + (∑ j ∈ J1 n, CF6_ref_y T n x j ^ 2) ∧
      f1 = (1.0 - x.getD 0 0) * (1.0 - x.getD 0 0) + (∑ j ∈ J2 n, CF6_ref_y T n x j ^ 2) ∧
      fitness { m_prob_id := 6, m_is_constrained := true, m_dim := n } T fuel x
        = Except.ok
          [f0, f1,
          -(x.getD 1 0 - 0.8 * x.getD 0 0 * T.sin (6.0 * x.getD 0 0 * T.pi + 2.0 * T.pi / (n : α)) - sgn ((x.getD 0 0 - 0.5) * (1.0 - x.getD 0 0)) * T.sqrt |((x.getD 0 0 - 0.5) * (1.0 - x.getD 0 0))|),
          -(x.getD 3 0 - 0.8 * x.getD 0 0 * T.sin (6.0 * x.getD 0 0 * T.pi + 4.0 * T.pi / (n : α)) - sgn (0.25 * T.sqrt (1 - x.getD 0 0) - 0.5 * (1.0 - x.getD 0 0)) * T.sqrt |(0.25 * T.sqrt (1 - x.getD 0 0) - 0.5 * (1.0 - x.getD 0 0))|)] := by
  refine ⟨_, _, rfl, rfl, ?_⟩
  rw [fitness_eq_impl_c T { m_prob_id := 6, m_is_constrained := true, m_dim := n }
    fuel x CF6 rfl (by simp) (by simp) rfl 2 2 rfl rfl]
  simp only [CF6, CF6_loop T n fuel x hx (by omega) hn hf, vget_of_lt x 0 0 (by omega), vget_of_lt x 1 0 (by omega), vget_of_lt x 3 0 (by omega), ok_bind]
  rfl

/-- Value of `fitness` for CF8, with the loop in closed form; `f0, f1, f2` are the
objectives and the remaining entries the negated constraint residuals. -/
theorem fitness_CF8_closed (T : Libm α) (n fuel : Nat) (x : List α) (hx : x.length = n)
    (h1 : 2 ≤ n) (hn : n + 1 < UINT_MOD) (hf : n < fuel) :
    ∃ f0 f1 f2 : α,
      f0 = T.cos (0.5 * T.pi * x.getD 0 0) * T.cos (0.5 * T.pi * x.getD 1 0) + 2.0 * (∑ j ∈ K1 n, tri_ref_y T n x j ^ 2) / ((K1 n).card : α) ∧
      f1 = T.cos (0.5 * T.pi * x.getD 0 0) * T.sin (0.5 * T.pi * x.getD 1 0) + 2.0 * (∑ j ∈ K2 n, tri_ref_y T n x j ^ 2) / ((K2 n).card : α) ∧
      f2 = T.sin (0.5 * T.pi * x.getD 0 0) + 2.0 * (∑ j ∈ K3 n, tri_ref_y T n x j ^ 2) / ((K3 n).card : α) ∧
      fitness { m_prob_id := 8, m_is_constrained := true, m_dim := n } T fuel x
        = Except.ok
          [f0, f1, f2,
          -((f0 * f0 + f1 * f1) / (1 - f2 * f2) - 4.0 * |T.sin (2.0 * T.pi * ((f0 * f0 - f1 * f1) / (1 - f2 * f2) + 1.0))| - 1.0)] := by
  refine ⟨_, _, _, rfl, rfl, rfl, ?_⟩
  rw [fitness_eq_impl_c T { m_prob_id := 8, m_is_constrained := true, m_dim := n }
    fuel x CF8 rfl (by simp) (by simp) rfl 3 1 rfl rfl]
  simp only [CF8, CF8_loop T n fuel x hx (by omega) hn hf, vget_of_lt x 0 0 (by omega), vget_of_lt x 1 0 (by omega), ok_bind]
  rfl

/-- Value of `fitness` for CF9, with the loop in closed form; `f0, f1, f2` are the
objectives and the remaining entries the negated constraint residuals. -/
theorem fitness_CF9_closed (T : Libm α) (n fuel : Nat) (x : List α) (hx : x.length = n)
    (h1 : 2 ≤ n) (hn : n + 1 < UINT_MOD) (hf : n < fuel) :
    ∃ f0 f1 f2 : α,
      f0 = T.cos (0.5 * T.pi * x.getD 0 0) * T.cos (0.5 * T.pi * x.getD 1 0) + 2.0 * (∑ j ∈ K1 n, tri_ref_y T n x j ^ 2) / ((K1 n).card : α) ∧
      f1 = T.cos (0.5 * T.pi * x.getD 0 0) * T.sin (0.5 * T.pi * x.getD 1 0) + 2.0 * (∑ j ∈ K2 n, tri_ref_y T n x j ^ 2) / ((K2 n).card : α) ∧
      f2 = T.sin (0.5 * T.pi * x.getD 0 0) + 2.0 * (∑ j ∈ K3 n, tri_ref_y T n x j ^ 2) / ((K3 n).card : α) ∧
      fitness { m_prob_id := 9, m_is_constrained := true, m_dim := n } T fuel x
        = Except.ok
          [f0, f1, f2,
          -((f0 * f0 + f1 * f1) / (1 - f2 * f2) - 3.0 * T.sin (2.0 * T.pi * ((f0 * f0 - f1 * f1) / (1 - f2 * f2) + 1.0)) - 1.0)] := by
  refine ⟨_, _, _, rfl, rfl, rfl, ?_⟩
  rw [fitness_eq_impl_c T { m_prob_id := 9, m_is_constrained := true, m_dim := n }
    fuel x CF9 rfl (by simp) (by simp) rfl 3 1 rfl rfl]
  simp only [CF9, CF9_loop T n fuel x hx (by omega) hn hf, vget_of_lt x 0 0 (by omega), vget_of_lt x 1 0 (by omega), ok_bind]
  rfl

/-- Value of `fitness` for CF10, with the loop in closed form; `f0, f1, f2` are the
objectives and the remaining entries the negated constraint residuals. -/
theorem fitness_CF10_closed (T : Libm α) (n fuel : Nat) (x : List α) (hx : x.length = n)
    (h1 : 2 ≤ n) (hn : n + 1 < UINT_MOD) (hf : n < fuel) :
    ∃ f0 f1 f2 : α,
      f0 = T.cos (0.5 * T.pi * x.getD 0 0) * T.cos (0.5 * T.pi * x.getD 1 0) + 2.0 * (∑ j ∈ K1 n, ripple8_h T (tri_ref_y T n x j)) / ((K1 n).card : α) ∧
      f1 = T.cos (0.5 * T.pi * x.getD 0 0) * T.sin (0.5 * T.pi * x.getD 1 0) + 2.0 * (∑ j ∈ K2 n, ripple8_h T (tri_ref_y T n x j)) / ((K2 n).card : α) ∧
      f2 = T.sin (0.5 * T.pi * x.getD 0 0) + 2.0 * (∑ j ∈ K3 n, ripple8_h T (tri_ref_y T n x j)) / ((K3 n).card : α) ∧
      fitness { m_prob_id := 10, m_is_constrained := true, m_dim := n } T fuel x
        = Except.ok
          [f0, f1, f2,
          -((f0 * f0 + f1 * f1) / (1 - f2 * f2) - 1.0 * T.sin (2.0 * T.pi * ((f0 * f0 - f1 * f1) / (1 - f2 * f2) + 1.0)) - 1.0)] := by
  refine ⟨_, _, _, rfl, rfl, rfl, ?_⟩
  rw [fitness_eq_impl_c T { m_prob_id := 10, m_is_constrained := true, m_dim := n }
    fuel x CF10 rfl (by simp) (by simp) rfl 3 1 rfl rfl]
  simp only [CF10, CF10_loop T n fuel x hx (by omega) hn hf, vget_of_lt x 0 0 (by omega), vget_of_lt x 1 0 (by omega), ok_bind]
  rfl

end closed

/-! ## Shared objectives of the constrained three-objective problems (C23) -/

section objectives_shared

variable {α : Type} [LinearOrderedField α]

theorem CF8_body_eq : (CF8_body : Libm α → _) = UF8_body := rfl

theorem CF9_body_eq : (CF9_body : Libm α → _) = UF8_body := rfl

theorem CF10_body_eq : (CF10_body : Libm α → _) = UF10_body := rfl

/-- The objectives of CF8 are computed as in UF8: on every input, dropping the constraint
entry of the result of `CF8` gives the result of `UF8`. -/
theorem CF8_take (p q : pagmo.cec2009) (hd : p.m_dim = q.m_dim) (T : Libm α) (fuel : Nat)
    (x : List α) (a b c d : α) :
    Except.map (List.take 3) (CF8 p T fuel [a, b, c, d] x) = UF8 q T fuel [a, b, c] x := by
  simp only [CF8, UF8, CF8_body_eq, hd]
  cases forLe (UF8_body T q.m_dim x) q.m_dim fuel 3
    ({ sum1 := 0.0, sum2 := 0.0, sum3 := 0.0, count1 := 0, count2 := 0, count3 := 0 } : Acc3 α) with
  | error e => rfl
  | ok s =>
    cases h0 : vget x 0 with
    | error e => simp only [ok_bind, error_bind, h0]; rfl
    | ok x0 =>
      cases h1 : vget x 1 with
      | error e => simp only [ok_bind, error_bind, h0, h1]; rfl
      | ok x1 => simp only [ok_bind, h0, h1]; rfl

/-- The objectives of CF9 are computed as in UF8. -/
theorem CF9_take (p q : pagmo.cec2009) (hd : p.m_dim = q.m_dim) (T : Libm α) (fuel : Nat)
    (x : List α) (a b c d : α) :
    Except.map (List.take 3) (CF9 p T fuel [a, b, c, d] x) = UF8 q T fuel [a, b, c] x := by
  simp only [CF9, UF8, CF9_body_eq, hd]
  cases forLe (UF8_body T q.m_dim x) q.m_dim fuel 3
    ({ sum1 := 0.0, sum2 := 0.0, sum3 := 0.0, count1 := 0, count2 := 0, count3 := 0 } : Acc3 α) with
  | error e => rfl
  | ok s =>
    cases h0 : vget x 0 with
    | error e => simp only [ok_bind, error_bind, h0]; rfl
    | ok x0 =>
      cases h1 : vget x 1 with
      | error e => simp only [ok_bind, error_bind, h0, h1]; rfl
      | ok x1 => simp only [ok_bind, h0, h1]; rfl

/-- The objectives of CF10 are computed as in UF10. -/
theorem CF10_take (p q : pagmo.cec2009) (hd : p.m_dim = q.m_dim) (T : Libm α) (fuel : Nat)
    (x : List α) (a b c d : α) :
    Except.map (List.take 3) (CF10 p T fuel [a, b, c, d] x) = UF10 q T fuel [a, b, c] x := by
  simp only [CF10, UF10, CF10_body_eq, hd]
  cases forLe (UF10_body T q.m_dim x) q.m_dim fuel 3
    ({ sum1 := 0.0, sum2 := 0.0, sum3 := 0.0, count1 := 0, count2 := 0, count3 := 0 } : Acc3 α) with
  | error e => rfl
  | ok s =>
    cases h0 : vget x 0 with
    | error e => simp only [ok_bind, error_bind, h0]; rfl
    | ok x0 =>
      cases h1 : vget x 1 with
      | error e => simp only [ok_bind, error_bind, h0, h1]; rfl
      | ok x1 => simp only [ok_bind, h0, h1]; rfl

theorem getD_zeros5 (k : Nat) : ([0, 0, 0, 0, 0] : List ℝ).getD k 0 = 0 := by
  match k with
  | 0 => rfl
  | 1 => rfl
  | 2 => rfl
  | 3 => rfl
  | 4 => rfl
  | k + 5 => rfl

theorem tri_ref_y_zeros5 (j : Nat) : tri_ref_y realLibm 5 ([0, 0, 0, 0, 0] : List ℝ) j = 0 := by
  unfold tri_ref_y
  rw [getD_zeros5, getD_zeros5]
  norm_num

/-- At dimension 5 and the zero vector, the first objective of UF9 is 0 and that of CF9
is 1. -/
theorem UF9_CF9_zero_vector (fuel : Nat) (hf : 5 < fuel) :
    fitness { m_prob_id := 9, m_is_constrained := false, m_dim := 5 } realLibm fuel
        ([0, 0, 0, 0, 0] : List ℝ) = Except.ok [0, 0, 1] ∧
      Except.map (List.take 3)
        (fitness { m_prob_id := 9, m_is_constrained := true, m_dim := 5 } realLibm fuel
          ([0, 0, 0, 0, 0] : List ℝ)) = Except.ok [1, 0, 0] := by
  constructor
  · rw [fitness_UF9_closed realLibm 5 fuel ([0, 0, 0, 0, 0] : List ℝ) rfl (by omega)
      (by unfold UINT_MOD; omega) hf]
    simp only [tri_ref_y_zeros5, getD_zeros5]
    norm_num
  · obtain ⟨f0, f1, f2, e0, e1, e2, h⟩ :=
      fitness_CF9_closed realLibm 5 fuel ([0, 0, 0, 0, 0] : List ℝ) rfl (by omega)
        (by unfold UINT_MOD; omega) hf
    rw [h]
    simp only [tri_ref_y_zeros5, getD_zeros5] at e0 e1 e2
    have z0 : f0 = 1 := by rw [e0]; norm_num [realLibm]
    have z1 : f1 = 0 := by rw [e1]; norm_num [realLibm]
    have z2 : f2 = 0 := by rw [e2]; norm_num [realLibm]
    simp [Except.map, z0, z1, z2]

/-- C23: for every dimension `n`, every `x` (and every fuel), dropping the constraint entry
of the result of `fitness` for CF8 and for CF9 gives the result of `fitness` for UF8 on
the same `(n, x)`, and doing so for CF10 gives the result for UF10; CF8 and CF9 thus have
the same three objectives, and these are not the objectives of UF9: at dimension 5 and the
zero vector UF9 returns `[0, 0, 1]` while the objectives of CF9 are `[1, 0, 0]`. -/
theorem CF_objectives_are_UF8_UF10 (T : Libm α) (n fuel : Nat) (x : List α) :
    Except.map (List.take 3)
        (fitness { m_prob_id := 8, m_is_constrained := true, m_dim := n } T fuel x)
      = fitness { m_prob_id := 8, m_is_constrained := false, m_dim := n } T fuel x ∧
    Except.map (List.take 3)
        (fitness { m_prob_id := 9, m_is_constrained := true, m_dim := n } T fuel x)
      = fitness { m_prob_id := 8, m_is_constrained := false, m_dim := n } T fuel x ∧
    Except.map (List.take 3)
        (fitness { m_prob_id := 10, m_is_constrained := true, m_dim := n } T fuel x)
      = fitness { m_prob_id := 10, m_is_constrained := false, m_dim := n } T fuel x ∧
    Except.map (List.take 3)
        (fitness { m_prob_id := 8, m_is_constrained := true, m_dim := n } T fuel x)
      = Except.map (List.take 3)
        (fitness { m_prob_id := 9, m_is_constrained := true, m_dim := n } T fuel x) ∧
    fitness { m_prob_id := 9, m_is_constrained := false, m_dim := 5 } realLibm 6
        ([0, 0, 0, 0, 0] : List ℝ) = Except.ok [0, 0, 1] ∧
    Except.map (List.take 3)
        (fitness { m_prob_id := 9, m_is_constrained := true, m_dim := 5 } realLibm 6
          ([0, 0, 0, 0, 0] : List ℝ)) = Except.ok [1, 0, 0] := by
  have e8 : Except.map (List.take 3)
        (fitness { m_prob_id := 8, m_is_constrained := true, m_dim := n } T fuel x)
      = fitness { m_prob_id := 8, m_is_constrained := false, m_dim := n } T fuel x := by
    rw [fitness_eq_impl_c T { m_prob_id := 8, m_is_constrained := true, m_dim := n }
        fuel x CF8 rfl (by simp) (by simp) rfl 3 1 rfl rfl,
      fitness_eq_impl_u T { m_prob_id := 8, m_is_constrained := false, m_dim := n }
        fuel x UF8 rfl (by simp) (by simp) rfl 3 rfl]
    exact CF8_take _ _ rfl T fuel x _ _ _ _
  have e9 : Except.map (List.take 3)
        (fitness { m_prob_id := 9, m_is_constrained := true, m_dim := n } T fuel x)
      = fitness { m_prob_id := 8, m_is_constrained := false, m_dim := n } T fuel x := by
    rw [fitness_eq_impl_c T { m_prob_id := 9, m_is_constrained := true, m_dim := n }
        fuel x CF9 rfl (by simp) (by simp) rfl 3 1 rfl rfl,
      fitness_eq_impl_u T { m_prob_id := 8, m_is_constrained := false, m_dim := n }
        fuel x UF8 rfl (by simp) (by simp) rfl 3 rfl]
    exact CF9_take _ _ rfl T fuel x _ _ _ _
  refine ⟨e8, e9, ?_, e8.trans e9.symm, (UF9_CF9_zero_vector 6 (by omega)).1,
    (UF9_CF9_zero_vector 6 (by omega)).2⟩
  rw [fitness_eq_impl_c T { m_prob_id := 10, m_is_constrained := true, m_dim := n }
      fuel x CF10 rfl (by simp) (by simp) rfl 3 1 rfl rfl,
    fitness_eq_impl_u T { m_prob_id := 10, m_is_constrained := false, m_dim := n }
      fuel x UF10 rfl (by simp) (by simp) rfl 3 rfl]
  exact CF10_take _ _ rfl T fuel x _ _ _ _

end objectives_shared

/-! ## The three-objective problems: objectives, reduction and the unit sphere (C11, C19, C24) -/

section tri_objectives

variable {α : Type} [LinearOrderedField α]

theorem half_pi_arg (T : Libm α) (a : α) : 0.5 * T.pi * a = T.pi * a / 2 := by
  rw [show (0.5 : α) = 1 / 2 by norm_num]
  ring

theorem lit_two : (2.0 : α) = 2 := by norm_num

/-- The list of the three objectives in the form in which the code computes them is the
reference list `tri_ref`. -/
theorem tri_ref_eq (T : Libm α) (h : α → α) (n : Nat) (x : List α) :
    [T.cos (0.5 * T.pi * x.getD 0 0) * T.cos (0.5 * T.pi * x.getD 1 0)
        + 2.0 * (∑ j ∈ K1 n, h (tri_ref_y T n x j)) / ((K1 n).card : α),
     T.cos (0.5 * T.pi * x.getD 0 0) * T.sin (0.5 * T.pi * x.getD 1 0)
        + 2.0 * (∑ j ∈ K2 n, h (tri_ref_y T n x j)) / ((K2 n).card : α),
     T.sin (0.5 * T.pi * x.getD 0 0)
        + 2.0 * (∑ j ∈ K3 n, h (tri_ref_y T n x j)) / ((K3 n).card : α)]
      = tri_ref T h n x := by
  simp only [tri_ref, tri_reduction, half_pi_arg, lit_two, mul_div_assoc]

theorem fitness_UF8_tri_ref (T : Libm α) (n fuel : Nat) (x : List α) (hx : x.length = n)
    (h1 : 2 ≤ n) (hn : n + 1 < UINT_MOD) (hf : n < fuel) :
    fitness { m_prob_id := 8, m_is_constrained := false, m_dim := n } T fuel x
      = Except.ok (tri_ref T (fun y => y ^ 2) n x) := by
  rw [fitness_UF8_closed T n fuel x hx h1 hn hf]
  exact congrArg Except.ok (tri_ref_eq T (fun y => y ^ 2) n x)

theorem fitness_UF10_tri_ref (T : Libm α) (n fuel : Nat) (x : List α) (hx : x.length = n)
    (h1 : 2 ≤ n) (hn : n + 1 < UINT_MOD) (hf : n < fuel) :
    fitness { m_prob_id := 10, m_is_constrained := false, m_dim := n } T fuel x
      = Except.ok (tri_ref T (ripple8_h T) n x) := by
  rw [fitness_UF10_closed T n fuel x hx h1 hn hf]
  exact congrArg Except.ok (tri_ref_eq T (ripple8_h T) n x)

theorem fitness_CF8_take (T : Libm α) (n fuel : Nat) (x : List α) :
    Except.map (List.take 3)
        (fitness { m_prob_id := 8, m_is_constrained := true, m_dim := n } T fuel x)
      = fitness { m_prob_id := 8, m_is_constrained := false, m_dim := n } T fuel x := by
  rw [fitness_eq_impl_c T { m_prob_id := 8, m_is_constrained := true, m_dim := n }
      fuel x CF8 rfl (by simp) (by simp) rfl 3 1 rfl rfl,
    fitness_eq_impl_u T { m_prob_id := 8, m_is_constrained := false, m_dim := n }
      fuel x UF8 rfl (by simp) (by simp) rfl 3 rfl]
  exact CF8_take _ _ rfl T fuel x _ _ _ _

theorem fitness_CF9_take (T : Libm α) (n fuel : Nat) (x : List α) :
    Except.map (List.take 3)
        (fitness { m_prob_id := 9, m_is_constrained := true, m_dim := n } T fuel x)
      = fitness { m_prob_id := 8, m_is_constrained := false, m_dim := n } T fuel x := by
  rw [fitness_eq_impl_c T { m_prob_id := 9, m_is_constrained := true, m_dim := n }
      fuel x CF9 rfl (by simp) (by simp) rfl 3 1 rfl rfl,
    fitness_eq_impl_u T { m_prob_id := 8, m_is_constrained := false, m_dim := n }
      fuel x UF8 rfl (by simp) (by simp) rfl 3 rfl]
  exact CF9_take _ _ rfl T fuel x _ _ _ _

theorem fitness_CF10_take (T : Libm α) (n fuel : Nat) (x : List α) :
    Except.map (List.take 3)
        (fitness { m_prob_id := 10, m_is_constrained := true, m_dim := n } T fuel x)
      = fitness { m_prob_id := 10, m_is_constrained := false, m_dim := n } T fuel x := by
  rw [fitness_eq_impl_c T { m_prob_id := 10, m_is_constrained := true, m_dim := n }
      fuel x CF10 rfl (by simp) (by simp) rfl 3 1 rfl rfl,
    fitness_eq_impl_u T { m_prob_id := 10, m_is_constrained := false, m_dim := n }
      fuel x UF10 rfl (by simp) (by simp) rfl 3 rfl]
  exact CF10_take _ _ rfl T fuel x _ _ _ _

theorem tri_ref_zeros5_sq :
    tri_ref realLibm (fun y => y ^ 2) 5 ([0, 0, 0, 0, 0] : List ℝ) = [1, 0, 0] := by
  simp only [tri_ref, tri_reduction, tri_ref_y_zeros5, getD_zeros5]
  norm_num [realLibm]

/-- C11 (counterexample): the constructor accepts `(9, false, 5)`, the zero vector has
length 5, and UF9 returns `[0, 0, 1]`, whereas the claimed objectives
`cos(pi*x0/2)*cos(pi*x1/2) + 2*r1, ...` are `[1, 0, 0]` there (every deviation is 0, so
every reduction is 0). -/
theorem fitness_UF9_not_spherical :
    cec2009.cec2009 9 false 5
        = Except.ok { m_prob_id := 9, m_is_constrained := false, m_dim := 5 } ∧
      ([0, 0, 0, 0, 0] : List ℝ).length = 5 ∧
      fitness { m_prob_id := 9, m_is_constrained := false, m_dim := 5 } realLibm 6
        ([0, 0, 0, 0, 0] : List ℝ) = Except.ok [0, 0, 1] ∧
      tri_ref realLibm (fun y => y ^ 2) 5 ([0, 0, 0, 0, 0] : List ℝ) = [1, 0, 0] ∧
      ([0, 0, 1] : List ℝ) ≠ [1, 0, 0] := by
  refine ⟨rfl, rfl, (UF9_CF9_zero_vector 6 (by omega)).1, tri_ref_zeros5_sq, ?_⟩
  intro h
  have h0 := (List.cons.inj h).1
  norm_num at h0

/-- C11 (amended): for UF8, CF8, CF9 (reduction by the sum of squares) and UF10, CF10
(reduction by `4*y^2 - cos(8*pi*y) + 1`), every dimension `5 <= n < 2^32 - 1`, every `x` of
length `n` and fuel above `n`, the three objectives are the reference objectives
`tri_ref`: `cos(pi*x0/2)*cos(pi*x1/2) + 2*r1`, `cos(pi*x0/2)*sin(pi*x1/2) + 2*r2`,
`sin(pi*x0/2) + 2*r3`, with `r_k` the reduction of class `k` divided by its cardinality. -/
theorem tri_objectives_value (T : Libm α) (n fuel : Nat) (x : List α) (hx : x.length = n)
    (h5 : 5 ≤ n) (hn : n + 1 < UINT_MOD) (hf : n < fuel) :
    fitness { m_prob_id := 8, m_is_constrained := false, m_dim := n } T fuel x
        = Except.ok (tri_ref T (fun y => y ^ 2) n x) ∧
      Except.map (List.take 3)
          (fitness { m_prob_id := 8, m_is_constrained := true, m_dim := n } T fuel x)
        = Except.ok (tri_ref T (fun y => y ^ 2) n x) ∧
      Except.map (List.take 3)
          (fitness { m_prob_id := 9, m_is_constrained := true, m_dim := n } T fuel x)
        = Except.ok (tri_ref T (fun y => y ^ 2) n x) ∧
      fitness { m_prob_id := 10, m_is_constrained := false, m_dim := n } T fuel x
        = Except.ok (tri_ref T (ripple8_h T) n x) ∧
      Except.map (List.take 3)
          (fitness { m_prob_id := 10, m_is_constrained := true, m_dim := n } T fuel x)
        = Except.ok (tri_ref T (ripple8_h T) n x) := by
  have h8 := fitness_UF8_tri_ref T n fuel x hx (by omega) hn hf
  have h10 := fitness_UF10_tri_ref T n fuel x hx (by omega) hn hf
  exact ⟨h8, (fitness_CF8_take T n fuel x).trans h8, (fitness_CF9_take T n fuel x).trans h8,
    h10, (fitness_CF10_take T n fuel x).trans h10⟩

theorem tri_objectives_value_witness :
    fitness { m_prob_id := 8, m_is_constrained := false, m_dim := 5 } realLibm 6
          ([0, 0, 0, 0, 0] : List ℝ)
        = Except.ok (tri_ref realLibm (fun y => y ^ 2) 5 [0, 0, 0, 0, 0]) ∧
      Except.map (List.take 3)
          (fitness { m_prob_id := 8, m_is_constrained := true, m_dim := 5 } realLibm 6
            ([0, 0, 0, 0, 0] : List ℝ))
        = Except.ok (tri_ref realLibm (fun y => y ^ 2) 5 [0, 0, 0, 0, 0]) ∧
      Except.map (List.take 3)
          (fitness { m_prob_id := 9, m_is_constrained := true, m_dim := 5 } realLibm 6
            ([0, 0, 0, 0, 0] : List ℝ))
        = Except.ok (tri_ref realLibm (fun y => y ^ 2) 5 [0, 0, 0, 0, 0]) ∧
      fitness { m_prob_id := 10, m_is_constrained := false, m_dim := 5 } realLibm 6
          ([0, 0, 0, 0, 0] : List ℝ)
        = Except.ok (tri_ref realLibm (ripple8_h realLibm) 5 [0, 0, 0, 0, 0]) ∧
      Except.map (List.take 3)
          (fitness { m_prob_id := 10, m_is_constrained := true, m_dim := 5 } realLibm 6
            ([0, 0, 0, 0, 0] : List ℝ))
        = Except.ok (tri_ref realLibm (ripple8_h realLibm) 5 [0, 0, 0, 0, 0]) :=
  tri_objectives_value realLibm 5 6 ([0, 0, 0, 0, 0] : List ℝ) rfl (by decide)
    (by decide) (by decide)

theorem K1_five : K1 5 = {4} := by decide

theorem K2_five : K2 5 = {5} := by decide

theorem K3_five : K3 5 = {3} := by decide

theorem tri_ref_y_unit (j : Nat) (h3 : 3 ≤ j) (h5 : j ≤ 5) :
    tri_ref_y realLibm 5 unit_deviation_point j = 1 := by
  have hj : j = 3 ∨ j = 4 ∨ j = 5 := by omega
  rcases hj with rfl | rfl | rfl <;> norm_num [tri_ref_y, unit_deviation_point]

theorem cos_eight_pi : Real.cos (8 * Real.pi * 1) = 1 := by
  have e : 8 * Real.pi * 1 = ((4 : ℕ) : ℝ) * (2 * Real.pi) := by push_cast; ring
  rw [e]
  exact Real.cos_nat_mul_two_pi 4

theorem cos_four_pi : Real.cos (4 * Real.pi * 1) = 1 := by
  have e : 4 * Real.pi * 1 = ((2 : ℕ) : ℝ) * (2 * Real.pi) := by push_cast; ring
  rw [e]
  exact Real.cos_nat_mul_two_pi 2

theorem ripple8_h_one : ripple8_h realLibm 1 = 4 := by
  simp only [ripple8_h, realLibm, cos_eight_pi]
  norm_num

theorem ripple_h_one : ripple_h realLibm 1 = 2 := by
  simp only [ripple_h, realLibm, cos_four_pi]
  norm_num

theorem tri_ref_unit (h : ℝ → ℝ) :
    tri_ref realLibm h 5 unit_deviation_point = [1 + 2 * h 1, 2 * h 1, 2 * h 1] := by
  simp only [tri_ref, tri_reduction, K1_five, K2_five, K3_five, Finset.sum_singleton,
    Finset.card_singleton, tri_ref_y_unit 3 (by omega) (by omega),
    tri_ref_y_unit 4 (by omega) (by omega), tri_ref_y_unit 5 (by omega) (by omega)]
  norm_num [realLibm, unit_deviation_point]

/-- C19 (counterexample): at dimension 5 and `x = [0, 0, 1, 1, 1]` every deviation is 1 and
every class has one element; UF10 returns `[9, 8, 8]`, that is `h(1) = 4`, whereas the
claimed transform `2*y^2 - cos(4*pi*y) + 1` has `h(1) = 2` and gives `[5, 4, 4]`. -/
theorem fitness_UF10_unit_deviation :
    cec2009.cec2009 10 false 5
        = Except.ok { m_prob_id := 10, m_is_constrained := false, m_dim := 5 } ∧
      unit_deviation_point.length = 5 ∧
      fitness { m_prob_id := 10, m_is_constrained := false, m_dim := 5 } realLibm 6
        unit_deviation_point = Except.ok [9, 8, 8] ∧
      tri_ref realLibm (ripple_h realLibm) 5 unit_deviation_point = [5, 4, 4] ∧
      ([9, 8, 8] : List ℝ) ≠ [5, 4, 4] := by
  refine ⟨rfl, rfl, ?_, ?_, ?_⟩
  · rw [fitness_UF10_tri_ref realLibm 5 6 unit_deviation_point rfl (by decide) (by decide)
      (by decide), tri_ref_unit, ripple8_h_one]
    norm_num
  · rw [tri_ref_unit, ripple_h_one]
    norm_num
  · intro h
    have h0 := (List.cons.inj h).1
    norm_num at h0

/-- C19 (amended): in UF10 and CF10, for `5 <= n < 2^32 - 1`, `x` of length `n` and fuel
above `n`, each class is reduced by `h(y) = 4*y^2 - cos(8*pi*y) + 1` applied to every
deviation `y_j`; UF5 reduces its two classes by `2*y^2 - cos(4*pi*y) + 1`, a different
transform. -/
theorem UF10_CF10_reduction (T : Libm α) (n fuel : Nat) (x : List α) (hx : x.length = n)
    (h5 : 5 ≤ n) (hn : n + 1 < UINT_MOD) (hf : n < fuel) :
    fitness { m_prob_id := 10, m_is_constrained := false, m_dim := n } T fuel x
        = Except.ok (tri_ref T (ripple8_h T) n x) ∧
      Except.map (List.take 3)
          (fitness { m_prob_id := 10, m_is_constrained := true, m_dim := n } T fuel x)
        = Except.ok (tri_ref T (ripple8_h T) n x) ∧
      (∀ y : α, ripple8_h T y = 4 * y ^ 2 - T.cos (8 * T.pi * y) + 1) ∧
      fitness { m_prob_id := 5, m_is_constrained := false, m_dim := n } T fuel x
        = Except.ok
          [x.getD 0 0 + (0.5 / 10.0 + 0.1) * |T.sin (2.0 * 10.0 * T.pi * x.getD 0 0)|
              + 2.0 * (∑ j ∈ J1 n, ripple_h T (UF1_ref_y T n x j)) / ((J1 n).card : α),
           1.0 - x.getD 0 0 + (0.5 / 10.0 + 0.1) * |T.sin (2.0 * 10.0 * T.pi * x.getD 0 0)|
              + 2.0 * (∑ j ∈ J2 n, ripple_h T (UF1_ref_y T n x j)) / ((J2 n).card : α)] ∧
      (∀ y : α, ripple_h T y = 2 * y ^ 2 - T.cos (4 * T.pi * y) + 1) := by
  have h10 := fitness_UF10_tri_ref T n fuel x hx (by omega) hn hf
  exact ⟨h10, (fitness_CF10_take T n fuel x).trans h10, fun _ => rfl,
    fitness_UF5_closed T n fuel x hx (by omega) hn hf, fun _ => rfl⟩

theorem UF10_CF10_reduction_witness :
    fitness { m_prob_id := 10, m_is_constrained := false, m_dim := 5 } realLibm 6
          unit_deviation_point
        = Except.ok (tri_ref realLibm (ripple8_h realLibm) 5 unit_deviation_point) ∧
      Except.map (List.take 3)
          (fitness { m_prob_id := 10, m_is_constrained := true, m_dim := 5 } realLibm 6
            unit_deviation_point)
        = Except.ok (tri_ref realLibm (ripple8_h realLibm) 5 unit_deviation_point) ∧
      (∀ y : ℝ, ripple8_h realLibm y = 4 * y ^ 2 - realLibm.cos (8 * realLibm.pi * y) + 1) ∧
      fitness { m_prob_id := 5, m_is_constrained := false, m_dim := 5 } realLibm 6
          unit_deviation_point
        = Except.ok
          [unit_deviation_point.getD 0 0
              + (0.5 / 10.0 + 0.1)
                * |realLibm.sin (2.0 * 10.0 * realLibm.pi * unit_deviation_point.getD 0 0)|
              + 2.0 * (∑ j ∈ J1 5, ripple_h realLibm (UF1_ref_y realLibm 5 unit_deviation_point j))
                / ((J1 5).card : ℝ),
           1.0 - unit_deviation_point.getD 0 0
              + (0.5 / 10.0 + 0.1)
                * |realLibm.sin (2.0 * 10.0 * realLibm.pi * unit_deviation_point.getD 0 0)|
              + 2.0 * (∑ j ∈ J2 5, ripple_h realLibm (UF1_ref_y realLibm 5 unit_deviation_point j))
                / ((J2 5).card : ℝ)] ∧
      (∀ y : ℝ, ripple_h realLibm y = 2 * y ^ 2 - realLibm.cos (4 * realLibm.pi * y) + 1) :=
  UF10_CF10_reduction realLibm 5 6 unit_deviation_point rfl (by decide) (by decide)
    (by decide)

/-! ### The unit sphere (C24) -/

theorem getD_replicate_zero (n k : Nat) : (List.replicate n (0 : ℝ)).getD k 0 = 0 := by
  rw [List.getD_eq_getElem?_getD, List.getElem?_replicate]
  split_ifs <;> rfl

theorem take_getD (v l : List ℝ) (h : v.take 3 = l) (i : Nat) (hi : i < 3) :
    v.getD i 0 = l.getD i 0 := by
  rw [← h, List.getD_eq_getElem?_getD, List.getD_eq_getElem?_getD, List.getElem?_take, if_pos hi]

theorem tri_ref_y_eq_zero (n : Nat) (x : List ℝ) (j : Nat)
    (h : x.getD (j - 1) 0
      = 2 * x.getD 1 0 * Real.sin (2 * Real.pi * x.getD 0 0 + (j : ℝ) * Real.pi / (n : ℝ))) :
    tri_ref_y realLibm n x j = 0 := by
  unfold tri_ref_y
  rw [h]
  exact sub_self _

theorem tri_reduction_on_manifold (h : ℝ → ℝ) (h0 : h 0 = 0) (n : Nat) (x : List ℝ)
    (K : Finset Nat) (hK : ∀ j ∈ K, tri_ref_y realLibm n x j = 0) :
    tri_reduction realLibm h n x K = 0 := by
  unfold tri_reduction
  rw [Finset.sum_eq_zero (fun j hj => by rw [hK j hj, h0]), zero_div]

theorem mem_K_Icc (n j : Nat) (h : j ∈ K1 n ∨ j ∈ K2 n ∨ j ∈ K3 n) : 3 ≤ j ∧ j ≤ n := by
  simp only [K1, K2, K3, Finset.mem_filter, Finset.mem_Icc] at h
  omega

theorem tri_ref_sphere (h : ℝ → ℝ) (h0 : h 0 = 0) (n : Nat) (x : List ℝ)
    (hdev : ∀ j, 3 ≤ j → j ≤ n → tri_ref_y realLibm n x j = 0) :
    (tri_ref realLibm h n x).getD 0 0 ^ 2 + (tri_ref realLibm h n x).getD 1 0 ^ 2
      + (tri_ref realLibm h n x).getD 2 0 ^ 2 = 1 := by
  have r1 := tri_reduction_on_manifold h h0 n x (K1 n)
    (fun j hj => hdev j (mem_K_Icc n j (Or.inl hj)).1 (mem_K_Icc n j (Or.inl hj)).2)
  have r2 := tri_reduction_on_manifold h h0 n x (K2 n)
    (fun j hj => hdev j (mem_K_Icc n j (Or.inr (Or.inl hj))).1
      (mem_K_Icc n j (Or.inr (Or.inl hj))).2)
  have r3 := tri_reduction_on_manifold h h0 n x (K3 n)
    (fun j hj => hdev j (mem_K_Icc n j (Or.inr (Or.inr hj))).1
      (mem_K_Icc n j (Or.inr (Or.inr hj))).2)
  simp only [tri_ref, r1, r2, r3, List.getD_cons_zero, List.getD_cons_succ]
  simp only [realLibm]
  have ha := Real.sin_sq_add_cos_sq (Real.pi * x.getD 0 0 / 2)
  have hb := Real.sin_sq_add_cos_sq (Real.pi * x.getD 1 0 / 2)
  linear_combination (Real.cos (Real.pi * x.getD 0 0 / 2)) ^ 2 * hb + ha

theorem ripple8_h_zero : ripple8_h realLibm 0 = 0 := by
  simp [ripple8_h, realLibm]

theorem sphere_of_take (r : Except Fault (List ℝ)) (l : List ℝ)
    (h : Except.map (List.take 3) r = Except.ok l)
    (hl : l.getD 0 0 ^ 2 + l.getD 1 0 ^ 2 + l.getD 2 0 ^ 2 = 1) :
    ∃ v, r = Except.ok v ∧ v.getD 0 0 ^ 2 + v.getD 1 0 ^ 2 + v.getD 2 0 ^ 2 = 1 := by
  cases r with
  | error e => cases h
  | ok v =>
    have hv : v.take 3 = l := by
      simp only [Except.map] at h
      exact Except.ok.inj h
    refine ⟨v, rfl, ?_⟩
    rw [take_getD v l hv 0 (by omega), take_getD v l hv 1 (by omega),
      take_getD v l hv 2 (by omega)]
    exact hl

/-- For UF8, UF10, CF8, CF9 and CF10, every dimension `5 <= n < 2^32 - 1`, every real `x`
of length `n` whose deviations are all zero, and fuel above `n`, `fitness` returns a
vector whose three objectives lie on the unit sphere. -/
theorem tri_unit_sphere (n fuel : Nat) (x : List ℝ) (hx : x.length = n) (h5 : 5 ≤ n)
    (hn : n + 1 < UINT_MOD) (hf : n < fuel)
    (hdev : ∀ j, 3 ≤ j → j ≤ n → x.getD (j - 1) 0
      = 2 * x.getD 1 0 * Real.sin (2 * Real.pi * x.getD 0 0 + (j : ℝ) * Real.pi / (n : ℝ))) :
    ∀ q ∈ [((8 : Nat), false), (10, false), (8, true), (9, true), (10, true)],
      ∃ v, fitness { m_prob_id := q.1, m_is_constrained := q.2, m_dim := n } realLibm fuel x
          = Except.ok v ∧
        v.getD 0 0 ^ 2 + v.getD 1 0 ^ 2 + v.getD 2 0 ^ 2 = 1 := by
  have hz : ∀ j, 3 ≤ j → j ≤ n → tri_ref_y realLibm n x j = 0 :=
    fun j h3 hj => tri_ref_y_eq_zero n x j (hdev j h3 hj)
  have s8 := tri_ref_sphere (fun y => y ^ 2) (by norm_num) n x hz
  have s10 := tri_ref_sphere (ripple8_h realLibm) ripple8_h_zero n x hz
  have h8 := fitness_UF8_tri_ref realLibm n fuel x hx (by omega) hn hf
  have h10 := fitness_UF10_tri_ref realLibm n fuel x hx (by omega) hn hf
  intro q hq
  simp only [List.mem_cons, List.mem_singleton, List.mem_nil_iff, or_false] at hq
  rcases hq with rfl | rfl | rfl | rfl | rfl
  · exact ⟨_, h8, s8⟩
  · exact ⟨_, h10, s10⟩
  · exact sphere_of_take _ _ ((fitness_CF8_take realLibm n fuel x).trans h8) s8
  · exact sphere_of_take _ _ ((fitness_CF9_take realLibm n fuel x).trans h8) s8
  · exact sphere_of_take _ _ ((fitness_CF10_take realLibm n fuel x).trans h10) s10

/-- With the largest unsigned dimension, `UF8` never returns: its loop never exits
normally. -/
theorem UF8_uint_max_no_result (T : Libm α) (p : pagmo.cec2009) (hp : p.m_dim = UINT_MOD - 1)
    (fuel : Nat) (f x : List α) : ∃ e, UF8 p T fuel f x = Except.error e := by
  obtain ⟨e, he⟩ := forLe_uint_max (UF8_body T p.m_dim x) fuel 3
    ({ sum1 := 0.0, sum2 := 0.0, sum3 := 0.0, count1 := 0, count2 := 0, count3 := 0 } : Acc3 α)
    (by decide)
  refine ⟨e, ?_⟩
  unfold UF8
  rw [hp] at he ⊢
  rw [he]
  rfl

/-- C24 (evaluation at the failing input): the constructor accepts `(8, false, 4294967295)`,
the vector of `4294967295` zeros has that length and all its deviations are zero, and
`fitness` returns no vector for any fuel: the counter of `for (j = 3u; j <= m_dim; ++j)`
wraps to 0 instead of exceeding `m_dim`. -/
theorem fitness_UF8_uint_max_no_result :
    cec2009.cec2009 8 false 4294967295
        = Except.ok { m_prob_id := 8, m_is_constrained := false, m_dim := 4294967295 } ∧
      (List.replicate 4294967295 (0 : ℝ)).length = 4294967295 ∧
      (∀ j : Nat, (List.replicate 4294967295 (0 : ℝ)).getD (j - 1) 0
        = 2 * (List.replicate 4294967295 (0 : ℝ)).getD 1 0
          * Real.sin (2 * Real.pi * (List.replicate 4294967295 (0 : ℝ)).getD 0 0
            + (j : ℝ) * Real.pi / ((4294967295 : ℕ) : ℝ))) ∧
      ¬ ∃ fuel v, fitness { m_prob_id := 8, m_is_constrained := false, m_dim := 4294967295 }
          realLibm fuel (List.replicate 4294967295 (0 : ℝ)) = Except.ok v := by
  refine ⟨rfl, List.length_replicate _ _, ?_, ?_⟩
  · intro j
    rw [getD_replicate_zero, getD_replicate_zero]
    ring
  · rintro ⟨fuel, v, h⟩
    rw [fitness_eq_impl_u realLibm
      { m_prob_id := 8, m_is_constrained := false, m_dim := 4294967295 }
      fuel _ UF8 rfl (by decide) (by decide) rfl 3 rfl] at h
    obtain ⟨e, he⟩ := UF8_uint_max_no_result realLibm
      { m_prob_id := 8, m_is_constrained := false, m_dim := 4294967295 } rfl fuel
      (List.replicate 3 0.0) (List.replicate 4294967295 (0 : ℝ))
    rw [he] at h
    cases h

end tri_objectives

/-! ## The two-objective problems: division by the class cardinality and the first objective (C12, C25) -/

section bi_objectives

variable {α : Type} [LinearOrderedField α]

theorem fitness_UF1_closed (T : Libm α) (n fuel : Nat) (x : List α) (hx : x.length = n)
    (h1 : 1 ≤ n) (hn : n + 1 < UINT_MOD) (hf : n < fuel) :
    fitness { m_prob_id := 1, m_is_constrained := false, m_dim := n } T fuel x
      = Except.ok
        [x.getD 0 0 + 2.0 * (∑ j ∈ J1 n, UF1_ref_y T n x j ^ 2) / ((J1 n).card : α),
         1.0 - T.sqrt (x.getD 0 0)
           + 2.0 * (∑ j ∈ J2 n, UF1_ref_y T n x j ^ 2) / ((J2 n).card : α)] := by
  rw [fitness_eq_impl_u T { m_prob_id := 1, m_is_constrained := false, m_dim := n }
    fuel x UF1 rfl (by simp) (by simp) rfl 2 rfl]
  simp only [UF1, UF1_loop T n fuel x hx h1 hn hf, vget_of_lt x 0 0 (by omega), ok_bind]
  rfl

/-- The first two entries of `fitness` for UF1-UF7 and CF1-CF3 are the reference
objectives `bi_ref`. -/
theorem fitness_bi_ref (T : Libm α) (n fuel : Nat) (x : List α) (hx : x.length = n)
    (h1 : 1 ≤ n) (hn : n + 1 < UINT_MOD) (hf : n < fuel) (prob_id : Nat) (c : Bool)
    (hid : 1 ≤ prob_id) (hk : prob_id ≤ (if c then 3 else 7)) :
    Except.map (List.take 2)
        (fitness { m_prob_id := prob_id, m_is_constrained := c, m_dim := n } T fuel x)
      = Except.ok (bi_ref T prob_id c n x) := by
  cases c with
  | false =>
    simp only [Bool.false_eq_true, if_false] at hk
    have hcases : prob_id = 1 ∨ prob_id = 2 ∨ prob_id = 3 ∨ prob_id = 4 ∨ prob_id = 5 ∨
        prob_id = 6 ∨ prob_id = 7 := by omega
    rcases hcases with rfl | rfl | rfl | rfl | rfl | rfl | rfl
    · rw [fitness_UF1_closed T n fuel x hx h1 hn hf]
      simp only [Except.map, List.take, bi_ref, bi_base, bi_reduction, bi_dev, lit_two,
        mul_div_assoc]
    · rw [fitness_UF2_closed T n fuel x hx h1 hn hf]
      simp only [Except.map, List.take, bi_ref, bi_base, bi_reduction, bi_dev, lit_two,
        mul_div_assoc]
    · rw [fitness_UF3_closed T n fuel x hx h1 hn hf]
      simp only [Except.map, List.take, bi_ref, bi_base, bi_reduction, bi_dev, lit_two,
        mul_div_assoc]
    · rw [fitness_UF4_closed T n fuel x hx h1 hn hf]
      simp only [Except.map, List.take, bi_ref, bi_base, bi_reduction, bi_dev, lit_two,
        mul_div_assoc]
    · rw [fitness_UF5_closed T n fuel x hx h1 hn hf]
      simp only [Except.map, List.take, bi_ref, bi_base, bi_reduction, bi_dev, lit_two,
        mul_div_assoc]
    · rw [fitness_UF6_closed T n fuel x hx h1 hn hf]
      simp only [Except.map, List.take, bi_ref, bi_base, bi_reduction, bi_dev, lit_two,
        mul_div_assoc]
    · rw [fitness_UF7_closed T n fuel x hx h1 hn hf]
      simp only [Except.map, List.take, bi_ref, bi_base, bi_reduction, bi_dev, lit_two,
        mul_div_assoc]
  | true =>
    simp only [if_true] at hk
    have hcases : prob_id = 1 ∨ prob_id = 2 ∨ prob_id = 3 := by omega
    rcases hcases with rfl | rfl | rfl
    · obtain ⟨f0, f1, rfl, rfl, h⟩ := fitness_CF1_closed T n fuel x hx h1 hn hf
      rw [h]
      simp only [Except.map, List.take, bi_ref, bi_base, bi_reduction, bi_dev, lit_two,
        mul_div_assoc]
    · obtain ⟨f0, f1, rfl, rfl, h⟩ := fitness_CF2_closed T n fuel x hx h1 hn hf
      rw [h]
      simp only [Except.map, List.take, bi_ref, bi_base, bi_reduction, bi_dev, lit_two,
        mul_div_assoc]
    · obtain ⟨f0, f1, rfl, rfl, h⟩ := fitness_CF3_closed T n fuel x hx h1 hn hf
      rw [h]
      simp only [Except.map, List.take, bi_ref, bi_base, bi_reduction, bi_dev, lit_two,
        mul_div_assoc]

theorem J1_six : J1 6 = {3, 5} := by decide

theorem J2_six : J2 6 = {2, 4, 6} := by decide

theorem CF6_ref_y_alternating (j : Nat) :
    CF6_ref_y realLibm 6 alternating_point j = alternating_point.getD (j - 1) 0 := by
  unfold CF6_ref_y
  rw [show alternating_point.getD 0 0 = 0 from rfl]
  ring

theorem CF6_sum2_alternating :
    ∑ j ∈ J2 6, CF6_ref_y realLibm 6 alternating_point j ^ 2 = 3 := by
  simp only [CF6_ref_y_alternating, J2_six]
  rw [Finset.sum_insert (by decide), Finset.sum_insert (by decide), Finset.sum_singleton]
  norm_num [alternating_point]

theorem CF6_sum1_alternating :
    ∑ j ∈ J1 6, CF6_ref_y realLibm 6 alternating_point j ^ 2 = 0 := by
  simp only [CF6_ref_y_alternating, J1_six]
  rw [Finset.sum_insert (by decide), Finset.sum_singleton]
  norm_num [alternating_point]

/-- C12 (counterexample): the constructor accepts `(6, true, 6)`; on `x = [0, 1, 0, 1, 0, 1]`
the even class `{2, 4, 6}` has three elements and its reduction (the sum of squares of the
deviations) is 3; CF6 returns `f[1] = 4 = (1 - x0)^2 + 3`, the reduction added undivided,
and not `(1 - x0)^2 + 3/3` or `(1 - x0)^2 + 2*(3/3)`. -/
theorem fitness_CF6_reduction_undivided :
    cec2009.cec2009 6 true 6
        = Except.ok { m_prob_id := 6, m_is_constrained := true, m_dim := 6 } ∧
      alternating_point.length = 6 ∧
      (∃ c1 c2 : ℝ, fitness { m_prob_id := 6, m_is_constrained := true, m_dim := 6 }
          realLibm 7 alternating_point = Except.ok [0, 4, c1, c2]) ∧
      (J2 6).card = 3 ∧
      ∑ j ∈ J2 6, CF6_ref_y realLibm 6 alternating_point j ^ 2 = 3 ∧
      (4 : ℝ) = (1 - alternating_point.getD 0 0) * (1 - alternating_point.getD 0 0) + 3 ∧
      (4 : ℝ) ≠ (1 - alternating_point.getD 0 0) * (1 - alternating_point.getD 0 0) + 3 / 3 ∧
      (4 : ℝ)
        ≠ (1 - alternating_point.getD 0 0) * (1 - alternating_point.getD 0 0) + 2 * (3 / 3) := by
  refine ⟨rfl, rfl, ?_, by decide, CF6_sum2_alternating, ?_, ?_, ?_⟩
  · obtain ⟨f0, f1, e0, e1, h⟩ := fitness_CF6_closed realLibm 6 7 alternating_point rfl
      (by decide) (by decide) (by decide)
    rw [CF6_sum1_alternating] at e0
    rw [CF6_sum2_alternating] at e1
    have z0 : f0 = 0 := by rw [e0]; norm_num [alternating_point]
    have z1 : f1 = 4 := by rw [e1]; norm_num [alternating_point]
    rw [z0, z1] at h
    exact ⟨_, _, h⟩
  · norm_num [alternating_point]
  · norm_num [alternating_point]
  · norm_num [alternating_point]

/-- C12 (amended): for UF1-UF7 and CF1-CF3, every dimension `4 <= n < 2^32 - 1`, every `x`
of length `n` and fuel above `n`, the two objectives are `bi_ref`: the reduction of the odd
(respectively even) indices `j` in `2..n` is divided by the cardinality of that class
before twice the quotient is added to the base curve. -/
theorem bi_reduction_divided (T : Libm α) (n fuel : Nat) (x : List α) (hx : x.length = n)
    (h4 : 4 ≤ n) (hn : n + 1 < UINT_MOD) (hf : n < fuel) (prob_id : Nat) (c : Bool)
    (hid : 1 ≤ prob_id) (hk : prob_id ≤ (if c then 3 else 7)) :
    Except.map (List.take 2)
        (fitness { m_prob_id := prob_id, m_is_constrained := c, m_dim := n } T fuel x)
      = Except.ok
        [(bi_base T prob_id c x).1
            + 2 * (bi_reduction T prob_id c n x (J1 n) / ((J1 n).card : α)),
         (bi_base T prob_id c x).2
            + 2 * (bi_reduction T prob_id c n x (J2 n) / ((J2 n).card : α))] :=
  fitness_bi_ref T n fuel x hx (by omega) hn hf prob_id c hid hk

theorem bi_reduction_divided_witness :
    Except.map (List.take 2)
        (fitness { m_prob_id := 3, m_is_constrained := true, m_dim := 6 } realLibm 7
          alternating_point)
      = Except.ok
        [(bi_base realLibm 3 true alternating_point).1
            + 2 * (bi_reduction realLibm 3 true 6 alternating_point (J1 6)
              / ((J1 6).card : ℝ)),
         (bi_base realLibm 3 true alternating_point).2
            + 2 * (bi_reduction realLibm 3 true 6 alternating_point (J2 6)
              / ((J2 6).card : ℝ))] :=
  bi_reduction_divided realLibm 6 7 alternating_point rfl (by decide) (by decide)
    (by decide) 3 true (by decide) (by decide)

/-! ### The first objective of UF1-UF6 (C25) -/

end bi_objectives

/-! ## Closed forms of the per-class counters (C18) -/

section counters

variable {α : Type} [LinearOrderedField α]

theorem card_J (k : Nat) : (J1 (k + 1)).card = k / 2 ∧ (J2 (k + 1)).card = (k + 1) / 2 := by
  induction k with
  | zero => exact ⟨by decide, by decide⟩
  | succ k ih =>
    rw [J1_succ, J2_succ]
    constructor
    · split_ifs with h
      · rw [Finset.card_insert_of_not_mem (not_mem_J1 k), ih.1]
        omega
      · rw [ih.1]
        omega
    · split_ifs with h
      · rw [Finset.card_insert_of_not_mem (not_mem_J2 k), ih.2]
        omega
      · rw [ih.2]
        omega

theorem card_J1 (n : Nat) (h : 1 ≤ n) : (J1 n).card = (n - 1) / 2 := by
  obtain ⟨k, rfl⟩ : ∃ k, n = k + 1 := ⟨n - 1, by omega⟩
  exact (card_J k).1

theorem card_J2 (n : Nat) (h : 1 ≤ n) : (J2 n).card = n / 2 := by
  obtain ⟨k, rfl⟩ : ∃ k, n = k + 1 := ⟨n - 1, by omega⟩
  exact (card_J k).2

theorem card_K (k : Nat) :
    (K1 (k + 2)).card = (k + 1) / 3 ∧ (K2 (k + 2)).card = k / 3 ∧
      (K3 (k + 2)).card = (k + 2) / 3 := by
  induction k with
  | zero => exact ⟨by decide, by decide, by decide⟩
  | succ k ih =>
    rw [K1_succ, K2_succ, K3_succ]
    refine ⟨?_, ?_, ?_⟩
    · split_ifs with h
      · rw [Finset.card_insert_of_not_mem (not_mem_K1 k), ih.1]
        omega
      · rw [ih.1]
        omega
    · split_ifs with h
      · rw [Finset.card_insert_of_not_mem (not_mem_K2 k), ih.2.1]
        omega
      · rw [ih.2.1]
        omega
    · split_ifs with h
      · rw [Finset.card_insert_of_not_mem (not_mem_K3 k), ih.2.2]
        omega
      · rw [ih.2.2]
        omega

theorem card_K1 (n : Nat) (h : 2 ≤ n) : (K1 n).card = (n - 1) / 3 := by
  obtain ⟨k, rfl⟩ : ∃ k, n = k + 2 := ⟨n - 2, by omega⟩
  exact (card_K k).1

theorem card_K2 (n : Nat) (h : 2 ≤ n) : (K2 n).card = (n - 2) / 3 := by
  obtain ⟨k, rfl⟩ : ∃ k, n = k + 2 := ⟨n - 2, by omega⟩
  exact (card_K k).2.1

theorem card_K3 (n : Nat) (h : 2 ≤ n) : (K3 n).card = n / 3 := by
  obtain ⟨k, rfl⟩ : ∃ k, n = k + 2 := ⟨n - 2, by omega⟩
  exact (card_K k).2.2

/-- A loop whose first test `j <= m` fails returns its initial state. -/
theorem forLe_skip {σ : Type} (body : Nat → σ → Except Fault σ) (m fuel j : Nat) (s : σ)
    (h : m < j) (hf : 0 < fuel) : forLe body m fuel j s = Except.ok s := by
  obtain ⟨k, rfl⟩ : ∃ k, fuel = k + 1 := ⟨fuel - 1, by omega⟩
  rw [forLe, if_neg (by omega)]

/-- The closed forms are all non-zero exactly from dimension 3 (parity) or 5 (modulo 3). -/
theorem count_closed_form_ne_zero (prob_id n : Nat) :
    (∀ d ∈ count_closed_form α prob_id n, d ≠ 0) ↔ (if prob_id ≤ 7 then 3 else 5) ≤ n := by
  unfold count_closed_form
  split_ifs with h
  · simp only [List.mem_cons, List.mem_singleton, List.mem_nil_iff, or_false, forall_eq_or_imp,
      forall_eq, ne_eq, Nat.cast_eq_zero]
    omega
  · simp only [List.mem_cons, List.mem_singleton, List.mem_nil_iff, or_false, forall_eq_or_imp,
      forall_eq, ne_eq, Nat.cast_eq_zero]
    omega

end counters

/-! ## The value of sgn at 0 (C22) -/

section sign_at_zero

variable {α : Type} [LinearOrderedField α]

theorem sgn_mul_abs (t : α) : sgn t * |t| = t := by
  unfold sgn
  split_ifs with h
  · rw [abs_of_pos h, one_mul]
  · rw [abs_of_nonpos (not_lt.mp h)]
    ring

theorem agree_mul_abs (g : α → α) (hg : ∀ t, t ≠ 0 → g t = sgn t) (t : α) :
    g t * |t| = sgn t * |t| := by
  by_cases h : t = 0
  · rw [h, abs_zero, mul_zero, mul_zero]
  · rw [hg t h]

theorem agree_mul_sqrt_abs (T : Libm α) (hs : T.sqrt 0 = 0) (g : α → α)
    (hg : ∀ t, t ≠ 0 → g t = sgn t) (t : α) :
    g t * T.sqrt |t| = sgn t * T.sqrt |t| := by
  by_cases h : t = 0
  · rw [h, abs_zero, hs, mul_zero, mul_zero]
  · rw [hg t h]

theorem CF2_with_eq (g : α → α) (hg : ∀ t, t ≠ 0 → g t = sgn t) (p : pagmo.cec2009)
    (T : Libm α) (fuel : Nat) (f x : List α) : CF2_with g p T fuel f x = CF2 p T fuel f x := by
  simp only [CF2_with, CF2, agree_mul_abs g hg]

theorem CF4_with_eq (g : α → α) (hg : ∀ t, t ≠ 0 → g t = sgn t) (p : pagmo.cec2009)
    (T : Libm α) (fuel : Nat) (f x : List α) : CF4_with g p T fuel f x = CF4 p T fuel f x := by
  simp only [CF4_with, CF4, agree_mul_abs g hg]

theorem CF6_with_eq (g : α → α) (hg : ∀ t, t ≠ 0 → g t = sgn t) (p : pagmo.cec2009)
    (T : Libm α) (hs : T.sqrt 0 = 0) (fuel : Nat) (f x : List α) :
    CF6_with g p T fuel f x = CF6 p T fuel f x := by
  simp only [CF6_with, CF6, agree_mul_sqrt_abs T hs g hg]

theorem CF7_with_eq (g : α → α) (hg : ∀ t, t ≠ 0 → g t = sgn t) (p : pagmo.cec2009)
    (T : Libm α) (hs : T.sqrt 0 = 0) (fuel : Nat) (f x : List α) :
    CF7_with g p T fuel f x = CF7 p T fuel f x := by
  simp only [CF7_with, CF7, agree_mul_sqrt_abs T hs g hg]

theorem fitness_impl_congr (p : pagmo.cec2009) (T : Libm α) (fuel : Nat) (x : List α)
    (a b : func_ptr α) (h : ∀ f, a p T fuel f x = b p T fuel f x) :
    fitness_impl p T fuel a x = fitness_impl p T fuel b x := by
  simp only [fitness_impl, h]

theorem getElem?_forall₂ {β : Type} (R : β → β → Prop) (l1 l2 : List β)
    (h : List.Forall₂ R l1 l2) (i : Nat) :
    (l1[i]? = none ∧ l2[i]? = none) ∨ ∃ a b, l1[i]? = some a ∧ l2[i]? = some b ∧ R a b := by
  induction h generalizing i with
  | nil => exact Or.inl ⟨rfl, rfl⟩
  | cons hab _ ih =>
    cases i with
    | zero => exact Or.inr ⟨_, _, List.getElem?_cons_zero, List.getElem?_cons_zero, hab⟩
    | succ i =>
      simp only [List.getElem?_cons_succ]
      exact ih i

/-- Looking up the same index in two tables whose entries agree under `K` gives the same
result of `K`. -/
theorem lookup_congr {β γ : Type} (K : β → Except Fault γ) (l1 l2 : List β)
    (h : List.Forall₂ (fun a b => K a = K b) l1 l2) (i : Nat) :
    (vget l1 i >>= K) = (vget l2 i >>= K) := by
  unfold vget
  rcases getElem?_forall₂ _ l1 l2 h i with ⟨e1, e2⟩ | ⟨a, b, e1, e2, hab⟩
  · rw [e1, e2]
  · rw [e1, e2]
    exact hab

/-- Replacing `sgn` by a function that agrees with it off 0 leaves `fitness` unchanged. -/
theorem fitness_with_eq (g : α → α) (hg : ∀ t, t ≠ 0 → g t = sgn t) (p : pagmo.cec2009)
    (T : Libm α) (hs : T.sqrt 0 = 0) (fuel : Nat) (x : List α) :
    fitness_with g p T fuel x = fitness p T fuel x := by
  unfold fitness_with fitness
  by_cases hc : p.m_is_constrained = true
  · rw [if_pos hc, if_pos hc]
    have h2 := fitness_impl_congr p T fuel x _ _ (fun f => CF2_with_eq g hg p T fuel f x)
    have h4 := fitness_impl_congr p T fuel x _ _ (fun f => CF4_with_eq g hg p T fuel f x)
    have h6 := fitness_impl_congr p T fuel x _ _ (fun f => CF6_with_eq g hg p T hs fuel f x)
    have h7 := fitness_impl_congr p T fuel x _ _ (fun f => CF7_with_eq g hg p T hs fuel f x)
    exact lookup_congr (fun f => fitness_impl p T fuel f x) (s_c_ptr_with g) s_c_ptr
      (List.Forall₂.cons rfl (List.Forall₂.cons h2 (List.Forall₂.cons rfl
        (List.Forall₂.cons h4 (List.Forall₂.cons rfl (List.Forall₂.cons h6
          (List.Forall₂.cons h7 (List.Forall₂.cons rfl (List.Forall₂.cons rfl
            (List.Forall₂.cons rfl List.Forall₂.nil)))))))))) _
  · rw [if_neg hc, if_neg hc]

theorem real_sqrt_zero : realLibm.sqrt 0 = 0 := Real.sqrt_zero

theorem sgn_alt_agrees (t : α) (h : t ≠ 0) : sgn_alt t = sgn t := by
  unfold sgn_alt
  rw [if_neg h]

theorem vget_ok_getD {β : Type} (x : List β) (i : Nat) (a d : β)
    (h : vget x i = Except.ok a) : x.getD i d = a := by
  unfold vget at h
  rw [List.getD_eq_getElem?_getD]
  cases e : x[i]? with
  | none => rw [e] at h; cases h
  | some b =>
    rw [e] at h
    cases h
    rfl

/-- The third entry of a result of `fitness` for CF2 is `-(sgn(t)*|t| / (1 + exp(4*|t|)))`
with `t` the residual computed from the first two entries. -/
theorem fitness_CF2_constraint (T : Libm α) (p : pagmo.cec2009)
    (hc : p.m_is_constrained = true) (hid : p.m_prob_id = 2) (fuel : Nat) (x v : List α)
    (h : fitness p T fuel x = Except.ok v) :
    v.getD 2 0
      = -(sgn (CF2_residual T (v.getD 0 0) (v.getD 1 0))
            * |CF2_residual T (v.getD 0 0) (v.getD 1 0)|
          / (1 + T.exp (4.0 * |CF2_residual T (v.getD 0 0) (v.getD 1 0)|))) := by
  rw [fitness_eq_impl_c T p fuel x CF2 hc (by omega) (by omega) (by rw [hid]; rfl) 2 1
    (by rw [hid]; rfl) (by rw [hid]; rfl)] at h
  simp only [CF2] at h
  generalize forLe _ _ _ _ _ = r at h
  cases r with
  | error e => cases h
  | ok s =>
    simp only [ok_bind] at h
    cases h0 : vget x 0 with
    | error e =>
      simp only [h0, error_bind] at h
      cases h
    | ok x0 =>
      simp only [h0, ok_bind] at h
      change Except.ok _ = Except.ok v at h
      cases h
      rfl

/-- The third entry of a result of `fitness` for CF4 is `-(sgn(t)*|t| / (1 + exp(4*|t|)))`
with `t` the residual computed from `x`. -/
theorem fitness_CF4_constraint (T : Libm α) (p : pagmo.cec2009)
    (hc : p.m_is_constrained = true) (hid : p.m_prob_id = 4) (fuel : Nat) (x v : List α)
    (h : fitness p T fuel x = Except.ok v) :
    v.getD 2 0
      = -(sgn (CF4_residual T p.m_dim x) * |CF4_residual T p.m_dim x|
          / (1 + T.exp (4.0 * |CF4_residual T p.m_dim x|))) := by
  rw [fitness_eq_impl_c T p fuel x CF4 hc (by omega) (by omega) (by rw [hid]; rfl) 2 1
    (by rw [hid]; rfl) (by rw [hid]; rfl)] at h
  simp only [CF4] at h
  generalize forLe _ _ _ _ _ = r at h
  cases r with
  | error e => cases h
  | ok s =>
    simp only [ok_bind] at h
    cases h0 : vget x 0 with
    | error e =>
      simp only [h0, error_bind] at h
      cases h
    | ok x0 =>
      cases h1 : vget x 1 with
      | error e =>
        simp only [h0, h1, ok_bind, error_bind] at h
        change Except.error _ = Except.ok v at h
        cases h
      | ok x1 =>
        simp only [h0, h1, ok_bind] at h
        change Except.ok _ = Except.ok v at h
        cases h
        unfold CF4_residual
        rw [vget_ok_getD x 0 x0 0 h0, vget_ok_getD x 1 x1 0 h1]
        rfl

theorem soft_sign_value (t : ℝ) :
    -(sgn t * |t| / (1 + realLibm.exp (4.0 * |t|))) = -t / (1 + Real.exp (4 * |t|)) := by
  rw [sgn_mul_abs, show (4.0 : ℝ) = 4 by norm_num, neg_div]
  rfl

theorem soft_sign_nonpos_iff (t : ℝ) :
    -(sgn t * |t| / (1 + realLibm.exp (4.0 * |t|))) ≤ 0 ↔ 0 ≤ t := by
  rw [soft_sign_value]
  have hpos : 0 < 1 + Real.exp (4 * |t|) := by positivity
  rw [div_le_iff₀ hpos, zero_mul]
  constructor <;> intro h <;> linarith

theorem fitness_CF2_CF4_returns (T : Libm α) (p : pagmo.cec2009)
    (hc : p.m_is_constrained = true)
    (hid : p.m_prob_id = 2 ∧ 1 ≤ p.m_dim ∨ p.m_prob_id = 4 ∧ 2 ≤ p.m_dim)
    (fuel : Nat) (x : List α) (hn : p.m_dim + 1 < UINT_MOD) (hx : x.length = p.m_dim)
    (hf : p.m_dim < fuel) : ∃ v, fitness p T fuel x = Except.ok v := by
  rcases hid with ⟨hid, h1⟩ | ⟨hid, h2⟩
  · rw [fitness_eq_impl_c T p fuel x CF2 hc (by omega) (by omega) (by rw [hid]; rfl) 2 1
      (by rw [hid]; rfl) (by rw [hid]; rfl)]
    obtain ⟨v, hv, _⟩ := CF2_returns T p fuel x hx h1 hn hf
    exact ⟨v, hv⟩
  · rw [fitness_eq_impl_c T p fuel x CF4 hc (by omega) (by omega) (by rw [hid]; rfl) 2 1
      (by rw [hid]; rfl) (by rw [hid]; rfl)]
    obtain ⟨v, hv, _⟩ := CF4_returns T p fuel x hx h2 hn hf
    exact ⟨v, hv⟩

/-- C22: over the reals, for every function `g` that agrees with `sgn` on the non-zero
arguments, every instance, fuel and `x`, `fitness` computed with `g` in place of `sgn`
(in CF2, CF4, CF6 and CF7) equals `fitness`; `fitness` computed with `sgn` itself in that
place is `fitness`; the expression `-(sgn(t)*|t| / (1 + exp(4*|t|)))` is
`-t / (1 + exp(4*|t|))` for every `t`, and it is `<= 0` exactly when `t >= 0`; and this
expression is the constraint entry of the code: whenever `fitness` of CF2, respectively CF4,
returns `v`, the entry `v[2]` is `-t / (1 + exp(4*|t|))` with `t` the residual of CF2
(computed from `v[0]`, `v[1]`), respectively of CF4 (computed from `x`), and `v[2] <= 0`
exactly when `t >= 0`; `fitness` of CF2 and CF4 does return on a vector of the length of
the dimension `n`, `1 <= n` respectively `2 <= n`, `n < 2^32 - 1`, with fuel above `n`. -/
theorem sgn_at_zero_irrelevant (g : ℝ → ℝ) (hg : ∀ t, t ≠ 0 → g t = sgn t)
    (p : pagmo.cec2009) (fuel : Nat) (x : List ℝ) :
    fitness_with g p realLibm fuel x = fitness p realLibm fuel x ∧
      fitness_with sgn p realLibm fuel x = fitness p realLibm fuel x ∧
      (∀ t : ℝ, -(sgn t * |t| / (1 + realLibm.exp (4.0 * |t|)))
        = -t / (1 + Real.exp (4 * |t|))) ∧
      (∀ t : ℝ, -(sgn t * |t| / (1 + realLibm.exp (4.0 * |t|))) ≤ 0 ↔ 0 ≤ t) ∧
      (p.m_is_constrained = true → p.m_prob_id = 2 →
        ∀ v, fitness p realLibm fuel x = Except.ok v →
          v.getD 2 0
              = -(CF2_residual realLibm (v.getD 0 0) (v.getD 1 0))
                / (1 + Real.exp (4 * |CF2_residual realLibm (v.getD 0 0) (v.getD 1 0)|)) ∧
            (v.getD 2 0 ≤ 0 ↔ 0 ≤ CF2_residual realLibm (v.getD 0 0) (v.getD 1 0))) ∧
      (p.m_is_constrained = true → p.m_prob_id = 4 →
        ∀ v, fitness p realLibm fuel x = Except.ok v →
          v.getD 2 0
              = -(CF4_residual realLibm p.m_dim x)
                / (1 + Real.exp (4 * |CF4_residual realLibm p.m_dim x|)) ∧
            (v.getD 2 0 ≤ 0 ↔ 0 ≤ CF4_residual realLibm p.m_dim x)) ∧
      (p.m_is_constrained = true →
        (p.m_prob_id = 2 ∧ 1 ≤ p.m_dim ∨ p.m_prob_id = 4 ∧ 2 ≤ p.m_dim) →
        p.m_dim + 1 < UINT_MOD → x.length = p.m_dim → p.m_dim < fuel →
        ∃ v, fitness p realLibm fuel x = Except.ok v) := by
  refine ⟨fitness_with_eq g hg p realLibm real_sqrt_zero fuel x,
    fitness_with_eq sgn (fun _ _ => rfl) p realLibm real_sqrt_zero fuel x, soft_sign_value,
    soft_sign_nonpos_iff, ?_, ?_, ?_⟩
  · intro hc hid v hv
    have e := fitness_CF2_constraint realLibm p hc hid fuel x v hv
    exact ⟨e.trans (soft_sign_value _), by rw [e]; exact soft_sign_nonpos_iff _⟩
  · intro hc hid v hv
    have e := fitness_CF4_constraint realLibm p hc hid fuel x v hv
    exact ⟨e.trans (soft_sign_value _), by rw [e]; exact soft_sign_nonpos_iff _⟩
  · intro hc hid hn hx hf
    exact fitness_CF2_CF4_returns realLibm p hc hid fuel x hn hx hf

theorem sgn_at_zero_irrelevant_witness :
    fitness_with sgn_alt { m_prob_id := 4, m_is_constrained := true, m_dim := 2 } realLibm 3
          ([0.5, 0] : List ℝ)
        = fitness { m_prob_id := 4, m_is_constrained := true, m_dim := 2 } realLibm 3
          ([0.5, 0] : List ℝ) ∧
      fitness_with sgn { m_prob_id := 4, m_is_constrained := true, m_dim := 2 } realLibm 3
          ([0.5, 0] : List ℝ)
        = fitness { m_prob_id := 4, m_is_constrained := true, m_dim := 2 } realLibm 3
          ([0.5, 0] : List ℝ) ∧
      (∀ t : ℝ, -(sgn t * |t| / (1 + realLibm.exp (4.0 * |t|)))
        = -t / (1 + Real.exp (4 * |t|))) ∧
      (∀ t : ℝ, -(sgn t * |t| / (1 + realLibm.exp (4.0 * |t|))) ≤ 0 ↔ 0 ≤ t) ∧
      (true = true → 4 = 2 →
        ∀ v, fitness { m_prob_id := 4, m_is_constrained := true, m_dim := 2 } realLibm 3
            ([0.5, 0] : List ℝ) = Except.ok v →
          v.getD 2 0
              = -(CF2_residual realLibm (v.getD 0 0) (v.getD 1 0))
                / (1 + Real.exp (4 * |CF2_residual realLibm (v.getD 0 0) (v.getD 1 0)|)) ∧
            (v.getD 2 0 ≤ 0 ↔ 0 ≤ CF2_residual realLibm (v.getD 0 0) (v.getD 1 0))) ∧
      (true = true → 4 = 4 →
        ∀ v, fitness { m_prob_id := 4, m_is_constrained := true, m_dim := 2 } realLibm 3
            ([0.5, 0] : List ℝ) = Except.ok v →
          v.getD 2 0
              = -(CF4_residual realLibm 2 ([0.5, 0] : List ℝ))
                / (1 + Real.exp (4 * |CF4_residual realLibm 2 ([0.5, 0] : List ℝ)|)) ∧
            (v.getD 2 0 ≤ 0 ↔ 0 ≤ CF4_residual realLibm 2 ([0.5, 0] : List ℝ))) ∧
      (true = true →
        (4 = 2 ∧ 1 ≤ 2 ∨ 4 = 4 ∧ 2 ≤ 2) →
        2 + 1 < UINT_MOD → ([0.5, 0] : List ℝ).length = 2 → 2 < 3 →
        ∃ v, fitness { m_prob_id := 4, m_is_constrained := true, m_dim := 2 } realLibm 3
            ([0.5, 0] : List ℝ) = Except.ok v) :=
  sgn_at_zero_irrelevant sgn_alt sgn_alt_agrees
    { m_prob_id := 4, m_is_constrained := true, m_dim := 2 } 3 ([0.5, 0] : List ℝ)

end sign_at_zero

/-! ## The result indices written by the evaluators (C20) -/

section writes

variable {α : Type} [LinearOrderedField α]

theorem length_eq_four {β : Type} (l : List β) (h : l.length = 4) :
    ∃ a b c d, l = [a, b, c, d] := by
  match l, h with
  | [a, b, c, d], _ => exact ⟨a, b, c, d, rfl⟩

/-- The result of `UF1` does not depend on the initial content of `f`: every entry of
the result is assigned. -/
theorem UF1_indep (p : pagmo.cec2009) (T : Libm α) (fuel : Nat) (x f g : List α)
    (hf : f.length = 2) (hg : g.length = 2) : UF1 p T fuel f x = UF1 p T fuel g x := by
  obtain ⟨a0, a1, rfl⟩ := List.length_eq_two.1 hf
  obtain ⟨b0, b1, rfl⟩ := List.length_eq_two.1 hg
  simp only [UF1]
  generalize forLe _ _ _ _ _ = r
  cases r with
  | error e => rfl
  | ok s =>
    simp only [ok_bind]
    cases h0 : vget x 0 with
    | error e => rfl
    | ok x0 =>
      rfl

/-- The result of `UF2` does not depend on the initial content of `f`: every entry of
the result is assigned. -/
theorem UF2_indep (p : pagmo.cec2009) (T : Libm α) (fuel : Nat) (x f g : List α)
    (hf : f.length = 2) (hg : g.length = 2) : UF2 p T fuel f x = UF2 p T fuel g x := by
  obtain ⟨a0, a1, rfl⟩ := List.length_eq_two.1 hf
  obtain ⟨b0, b1, rfl⟩ := List.length_eq_two.1 hg
  simp only [UF2]
  generalize forLe _ _ _ _ _ = r
  cases r with
  | error e => rfl
  | ok s =>
    simp only [ok_bind]
    cases h0 : vget x 0 with
    | error e => rfl
    | ok x0 =>
      rfl

/-- The result of `UF3` does not depend on the initial content of `f`: every entry of
the result is assigned. -/
theorem UF3_indep (p : pagmo.cec2009) (T : Libm α) (fuel : Nat) (x f g : List α)
    (hf : f.length = 2) (hg : g.length = 2) : UF3 p T fuel f x = UF3 p T fuel g x := by
  obtain ⟨a0, a1, rfl⟩ := List.length_eq_two.1 hf
  obtain ⟨b0, b1, rfl⟩ := List.length_eq_two.1 hg
  simp only [UF3]
  generalize forLe _ _ _ _ _ = r
  cases r with
  | error e => rfl
  | ok s =>
    simp only [ok_bind]
    cases h0 : vget x 0 with
    | error e => rfl
    | ok x0 =>
      rfl

/-- The result of `UF4` does not depend on the initial content of `f`: every entry of
the result is assigned. -/
theorem UF4_indep (p : pagmo.cec2009) (T : Libm α) (fuel : Nat) (x f g : List α)
    (hf : f.length = 2) (hg : g.length = 2) : UF4 p T fuel f x = UF4 p T fuel g x := by
  obtain ⟨a0, a1, rfl⟩ := List.length_eq_two.1 hf
  obtain ⟨b0, b1, rfl⟩ := List.length_eq_two.1 hg
  simp only [UF4]
  generalize forLe _ _ _ _ _ = r
  cases r with
  | error e => rfl
  | ok s =>
    simp only [ok_bind]
    cases h0 : vget x 0 with
    | error e => rfl
    | ok x0 =>
      rfl

/-- The result of `UF5` does not depend on the initial content of `f`: every entry of
the result is assigned. -/
theorem UF5_indep (p : pagmo.cec2009) (T : Libm α) (fuel : Nat) (x f g : List α)
    (hf : f.length = 2) (hg : g.length = 2) : UF5 p T fuel f x = UF5 p T fuel g x := by
  obtain ⟨a0, a1, rfl⟩ := List.length_eq_two.1 hf
  obtain ⟨b0, b1, rfl⟩ := List.length_eq_two.1 hg
  simp only [UF5]
  generalize forLe _ _ _ _ _ = r
  cases r with
  | error e => rfl
  | ok s =>
    simp only [ok_bind]
    cases h0 : vget x 0 with
    | error e => rfl
    | ok x0 =>
      rfl

/-- The result of `UF6` does not depend on the initial content of `f`: every entry of
the result is assigned. -/
theorem UF6_indep (p : pagmo.cec2009) (T : Libm α) (fuel : Nat) (x f g : List α)
    (hf : f.length = 2) (hg : g.length = 2) : UF6 p T fuel f x = UF6 p T fuel g x := by
  obtain ⟨a0, a1, rfl⟩ := List.length_eq_two.1 hf
  obtain ⟨b0, b1, rfl⟩ := List.length_eq_two.1 hg
  simp only [UF6]
  generalize forLe _ _ _ _ _ = r
  cases r with
  | error e => rfl
  | ok s =>
    simp only [ok_bind]
    cases h0 : vget x 0 with
    | error e => rfl
    | ok x0 =>
      rfl

/-- The result of `UF7` does not depend on the initial content of `f`: every entry of
the result is assigned. -/
theorem UF7_indep (p : pagmo.cec2009) (T : Libm α) (fuel : Nat) (x f g : List α)
    (hf : f.length = 2) (hg : g.length = 2) : UF7 p T fuel f x = UF7 p T fuel g x := by
  obtain ⟨a0, a1, rfl⟩ := List.length_eq_two.1 hf
  obtain ⟨b0, b1, rfl⟩ := List.length_eq_two.1 hg
  simp only [UF7]
  generalize forLe _ _ _ _ _ = r
  cases r with
  | error e => rfl
  | ok s =>
    simp only [ok_bind]
    cases h0 : vget x 0 with
    | error e => rfl
    | ok x0 =>
      rfl

/-- The result of `UF8` does not depend on the initial content of `f`: every entry of
the result is assigned. -/
theorem UF8_indep (p : pagmo.cec2009) (T : Libm α) (fuel : Nat) (x f g : List α)
    (hf : f.length = 3) (hg : g.length = 3) : UF8 p T fuel f x = UF8 p T fuel g x := by
  obtain ⟨a0, a1, a2, rfl⟩ := List.length_eq_three.1 hf
  obtain ⟨b0, b1, b2, rfl⟩ := List.length_eq_three.1 hg
  simp only [UF8]
  generalize forLe _ _ _ _ _ = r
  cases r with
  | error e => rfl
  | ok s =>
    simp only [ok_bind]
    cases h0 : vget x 0 with
    | error e => rfl
    | ok x0 =>
      cases h1 : vget x 1 with
      | error e => rfl
      | ok x1 =>
        rfl

/-- The result of `UF9` does not depend on the initial content of `f`: every entry of
the result is assigned. -/
theorem UF9_indep (p : pagmo.cec2009) (T : Libm α) (fuel : Nat) (x f g : List α)
    (hf : f.length = 3) (hg : g.length = 3) : UF9 p T fuel f x = UF9 p T fuel g x := by
  obtain ⟨a0, a1, a2, rfl⟩ := List.length_eq_three.1 hf
  obtain ⟨b0, b1, b2, rfl⟩ := List.length_eq_three.1 hg
  simp only [UF9]
  generalize forLe _ _ _ _ _ = r
  cases r with
  | error e => rfl
  | ok s =>
    simp only [ok_bind]
    cases h0 : vget x 0 with
    | error e => rfl
    | ok x0 =>
      cases h1 : vget x 1 with
      | error e => rfl
      | ok x1 =>
        rfl

/-- The result of `UF10` does not depend on the initial content of `f`: every entry of
the result is assigned. -/
theorem UF10_indep (p : pagmo.cec2009) (T : Libm α) (fuel : Nat) (x f g : List α)
    (hf : f.length = 3) (hg : g.length = 3) : UF10 p T fuel f x = UF10 p T fuel g x := by
  obtain ⟨a0, a1, a2, rfl⟩ := List.length_eq_three.1 hf
  obtain ⟨b0, b1, b2, rfl⟩ := List.length_eq_three.1 hg
  simp only [UF10]
  generalize forLe _ _ _ _ _ = r
  cases r with
  | error e => rfl
  | ok s =>
    simp only [ok_bind]
    cases h0 : vget x 0 with
    | error e => rfl
    | ok x0 =>
      cases h1 : vget x 1 with
      | error e => rfl
      | ok x1 =>
        rfl

/-- The result of `CF1` does not depend on the initial content of `f`: every entry of
the result is assigned. -/
theorem CF1_indep (p : pagmo.cec2009) (T : Libm α) (fuel : Nat) (x f g : List α)
    (hf : f.length = 3) (hg : g.length = 3) : CF1 p T fuel f x = CF1 p T fuel g x := by
  obtain ⟨a0, a1, a2, rfl⟩ := List.length_eq_three.1 hf
  obtain ⟨b0, b1, b2, rfl⟩ := List.length_eq_three.1 hg
  simp only [CF1]
  generalize forLe _ _ _ _ _ = r
  cases r with
  | error e => rfl
  | ok s =>
    simp only [ok_bind]
    cases h0 : vget x 0 with
    | error e => rfl
    | ok x0 =>
      rfl

/-- The result of `CF2` does not depend on the initial content of `f`: every entry of
the result is assigned. -/
theorem CF2_indep (p : pagmo.cec2009) (T : Libm α) (fuel : Nat) (x f g : List α)
    (hf : f.length = 3) (hg : g.length = 3) : CF2 p T fuel f x = CF2 p T fuel g x := by
  obtain ⟨a0, a1, a2, rfl⟩ := List.length_eq_three.1 hf
  obtain ⟨b0, b1, b2, rfl⟩ := List.length_eq_three.1 hg
  simp only [CF2]
  generalize forLe _ _ _ _ _ = r
  cases r with
  | error e => rfl
  | ok s =>
    simp only [ok_bind]
    cases h0 : vget x 0 with
    | error e => rfl
    | ok x0 =>
      rfl

/-- The result of `CF3` does not depend on the initial content of `f`: every entry of
the result is assigned. -/
theorem CF3_indep (p : pagmo.cec2009) (T : Libm α) (fuel : Nat) (x f g : List α)
    (hf : f.length = 3) (hg : g.length = 3) : CF3 p T fuel f x = CF3 p T fuel g x := by
  obtain ⟨a0, a1, a2, rfl⟩ := List.length_eq_three.1 hf
  obtain ⟨b0, b1, b2, rfl⟩ := List.length_eq_three.1 hg
  simp only [CF3]
  generalize forLe _ _ _ _ _ = r
  cases r with
  | error e => rfl
  | ok s =>
    simp only [ok_bind]
    cases h0 : vget x 0 with
    | error e => rfl
    | ok x0 =>
      rfl

/-- The result of `CF4` does not depend on the initial content of `f`: every entry of
the result is assigned. -/
theorem CF4_indep (p : pagmo.cec2009) (T : Libm α) (fuel : Nat) (x f g : List α)
    (hf : f.length = 3) (hg : g.length = 3) : CF4 p T fuel f x = CF4 p T fuel g x := by
  obtain ⟨a0, a1, a2, rfl⟩ := List.length_eq_three.1 hf
  obtain ⟨b0, b1, b2, rfl⟩ := List.length_eq_three.1 hg
  simp only [CF4]
  generalize forLe _ _ _ _ _ = r
  cases r with
  | error e => rfl
  | ok s =>
    simp only [ok_bind]
    cases h0 : vget x 0 with
    | error e => rfl
    | ok x0 =>
      cases h1 : vget x 1 with
      | error e => rfl
      | ok x1 =>
        rfl

/-- The result of `CF5` does not depend on the initial content of `f`: every entry of
the result is assigned. -/
theorem CF5_indep (p : pagmo.cec2009) (T : Libm α) (fuel : Nat) (x f g : List α)
    (hf : f.length = 3) (hg : g.length = 3) : CF5 p T fuel f x = CF5 p T fuel g x := by
  obtain ⟨a0, a1, a2, rfl⟩ := List.length_eq_three.1 hf
  obtain ⟨b0, b1, b2, rfl⟩ := List.length_eq_three.1 hg
  simp only [CF5]
  generalize forLe _ _ _ _ _ = r
  cases r with
  | error e => rfl
  | ok s =>
    simp only [ok_bind]
    cases h0 : vget x 0 with
    | error e => rfl
    | ok x0 =>
      cases h1 : vget x 1 with
      | error e => rfl
      | ok x1 =>
        rfl

/-- The result of `CF6` does not depend on the initial content of `f`: every entry of
the result is assigned. -/
theorem CF6_indep (p : pagmo.cec2009) (T : Libm α) (fuel : Nat) (x f g : List α)
    (hf : f.length = 4) (hg : g.length = 4) : CF6 p T fuel f x = CF6 p T fuel g x := by
  obtain ⟨a0, a1, a2, a3, rfl⟩ := length_eq_four _ hf
  obtain ⟨b0, b1, b2, b3, rfl⟩ := length_eq_four _ hg
  simp only [CF6]
  generalize forLe _ _ _ _ _ = r
  cases r with
  | error e => rfl
  | ok s =>
    simp only [ok_bind]
    cases h0 : vget x 0 with
    | error e => rfl
    | ok x0 =>
      cases h1 : vget x 1 with
      | error e => rfl
      | ok x1 =>
        cases h3 : vget x 3 with
        | error e => rfl
        | ok x3 =>
          rfl

/-- The result of `CF7` does not depend on the initial content of `f`: every entry of
the result is assigned. -/
theorem CF7_indep (p : pagmo.cec2009) (T : Libm α) (fuel : Nat) (x f g : List α)
    (hf : f.length = 4) (hg : g.length = 4) : CF7 p T fuel f x = CF7 p T fuel g x := by
  obtain ⟨a0, a1, a2, a3, rfl⟩ := length_eq_four _ hf
  obtain ⟨b0, b1, b2, b3, rfl⟩ := length_eq_four _ hg
  simp only [CF7]
  generalize forLe _ _ _ _ _ = r
  cases r with
  | error e => rfl
  | ok s =>
    simp only [ok_bind]
    cases h0 : vget x 0 with
    | error e => rfl
    | ok x0 =>
      cases h1 : vget x 1 with
      | error e => rfl
      | ok x1 =>
        cases h3 : vget x 3 with
        | error e => rfl
        | ok x3 =>
          rfl

/-- The result of `CF8` does not depend on the initial content of `f`: every entry of
the result is assigned. -/
theorem CF8_indep (p : pagmo.cec2009) (T : Libm α) (fuel : Nat) (x f g : List α)
    (hf : f.length = 4) (hg : g.length = 4) : CF8 p T fuel f x = CF8 p T fuel g x := by
  obtain ⟨a0, a1, a2, a3, rfl⟩ := length_eq_four _ hf
  obtain ⟨b0, b1, b2, b3, rfl⟩ := length_eq_four _ hg
  simp only [CF8]
  generalize forLe _ _ _ _ _ = r
  cases r with
  | error e => rfl
  | ok s =>
    simp only [ok_bind]
    cases h0 : vget x 0 with
    | error e => rfl
    | ok x0 =>
      cases h1 : vget x 1 with
      | error e => rfl
      | ok x1 =>
        rfl

/-- The result of `CF9` does not depend on the initial content of `f`: every entry of
the result is assigned. -/
theorem CF9_indep (p : pagmo.cec2009) (T : Libm α) (fuel : Nat) (x f g : List α)
    (hf : f.length = 4) (hg : g.length = 4) : CF9 p T fuel f x = CF9 p T fuel g x := by
  obtain ⟨a0, a1, a2, a3, rfl⟩ := length_eq_four _ hf
  obtain ⟨b0, b1, b2, b3, rfl⟩ := length_eq_four _ hg
  simp only [CF9]
  generalize forLe _ _ _ _ _ = r
  cases r with
  | error e => rfl
  | ok s =>
    simp only [ok_bind]
    cases h0 : vget x 0 with
    | error e => rfl
    | ok x0 =>
      cases h1 : vget x 1 with
      | error e => rfl
      | ok x1 =>
        rfl

/-- The result of `CF10` does not depend on the initial content of `f`: every entry of
the result is assigned. -/
theorem CF10_indep (p : pagmo.cec2009) (T : Libm α) (fuel : Nat) (x f g : List α)
    (hf : f.length = 4) (hg : g.length = 4) : CF10 p T fuel f x = CF10 p T fuel g x := by
  obtain ⟨a0, a1, a2, a3, rfl⟩ := length_eq_four _ hf
  obtain ⟨b0, b1, b2, b3, rfl⟩ := length_eq_four _ hg
  simp only [CF10]
  generalize forLe _ _ _ _ _ = r
  cases r with
  | error e => rfl
  | ok s =>
    simp only [ok_bind]
    cases h0 : vget x 0 with
    | error e => rfl
    | ok x0 =>
      cases h1 : vget x 1 with
      | error e => rfl
      | ok x1 =>
        rfl

/-- C20 (amended): on an instance the constructor returns, with `x` of the length of the
dimension `n`, `min_dim <= n < 2^32 - 1` and fuel above `n`, the dispatched evaluator,
started on any vector `f` of the allocated length `get_nobj() + get_nic()`, returns a vector
of that length (so every write is inside the allocated vector), and it returns the same
vector from any other initial vector `g` of that length (so every entry of the result is
assigned and none keeps its initial content). -/
theorem evaluator_writes_whole_result (T : Libm α) (prob_id : Nat) (c : Bool) (n : Nat)
    (p : pagmo.cec2009) (x : List α) (fuel : Nat) (f g : List α)
    (hp : cec2009.cec2009 prob_id c n = Except.ok p) (hmin : min_dim prob_id c ≤ n)
    (hn : n + 1 < UINT_MOD) (hx : x.length = n) (hf : n < fuel)
    (hfl : f.length = fitness_length prob_id c) (hgl : g.length = fitness_length prob_id c) :
    ∃ (E : func_ptr α) (v : List α) (a b : Nat),
      vget (if c then s_c_ptr else s_u_ptr) (prob_id - 1) = Except.ok E ∧
      get_nobj p = Except.ok a ∧ get_nic p = Except.ok b ∧ f.length = a + b ∧
      E p T fuel f x = Except.ok v ∧ v.length = a + b ∧ E p T fuel g x = Except.ok v := by
  obtain ⟨⟨h1, h2, _⟩, rfl⟩ := (ctor_ok_iff _ _ _ _).1 hp
  cases c
  · interval_cases prob_id
    · obtain ⟨v, hv, hl⟩ := UF1_returns T
        { m_prob_id := 1, m_is_constrained := false, m_dim := n } fuel x hx hmin hn hf
      have ef := UF1_indep { m_prob_id := 1, m_is_constrained := false, m_dim := n } T fuel x
        f (List.replicate 2 0.0) hfl (List.length_replicate _ _)
      have eg := UF1_indep { m_prob_id := 1, m_is_constrained := false, m_dim := n } T fuel x
        g (List.replicate 2 0.0) hgl (List.length_replicate _ _)
      exact ⟨UF1, v, 2, 0, rfl, nobj_lookup 1 (by decide) (by decide), rfl, hfl,
        ef.trans hv, hl, eg.trans hv⟩
    · obtain ⟨v, hv, hl⟩ := UF2_returns T
        { m_prob_id := 2, m_is_constrained := false, m_dim := n } fuel x hx hmin hn hf
      have ef := UF2_indep { m_prob_id := 2, m_is_constrained := false, m_dim := n } T fuel x
        f (List.replicate 2 0.0) hfl (List.length_replicate _ _)
      have eg := UF2_indep { m_prob_id := 2, m_is_constrained := false, m_dim := n } T fuel x
        g (List.replicate 2 0.0) hgl (List.length_replicate _ _)
      exact ⟨UF2, v, 2, 0, rfl, nobj_lookup 2 (by decide) (by decide), rfl, hfl,
        ef.trans hv, hl, eg.trans hv⟩
    · obtain ⟨v, hv, hl⟩ := UF3_returns T
        { m_prob_id := 3, m_is_constrained := false, m_dim := n } fuel x hx hmin hn hf
      have ef := UF3_indep { m_prob_id := 3, m_is_constrained := false, m_dim := n } T fuel x
        f (List.replicate 2 0.0) hfl (List.length_replicate _ _)
      have eg := UF3_indep { m_prob_id := 3, m_is_constrained := false, m_dim := n } T fuel x
        g (List.replicate 2 0.0) hgl (List.length_replicate _ _)
      exact ⟨UF3, v, 2, 0, rfl, nobj_lookup 3 (by decide) (by decide), rfl, hfl,
        ef.trans hv, hl, eg.trans hv⟩
    · obtain ⟨v, hv, hl⟩ := UF4_returns T
        { m_prob_id := 4, m_is_constrained := false, m_dim := n } fuel x hx hmin hn hf
      have ef := UF4_indep { m_prob_id := 4, m_is_constrained := false, m_dim := n } T fuel x
        f (List.replicate 2 0.0) hfl (List.length_replicate _ _)
      have eg := UF4_indep { m_prob_id := 4, m_is_constrained := false, m_dim := n } T fuel x
        g (List.replicate 2 0.0) hgl (List.length_replicate _ _)
      exact ⟨UF4, v, 2, 0, rfl, nobj_lookup 4 (by decide) (by decide), rfl, hfl,
        ef.trans hv, hl, eg.trans hv⟩
    · obtain ⟨v, hv, hl⟩ := UF5_returns T
        { m_prob_id := 5, m_is_constrained := false, m_dim := n } fuel x hx hmin hn hf
      have ef := UF5_indep { m_prob_id := 5, m_is_constrained := false, m_dim := n } T fuel x
        f (List.replicate 2 0.0) hfl (List.length_replicate _ _)
      have eg := UF5_indep { m_prob_id := 5, m_is_constrained := false, m_dim := n } T fuel x
        g (List.replicate 2 0.0) hgl (List.length_replicate _ _)
      exact ⟨UF5, v, 2, 0, rfl, nobj_lookup 5 (by decide) (by decide), rfl, hfl,
        ef.trans hv, hl, eg.trans hv⟩
    · obtain ⟨v, hv, hl⟩ := UF6_returns T
        { m_prob_id := 6, m_is_constrained := false, m_dim := n } fuel x hx hmin hn hf
      have ef := UF6_indep { m_prob_id := 6, m_is_constrained := false, m_dim := n } T fuel x
        f (List.replicate 2 0.0) hfl (List.length_replicate _ _)
      have eg := UF6_indep { m_prob_id := 6, m_is_constrained := false, m_dim := n } T fuel x
        g (List.replicate 2 0.0) hgl (List.length_replicate _ _)
      exact ⟨UF6, v, 2, 0, rfl, nobj_lookup 6 (by decide) (by decide), rfl, hfl,
        ef.trans hv, hl, eg.trans hv⟩
    · obtain ⟨v, hv, hl⟩ := UF7_returns T
        { m_prob_id := 7, m_is_constrained := false, m_dim := n } fuel x hx hmin hn hf
      have ef := UF7_indep { m_prob_id := 7, m_is_constrained := false, m_dim := n } T fuel x
        f (List.replicate 2 0.0) hfl (List.length_replicate _ _)
      have eg := UF7_indep { m_prob_id := 7, m_is_constrained := false, m_dim := n } T fuel x
        g (List.replicate 2 0.0) hgl (List.length_replicate _ _)
      exact ⟨UF7, v, 2, 0, rfl, nobj_lookup 7 (by decide) (by decide), rfl, hfl,
        ef.trans hv, hl, eg.trans hv⟩
    · obtain ⟨v, hv, hl⟩ := UF8_returns T
        { m_prob_id := 8, m_is_constrained := false, m_dim := n } fuel x hx hmin hn hf
      have ef := UF8_indep { m_prob_id := 8, m_is_constrained := false, m_dim := n } T fuel x
        f (List.replicate 3 0.0) hfl (List.length_replicate _ _)
      have eg := UF8_indep { m_prob_id := 8, m_is_constrained := false, m_dim := n } T fuel x
        g (List.replicate 3 0.0) hgl (List.length_replicate _ _)
      exact ⟨UF8, v, 3, 0, rfl, nobj_lookup 8 (by decide) (by decide), rfl, hfl,
        ef.trans hv, hl, eg.trans hv⟩
    · obtain ⟨v, hv, hl⟩ := UF9_returns T
        { m_prob_id := 9, m_is_constrained := false, m_dim := n } fuel x hx hmin hn hf
      have ef := UF9_indep { m_prob_id := 9, m_is_constrained := false, m_dim := n } T fuel x
        f (List.replicate 3 0.0) hfl (List.length_replicate _ _)
      have eg := UF9_indep { m_prob_id := 9, m_is_constrained := false, m_dim := n } T fuel x
        g (List.replicate 3 0.0) hgl (List.length_replicate _ _)
      exact ⟨UF9, v, 3, 0, rfl, nobj_lookup 9 (by decide) (by decide), rfl, hfl,
        ef.trans hv, hl, eg.trans hv⟩
    · obtain ⟨v, hv, hl⟩ := UF10_returns T
        { m_prob_id := 10, m_is_constrained := false, m_dim := n } fuel x hx hmin hn hf
      have ef := UF10_indep { m_prob_id := 10, m_is_constrained := false, m_dim := n } T fuel x
        f (List.replicate 3 0.0) hfl (List.length_replicate _ _)
      have eg := UF10_indep { m_prob_id := 10, m_is_constrained := false, m_dim := n } T fuel x
        g (List.replicate 3 0.0) hgl (List.length_replicate _ _)
      exact ⟨UF10, v, 3, 0, rfl, nobj_lookup 10 (by decide) (by decide), rfl, hfl,
        ef.trans hv, hl, eg.trans hv⟩
  · interval_cases prob_id
    · obtain ⟨v, hv, hl⟩ := CF1_returns T
        { m_prob_id := 1, m_is_constrained := true, m_dim := n } fuel x hx hmin hn hf
      have ef := CF1_indep { m_prob_id := 1, m_is_constrained := true, m_dim := n } T fuel x
        f (List.replicate 3 0.0) hfl (List.length_replicate _ _)
      have eg := CF1_indep { m_prob_id := 1, m_is_constrained := true, m_dim := n } T fuel x
        g (List.replicate 3 0.0) hgl (List.length_replicate _ _)
      exact ⟨CF1, v, 2, 1, rfl, nobj_lookup 1 (by decide) (by decide),
        get_nic_constrained 1 n (by decide) (by decide), hfl, ef.trans hv, hl, eg.trans hv⟩
    · obtain ⟨v, hv, hl⟩ := CF2_returns T
        { m_prob_id := 2, m_is_constrained := true, m_dim := n } fuel x hx hmin hn hf
      have ef := CF2_indep { m_prob_id := 2, m_is_constrained := true, m_dim := n } T fuel x
        f (List.replicate 3 0.0) hfl (List.length_replicate _ _)
      have eg := CF2_indep { m_prob_id := 2, m_is_constrained := true, m_dim := n } T fuel x
        g (List.replicate 3 0.0) hgl (List.length_replicate _ _)
      exact ⟨CF2, v, 2, 1, rfl, nobj_lookup 2 (by decide) (by decide),
        get_nic_constrained 2 n (by decide) (by decide), hfl, ef.trans hv, hl, eg.trans hv⟩
    · obtain ⟨v, hv, hl⟩ := CF3_returns T
        { m_prob_id := 3, m_is_constrained := true, m_dim := n } fuel x hx hmin hn hf
      have ef := CF3_indep { m_prob_id := 3, m_is_constrained := true, m_dim := n } T fuel x
        f (List.replicate 3 0.0) hfl (List.length_replicate _ _)
      have eg := CF3_indep { m_prob_id := 3, m_is_constrained := true, m_dim := n } T fuel x
        g (List.replicate 3 0.0) hgl (List.length_replicate _ _)
      exact ⟨CF3, v, 2, 1, rfl, nobj_lookup 3 (by decide) (by decide),
        get_nic_constrained 3 n (by decide) (by decide), hfl, ef.trans hv, hl, eg.trans hv⟩
    · obtain ⟨v, hv, hl⟩ := CF4_returns T
        { m_prob_id := 4, m_is_constrained := true, m_dim := n } fuel x hx hmin hn hf
      have ef := CF4_indep { m_prob_id := 4, m_is_constrained := true, m_dim := n } T fuel x
        f (List.replicate 3 0.0) hfl (List.length_replicate _ _)
      have eg := CF4_indep { m_prob_id := 4, m_is_constrained := true, m_dim := n } T fuel x
        g (List.replicate 3 0.0) hgl (List.length_replicate _ _)
      exact ⟨CF4, v, 2, 1, rfl, nobj_lookup 4 (by decide) (by decide),
        get_nic_constrained 4 n (by decide) (by decide), hfl, ef.trans hv, hl, eg.trans hv⟩
    · obtain ⟨v, hv, hl⟩ := CF5_returns T
        { m_prob_id := 5, m_is_constrained := true, m_dim := n } fuel x hx hmin hn hf
      have ef := CF5_indep { m_prob_id := 5, m_is_constrained := true, m_dim := n } T fuel x
        f (List.replicate 3 0.0) hfl (List.length_replicate _ _)
      have eg := CF5_indep { m_prob_id := 5, m_is_constrained := true, m_dim := n } T fuel x
        g (List.replicate 3 0.0) hgl (List.length_replicate _ _)
      exact ⟨CF5, v, 2, 1, rfl, nobj_lookup 5 (by decide) (by decide),
        get_nic_constrained 5 n (by decide) (by decide), hfl, ef.trans hv, hl, eg.trans hv⟩
    · obtain ⟨v, hv, hl⟩ := CF6_returns T
        { m_prob_id := 6, m_is_constrained := true, m_dim := n } fuel x hx hmin hn hf
      have ef := CF6_indep { m_prob_id := 6, m_is_constrained := true, m_dim := n } T fuel x
        f (List.replicate 4 0.0) hfl (List.length_replicate _ _)
      have eg := CF6_indep { m_prob_id := 6, m_is_constrained := true, m_dim := n } T fuel x
        g (List.replicate 4 0.0) hgl (List.length_replicate _ _)
      exact ⟨CF6, v, 2, 2, rfl, nobj_lookup 6 (by decide) (by decide),
        get_nic_constrained 6 n (by decide) (by decide), hfl, ef.trans hv, hl, eg.trans hv⟩
    · obtain ⟨v, hv, hl⟩ := CF7_returns T
        { m_prob_id := 7, m_is_constrained := true, m_dim := n } fuel x hx hmin hn hf
      have ef := CF7_indep { m_prob_id := 7, m_is_constrained := true, m_dim := n } T fuel x
        f (List.replicate 4 0.0) hfl (List.length_replicate _ _)
      have eg := CF7_indep { m_prob_id := 7, m_is_constrained := true, m_dim := n } T fuel x
        g (List.replicate 4 0.0) hgl (List.length_replicate _ _)
      exact ⟨CF7, v, 2, 2, rfl, nobj_lookup 7 (by decide) (by decide),
        get_nic_constrained 7 n (by decide) (by decide), hfl, ef.trans hv, hl, eg.trans hv⟩
    · obtain ⟨v, hv, hl⟩ := CF8_returns T
        { m_prob_id := 8, m_is_constrained := true, m_dim := n } fuel x hx hmin hn hf
      have ef := CF8_indep { m_prob_id := 8, m_is_constrained := true, m_dim := n } T fuel x
        f (List.replicate 4 0.0) hfl (List.length_replicate _ _)
      have eg := CF8_indep { m_prob_id := 8, m_is_constrained := true, m_dim := n } T fuel x
        g (List.replicate 4 0.0) hgl (List.length_replicate _ _)
      exact ⟨CF8, v, 3, 1, rfl, nobj_lookup 8 (by decide) (by decide),
        get_nic_constrained 8 n (by decide) (by decide), hfl, ef.trans hv, hl, eg.trans hv⟩
    · obtain ⟨v, hv, hl⟩ := CF9_returns T
        { m_prob_id := 9, m_is_constrained := true, m_dim := n } fuel x hx hmin hn hf
      have ef := CF9_indep { m_prob_id := 9, m_is_constrained := true, m_dim := n } T fuel x
        f (List.replicate 4 0.0) hfl (List.length_replicate _ _)
      have eg := CF9_indep { m_prob_id := 9, m_is_constrained := true, m_dim := n } T fuel x
        g (List.replicate 4 0.0) hgl (List.length_replicate _ _)
      exact ⟨CF9, v, 3, 1, rfl, nobj_lookup 9 (by decide) (by decide),
        get_nic_constrained 9 n (by decide) (by decide), hfl, ef.trans hv, hl, eg.trans hv⟩
    · obtain ⟨v, hv, hl⟩ := CF10_returns T
        { m_prob_id := 10, m_is_constrained := true, m_dim := n } fuel x hx hmin hn hf
      have ef := CF10_indep { m_prob_id := 10, m_is_constrained := true, m_dim := n } T fuel x
        f (List.replicate 4 0.0) hfl (List.length_replicate _ _)
      have eg := CF10_indep { m_prob_id := 10, m_is_constrained := true, m_dim := n } T fuel x
        g (List.replicate 4 0.0) hgl (List.length_replicate _ _)
      exact ⟨CF10, v, 3, 1, rfl, nobj_lookup 10 (by decide) (by decide),
        get_nic_constrained 10 n (by decide) (by decide), hfl, ef.trans hv, hl, eg.trans hv⟩

theorem evaluator_writes_whole_result_witness :
    ∃ (E : func_ptr ℝ) (v : List ℝ) (a b : Nat),
      vget (if true then s_c_ptr else s_u_ptr) (6 - 1) = Except.ok E ∧
      get_nobj { m_prob_id := 6, m_is_constrained := true, m_dim := 4 } = Except.ok a ∧
      get_nic { m_prob_id := 6, m_is_constrained := true, m_dim := 4 } = Except.ok b ∧
      ([0, 0, 0, 0] : List ℝ).length = a + b ∧
      E { m_prob_id := 6, m_is_constrained := true, m_dim := 4 } realLibm 5 [0, 0, 0, 0]
          ([1, 0, 0, 0] : List ℝ) = Except.ok v ∧
      v.length = a + b ∧
      E { m_prob_id := 6, m_is_constrained := true, m_dim := 4 } realLibm 5 [5, 6, 7, 8]
          ([1, 0, 0, 0] : List ℝ) = Except.ok v :=
  evaluator_writes_whole_result realLibm 6 true 4
    { m_prob_id := 6, m_is_constrained := true, m_dim := 4 } ([1, 0, 0, 0] : List ℝ) 5
    [0, 0, 0, 0] [5, 6, 7, 8] rfl (by decide) (by decide) rfl (by decide) rfl rfl

end writes

/-! ## Reads of the decision vector (C16) -/

section reads

variable {α : Type} [LinearOrderedField α]

/-- With the largest unsigned value as bound, a loop whose body succeeds at every counter
value other than 0 and faults at 0 ends in that fault: the counter wraps from `2^32 - 1`
to 0. -/
theorem forLe_wrap {σ : Type} (body : Nat → σ → Except Fault σ) (e : Fault)
    (hok : ∀ i t, 1 ≤ i → i < UINT_MOD → ∃ t1, body i t = Except.ok t1)
    (h0 : ∀ t, body 0 t = Except.error e) :
    ∀ (k fuel j : Nat) (s : σ), 1 ≤ j → j + k + 1 = UINT_MOD → k + 2 ≤ fuel →
      forLe body (UINT_MOD - 1) fuel j s = Except.error e := by
  intro k
  induction k with
  | zero =>
    intro fuel j s hj hk hf
    obtain ⟨f2, rfl⟩ : ∃ f2, fuel = f2 + 2 := ⟨fuel - 2, by omega⟩
    obtain ⟨t1, ht1⟩ := hok j s hj (by omega)
    have hu : uinc j = 0 := by
      unfold uinc
      rw [show j + 1 = UINT_MOD by omega]
      exact Nat.mod_self _
    rw [forLe, if_pos (by omega), ht1]
    simp only
    rw [hu, forLe, if_pos (Nat.zero_le _), h0 t1]
  | succ k ih =>
    intro fuel j s hj hk hf
    obtain ⟨f1, rfl⟩ : ∃ f1, fuel = f1 + 1 := ⟨fuel - 1, by omega⟩
    obtain ⟨t1, ht1⟩ := hok j s hj (by omega)
    have hu : uinc j = j + 1 := uinc_of_lt j (by omega)
    rw [forLe, if_pos (by omega), ht1]
    simp only
    rw [hu]
    exact ih f1 (j + 1) t1 (by omega) (by omega) (by omega)

theorem usub_zero_one : usub 0 1 = UINT_MOD - 1 := by decide

/-- The body of the loop of `UF1` on a vector of `2^32 - 1` components: it succeeds at every
counter value from 1 on and reads `x[4294967295]` at the counter value 0. -/
theorem UF1_body_wrap (T : Libm α) (n : Nat) (x : List α) (hx : x.length = UINT_MOD - 1) :
    (∀ i t, 1 ≤ i → i < UINT_MOD → ∃ t1, UF1_body T n x i t = Except.ok t1) ∧
      ∀ t, UF1_body T n x 0 t = Except.error (Fault.out_of_range (UINT_MOD - 1)) := by
  constructor
  · intro i t h1 h2
    have ej := vget_of_lt x (i - 1) 0 (by omega)
    have e0 := vget_of_lt x 0 0 (by rw [hx]; decide)
    simp only [UF1_body, usub_one i h1 h2, ej, e0, ok_bind, pure_eq_ok]
    split_ifs <;> exact ⟨_, rfl⟩
  · intro t
    have e := vget_of_le x (UINT_MOD - 1) (by omega)
    simp only [UF1_body, usub_zero_one, e, error_bind]

/-- C16 (evaluation at the failing input): the constructor accepts `(1, false, 4294967295)`,
the dimension reaches the minimum 1 of UF1, the vector of `4294967295` zeros has the length
of the dimension, and with any fuel from `2^32` on `fitness` stops at a read of
`x[4294967295]`, an index that is not below the dimension: the counter of
`for (j = 2u; j <= m_dim; ++j)` wraps to 0 and `x[j - 1]` is then `x[4294967295]`. -/
theorem fitness_UF1_uint_max_reads_outside :
    cec2009.cec2009 1 false 4294967295
        = Except.ok { m_prob_id := 1, m_is_constrained := false, m_dim := 4294967295 } ∧
      min_dim 1 false ≤ 4294967295 ∧
      (List.replicate 4294967295 (0 : ℝ)).length = 4294967295 ∧
      ∀ k : Nat, fitness { m_prob_id := 1, m_is_constrained := false, m_dim := 4294967295 }
          realLibm (4294967296 + k) (List.replicate 4294967295 (0 : ℝ))
        = Except.error (Fault.out_of_range 4294967295) := by
  refine ⟨rfl, by decide, List.length_replicate _ _, ?_⟩
  intro k
  rw [fitness_eq_impl_u realLibm
    { m_prob_id := 1, m_is_constrained := false, m_dim := 4294967295 }
    _ _ UF1 rfl (by decide) (by decide) rfl 2 rfl]
  have hb := UF1_body_wrap realLibm 4294967295 (List.replicate 4294967295 (0 : ℝ))
    (List.length_replicate _ _)
  have hl := forLe_wrap (UF1_body realLibm 4294967295 (List.replicate 4294967295 (0 : ℝ)))
    (Fault.out_of_range (UINT_MOD - 1)) hb.1 hb.2 4294967293 (4294967296 + k) 2
    ({ sum1 := 0.0, sum2 := 0.0, count1 := 0, count2 := 0 } : Acc2 ℝ) (by decide) (by decide)
    (by omega)
  unfold UF1
  rw [show (4294967295 : Nat) = UINT_MOD - 1 from rfl]
  rw [show (4294967295 : Nat) = UINT_MOD - 1 from rfl] at hl
  rw [hl]
  rfl

theorem ok_iff_of_ok {β : Type} (r : Except Fault β) (m n : Nat) (h : ∃ v, r = Except.ok v)
    (hm : m ≤ n) :
    ((∃ v, r = Except.ok v) ↔ m ≤ n) ∧
      (n < m → ∃ k, n ≤ k ∧ r = Except.error (Fault.out_of_range k)) :=
  ⟨⟨fun _ => hm, fun _ => h⟩, fun hlt => absurd hm (by omega)⟩

theorem ok_iff_of_fault {β : Type} (r : Except Fault β) (m n k : Nat)
    (h : r = Except.error (Fault.out_of_range k)) (hk : n ≤ k) (hm : n < m) :
    ((∃ v, r = Except.ok v) ↔ m ≤ n) ∧
      (n < m → ∃ k, n ≤ k ∧ r = Except.error (Fault.out_of_range k)) := by
  refine ⟨⟨?_, fun h2 => absurd h2 (by omega)⟩, fun _ => ⟨k, hk, h⟩⟩
  rintro ⟨v, hv⟩
  rw [h] at hv
  cases hv

/-- At dimension 1, `UF8` reads `x[1]`, outside a vector of length 1. -/
theorem UF8_dim_one (T : Libm α) (p : pagmo.cec2009) (hp : p.m_dim = 1) (fuel : Nat)
    (hf : 0 < fuel) (x : List α) (hx : x.length = 1) :
    UF8 p T fuel (List.replicate 3 0.0) x = Except.error (Fault.out_of_range 1) := by
  obtain ⟨a, rfl⟩ := List.length_eq_one.1 hx
  unfold UF8
  rw [hp, forLe_skip _ 1 fuel 3 _ (by omega) hf]
  rfl

/-- At dimension 1, `UF9` reads `x[1]`, outside a vector of length 1. -/
theorem UF9_dim_one (T : Libm α) (p : pagmo.cec2009) (hp : p.m_dim = 1) (fuel : Nat)
    (hf : 0 < fuel) (x : List α) (hx : x.length = 1) :
    UF9 p T fuel (List.replicate 3 0.0) x = Except.error (Fault.out_of_range 1) := by
  obtain ⟨a, rfl⟩ := List.length_eq_one.1 hx
  unfold UF9
  rw [hp, forLe_skip _ 1 fuel 3 _ (by omega) hf]
  rfl

/-- At dimension 1, `UF10` reads `x[1]`, outside a vector of length 1. -/
theorem UF10_dim_one (T : Libm α) (p : pagmo.cec2009) (hp : p.m_dim = 1) (fuel : Nat)
    (hf : 0 < fuel) (x : List α) (hx : x.length = 1) :
    UF10 p T fuel (List.replicate 3 0.0) x = Except.error (Fault.out_of_range 1) := by
  obtain ⟨a, rfl⟩ := List.length_eq_one.1 hx
  unfold UF10
  rw [hp, forLe_skip _ 1 fuel 3 _ (by omega) hf]
  rfl

/-- At dimension 1, `CF4` reads `x[1]`, outside a vector of length 1. -/
theorem CF4_dim_one (T : Libm α) (p : pagmo.cec2009) (hp : p.m_dim = 1) (fuel : Nat)
    (hf : 0 < fuel) (x : List α) (hx : x.length = 1) :
    CF4 p T fuel (List.replicate 3 0.0) x = Except.error (Fault.out_of_range 1) := by
  obtain ⟨a, rfl⟩ := List.length_eq_one.1 hx
  unfold CF4
  rw [hp, forLe_skip _ 1 fuel 2 _ (by omega) hf]
  rfl

/-- At dimension 1, `CF5` reads `x[1]`, outside a vector of length 1. -/
theorem CF5_dim_one (T : Libm α) (p : pagmo.cec2009) (hp : p.m_dim = 1) (fuel : Nat)
    (hf : 0 < fuel) (x : List α) (hx : x.length = 1) :
    CF5 p T fuel (List.replicate 3 0.0) x = Except.error (Fault.out_of_range 1) := by
  obtain ⟨a, rfl⟩ := List.length_eq_one.1 hx
  unfold CF5
  rw [hp, forLe_skip _ 1 fuel 2 _ (by omega) hf]
  rfl

/-- At dimension 1, `CF8` reads `x[1]`, outside a vector of length 1. -/
theorem CF8_dim_one (T : Libm α) (p : pagmo.cec2009) (hp : p.m_dim = 1) (fuel : Nat)
    (hf : 0 < fuel) (x : List α) (hx : x.length = 1) :
    CF8 p T fuel (List.replicate 4 0.0) x = Except.error (Fault.out_of_range 1) := by
  obtain ⟨a, rfl⟩ := List.length_eq_one.1 hx
  unfold CF8
  rw [hp, forLe_skip _ 1 fuel 3 _ (by omega) hf]
  rfl

/-- At dimension 1, `CF9` reads `x[1]`, outside a vector of length 1. -/
theorem CF9_dim_one (T : Libm α) (p : pagmo.cec2009) (hp : p.m_dim = 1) (fuel : Nat)
    (hf : 0 < fuel) (x : List α) (hx : x.length = 1) :
    CF9 p T fuel (List.replicate 4 0.0) x = Except.error (Fault.out_of_range 1) := by
  obtain ⟨a, rfl⟩ := List.length_eq_one.1 hx
  unfold CF9
  rw [hp, forLe_skip _ 1 fuel 3 _ (by omega) hf]
  rfl

/-- At dimension 1, `CF10` reads `x[1]`, outside a vector of length 1. -/
theorem CF10_dim_one (T : Libm α) (p : pagmo.cec2009) (hp : p.m_dim = 1) (fuel : Nat)
    (hf : 0 < fuel) (x : List α) (hx : x.length = 1) :
    CF10 p T fuel (List.replicate 4 0.0) x = Except.error (Fault.out_of_range 1) := by
  obtain ⟨a, rfl⟩ := List.length_eq_one.1 hx
  unfold CF10
  rw [hp, forLe_skip _ 1 fuel 3 _ (by omega) hf]
  rfl

/-- At a dimension `n` below 4, `CF6` reads `x[1]` (for `n = 1`) or `x[3]`, outside a
vector of length `n`. -/
theorem CF6_short (T : Libm α) (p : pagmo.cec2009) (fuel : Nat) (x : List α)
    (hx : x.length = p.m_dim) (h1 : 1 ≤ p.m_dim) (h3 : p.m_dim ≤ 3) (hf : p.m_dim < fuel) :
    ∃ k, p.m_dim ≤ k ∧
      CF6 p T fuel (List.replicate 4 0.0) x = Except.error (Fault.out_of_range k) := by
  obtain ⟨s, hs⟩ := forLe_ok (CF6_body T p.m_dim x) p.m_dim (by unfold UINT_MOD; omega) fuel 2
    ({ sum1 := 0.0, sum2 := 0.0 } : Acc0 α)
    (by omega) (by omega)
    (fun i t a b => CF6_body_ok T p.m_dim x hx (by unfold UINT_MOD; omega) i t a b)
  have hcases : p.m_dim = 1 ∨ p.m_dim = 2 ∨ p.m_dim = 3 := by omega
  rcases hcases with h | h | h
  · rw [h] at hx
    obtain ⟨a, rfl⟩ := List.length_eq_one.1 hx
    refine ⟨1, by omega, ?_⟩
    unfold CF6
    rw [hs]
    rfl
  · rw [h] at hx
    obtain ⟨a, b, rfl⟩ := List.length_eq_two.1 hx
    refine ⟨3, by omega, ?_⟩
    unfold CF6
    rw [hs]
    rfl
  · rw [h] at hx
    obtain ⟨a, b, c, rfl⟩ := List.length_eq_three.1 hx
    refine ⟨3, by omega, ?_⟩
    unfold CF6
    rw [hs]
    rfl

/-- At a dimension `n` below 4, `CF7` reads `x[1]` (for `n = 1`) or `x[3]`, outside a
vector of length `n`. -/
theorem CF7_short (T : Libm α) (p : pagmo.cec2009) (fuel : Nat) (x : List α)
    (hx : x.length = p.m_dim) (h1 : 1 ≤ p.m_dim) (h3 : p.m_dim ≤ 3) (hf : p.m_dim < fuel) :
    ∃ k, p.m_dim ≤ k ∧
      CF7 p T fuel (List.replicate 4 0.0) x = Except.error (Fault.out_of_range k) := by
  obtain ⟨s, hs⟩ := forLe_ok (CF7_body T p.m_dim x) p.m_dim (by unfold UINT_MOD; omega) fuel 2
    ({ sum1 := 0.0, sum2 := 0.0 } : Acc0 α)
    (by omega) (by omega)
    (fun i t a b => CF7_body_ok T p.m_dim x hx (by unfold UINT_MOD; omega) i t a b)
  have hcases : p.m_dim = 1 ∨ p.m_dim = 2 ∨ p.m_dim = 3 := by omega
  rcases hcases with h | h | h
  · rw [h] at hx
    obtain ⟨a, rfl⟩ := List.length_eq_one.1 hx
    refine ⟨1, by omega, ?_⟩
    unfold CF7
    rw [hs]
    rfl
  · rw [h] at hx
    obtain ⟨a, b, rfl⟩ := List.length_eq_two.1 hx
    refine ⟨3, by omega, ?_⟩
    unfold CF7
    rw [hs]
    rfl
  · rw [h] at hx
    obtain ⟨a, b, c, rfl⟩ := List.length_eq_three.1 hx
    refine ⟨3, by omega, ?_⟩
    unfold CF7
    rw [hs]
    rfl

/-- On an instance the constructor returns, with `n < 2^32 - 1`, `x` of length `n` and fuel
above `n`: `fitness` returns a vector (every read of `x` is at an index below `n`) if and
only if `n` reaches `min_dim`, the minimum of the variant; below the minimum it stops at a
read of `x[k]` with `k >= n`. -/
theorem reads_in_range_iff (T : Libm α) (prob_id : Nat) (c : Bool) (n : Nat)
    (p : pagmo.cec2009) (x : List α) (fuel : Nat)
    (hp : cec2009.cec2009 prob_id c n = Except.ok p) (hn : n + 1 < UINT_MOD)
    (hx : x.length = n) (hf : n < fuel) :
    ((∃ v, fitness p T fuel x = Except.ok v) ↔ min_dim prob_id c ≤ n) ∧
      (n < min_dim prob_id c →
        ∃ k, n ≤ k ∧ fitness p T fuel x = Except.error (Fault.out_of_range k)) := by
  obtain ⟨⟨h1, h2, h3⟩, rfl⟩ := (ctor_ok_iff _ _ _ _).1 hp
  cases c
  · interval_cases prob_id
    · rw [fitness_eq_impl_u T { m_prob_id := 1, m_is_constrained := false, m_dim := n }
        fuel x UF1 rfl (by simp) (by simp) rfl 2 rfl]
      obtain ⟨v, hv, _⟩ := UF1_returns T { m_prob_id := 1, m_is_constrained := false, m_dim := n } fuel x hx h3 hn hf
      exact ok_iff_of_ok _ _ _ ⟨v, hv⟩ h3
    · rw [fitness_eq_impl_u T { m_prob_id := 2, m_is_constrained := false, m_dim := n }
        fuel x UF2 rfl (by simp) (by simp) rfl 2 rfl]
      obtain ⟨v, hv, _⟩ := UF2_returns T { m_prob_id := 2, m_is_constrained := false, m_dim := n } fuel x hx h3 hn hf
      exact ok_iff_of_ok _ _ _ ⟨v, hv⟩ h3
    · rw [fitness_eq_impl_u T { m_prob_id := 3, m_is_constrained := false, m_dim := n }
        fuel x UF3 rfl (by simp) (by simp) rfl 2 rfl]
      obtain ⟨v, hv, _⟩ := UF3_returns T { m_prob_id := 3, m_is_constrained := false, m_dim := n } fuel x hx h3 hn hf
      exact ok_iff_of_ok _ _ _ ⟨v, hv⟩ h3
    · rw [fitness_eq_impl_u T { m_prob_id := 4, m_is_constrained := false, m_dim := n }
        fuel x UF4 rfl (by simp) (by simp) rfl 2 rfl]
      obtain ⟨v, hv, _⟩ := UF4_returns T { m_prob_id := 4, m_is_constrained := false, m_dim := n } fuel x hx h3 hn hf
      exact ok_iff_of_ok _ _ _ ⟨v, hv⟩ h3
    · rw [fitness_eq_impl_u T { m_prob_id := 5, m_is_constrained := false, m_dim := n }
        fuel x UF5 rfl (by simp) (by simp) rfl 2 rfl]
      obtain ⟨v, hv, _⟩ := UF5_returns T { m_prob_id := 5, m_is_constrained := false, m_dim := n } fuel x hx h3 hn hf
      exact ok_iff_of_ok _ _ _ ⟨v, hv⟩ h3
    · rw [fitness_eq_impl_u T { m_prob_id := 6, m_is_constrained := false, m_dim := n }
        fuel x UF6 rfl (by simp) (by simp) rfl 2 rfl]
      obtain ⟨v, hv, _⟩ := UF6_returns T { m_prob_id := 6, m_is_constrained := false, m_dim := n } fuel x hx h3 hn hf
      exact ok_iff_of_ok _ _ _ ⟨v, hv⟩ h3
    · rw [fitness_eq_impl_u T { m_prob_id := 7, m_is_constrained := false, m_dim := n }
        fuel x UF7 rfl (by simp) (by simp) rfl 2 rfl]
      obtain ⟨v, hv, _⟩ := UF7_returns T { m_prob_id := 7, m_is_constrained := false, m_dim := n } fuel x hx h3 hn hf
      exact ok_iff_of_ok _ _ _ ⟨v, hv⟩ h3
    · rw [fitness_eq_impl_u T { m_prob_id := 8, m_is_constrained := false, m_dim := n }
        fuel x UF8 rfl (by simp) (by simp) rfl 3 rfl]
      by_cases hm : 2 ≤ n
      · obtain ⟨v, hv, _⟩ := UF8_returns T { m_prob_id := 8, m_is_constrained := false, m_dim := n } fuel x hx hm hn hf
        exact ok_iff_of_ok _ _ _ ⟨v, hv⟩ hm
      · have e1 : n = 1 := by omega
        subst e1
        exact ok_iff_of_fault _ _ _ 1
          (UF8_dim_one T { m_prob_id := 8, m_is_constrained := false, m_dim := 1 } rfl fuel (by omega) x hx)
          (by omega) (by decide)
    · rw [fitness_eq_impl_u T { m_prob_id := 9, m_is_constrained := false, m_dim := n }
        fuel x UF9 rfl (by simp) (by simp) rfl 3 rfl]
      by_cases hm : 2 ≤ n
      · obtain ⟨v, hv, _⟩ := UF9_returns T { m_prob_id := 9, m_is_constrained := false, m_dim := n } fuel x hx hm hn hf
        exact ok_iff_of_ok _ _ _ ⟨v, hv⟩ hm
      · have e1 : n = 1 := by omega
        subst e1
        exact ok_iff_of_fault _ _ _ 1
          (UF9_dim_one T { m_prob_id := 9, m_is_constrained := false, m_dim := 1 } rfl fuel (by omega) x hx)
          (by omega) (by decide)
    · rw [fitness_eq_impl_u T { m_prob_id := 10, m_is_constrained := false, m_dim := n }
        fuel x UF10 rfl (by simp) (by simp) rfl 3 rfl]
      by_cases hm : 2 ≤ n
      · obtain ⟨v, hv, _⟩ := UF10_returns T { m_prob_id := 10, m_is_constrained := false, m_dim := n } fuel x hx hm hn hf
        exact ok_iff_of_ok _ _ _ ⟨v, hv⟩ hm
      · have e1 : n = 1 := by omega
        subst e1
        exact ok_iff_of_fault _ _ _ 1
          (UF10_dim_one T { m_prob_id := 10, m_is_constrained := false, m_dim := 1 } rfl fuel (by omega) x hx)
          (by omega) (by decide)
  · interval_cases prob_id
    · rw [fitness_eq_impl_c T { m_prob_id := 1, m_is_constrained := true, m_dim := n }
        fuel x CF1 rfl (by simp) (by simp) rfl 2 1 rfl rfl]
      obtain ⟨v, hv, _⟩ := CF1_returns T { m_prob_id := 1, m_is_constrained := true, m_dim := n } fuel x hx h3 hn hf
      exact ok_iff_of_ok _ _ _ ⟨v, hv⟩ h3
    · rw [fitness_eq_impl_c T { m_prob_id := 2, m_is_constrained := true, m_dim := n }
        fuel x CF2 rfl (by simp) (by simp) rfl 2 1 rfl rfl]
      obtain ⟨v, hv, _⟩ := CF2_returns T { m_prob_id := 2, m_is_constrained := true, m_dim := n } fuel x hx h3 hn hf
      exact ok_iff_of_ok _ _ _ ⟨v, hv⟩ h3
    · rw [fitness_eq_impl_c T { m_prob_id := 3, m_is_constrained := true, m_dim := n }
        fuel x CF3 rfl (by simp) (by simp) rfl 2 1 rfl rfl]
      obtain ⟨v, hv, _⟩ := CF3_returns T { m_prob_id := 3, m_is_constrained := true, m_dim := n } fuel x hx h3 hn hf
      exact ok_iff_of_ok _ _ _ ⟨v, hv⟩ h3
    · rw [fitness_eq_impl_c T { m_prob_id := 4, m_is_constrained := true, m_dim := n }
        fuel x CF4 rfl (by simp) (by simp) rfl 2 1 rfl rfl]
      by_cases hm : 2 ≤ n
      · obtain ⟨v, hv, _⟩ := CF4_returns T { m_prob_id := 4, m_is_constrained := true, m_dim := n } fuel x hx hm hn hf
        exact ok_iff_of_ok _ _ _ ⟨v, hv⟩ hm
      · have e1 : n = 1 := by omega
        subst e1
        exact ok_iff_of_fault _ _ _ 1
          (CF4_dim_one T { m_prob_id := 4, m_is_constrained := true, m_dim := 1 } rfl fuel (by omega) x hx)
          (by omega) (by decide)
    · rw [fitness_eq_impl_c T { m_prob_id := 5, m_is_constrained := true, m_dim := n }
        fuel x CF5 rfl (by simp) (by simp) rfl 2 1 rfl rfl]
      by_cases hm : 2 ≤ n
      · obtain ⟨v, hv, _⟩ := CF5_returns T { m_prob_id := 5, m_is_constrained := true, m_dim := n } fuel x hx hm hn hf
        exact ok_iff_of_ok _ _ _ ⟨v, hv⟩ hm
      · have e1 : n = 1 := by omega
        subst e1
        exact ok_iff_of_fault _ _ _ 1
          (CF5_dim_one T { m_prob_id := 5, m_is_constrained := true, m_dim := 1 } rfl fuel (by omega) x hx)
          (by omega) (by decide)
    · rw [fitness_eq_impl_c T { m_prob_id := 6, m_is_constrained := true, m_dim := n }
        fuel x CF6 rfl (by simp) (by simp) rfl 2 2 rfl rfl]
      by_cases hm : 4 ≤ n
      · obtain ⟨v, hv, _⟩ := CF6_returns T { m_prob_id := 6, m_is_constrained := true, m_dim := n } fuel x hx hm hn hf
        exact ok_iff_of_ok _ _ _ ⟨v, hv⟩ hm
      · obtain ⟨k, hk, he⟩ := CF6_short T { m_prob_id := 6, m_is_constrained := true, m_dim := n } fuel x hx h3 (by simp only; omega) hf
        exact ok_iff_of_fault _ _ _ k he hk (by simp only [min_dim]; simp; omega)
    · rw [fitness_eq_impl_c T { m_prob_id := 7, m_is_constrained := true, m_dim := n }
        fuel x CF7 rfl (by simp) (by simp) rfl 2 2 rfl rfl]
      by_cases hm : 4 ≤ n
      · obtain ⟨v, hv, _⟩ := CF7_returns T { m_prob_id := 7, m_is_constrained := true, m_dim := n } fuel x hx hm hn hf
        exact ok_iff_of_ok _ _ _ ⟨v, hv⟩ hm
      · obtain ⟨k, hk, he⟩ := CF7_short T { m_prob_id := 7, m_is_constrained := true, m_dim := n } fuel x hx h3 (by simp only; omega) hf
        exact ok_iff_of_fault _ _ _ k he hk (by simp only [min_dim]; simp; omega)
    · rw [fitness_eq_impl_c T { m_prob_id := 8, m_is_constrained := true, m_dim := n }
        fuel x CF8 rfl (by simp) (by simp) rfl 3 1 rfl rfl]
      by_cases hm : 2 ≤ n
      · obtain ⟨v, hv, _⟩ := CF8_returns T { m_prob_id := 8, m_is_constrained := true, m_dim := n } fuel x hx hm hn hf
        exact ok_iff_of_ok _ _ _ ⟨v, hv⟩ hm
      · have e1 : n = 1 := by omega
        subst e1
        exact ok_iff_of_fault _ _ _ 1
          (CF8_dim_one T { m_prob_id := 8, m_is_constrained := true, m_dim := 1 } rfl fuel (by omega) x hx)
          (by omega) (by decide)
    · rw [fitness_eq_impl_c T { m_prob_id := 9, m_is_constrained := true, m_dim := n }
        fuel x CF9 rfl (by simp) (by simp) rfl 3 1 rfl rfl]
      by_cases hm : 2 ≤ n
      · obtain ⟨v, hv, _⟩ := CF9_returns T { m_prob_id := 9, m_is_constrained := true, m_dim := n } fuel x hx hm hn hf
        exact ok_iff_of_ok _ _ _ ⟨v, hv⟩ hm
      · have e1 : n = 1 := by omega
        subst e1
        exact ok_iff_of_fault _ _ _ 1
          (CF9_dim_one T { m_prob_id := 9, m_is_constrained := true, m_dim := 1 } rfl fuel (by omega) x hx)
          (by omega) (by decide)
    · rw [fitness_eq_impl_c T { m_prob_id := 10, m_is_constrained := true, m_dim := n }
        fuel x CF10 rfl (by simp) (by simp) rfl 3 1 rfl rfl]
      by_cases hm : 2 ≤ n
      · obtain ⟨v, hv, _⟩ := CF10_returns T { m_prob_id := 10, m_is_constrained := true, m_dim := n } fuel x hx hm hn hf
        exact ok_iff_of_ok _ _ _ ⟨v, hv⟩ hm
      · have e1 : n = 1 := by omega
        subst e1
        exact ok_iff_of_fault _ _ _ 1
          (CF10_dim_one T { m_prob_id := 10, m_is_constrained := true, m_dim := 1 } rfl fuel (by omega) x hx)
          (by omega) (by decide)

/-- The constructor accepts `(6, true, 3)` and `(7, true, 3)`, and on a vector of length 3
`fitness` then stops at the read of `x[3]`; no guard reports an error before. -/
theorem fitness_CF6_CF7_dim_three (T : Libm α) (fuel : Nat) (x : List α) (hx : x.length = 3)
    (hf : 3 < fuel) :
    cec2009.cec2009 6 true 3
        = Except.ok { m_prob_id := 6, m_is_constrained := true, m_dim := 3 } ∧
      cec2009.cec2009 7 true 3
        = Except.ok { m_prob_id := 7, m_is_constrained := true, m_dim := 3 } ∧
      fitness { m_prob_id := 6, m_is_constrained := true, m_dim := 3 } T fuel x
        = Except.error (Fault.out_of_range 3) ∧
      fitness { m_prob_id := 7, m_is_constrained := true, m_dim := 3 } T fuel x
        = Except.error (Fault.out_of_range 3) := by
  obtain ⟨s6, hs6⟩ := forLe_ok (CF6_body T 3 x) 3 (by decide) fuel 2
    ({ sum1 := 0.0, sum2 := 0.0 } : Acc0 α) (by omega) (by omega)
    (fun i t a b => CF6_body_ok T 3 x hx (by decide) i t a b)
  obtain ⟨s7, hs7⟩ := forLe_ok (CF7_body T 3 x) 3 (by decide) fuel 2
    ({ sum1 := 0.0, sum2 := 0.0 } : Acc0 α) (by omega) (by omega)
    (fun i t a b => CF7_body_ok T 3 x hx (by decide) i t a b)
  obtain ⟨a, b, c, rfl⟩ := List.length_eq_three.1 hx
  refine ⟨rfl, rfl, ?_, ?_⟩
  · rw [fitness_eq_impl_c T { m_prob_id := 6, m_is_constrained := true, m_dim := 3 }
      fuel _ CF6 rfl (by simp) (by simp) rfl 2 2 rfl rfl]
    unfold CF6
    rw [hs6]
    rfl
  · rw [fitness_eq_impl_c T { m_prob_id := 7, m_is_constrained := true, m_dim := 3 }
      fuel _ CF7 rfl (by simp) (by simp) rfl 2 2 rfl rfl]
    unfold CF7
    rw [hs7]
    rfl


end reads

/-! ## Amended statements on the first objective and on the written indices (C25, C20) -/

section amended_statements

variable {α : Type} [LinearOrderedField α]

/-- C20 (counterexample): the constructor accepts `(7, true, 3)`, for which
`get_nobj() + get_nic()` is 4 and the dispatched evaluator is CF7.  On the vector
`[0, 0, 0]`, of the length of the dimension, the evaluator started on the allocated vector
stops at the read of `x[3]`, which precedes the assignment of `f[3]`: with any fuel from 4
on it returns no vector, and the entry 3 of the allocated vector is never assigned. -/
theorem CF7_dim_three_stops_before_last_write :
    cec2009.cec2009 7 true 3
        = Except.ok { m_prob_id := 7, m_is_constrained := true, m_dim := 3 } ∧
      ([0, 0, 0] : List ℝ).length = 3 ∧
      get_nobj { m_prob_id := 7, m_is_constrained := true, m_dim := 3 } = Except.ok 2 ∧
      get_nic { m_prob_id := 7, m_is_constrained := true, m_dim := 3 } = Except.ok 2 ∧
      vget (s_c_ptr : List (func_ptr ℝ)) (7 - 1) = Except.ok CF7 ∧
      vget ([0, 0, 0] : List ℝ) 3 = Except.error (Fault.out_of_range 3) ∧
      (∀ k : Nat, CF7 { m_prob_id := 7, m_is_constrained := true, m_dim := 3 } realLibm
          (4 + k) (List.replicate (2 + 2) 0.0) ([0, 0, 0] : List ℝ)
        = Except.error (Fault.out_of_range 3)) ∧
      (∀ k : Nat, fitness { m_prob_id := 7, m_is_constrained := true, m_dim := 3 } realLibm
          (4 + k) ([0, 0, 0] : List ℝ) = Except.error (Fault.out_of_range 3)) := by
  refine ⟨rfl, rfl, rfl, rfl, rfl, rfl, ?_, ?_⟩
  · intro k
    obtain ⟨s7, hs7⟩ := forLe_ok (CF7_body realLibm 3 ([0, 0, 0] : List ℝ)) 3 (by decide)
      (4 + k) 2 ({ sum1 := 0.0, sum2 := 0.0 } : Acc0 ℝ) (by omega) (by omega)
      (fun i t a b => CF7_body_ok realLibm 3 ([0, 0, 0] : List ℝ) rfl (by decide) i t a b)
    unfold CF7
    rw [hs7]
    rfl
  · intro k
    exact (fitness_CF6_CF7_dim_three realLibm (4 + k) ([0, 0, 0] : List ℝ) rfl
      (by omega)).2.2.2

end amended_statements

/-! ## The evaluators and the counters of their loops (C18) -/

section evaluator_counters

variable {α : Type} [LinearOrderedField α]

/-- Partial correctness of a `j <= m` loop for a quantity `cnt` of its state that every
iteration updates by `step`: whenever the loop ends, `cnt` is the fold of `step` over the
indices. -/
theorem forLe_inv {σ β : Type} (body : Nat → σ → Except Fault σ) (cnt : σ → β)
    (step : β → Nat → β) (m : Nat) (hm : m + 1 < UINT_MOD)
    (hstep : ∀ j s s1, body j s = Except.ok s1 → cnt s1 = step (cnt s) j) :
    ∀ (fuel j : Nat) (s t : σ), j ≤ m + 1 → forLe body m fuel j s = Except.ok t →
      cnt t = (List.range' j (m + 1 - j)).foldl step (cnt s) := by
  intro fuel
  induction fuel with
  | zero => intro j s t _ h; cases h
  | succ k ih =>
    intro j s t hj h
    rw [forLe] at h
    by_cases hle : j ≤ m
    · rw [if_pos hle] at h
      cases hb : body j s with
      | error e => rw [hb] at h; cases h
      | ok s1 =>
        rw [hb] at h
        simp only at h
        rw [uinc_of_lt j (by omega)] at h
        have e : m + 1 - j = (m + 1 - (j + 1)) + 1 := by omega
        rw [e, List.range'_succ, List.foldl_cons, ← hstep j s s1 hb]
        exact ih (j + 1) s1 t (by omega) h
    · rw [if_neg hle] at h
      cases h
      have e : m + 1 - j = 0 := by omega
      rw [e]
      rfl

theorem foldl_count_step2 (k : Nat) :
    (List.range' 2 k).foldl count_step2 ([0, 0] : List α)
      = [((J1 (k + 1)).card : α), ((J2 (k + 1)).card : α)] := by
  induction k with
  | zero => simp [J1, J2]
  | succ k ih =>
    rw [List.range'_1_concat, List.foldl_append, ih]
    simp only [List.foldl_cons, List.foldl_nil]
    have e : 2 + k = k + 2 := by omega
    rw [e, J1_succ, J2_succ]
    unfold count_step2
    by_cases hp : (k + 2) % 2 = 0
    · have hq : ¬ (k + 2) % 2 = 1 := by omega
      rw [if_pos hp, if_pos hp, if_neg hq, Finset.card_insert_of_not_mem (not_mem_J2 k)]
      simp
    · have hq : (k + 2) % 2 = 1 := by omega
      rw [if_neg hp, if_neg hp, if_pos hq, Finset.card_insert_of_not_mem (not_mem_J1 k)]
      simp

theorem foldl_count_step3 (k : Nat) :
    (List.range' 3 k).foldl count_step3 ([0, 0, 0] : List α)
      = [((K1 (k + 2)).card : α), ((K2 (k + 2)).card : α), ((K3 (k + 2)).card : α)] := by
  induction k with
  | zero => simp [K1, K2, K3]
  | succ k ih =>
    rw [List.range'_1_concat, List.foldl_append, ih]
    simp only [List.foldl_cons, List.foldl_nil]
    have e : 3 + k = k + 3 := by omega
    rw [e, K1_succ, K2_succ, K3_succ]
    unfold count_step3
    have hcases : (k + 3) % 3 = 1 ∨ (k + 3) % 3 = 2 ∨ (k + 3) % 3 = 0 := by omega
    rcases hcases with h | h | h
    · rw [if_pos h, if_pos h, if_neg (by omega), if_neg (by omega),
        Finset.card_insert_of_not_mem (not_mem_K1 k)]
      simp
    · rw [if_neg (by omega), if_pos h, if_neg (by omega), if_pos h, if_neg (by omega),
        Finset.card_insert_of_not_mem (not_mem_K2 k)]
      simp
    · rw [if_neg (by omega), if_neg (by omega), if_neg (by omega), if_neg (by omega), if_pos h,
        Finset.card_insert_of_not_mem (not_mem_K3 k)]
      simp

/-- Whenever a two-class loop from 2 to `n` ends, its counters are `floor((n-1)/2)` and
`floor(n/2)`, for every dimension of the unsigned type and every vector. -/
theorem parity_loop_counts {σ : Type} (body : Nat → σ → Except Fault σ) (cnt : σ → List α)
    (hstep : ∀ j s s1, body j s = Except.ok s1 → cnt s1 = count_step2 (cnt s) j)
    (init : σ) (hinit : cnt init = [0, 0]) (n : Nat) (hn : n < UINT_MOD) (fuel : Nat) (s : σ)
    (h : forLe body n fuel 2 init = Except.ok s) :
    cnt s = [(((n - 1) / 2 : Nat) : α), ((n / 2 : Nat) : α)] := by
  by_cases hmax : n + 1 < UINT_MOD
  · by_cases h1 : 1 ≤ n
    · rw [forLe_inv body cnt count_step2 n hmax hstep fuel 2 init s (by omega) h, hinit]
      obtain ⟨k, rfl⟩ : ∃ k, n = k + 1 := ⟨n - 1, by omega⟩
      have e : k + 1 + 1 - 2 = k := by omega
      rw [e, foldl_count_step2, (card_J k).1, (card_J k).2]
      rfl
    · have e0 : n = 0 := by omega
      subst e0
      cases fuel with
      | zero => cases h
      | succ f =>
        rw [forLe_skip body 0 (f + 1) 2 init (by omega) (by omega)] at h
        cases h
        rw [hinit]
        simp
  · have e : n = UINT_MOD - 1 := by omega
    subst e
    obtain ⟨e, he⟩ := forLe_uint_max body fuel 2 init (by decide)
    rw [he] at h
    cases h

/-- Whenever a three-class loop from 3 to `n` ends, its counters are `floor((n-1)/3)`,
`floor((n-2)/3)` and `floor(n/3)`, for every dimension of the unsigned type and every
vector. -/
theorem mod3_loop_counts {σ : Type} (body : Nat → σ → Except Fault σ) (cnt : σ → List α)
    (hstep : ∀ j s s1, body j s = Except.ok s1 → cnt s1 = count_step3 (cnt s) j)
    (init : σ) (hinit : cnt init = [0, 0, 0]) (n : Nat) (hn : n < UINT_MOD) (fuel : Nat)
    (s : σ) (h : forLe body n fuel 3 init = Except.ok s) :
    cnt s = [(((n - 1) / 3 : Nat) : α), (((n - 2) / 3 : Nat) : α), ((n / 3 : Nat) : α)] := by
  by_cases hmax : n + 1 < UINT_MOD
  · by_cases h2 : 2 ≤ n
    · rw [forLe_inv body cnt count_step3 n hmax hstep fuel 3 init s (by omega) h, hinit]
      obtain ⟨k, rfl⟩ : ∃ k, n = k + 2 := ⟨n - 2, by omega⟩
      have e : k + 2 + 1 - 3 = k := by omega
      rw [e, foldl_count_step3, (card_K k).1, (card_K k).2.1, (card_K k).2.2]
      rfl
    · cases fuel with
      | zero => cases h
      | succ f =>
        rw [forLe_skip body n (f + 1) 3 init (by omega) (by omega)] at h
        cases h
        rw [hinit]
        have hcases : n = 0 ∨ n = 1 := by omega
        rcases hcases with rfl | rfl <;> simp
  · have e : n = UINT_MOD - 1 := by omega
    subst e
    obtain ⟨e, he⟩ := forLe_uint_max body fuel 3 init (by decide)
    rw [he] at h
    cases h

theorem counters_of_loop_intro {σ : Type} (E : Nat → List α → Except Fault (List α))
    (loop : Nat → Except Fault σ) (rest : σ → List α → Except Fault (List α))
    (counts : σ → List α) (closed : List α) (n nmin len : Nat)
    (h1 : ∀ fuel f, E fuel f = (loop fuel >>= fun s => rest s f))
    (h2 : ∀ fuel s, loop fuel = Except.ok s → counts s = closed)
    (h3 : (∀ d ∈ closed, d ≠ 0) ↔ nmin ≤ n)
    (h4 : len = n → 1 ≤ n → n + 1 < UINT_MOD → ∀ fuel, n < fuel →
      ∃ s, loop fuel = Except.ok s) :
    counters_of_loop E loop rest counts closed n nmin len := by
  refine ⟨h1, fun fuel s hs => ⟨h2 fuel s hs, ?_⟩, h4⟩
  rw [h2 fuel s hs]
  exact h3

/-- One iteration of the loop of `UF1` updates the counters by `count_step2`. -/
theorem UF1_body_counts (T : Libm α) (n : Nat) (x : List α) (j : Nat) (s s1 : Acc2 α)
    (h : UF1_body T n x j s = Except.ok s1) : counts2 s1 = count_step2 (counts2 s) j := by
  unfold UF1_body at h
  cases e1 : vget x (usub j 1) with
  | error e => rw [e1] at h; cases h
  | ok xj =>
    cases e0 : vget x 0 with
    | error e => rw [e1, e0] at h; cases h
    | ok x0 =>
      rw [e1, e0] at h
      simp only [ok_bind, pure_eq_ok] at h
      have hpar : j % 2 = 0 ∨ j % 2 = 1 := by omega
      split_ifs at h <;> cases h <;> rcases hpar with h0 | h0 <;>
        first | omega | simp [counts2, count_step2, h0]

/-- One iteration of the loop of `UF2` updates the counters by `count_step2`. -/
theorem UF2_body_counts (T : Libm α) (n : Nat) (x : List α) (j : Nat) (s s1 : Acc2 α)
    (h : UF2_body T n x j s = Except.ok s1) : counts2 s1 = count_step2 (counts2 s) j := by
  unfold UF2_body at h
  cases e1 : vget x (usub j 1) with
  | error e => rw [e1] at h; split_ifs at h <;> cases h
  | ok xj =>
    cases e0 : vget x 0 with
    | error e => rw [e1, e0] at h; split_ifs at h <;> cases h
    | ok x0 =>
      rw [e1, e0] at h
      simp only [ok_bind, pure_eq_ok] at h
      have hpar : j % 2 = 0 ∨ j % 2 = 1 := by omega
      split_ifs at h <;> cases h <;> rcases hpar with h0 | h0 <;>
        first | omega | simp [counts2, count_step2, h0]

/-- One iteration of the loop of `UF3` updates the counters by `count_step2`. -/
theorem UF3_body_counts (T : Libm α) (n : Nat) (x : List α) (j : Nat) (s s1 : Acc2p α)
    (h : UF3_body T n x j s = Except.ok s1) : counts2p s1 = count_step2 (counts2p s) j := by
  unfold UF3_body at h
  cases e1 : vget x (usub j 1) with
  | error e => rw [e1] at h; cases h
  | ok xj =>
    cases e0 : vget x 0 with
    | error e => rw [e1, e0] at h; cases h
    | ok x0 =>
      rw [e1, e0] at h
      simp only [ok_bind, pure_eq_ok] at h
      have hpar : j % 2 = 0 ∨ j % 2 = 1 := by omega
      split_ifs at h <;> cases h <;> rcases hpar with h0 | h0 <;>
        first | omega | simp [counts2p, count_step2, h0]

/-- One iteration of the loop of `UF4` updates the counters by `count_step2`. -/
theorem UF4_body_counts (T : Libm α) (n : Nat) (x : List α) (j : Nat) (s s1 : Acc2 α)
    (h : UF4_body T n x j s = Except.ok s1) : counts2 s1 = count_step2 (counts2 s) j := by
  unfold UF4_body at h
  cases e1 : vget x (usub j 1) with
  | error e => rw [e1] at h; cases h
  | ok xj =>
    cases e0 : vget x 0 with
    | error e => rw [e1, e0] at h; cases h
    | ok x0 =>
      rw [e1, e0] at h
      simp only [ok_bind, pure_eq_ok] at h
      have hpar : j % 2 = 0 ∨ j % 2 = 1 := by omega
      split_ifs at h <;> cases h <;> rcases hpar with h0 | h0 <;>
        first | omega | simp [counts2, count_step2, h0]

/-- One iteration of the loop of `UF5` updates the counters by `count_step2`. -/
theorem UF5_body_counts (T : Libm α) (n : Nat) (x : List α) (j : Nat) (s s1 : Acc2 α)
    (h : UF5_body T n x j s = Except.ok s1) : counts2 s1 = count_step2 (counts2 s) j := by
  unfold UF5_body at h
  cases e1 : vget x (usub j 1) with
  | error e => rw [e1] at h; cases h
  | ok xj =>
    cases e0 : vget x 0 with
    | error e => rw [e1, e0] at h; cases h
    | ok x0 =>
      rw [e1, e0] at h
      simp only [ok_bind, pure_eq_ok] at h
      have hpar : j % 2 = 0 ∨ j % 2 = 1 := by omega
      split_ifs at h <;> cases h <;> rcases hpar with h0 | h0 <;>
        first | omega | simp [counts2, count_step2, h0]

/-- One iteration of the loop of `UF6` updates the counters by `count_step2`. -/
theorem UF6_body_counts (T : Libm α) (n : Nat) (x : List α) (j : Nat) (s s1 : Acc2p α)
    (h : UF6_body T n x j s = Except.ok s1) : counts2p s1 = count_step2 (counts2p s) j := by
  unfold UF6_body at h
  cases e1 : vget x (usub j 1) with
  | error e => rw [e1] at h; cases h
  | ok xj =>
    cases e0 : vget x 0 with
    | error e => rw [e1, e0] at h; cases h
    | ok x0 =>
      rw [e1, e0] at h
      simp only [ok_bind, pure_eq_ok] at h
      have hpar : j % 2 = 0 ∨ j % 2 = 1 := by omega
      split_ifs at h <;> cases h <;> rcases hpar with h0 | h0 <;>
        first | omega | simp [counts2p, count_step2, h0]

/-- One iteration of the loop of `UF7` updates the counters by `count_step2`. -/
theorem UF7_body_counts (T : Libm α) (n : Nat) (x : List α) (j : Nat) (s s1 : Acc2 α)
    (h : UF7_body T n x j s = Except.ok s1) : counts2 s1 = count_step2 (counts2 s) j := by
  unfold UF7_body at h
  cases e1 : vget x (usub j 1) with
  | error e => rw [e1] at h; cases h
  | ok xj =>
    cases e0 : vget x 0 with
    | error e => rw [e1, e0] at h; cases h
    | ok x0 =>
      rw [e1, e0] at h
      simp only [ok_bind, pure_eq_ok] at h
      have hpar : j % 2 = 0 ∨ j % 2 = 1 := by omega
      split_ifs at h <;> cases h <;> rcases hpar with h0 | h0 <;>
        first | omega | simp [counts2, count_step2, h0]

/-- One iteration of the loop of `UF8` updates the counters by `count_step3`. -/
theorem UF8_body_counts (T : Libm α) (n : Nat) (x : List α) (j : Nat) (s s1 : Acc3 α)
    (h : UF8_body T n x j s = Except.ok s1) : counts3 s1 = count_step3 (counts3 s) j := by
  unfold UF8_body at h
  cases e1 : vget x (usub j 1) with
  | error e => rw [e1] at h; cases h
  | ok xj =>
    cases e2 : vget x 1 with
    | error e => rw [e1, e2] at h; cases h
    | ok x1 =>
      cases e0 : vget x 0 with
      | error e => rw [e1, e2, e0] at h; cases h
      | ok x0 =>
        rw [e1, e2, e0] at h
        simp only [ok_bind, pure_eq_ok] at h
        split_ifs at h <;> cases h <;> simp [counts3, count_step3, *]

/-- One iteration of the loop of `UF9` updates the counters by `count_step3`. -/
theorem UF9_body_counts (T : Libm α) (n : Nat) (x : List α) (j : Nat) (s s1 : Acc3 α)
    (h : UF9_body T n x j s = Except.ok s1) : counts3 s1 = count_step3 (counts3 s) j := by
  unfold UF9_body at h
  cases e1 : vget x (usub j 1) with
  | error e => rw [e1] at h; cases h
  | ok xj =>
    cases e2 : vget x 1 with
    | error e => rw [e1, e2] at h; cases h
    | ok x1 =>
      cases e0 : vget x 0 with
      | error e => rw [e1, e2, e0] at h; cases h
      | ok x0 =>
        rw [e1, e2, e0] at h
        simp only [ok_bind, pure_eq_ok] at h
        split_ifs at h <;> cases h <;> simp [counts3, count_step3, *]

/-- One iteration of the loop of `UF10` updates the counters by `count_step3`. -/
theorem UF10_body_counts (T : Libm α) (n : Nat) (x : List α) (j : Nat) (s s1 : Acc3 α)
    (h : UF10_body T n x j s = Except.ok s1) : counts3 s1 = count_step3 (counts3 s) j := by
  unfold UF10_body at h
  cases e1 : vget x (usub j 1) with
  | error e => rw [e1] at h; cases h
  | ok xj =>
    cases e2 : vget x 1 with
    | error e => rw [e1, e2] at h; cases h
    | ok x1 =>
      cases e0 : vget x 0 with
      | error e => rw [e1, e2, e0] at h; cases h
      | ok x0 =>
        rw [e1, e2, e0] at h
        simp only [ok_bind, pure_eq_ok] at h
        split_ifs at h <;> cases h <;> simp [counts3, count_step3, *]

/-- One iteration of the loop of `CF1` updates the counters by `count_step2`. -/
theorem CF1_body_counts (T : Libm α) (n : Nat) (x : List α) (j : Nat) (s s1 : Acc2 α)
    (h : CF1_body T n x j s = Except.ok s1) : counts2 s1 = count_step2 (counts2 s) j := by
  unfold CF1_body at h
  cases e1 : vget x (usub j 1) with
  | error e => rw [e1] at h; cases h
  | ok xj =>
    cases e0 : vget x 0 with
    | error e => rw [e1, e0] at h; cases h
    | ok x0 =>
      rw [e1, e0] at h
      simp only [ok_bind, pure_eq_ok] at h
      have hpar : j % 2 = 0 ∨ j % 2 = 1 := by omega
      split_ifs at h <;> cases h <;> rcases hpar with h0 | h0 <;>
        first | omega | simp [counts2, count_step2, h0]

/-- One iteration of the loop of `CF2` updates the counters by `count_step2`. -/
theorem CF2_body_counts (T : Libm α) (n : Nat) (x : List α) (j : Nat) (s s1 : Acc2 α)
    (h : CF2_body T n x j s = Except.ok s1) : counts2 s1 = count_step2 (counts2 s) j := by
  unfold CF2_body at h
  cases e1 : vget x (usub j 1) with
  | error e => rw [e1] at h; split_ifs at h <;> cases h
  | ok xj =>
    cases e0 : vget x 0 with
    | error e => rw [e1, e0] at h; split_ifs at h <;> cases h
    | ok x0 =>
      rw [e1, e0] at h
      simp only [ok_bind, pure_eq_ok] at h
      have hpar : j % 2 = 0 ∨ j % 2 = 1 := by omega
      split_ifs at h <;> cases h <;> rcases hpar with h0 | h0 <;>
        first | omega | simp [counts2, count_step2, h0]

/-- One iteration of the loop of `CF3` updates the counters by `count_step2`. -/
theorem CF3_body_counts (T : Libm α) (n : Nat) (x : List α) (j : Nat) (s s1 : Acc2p α)
    (h : CF3_body T n x j s = Except.ok s1) : counts2p s1 = count_step2 (counts2p s) j := by
  unfold CF3_body at h
  cases e1 : vget x (usub j 1) with
  | error e => rw [e1] at h; cases h
  | ok xj =>
    cases e0 : vget x 0 with
    | error e => rw [e1, e0] at h; cases h
    | ok x0 =>
      rw [e1, e0] at h
      simp only [ok_bind, pure_eq_ok] at h
      have hpar : j % 2 = 0 ∨ j % 2 = 1 := by omega
      split_ifs at h <;> cases h <;> rcases hpar with h0 | h0 <;>
        first | omega | simp [counts2p, count_step2, h0]

/-- One iteration of the loop of `CF8` updates the counters by `count_step3`. -/
theorem CF8_body_counts (T : Libm α) (n : Nat) (x : List α) (j : Nat) (s s1 : Acc3 α)
    (h : CF8_body T n x j s = Except.ok s1) : counts3 s1 = count_step3 (counts3 s) j := by
  unfold CF8_body at h
  cases e1 : vget x (usub j 1) with
  | error e => rw [e1] at h; cases h
  | ok xj =>
    cases e2 : vget x 1 with
    | error e => rw [e1, e2] at h; cases h
    | ok x1 =>
      cases e0 : vget x 0 with
      | error e => rw [e1, e2, e0] at h; cases h
      | ok x0 =>
        rw [e1, e2, e0] at h
        simp only [ok_bind, pure_eq_ok] at h
        split_ifs at h <;> cases h <;> simp [counts3, count_step3, *]

/-- One iteration of the loop of `CF9` updates the counters by `count_step3`. -/
theorem CF9_body_counts (T : Libm α) (n : Nat) (x : List α) (j : Nat) (s s1 : Acc3 α)
    (h : CF9_body T n x j s = Except.ok s1) : counts3 s1 = count_step3 (counts3 s) j := by
  unfold CF9_body at h
  cases e1 : vget x (usub j 1) with
  | error e => rw [e1] at h; cases h
  | ok xj =>
    cases e2 : vget x 1 with
    | error e => rw [e1, e2] at h; cases h
    | ok x1 =>
      cases e0 : vget x 0 with
      | error e => rw [e1, e2, e0] at h; cases h
      | ok x0 =>
        rw [e1, e2, e0] at h
        simp only [ok_bind, pure_eq_ok] at h
        split_ifs at h <;> cases h <;> simp [counts3, count_step3, *]

/-- One iteration of the loop of `CF10` updates the counters by `count_step3`. -/
theorem CF10_body_counts (T : Libm α) (n : Nat) (x : List α) (j : Nat) (s s1 : Acc3 α)
    (h : CF10_body T n x j s = Except.ok s1) : counts3 s1 = count_step3 (counts3 s) j := by
  unfold CF10_body at h
  cases e1 : vget x (usub j 1) with
  | error e => rw [e1] at h; cases h
  | ok xj =>
    cases e2 : vget x 1 with
    | error e => rw [e1, e2] at h; cases h
    | ok x1 =>
      cases e0 : vget x 0 with
      | error e => rw [e1, e2, e0] at h; cases h
      | ok x0 =>
        rw [e1, e2, e0] at h
        simp only [ok_bind, pure_eq_ok] at h
        split_ifs at h <;> cases h <;> simp [counts3, count_step3, *]

/-- C18: for each evaluator that keeps per-class counters (UF1-UF10, CF1-CF3, CF8-CF10),
on an instance of dimension `n = p.m_dim` (an unsigned value) and every vector `x`: the
evaluator is its loop followed by the statements that divide by the counters the loop ends
with (`UFk_after_loop`, `CFk_after_loop`); whenever that loop ends, its counters are
`floor((n-1)/2), floor(n/2)` in the parity-based evaluators and
`floor((n-1)/3), floor((n-2)/3), floor(n/3)` in the modulo-3 evaluators (`floor((n-2)/3)` is
0 when `n < 2`), and they are all non-zero if and only if `n >= 3`, respectively `n >= 5`;
and the loop does end when `x` has the length `n` of the dimension, `1 <= n < 2^32 - 1` and
the fuel exceeds `n`. -/
theorem evaluator_loop_counters (T : Libm α) (p : pagmo.cec2009) (x : List α)
    (hn : p.m_dim < UINT_MOD) :
      counters_of_loop (fun fuel f => UF1 p T fuel f x)
          (fun fuel => forLe (UF1_body T p.m_dim x) p.m_dim fuel 2
            ({ sum1 := 0.0, sum2 := 0.0, count1 := 0, count2 := 0 }
              : Acc2 α))
          (fun s f => UF1_after_loop T s f x) counts2
          (count_closed_form α 1 p.m_dim) p.m_dim 3 x.length ∧
      counters_of_loop (fun fuel f => UF2 p T fuel f x)
          (fun fuel => forLe (UF2_body T p.m_dim x) p.m_dim fuel 2
            ({ sum1 := 0.0, sum2 := 0.0, count1 := 0, count2 := 0 }
              : Acc2 α))
          (fun s f => UF2_after_loop T s f x) counts2
          (count_closed_form α 2 p.m_dim) p.m_dim 3 x.length ∧
      counters_of_loop (fun fuel f => UF3 p T fuel f x)
          (fun fuel => forLe (UF3_body T p.m_dim x) p.m_dim fuel 2
            ({ sum1 := 0.0, sum2 := 0.0, prod1 := 1.0, prod2 := 1.0, count1 := 0, count2 := 0 }
              : Acc2p α))
          (fun s f => UF3_after_loop T s f x) counts2p
          (count_closed_form α 3 p.m_dim) p.m_dim 3 x.length ∧
      counters_of_loop (fun fuel f => UF4 p T fuel f x)
          (fun fuel => forLe (UF4_body T p.m_dim x) p.m_dim fuel 2
            ({ sum1 := 0.0, sum2 := 0.0, count1 := 0, count2 := 0 }
              : Acc2 α))
          (fun s f => UF4_after_loop s f x) counts2
          (count_closed_form α 4 p.m_dim) p.m_dim 3 x.length ∧
      counters_of_loop (fun fuel f => UF5 p T fuel f x)
          (fun fuel => forLe (UF5_body T p.m_dim x) p.m_dim fuel 2
            ({ sum1 := 0.0, sum2 := 0.0, count1 := 0, count2 := 0 }
              : Acc2 α))
          (fun s f => UF5_after_loop T s f x) counts2
          (count_closed_form α 5 p.m_dim) p.m_dim 3 x.length ∧
      counters_of_loop (fun fuel f => UF6 p T fuel f x)
          (fun fuel => forLe (UF6_body T p.m_dim x) p.m_dim fuel 2
            ({ sum1 := 0.0, sum2 := 0.0, prod1 := 1.0, prod2 := 1.0, count1 := 0, count2 := 0 }
              : Acc2p α))
          (fun s f => UF6_after_loop T s f x) counts2p
          (count_closed_form α 6 p.m_dim) p.m_dim 3 x.length ∧
      counters_of_loop (fun fuel f => UF7 p T fuel f x)
          (fun fuel => forLe (UF7_body T p.m_dim x) p.m_dim fuel 2
            ({ sum1 := 0.0, sum2 := 0.0, count1 := 0, count2 := 0 }
              : Acc2 α))
          (fun s f => UF7_after_loop T s f x) counts2
          (count_closed_form α 7 p.m_dim) p.m_dim 3 x.length ∧
      counters_of_loop (fun fuel f => UF8 p T fuel f x)
          (fun fuel => forLe (UF8_body T p.m_dim x) p.m_dim fuel 3
            ({ sum1 := 0.0, sum2 := 0.0, sum3 := 0.0, count1 := 0, count2 := 0, count3 := 0 }
              : Acc3 α))
          (fun s f => UF8_after_loop T s f x) counts3
          (count_closed_form α 8 p.m_dim) p.m_dim 5 x.length ∧
      counters_of_loop (fun fuel f => UF9 p T fuel f x)
          (fun fuel => forLe (UF9_body T p.m_dim x) p.m_dim fuel 3
            ({ sum1 := 0.0, sum2 := 0.0, sum3 := 0.0, count1 := 0, count2 := 0, count3 := 0 }
              : Acc3 α))
          (fun s f => UF9_after_loop s f x) counts3
          (count_closed_form α 9 p.m_dim) p.m_dim 5 x.length ∧
      counters_of_loop (fun fuel f => UF10 p T fuel f x)
          (fun fuel => forLe (UF10_body T p.m_dim x) p.m_dim fuel 3
            ({ sum1 := 0.0, sum2 := 0.0, sum3 := 0.0, count1 := 0, count2 := 0, count3 := 0 }
              : Acc3 α))
          (fun s f => UF10_after_loop T s f x) counts3
          (count_closed_form α 10 p.m_dim) p.m_dim 5 x.length ∧
      counters_of_loop (fun fuel f => CF1 p T fuel f x)
          (fun fuel => forLe (CF1_body T p.m_dim x) p.m_dim fuel 2
            ({ sum1 := 0.0, sum2 := 0.0, count1 := 0, count2 := 0 }
              : Acc2 α))
          (fun s f => CF1_after_loop T s f x) counts2
          (count_closed_form α 1 p.m_dim) p.m_dim 3 x.length ∧
      counters_of_loop (fun fuel f => CF2 p T fuel f x)
          (fun fuel => forLe (CF2_body T p.m_dim x) p.m_dim fuel 2
            ({ sum1 := 0.0, sum2 := 0.0, count1 := 0, count2 := 0 }
              : Acc2 α))
          (fun s f => CF2_after_loop T s f x) counts2
          (count_closed_form α 2 p.m_dim) p.m_dim 3 x.length ∧
      counters_of_loop (fun fuel f => CF3 p T fuel f x)
          (fun fuel => forLe (CF3_body T p.m_dim x) p.m_dim fuel 2
            ({ sum1 := 0.0, sum2 := 0.0, prod1 := 1.0, prod2 := 1.0, count1 := 0, count2 := 0 }
              : Acc2p α))
          (fun s f => CF3_after_loop T s f x) counts2p
          (count_closed_form α 3 p.m_dim) p.m_dim 3 x.length ∧
      counters_of_loop (fun fuel f => CF8 p T fuel f x)
          (fun fuel => forLe (CF8_body T p.m_dim x) p.m_dim fuel 3
            ({ sum1 := 0.0, sum2 := 0.0, sum3 := 0.0, count1 := 0, count2 := 0, count3 := 0 }
              : Acc3 α))
          (fun s f => CF8_after_loop T s f x) counts3
          (count_closed_form α 8 p.m_dim) p.m_dim 5 x.length ∧
      counters_of_loop (fun fuel f => CF9 p T fuel f x)
          (fun fuel => forLe (CF9_body T p.m_dim x) p.m_dim fuel 3
            ({ sum1 := 0.0, sum2 := 0.0, sum3 := 0.0, count1 := 0, count2 := 0, count3 := 0 }
              : Acc3 α))
          (fun s f => CF9_after_loop T s f x) counts3
          (count_closed_form α 9 p.m_dim) p.m_dim 5 x.length ∧
      counters_of_loop (fun fuel f => CF10 p T fuel f x)
          (fun fuel => forLe (CF10_body T p.m_dim x) p.m_dim fuel 3
            ({ sum1 := 0.0, sum2 := 0.0, sum3 := 0.0, count1 := 0, count2 := 0, count3 := 0 }
              : Acc3 α))
          (fun s f => CF10_after_loop T s f x) counts3
          (count_closed_form α 10 p.m_dim) p.m_dim 5 x.length ∧
      (∀ k : Nat, count_closed_form α k p.m_dim
        = (if k ≤ 7 then [(((p.m_dim - 1) / 2 : Nat) : α), ((p.m_dim / 2 : Nat) : α)]
           else [(((p.m_dim - 1) / 3 : Nat) : α), (((p.m_dim - 2) / 3 : Nat) : α),
             ((p.m_dim / 3 : Nat) : α)])) := by
  have tri : ∀ (body : Nat → Acc3 α → Except Fault (Acc3 α)) (S : Acc3 α),
      (2 ≤ p.m_dim → ∀ fuel, p.m_dim < fuel → ∃ s, forLe body p.m_dim fuel 3 S = Except.ok s) →
      ∀ fuel, p.m_dim < fuel → ∃ s, forLe body p.m_dim fuel 3 S = Except.ok s := by
    intro body S h fuel hf
    by_cases h2 : 2 ≤ p.m_dim
    · exact h h2 fuel hf
    · exact ⟨S, forLe_skip body p.m_dim fuel 3 S (by omega) (by omega)⟩
  refine ⟨?_, ?_, ?_, ?_, ?_, ?_, ?_, ?_, ?_, ?_, ?_, ?_, ?_, ?_, ?_, ?_, fun _ => rfl⟩
  · exact counters_of_loop_intro _ _ _ _ _ _ _ _ (fun _ _ => rfl)
      (fun fuel s hs => parity_loop_counts _ counts2 (UF1_body_counts T p.m_dim x)
        ({ sum1 := 0.0, sum2 := 0.0, count1 := 0, count2 := 0 }
          : Acc2 α) rfl p.m_dim hn fuel s hs)
      (count_closed_form_ne_zero 1 p.m_dim)
      (fun hx h1 hmax fuel hf => ⟨_, UF1_loop T p.m_dim fuel x hx h1 hmax hf⟩)
  · exact counters_of_loop_intro _ _ _ _ _ _ _ _ (fun _ _ => rfl)
      (fun fuel s hs => parity_loop_counts _ counts2 (UF2_body_counts T p.m_dim x)
        ({ sum1 := 0.0, sum2 := 0.0, count1 := 0, count2 := 0 }
          : Acc2 α) rfl p.m_dim hn fuel s hs)
      (count_closed_form_ne_zero 2 p.m_dim)
      (fun hx h1 hmax fuel hf => ⟨_, UF2_loop T p.m_dim fuel x hx h1 hmax hf⟩)
  · exact counters_of_loop_intro _ _ _ _ _ _ _ _ (fun _ _ => rfl)
      (fun fuel s hs => parity_loop_counts _ counts2p (UF3_body_counts T p.m_dim x)
        ({ sum1 := 0.0, sum2 := 0.0, prod1 := 1.0, prod2 := 1.0, count1 := 0, count2 := 0 }
          : Acc2p α) rfl p.m_dim hn fuel s hs)
      (count_closed_form_ne_zero 3 p.m_dim)
      (fun hx h1 hmax fuel hf => ⟨_, UF3_loop T p.m_dim fuel x hx h1 hmax hf⟩)
  · exact counters_of_loop_intro _ _ _ _ _ _ _ _ (fun _ _ => rfl)
      (fun fuel s hs => parity_loop_counts _ counts2 (UF4_body_counts T p.m_dim x)
        ({ sum1 := 0.0, sum2 := 0.0, count1 := 0, count2 := 0 }
          : Acc2 α) rfl p.m_dim hn fuel s hs)
      (count_closed_form_ne_zero 4 p.m_dim)
      (fun hx h1 hmax fuel hf => ⟨_, UF4_loop T p.m_dim fuel x hx h1 hmax hf⟩)
  · exact counters_of_loop_intro _ _ _ _ _ _ _ _ (fun _ _ => rfl)
      (fun fuel s hs => parity_loop_counts _ counts2 (UF5_body_counts T p.m_dim x)
        ({ sum1 := 0.0, sum2 := 0.0, count1 := 0, count2 := 0 }
          : Acc2 α) rfl p.m_dim hn fuel s hs)
      (count_closed_form_ne_zero 5 p.m_dim)
      (fun hx h1 hmax fuel hf => ⟨_, UF5_loop T p.m_dim fuel x hx h1 hmax hf⟩)
  · exact counters_of_loop_intro _ _ _ _ _ _ _ _ (fun _ _ => rfl)
      (fun fuel s hs => parity_loop_counts _ counts2p (UF6_body_counts T p.m_dim x)
        ({ sum1 := 0.0, sum2 := 0.0, prod1 := 1.0, prod2 := 1.0, count1 := 0, count2 := 0 }
          : Acc2p α) rfl p.m_dim hn fuel s hs)
      (count_closed_form_ne_zero 6 p.m_dim)
      (fun hx h1 hmax fuel hf => ⟨_, UF6_loop T p.m_dim fuel x hx h1 hmax hf⟩)
  · exact counters_of_loop_intro _ _ _ _ _ _ _ _ (fun _ _ => rfl)
      (fun fuel s hs => parity_loop_counts _ counts2 (UF7_body_counts T p.m_dim x)
        ({ sum1 := 0.0, sum2 := 0.0, count1 := 0, count2 := 0 }
          : Acc2 α) rfl p.m_dim hn fuel s hs)
      (count_closed_form_ne_zero 7 p.m_dim)
      (fun hx h1 hmax fuel hf => ⟨_, UF7_loop T p.m_dim fuel x hx h1 hmax hf⟩)
  · exact counters_of_loop_intro _ _ _ _ _ _ _ _ (fun _ _ => rfl)
      (fun fuel s hs => mod3_loop_counts _ counts3 (UF8_body_counts T p.m_dim x)
        ({ sum1 := 0.0, sum2 := 0.0, sum3 := 0.0, count1 := 0, count2 := 0, count3 := 0 }
          : Acc3 α) rfl p.m_dim hn fuel s hs)
      (count_closed_form_ne_zero 8 p.m_dim)
      (fun hx h1 hmax => tri _ _ (fun h2 fuel hf => ⟨_, UF8_loop T p.m_dim fuel x hx h2 hmax hf⟩))
  · exact counters_of_loop_intro _ _ _ _ _ _ _ _ (fun _ _ => rfl)
      (fun fuel s hs => mod3_loop_counts _ counts3 (UF9_body_counts T p.m_dim x)
        ({ sum1 := 0.0, sum2 := 0.0, sum3 := 0.0, count1 := 0, count2 := 0, count3 := 0 }
          : Acc3 α) rfl p.m_dim hn fuel s hs)
      (count_closed_form_ne_zero 9 p.m_dim)
      (fun hx h1 hmax => tri _ _ (fun h2 fuel hf => ⟨_, UF9_loop T p.m_dim fuel x hx h2 hmax hf⟩))
  · exact counters_of_loop_intro _ _ _ _ _ _ _ _ (fun _ _ => rfl)
      (fun fuel s hs => mod3_loop_counts _ counts3 (UF10_body_counts T p.m_dim x)
        ({ sum1 := 0.0, sum2 := 0.0, sum3 := 0.0, count1 := 0, count2 := 0, count3 := 0 }
          : Acc3 α) rfl p.m_dim hn fuel s hs)
      (count_closed_form_ne_zero 10 p.m_dim)
      (fun hx h1 hmax => tri _ _ (fun h2 fuel hf => ⟨_, UF10_loop T p.m_dim fuel x hx h2 hmax hf⟩))
  · exact counters_of_loop_intro _ _ _ _ _ _ _ _ (fun _ _ => rfl)
      (fun fuel s hs => parity_loop_counts _ counts2 (CF1_body_counts T p.m_dim x)
        ({ sum1 := 0.0, sum2 := 0.0, count1 := 0, count2 := 0 }
          : Acc2 α) rfl p.m_dim hn fuel s hs)
      (count_closed_form_ne_zero 1 p.m_dim)
      (fun hx h1 hmax fuel hf => ⟨_, CF1_loop T p.m_dim fuel x hx h1 hmax hf⟩)
  · exact counters_of_loop_intro _ _ _ _ _ _ _ _ (fun _ _ => rfl)
      (fun fuel s hs => parity_loop_counts _ counts2 (CF2_body_counts T p.m_dim x)
        ({ sum1 := 0.0, sum2 := 0.0, count1 := 0, count2 := 0 }
          : Acc2 α) rfl p.m_dim hn fuel s hs)
      (count_closed_form_ne_zero 2 p.m_dim)
      (fun hx h1 hmax fuel hf => ⟨_, CF2_loop T p.m_dim fuel x hx h1 hmax hf⟩)
  · exact counters_of_loop_intro _ _ _ _ _ _ _ _ (fun _ _ => rfl)
      (fun fuel s hs => parity_loop_counts _ counts2p (CF3_body_counts T p.m_dim x)
        ({ sum1 := 0.0, sum2 := 0.0, prod1 := 1.0, prod2 := 1.0, count1 := 0, count2 := 0 }
          : Acc2p α) rfl p.m_dim hn fuel s hs)
      (count_closed_form_ne_zero 3 p.m_dim)
      (fun hx h1 hmax fuel hf => ⟨_, CF3_loop T p.m_dim fuel x hx h1 hmax hf⟩)
  · exact counters_of_loop_intro _ _ _ _ _ _ _ _ (fun _ _ => rfl)
      (fun fuel s hs => mod3_loop_counts _ counts3 (CF8_body_counts T p.m_dim x)
        ({ sum1 := 0.0, sum2 := 0.0, sum3 := 0.0, count1 := 0, count2 := 0, count3 := 0 }
          : Acc3 α) rfl p.m_dim hn fuel s hs)
      (count_closed_form_ne_zero 8 p.m_dim)
      (fun hx h1 hmax => tri _ _ (fun h2 fuel hf => ⟨_, CF8_loop T p.m_dim fuel x hx h2 hmax hf⟩))
  · exact counters_of_loop_intro _ _ _ _ _ _ _ _ (fun _ _ => rfl)
      (fun fuel s hs => mod3_loop_counts _ counts3 (CF9_body_counts T p.m_dim x)
        ({ sum1 := 0.0, sum2 := 0.0, sum3 := 0.0, count1 := 0, count2 := 0, count3 := 0 }
          : Acc3 α) rfl p.m_dim hn fuel s hs)
      (count_closed_form_ne_zero 9 p.m_dim)
      (fun hx h1 hmax => tri _ _ (fun h2 fuel hf => ⟨_, CF9_loop T p.m_dim fuel x hx h2 hmax hf⟩))
  · exact counters_of_loop_intro _ _ _ _ _ _ _ _ (fun _ _ => rfl)
      (fun fuel s hs => mod3_loop_counts _ counts3 (CF10_body_counts T p.m_dim x)
        ({ sum1 := 0.0, sum2 := 0.0, sum3 := 0.0, count1 := 0, count2 := 0, count3 := 0 }
          : Acc3 α) rfl p.m_dim hn fuel s hs)
      (count_closed_form_ne_zero 10 p.m_dim)
      (fun hx h1 hmax => tri _ _ (fun h2 fuel hf => ⟨_, CF10_loop T p.m_dim fuel x hx h2 hmax hf⟩))

theorem evaluator_loop_counters_witness :
      counters_of_loop (fun fuel f => UF1 counters_instance realLibm fuel f ([0, 0, 0, 0, 0] : List ℝ))
          (fun fuel => forLe (UF1_body realLibm counters_instance.m_dim ([0, 0, 0, 0, 0] : List ℝ)) counters_instance.m_dim fuel 2
            ({ sum1 := 0.0, sum2 := 0.0, count1 := 0, count2 := 0 }
              : Acc2 ℝ))
          (fun s f => UF1_after_loop realLibm s f ([0, 0, 0, 0, 0] : List ℝ)) counts2
          (count_closed_form ℝ 1 counters_instance.m_dim) counters_instance.m_dim 3 ([0, 0, 0, 0, 0] : List ℝ).length ∧
      counters_of_loop (fun fuel f => UF2 counters_instance realLibm fuel f ([0, 0, 0, 0, 0] : List ℝ))
          (fun fuel => forLe (UF2_body realLibm counters_instance.m_dim ([0, 0, 0, 0, 0] : List ℝ)) counters_instance.m_dim fuel 2
            ({ sum1 := 0.0, sum2 := 0.0, count1 := 0, count2 := 0 }
              : Acc2 ℝ))
          (fun s f => UF2_after_loop realLibm s f ([0, 0, 0, 0, 0] : List ℝ)) counts2
          (count_closed_form ℝ 2 counters_instance.m_dim) counters_instance.m_dim 3 ([0, 0, 0, 0, 0] : List ℝ).length ∧
      counters_of_loop (fun fuel f => UF3 counters_instance realLibm fuel f ([0, 0, 0, 0, 0] : List ℝ))
          (fun fuel => forLe (UF3_body realLibm counters_instance.m_dim ([0, 0, 0, 0, 0] : List ℝ)) counters_instance.m_dim fuel 2
            ({ sum1 := 0.0, sum2 := 0.0, prod1 := 1.0, prod2 := 1.0, count1 := 0, count2 := 0 }
              : Acc2p ℝ))
          (fun s f => UF3_after_loop realLibm s f ([0, 0, 0, 0, 0] : List ℝ)) counts2p
          (count_closed_form ℝ 3 counters_instance.m_dim) counters_instance.m_dim 3 ([0, 0, 0, 0, 0] : List ℝ).length ∧
      counters_of_loop (fun fuel f => UF4 counters_instance realLibm fuel f ([0, 0, 0, 0, 0] : List ℝ))
          (fun fuel => forLe (UF4_body realLibm counters_instance.m_dim ([0, 0, 0, 0, 0] : List ℝ)) counters_instance.m_dim fuel 2
            ({ sum1 := 0.0, sum2 := 0.0, count1 := 0, count2 := 0 }
              : Acc2 ℝ))
          (fun s f => UF4_after_loop s f ([0, 0, 0, 0, 0] : List ℝ)) counts2
          (count_closed_form ℝ 4 counters_instance.m_dim) counters_instance.m_dim 3 ([0, 0, 0, 0, 0] : List ℝ).length ∧
      counters_of_loop (fun fuel f => UF5 counters_instance realLibm fuel f ([0, 0, 0, 0, 0] : List ℝ))
          (fun fuel => forLe (UF5_body realLibm counters_instance.m_dim ([0, 0, 0, 0, 0] : List ℝ)) counters_instance.m_dim fuel 2
            ({ sum1 := 0.0, sum2 := 0.0, count1 := 0, count2 := 0 }
              : Acc2 ℝ))
          (fun s f => UF5_after_loop realLibm s f ([0, 0, 0, 0, 0] : List ℝ)) counts2
          (count_closed_form ℝ 5 counters_instance.m_dim) counters_instance.m_dim 3 ([0, 0, 0, 0, 0] : List ℝ).length ∧
      counters_of_loop (fun fuel f => UF6 counters_instance realLibm fuel f ([0, 0, 0, 0, 0] : List ℝ))
          (fun fuel => forLe (UF6_body realLibm counters_instance.m_dim ([0, 0, 0, 0, 0] : List ℝ)) counters_instance.m_dim fuel 2
            ({ sum1 := 0.0, sum2 := 0.0, prod1 := 1.0, prod2 := 1.0, count1 := 0, count2 := 0 }
              : Acc2p ℝ))
          (fun s f => UF6_after_loop realLibm s f ([0, 0, 0, 0, 0] : List ℝ)) counts2p
          (count_closed_form ℝ 6 counters_instance.m_dim) counters_instance.m_dim 3 ([0, 0, 0, 0, 0] : List ℝ).length ∧
      counters_of_loop (fun fuel f => UF7 counters_instance realLibm fuel f ([0, 0, 0, 0, 0] : List ℝ))
          (fun fuel => forLe (UF7_body realLibm counters_instance.m_dim ([0, 0, 0, 0, 0] : List ℝ)) counters_instance.m_dim fuel 2
            ({ sum1 := 0.0, sum2 := 0.0, count1 := 0, count2 := 0 }
              : Acc2 ℝ))
          (fun s f => UF7_after_loop realLibm s f ([0, 0, 0, 0, 0] : List ℝ)) counts2
          (count_closed_form ℝ 7 counters_instance.m_dim) counters_instance.m_dim 3 ([0, 0, 0, 0, 0] : List ℝ).length ∧
      counters_of_loop (fun fuel f => UF8 counters_instance realLibm fuel f ([0, 0, 0, 0, 0] : List ℝ))
          (fun fuel => forLe (UF8_body realLibm counters_instance.m_dim ([0, 0, 0, 0, 0] : List ℝ)) counters_instance.m_dim fuel 3
            ({ sum1 := 0.0, sum2 := 0.0, sum3 := 0.0, count1 := 0, count2 := 0, count3 := 0 }
              : Acc3 ℝ))
          (fun s f => UF8_after_loop realLibm s f ([0, 0, 0, 0, 0] : List ℝ)) counts3
          (count_closed_form ℝ 8 counters_instance.m_dim) counters_instance.m_dim 5 ([0, 0, 0, 0, 0] : List ℝ).length ∧
      counters_of_loop (fun fuel f => UF9 counters_instance realLibm fuel f ([0, 0, 0, 0, 0] : List ℝ))
          (fun fuel => forLe (UF9_body realLibm counters_instance.m_dim ([0, 0, 0, 0, 0] : List ℝ)) counters_instance.m_dim fuel 3
            ({ sum1 := 0.0, sum2 := 0.0, sum3 := 0.0, count1 := 0, count2 := 0, count3 := 0 }
              : Acc3 ℝ))
          (fun s f => UF9_after_loop s f ([0, 0, 0, 0, 0] : List ℝ)) counts3
          (count_closed_form ℝ 9 counters_instance.m_dim) counters_instance.m_dim 5 ([0, 0, 0, 0, 0] : List ℝ).length ∧
      counters_of_loop (fun fuel f => UF10 counters_instance realLibm fuel f ([0, 0, 0, 0, 0] : List ℝ))
          (fun fuel => forLe (UF10_body realLibm counters_instance.m_dim ([0, 0, 0, 0, 0] : List ℝ)) counters_instance.m_dim fuel 3
            ({ sum1 := 0.0, sum2 := 0.0, sum3 := 0.0, count1 := 0, count2 := 0, count3 := 0 }
              : Acc3 ℝ))
          (fun s f => UF10_after_loop realLibm s f ([0, 0, 0, 0, 0] : List ℝ)) counts3
          (count_closed_form ℝ 10 counters_instance.m_dim) counters_instance.m_dim 5 ([0, 0, 0, 0, 0] : List ℝ).length ∧
      counters_of_loop (fun fuel f => CF1 counters_instance realLibm fuel f ([0, 0, 0, 0, 0] : List ℝ))
          (fun fuel => forLe (CF1_body realLibm counters_instance.m_dim ([0, 0, 0, 0, 0] : List ℝ)) counters_instance.m_dim fuel 2
            ({ sum1 := 0.0, sum2 := 0.0, count1 := 0, count2 := 0 }
              : Acc2 ℝ))
          (fun s f => CF1_after_loop realLibm s f ([0, 0, 0, 0, 0] : List ℝ)) counts2
          (count_closed_form ℝ 1 counters_instance.m_dim) counters_instance.m_dim 3 ([0, 0, 0, 0, 0] : List ℝ).length ∧
      counters_of_loop (fun fuel f => CF2 counters_instance realLibm fuel f ([0, 0, 0, 0, 0] : List ℝ))
          (fun fuel => forLe (CF2_body realLibm counters_instance.m_dim ([0, 0, 0, 0, 0] : List ℝ)) counters_instance.m_dim fuel 2
            ({ sum1 := 0.0, sum2 := 0.0, count1 := 0, count2 := 0 }
              : Acc2 ℝ))
          (fun s f => CF2_after_loop realLibm s f ([0, 0, 0, 0, 0] : List ℝ)) counts2
          (count_closed_form ℝ 2 counters_instance.m_dim) counters_instance.m_dim 3 ([0, 0, 0, 0, 0] : List ℝ).length ∧
      counters_of_loop (fun fuel f => CF3 counters_instance realLibm fuel f ([0, 0, 0, 0, 0] : List ℝ))
          (fun fuel => forLe (CF3_body realLibm counters_instance.m_dim ([0, 0, 0, 0, 0] : List ℝ)) counters_instance.m_dim fuel 2
            ({ sum1 := 0.0, sum2 := 0.0, prod1 := 1.0, prod2 := 1.0, count1 := 0, count2 := 0 }
              : Acc2p ℝ))
          (fun s f => CF3_after_loop realLibm s f ([0, 0, 0, 0, 0] : List ℝ)) counts2p
          (count_closed_form ℝ 3 counters_instance.m_dim) counters_instance.m_dim 3 ([0, 0, 0, 0, 0] : List ℝ).length ∧
      counters_of_loop (fun fuel f => CF8 counters_instance realLibm fuel f ([0, 0, 0, 0, 0] : List ℝ))
          (fun fuel => forLe (CF8_body realLibm counters_instance.m_dim ([0, 0, 0, 0, 0] : List ℝ)) counters_instance.m_dim fuel 3
            ({ sum1 := 0.0, sum2 := 0.0, sum3 := 0.0, count1 := 0, count2 := 0, count3 := 0 }
              : Acc3 ℝ))
          (fun s f => CF8_after_loop realLibm s f ([0, 0, 0, 0, 0] : List ℝ)) counts3
          (count_closed_form ℝ 8 counters_instance.m_dim) counters_instance.m_dim 5 ([0, 0, 0, 0, 0] : List ℝ).length ∧
      counters_of_loop (fun fuel f => CF9 counters_instance realLibm fuel f ([0, 0, 0, 0, 0] : List ℝ))
          (fun fuel => forLe (CF9_body realLibm counters_instance.m_dim ([0, 0, 0, 0, 0] : List ℝ)) counters_instance.m_dim fuel 3
            ({ sum1 := 0.0, sum2 := 0.0, sum3 := 0.0, count1 := 0, count2 := 0, count3 := 0 }
              : Acc3 ℝ))
          (fun s f => CF9_after_loop realLibm s f ([0, 0, 0, 0, 0] : List ℝ)) counts3
          (count_closed_form ℝ 9 counters_instance.m_dim) counters_instance.m_dim 5 ([0, 0, 0, 0, 0] : List ℝ).length ∧
      counters_of_loop (fun fuel f => CF10 counters_instance realLibm fuel f ([0, 0, 0, 0, 0] : List ℝ))
          (fun fuel => forLe (CF10_body realLibm counters_instance.m_dim ([0, 0, 0, 0, 0] : List ℝ)) counters_instance.m_dim fuel 3
            ({ sum1 := 0.0, sum2 := 0.0, sum3 := 0.0, count1 := 0, count2 := 0, count3 := 0 }
              : Acc3 ℝ))
          (fun s f => CF10_after_loop realLibm s f ([0, 0, 0, 0, 0] : List ℝ)) counts3
          (count_closed_form ℝ 10 counters_instance.m_dim) counters_instance.m_dim 5 ([0, 0, 0, 0, 0] : List ℝ).length ∧
      (∀ k : Nat, count_closed_form ℝ k counters_instance.m_dim
        = (if k ≤ 7 then [(((counters_instance.m_dim - 1) / 2 : Nat) : ℝ), ((counters_instance.m_dim / 2 : Nat) : ℝ)]
           else [(((counters_instance.m_dim - 1) / 3 : Nat) : ℝ), (((counters_instance.m_dim - 2) / 3 : Nat) : ℝ),
             ((counters_instance.m_dim / 3 : Nat) : ℝ)])) :=
  evaluator_loop_counters realLibm counters_instance ([0, 0, 0, 0, 0] : List ℝ) (by decide)

end evaluator_counters

end pagmo
